import Mathlib

/-!
Request parser of `web/server/web_client.c`.

A shallow embedding of the request-parsing half of the per-connection web
client: the header-block terminator scan, the method line, the split of the
decoded URL into path / query / directory / version / command spans and
`http_request_validate`, together with the properties established for them.

Conventions of the embedding

* a byte is a `Nat`; a C buffer is a `List Nat`; reading at or past the end of
  the list yields `0`, the string terminator;
* a `char *` into a buffer is a `Nat` offset into the list; a pointer that may
  be `NULL` is an `Option Nat`;
* `size_t` arithmetic is `Nat` arithmetic modulo `2 ^ 64`;
* a loop without an evident bound takes a fuel argument and returns `none`
  when the fuel is exhausted.
-/

namespace Netdata

/-! ## Bytes and C strings -/

/-- Bytes of a string literal. -/
def str (s : String) : List Nat := s.toList.map Char.toNat

/-- Carriage return. -/
def CR : Nat := 13

/-- Line feed. -/
def LF : Nat := 10

/-- The byte read through a `char *` at offset `i` (the terminator past the end). -/
def peek (buf : List Nat) (i : Nat) : Nat := buf.getD i 0

/-- Validation verdicts (`HTTP_VALIDATION` of web_client.h, known from their uses). -/
inductive HTTP_VALIDATION where
  | HTTP_VALIDATION_OK
  | HTTP_VALIDATION_NOT_SUPPORTED
  | HTTP_VALIDATION_INCOMPLETE
  | HTTP_VALIDATION_REDIRECT
  deriving DecidableEq, Repr

open HTTP_VALIDATION

/-! ## `web_client_is_complete` -/

/-- Outcome of one pass through the body of the `do … while` loop of
`web_client_is_complete`: either the loop is left with the final counter, or
it goes round again with a new scan position and counter. -/
inductive ScanStep where
  | leave (counter : Nat)
  | again (begin counter : Nat)
  deriving DecidableEq, Repr

/-- Tail of the loop body: `if (counter == 2) break;` followed by the loop
condition `while (begin != end)`. -/
def web_client_is_complete_tail (endp begin counter : Nat) : ScanStep :=
  if counter = 2 then ScanStep.leave counter
  else if begin ≠ endp then ScanStep.again begin counter
  else ScanStep.leave counter

/-- One pass through the body of the scan loop (lines 837-857). -/
def web_client_is_complete_body (buf : List Nat) (endp begin counter : Nat) : ScanStep :=
  if peek buf begin = CR then
    if begin + 1 = endp then ScanStep.leave counter
    else if peek buf (begin + 1) = LF then
      web_client_is_complete_tail endp (begin + 1) (counter + 1)
    else
      web_client_is_complete_tail endp (begin + 1) counter
  else if peek buf begin = LF then
    web_client_is_complete_tail endp (begin + 1) (counter + 1)
  else
    web_client_is_complete_tail endp begin counter

/-- The scan loop, bounded by fuel: `none` when the fuel runs out before the
loop is left. -/
def web_client_is_complete_loop (buf : List Nat) (endp : Nat) : Nat → Nat → Nat → Option Nat
  | 0, _, _ => none
  | fuel + 1, begin, counter =>
    match web_client_is_complete_body buf endp begin counter with
    | ScanStep.leave c => some c
    | ScanStep.again b c => web_client_is_complete_loop buf endp fuel b c

/-- The function `web_client_is_complete(begin, end, length)` (lines 826-860);
`buf` is the memory the two pointers point into. -/
def web_client_is_complete (fuel : Nat) (buf : List Nat) (begin endp length : Nat) :
    Option HTTP_VALIDATION :=
  if begin = endp then some HTTP_VALIDATION_INCOMPLETE
  else
    let begin := if length > 3 then endp - 4 else begin
    match web_client_is_complete_loop buf endp fuel begin 0 with
    | none => none
    | some counter =>
      some (if counter = 2 then HTTP_VALIDATION_OK else HTTP_VALIDATION_INCOMPLETE)

/-! ## C library functions, by their specification -/

/-- The C string that starts at offset `start` of `buf`: the bytes up to, not
including, the first terminator. -/
def cstr (buf : List Nat) (start : Nat) : List Nat :=
  (buf.drop start).takeWhile (fun c => c != 0)

/-- The library function `strlen(buf + start)`. -/
def strlen (buf : List Nat) (start : Nat) : Nat := (cstr buf start).length

/-- The library function `strchr(buf + start, c)` for a character `c` other
than the terminator: the offset of the first `c` of the string, `none` for
`NULL`. -/
def strchr (buf : List Nat) (start : Nat) (c : Nat) : Option Nat :=
  if c ∈ cstr buf start then some (start + (cstr buf start).indexOf c) else none

/-- The test `!strncmp(buf + start, lit, n)`: the two strings agree on their
first `n` characters (or are equal and shorter than that). -/
def strncmp_eq (buf : List Nat) (start : Nat) (lit : List Nat) (n : Nat) : Bool :=
  (cstr buf start).take n == (cstr lit 0).take n

/-- The library function `tolower` on a byte. -/
def tolower (c : Nat) : Nat := if 65 ≤ c ∧ c ≤ 90 then c + 32 else c

/-- The test `!strcasecmp(a, lit)` on two C strings given by their bytes. -/
def strcasecmp_eq (a lit : List Nat) : Bool := a.map tolower == lit.map tolower

/-- The test `strcasestr(hay, needle) != NULL` on two C strings given by their
bytes. -/
def strcasestr_found (hay needle : List Nat) : Bool :=
  decide (needle.map tolower <:+: hay.map tolower)

/-- Offset reached by `while (p(*i)) i++`, a scan that stops at the first byte
failing `p` (the terminator fails every `p` used here). -/
def scan_while (p : Nat → Bool) (buf : List Nat) (i : Nat) : Nat :=
  i + ((buf.drop i).takeWhile p).length

/-- Number of values of a `size_t`. -/
def SIZE_T_MOD : Nat := 2 ^ 64

/-- The `size_t` obtained from the difference `a - b` of two offsets into one
buffer (both below `SIZE_T_MOD`). -/
def size_t_sub (a b : Nat) : Nat := (a + SIZE_T_MOD - b) % SIZE_T_MOD

/-- The address held by a pointer into a buffer located at address `base`;
`NULL` is address 0. -/
def address (base : Nat) (p : Option Nat) : Nat :=
  match p with
  | none => 0
  | some i => (base + i) % SIZE_T_MOD

/-! ## Data model -/

/-- A span `struct web_fields`: a pointer into the decoded URL (or, for the
protocol span, into the request buffer) and a length. -/
structure web_fields where
  body : Option Nat
  length : Nat
  deriving DecidableEq, Repr

/-- Request modes (`WEB_CLIENT_MODE` of web_client.h). -/
inductive WEB_CLIENT_MODE where
  | WEB_CLIENT_MODE_NORMAL
  | WEB_CLIENT_MODE_FILECOPY
  | WEB_CLIENT_MODE_OPTIONS
  | WEB_CLIENT_MODE_STREAM
  deriving DecidableEq, Repr

open WEB_CLIENT_MODE

/-- Content types (the `CT_…` constants of the buffer header, as they occur in
this file). -/
inductive CONTENT_TYPE where
  | CT_APPLICATION_JSON
  | CT_TEXT_PLAIN
  | CT_TEXT_HTML
  | CT_APPLICATION_X_JAVASCRIPT
  | CT_TEXT_CSS
  | CT_TEXT_XML
  | CT_APPLICATION_XML
  | CT_TEXT_XSL
  | CT_APPLICATION_OCTET_STREAM
  | CT_APPLICATION_X_FONT_TRUETYPE
  | CT_APPLICATION_X_FONT_OPENTYPE
  | CT_APPLICATION_FONT_WOFF
  | CT_APPLICATION_FONT_WOFF2
  | CT_APPLICATION_VND_MS_FONTOBJ
  | CT_IMAGE_SVG_XML
  | CT_IMAGE_PNG
  | CT_IMAGE_JPG
  | CT_IMAGE_GIF
  | CT_IMAGE_XICON
  | CT_IMAGE_ICNS
  | CT_IMAGE_BMP
  | CT_PROMETHEUS
  deriving DecidableEq, Repr

open CONTENT_TYPE

/-- The buffer type `BUFFER`: the `len` bytes it holds (a terminator follows
them), its content type, its option bits and its two timestamps. -/
structure BUFFER where
  buffer : List Nat
  contenttype : CONTENT_TYPE := CONTENT_TYPE.CT_APPLICATION_JSON
  options : Nat := 0
  date : Int := 0
  expires : Int := 0
  deriving DecidableEq, Repr

/-- The accessor `buffer_strlen(wb)`, the number of bytes held. -/
def buffer_strlen (wb : BUFFER) : Nat := wb.buffer.length

/-- The response part `w->response` of the connection: the data buffer (which
also receives the request), the custom header lines and the header block to
send, the response code, the declared length, the sent offset and the
compression counters. -/
structure web_response where
  data : BUFFER
  sent : Nat
  zoutput : Bool
  zinitialized : Bool
  zsent : Nat
  zstream_avail_in : Nat
  zstream_total_in : Nat
  zstream_avail_out : Nat
  zstream_total_out : Nat
  header : BUFFER := { buffer := [] }
  header_output : BUFFER := { buffer := [] }
  code : Int := 0
  rlen : Nat := 0
  zhave : Nat := 0
  zbuffer : List Nat := []
  zstream_next_in : Nat := 0
  deriving DecidableEq, Repr

/-- A call that leaves the process, recorded in the order made: what the
connection asked of the filesystem, of the host database, of the handlers and
of the socket. -/
inductive io_event where
  | lstat (path : List Nat)
  | open_file (path : List Nat)
  | find_by_hostname (name : List Nat)
  | find_by_guid (name : List Nat)
  | api_request_v1 (host : Nat)
  | config_generate
  | receiver_spawn
  | setsockopt_cork (value : Nat)
  | send (bytes : List Nat)
  | ssl_write (bytes : List Nat)
  | deflate (flush : Nat) (input : List Nat)
  | deflateEnd
  | close (fd : Int)
  | read (fd : Int) (count : Nat)
  | finished_web_request_statistics (size sent : Nat)
  | log_access (code : Int) (url : List Nat)
  deriving DecidableEq, Repr

/-- The connection `struct web_client`. The bits of `w->flags` that the
`web_client_enable_…`, `web_client_disable_…` and `web_client_check_…` macros
of web_client.h set, clear and test are one boolean field each, and so are the
bits of `w->acl` the `web_client_can_access_…` macros test; `decoded_url` is
the whole character array, whose string ends at its first terminator;
`decoded_url_addr` is the address of that array; `trace` and `wire` are not
fields of the C structure: `trace` records the calls made out of the process
and `wire` the bytes the socket has accepted. -/
structure web_client where
  flag_wait_receive : Bool
  flag_wait_send : Bool
  flag_keepalive : Bool
  flag_donottrack : Bool
  flag_tracking_required : Bool
  flag_unix_socket : Bool
  mode : WEB_CLIENT_MODE
  header_parse_tries : Nat
  header_parse_last_size : Nat
  decoded_url : List Nat
  decoded_url_addr : Nat
  decoded_length : Nat
  last_url : List Nat
  path : web_fields
  query_string : web_fields
  directory : web_fields
  version : web_fields
  command : web_fields
  protocol : web_fields
  param_name : Nat → web_fields
  param_values : Nat → web_fields
  total_params : Nat
  origin : List Nat
  host : List Nat
  user_agent : Option (List Nat)
  auth_bearer_token : Option (List Nat)
  ssl_flags : Nat
  ssl_conn : Bool
  response : web_response
  flag_dead : Bool := false
  flag_corkable : Bool := false
  acl_dashboard : Bool := false
  acl_registry : Bool := false
  acl_badges : Bool := false
  acl_mgmt : Bool := false
  acl_netdataconf : Bool := false
  acl_stream : Bool := false
  ifd : Int := 0
  ofd : Int := 0
  tcp_cork : Nat := 0
  switch_host : Nat := 0
  cookie1 : List Nat := []
  cookie2 : List Nat := []
  tv_in : Int := 0
  tv_ready : Int := 0
  stats_sent_bytes : Nat := 0
  trace : List io_event := []
  stats_received_bytes : Nat := 0
  wire : List Nat := []

/-- What the parser takes from outside this file: build options, constants of
the headers, process-wide settings, and the collaborators of url.c, the hash
of the common library and zlib. -/
structure Env where
  /-- Build option `ENABLE_HTTPS`. -/
  ENABLE_HTTPS : Bool
  /-- Build option `NETDATA_WITH_ZLIB`. -/
  NETDATA_WITH_ZLIB : Bool
  /-- Flag bit `NETDATA_SSL_FORCE`. -/
  NETDATA_SSL_FORCE : Nat
  /-- Flag bit `NETDATA_SSL_NO_HANDSHAKE`. -/
  NETDATA_SSL_NO_HANDSHAKE : Nat
  /-- Capacity constant `NETDATA_WEB_REQUEST_URL_SIZE`. -/
  NETDATA_WEB_REQUEST_URL_SIZE : Nat
  /-- Capacity constant `NETDATA_WEB_REQUEST_ORIGIN_HEADER_SIZE`. -/
  NETDATA_WEB_REQUEST_ORIGIN_HEADER_SIZE : Nat
  /-- Setting `netdata_use_ssl_on_stream`. -/
  netdata_use_ssl_on_stream : Nat
  /-- Setting `netdata_use_ssl_on_http`. -/
  netdata_use_ssl_on_http : Nat
  /-- Whether `netdata_srv_ctx` is set. -/
  netdata_srv_ctx : Bool
  /-- Setting `respect_web_browser_do_not_track_policy`. -/
  respect_web_browser_do_not_track_policy : Bool
  /-- Setting `web_enable_gzip`. -/
  web_enable_gzip : Bool
  /-- The call `url_is_request_complete(begin, end, length)` on the memory
  `buf`. -/
  url_is_request_complete : (buf : List Nat) → (begin endp length : Nat) → HTTP_VALIDATION
  /-- The call `url_find_protocol(s)`: the offset it returns. -/
  url_find_protocol : (buf : List Nat) → (s : Nat) → Nat
  /-- The call `url_decode_r(to, url, size)`: the contents of the array `to`
  afterwards, from its contents before and the string `url`. -/
  url_decode_r : (dst : List Nat) → (url : List Nat) → (size : Nat) → List Nat
  /-- The call `url_parse_query_string(names, values, moveme, divisor)` on the
  decoded URL: the two span arrays afterwards and the value returned. -/
  url_parse_query_string : (names values : Nat → web_fields) → (decoded_url : List Nat) →
    (moveme : Option Nat) → (divisor : Nat) → (Nat → web_fields) × (Nat → web_fields) × Nat
  /-- The hash `simple_uhash(name)`. -/
  simple_uhash : List Nat → Nat
  /-- Whether `deflateInit2` returns `Z_OK` for the given window bits. -/
  deflateInit2_ok : (windowBits : Nat) → Bool

/-! ## The method line -/

/-- The function `web_client_parse_method(w, s)` (lines 862-907) on the request
buffer `buf`: the state afterwards and the pointer returned. -/
def web_client_parse_method (env : Env) (w : web_client) (buf : List Nat) (s : Nat) :
    web_client × Option Nat :=
  if strncmp_eq buf s (str "GET ") 4 then
    ({ w with mode := WEB_CLIENT_MODE_NORMAL }, some (s + 4))
  else if strncmp_eq buf s (str "OPTIONS ") 8 then
    ({ w with mode := WEB_CLIENT_MODE_OPTIONS }, some (s + 8))
  else if strncmp_eq buf s (str "STREAM ") 7 then
    if env.ENABLE_HTTPS ∧ w.ssl_flags ≠ 0 ∧
        env.netdata_use_ssl_on_stream &&& env.NETDATA_SSL_FORCE ≠ 0 then
      ({ w with header_parse_tries := 0, header_parse_last_size := 0,
                flag_wait_receive := false }, none)
    else
      ({ w with mode := WEB_CLIENT_MODE_STREAM }, some (s + 7))
  else
    (w, none)

/-- The function `web_client_find_protocol(w, s)` (lines 909-919). -/
def web_client_find_protocol (env : Env) (w : web_client) (buf : List Nat) (s : Nat) :
    web_client × Nat :=
  let s := env.url_find_protocol buf s
  let w := { w with protocol := { w.protocol with body := some (s + 1) } }
  match strchr buf (s + 6) LF with
  | some e => ({ w with protocol := { w.protocol with length := size_t_sub e (s + 1) } }, s)
  | none => (w, s)

/-! ## Splitting the decoded URL -/

/-- The character `/`. -/
def SLASH : Nat := 47

/-- The character `?`. -/
def QUESTION : Nat := 63

/-- The character `=`. -/
def EQUALS : Nat := 61

/-- The character `:`. -/
def COLON : Nat := 58

/-- The character ` `. -/
def SPACE : Nat := 32

/-- The function `web_client_parse_request(w, divisor)` (lines 940-950): the
state afterwards and the value returned. -/
def web_client_parse_request (env : Env) (w : web_client) (divisor : Option Nat) :
    web_client × Nat :=
  match divisor with
  | none => ({ w with total_params := 0 }, 0)
  | some d =>
    let r := env.url_parse_query_string w.param_name w.param_values w.decoded_url
      (w.query_string.body.map (fun b => b + 1)) d
    ({ w with param_name := r.1, param_values := r.2.1, total_params := r.2.2 }, r.2.2)

/-- The function `web_client_set_directory(w, begin, enddir, endcmd)` (lines
952-978); the pointers are offsets into `w->decoded_url`. -/
def web_client_set_directory (w : web_client) (begin : Nat) (enddir : Option Nat)
    (endcmd : Nat) : web_client :=
  match enddir with
  | some enddir =>
    let w := { w with directory := { body := some begin, length := size_t_sub enddir begin } }
    if strncmp_eq w.decoded_url begin (str "api") w.directory.length then
      let begin := enddir + 1
      match strchr w.decoded_url begin SLASH with
      | some enddir =>
        let w := { w with version := { body := some begin, length := size_t_sub enddir begin } }
        let enddir := enddir + 1
        { w with command := { body := some enddir, length := size_t_sub endcmd enddir } }
      | none => w
    else w
  | none =>
    { w with directory := { body := some begin, length := size_t_sub w.path.length 1 },
             version := { body := none, length := 0 },
             command := { body := none, length := 0 } }

/-- The function `web_client_set_without_query_string(w)` (lines 980-1002).
Its only caller has set `w->path.body` to the start of the decoded URL; the
string functions read a `NULL` pointer as that start. -/
def web_client_set_without_query_string (w : web_client) : web_client :=
  let w := { w with query_string := { body := none, length := 0 } }
  let test := w.path.body.map (fun b => b + 1)
  if strncmp_eq w.decoded_url (test.getD 0) (str "api/v1/") 7 then
    let test := test.map (fun t => t + 7)
    if strncmp_eq w.decoded_url (test.getD 0) (str "info") 4 then
      { w with command := { body := test, length := 4 }, total_params := 0 }
    else if strncmp_eq w.decoded_url (test.getD 0) (str "charts") 6 then
      { w with command := { body := test, length := 6 }, total_params := 0 }
    else
      { w with command := { body := none, length := 0 }, total_params := 0 }
  else
    { w with command := { body := test, length := w.path.length }, total_params := 0 }

/-- The block `if (w->query_string.body) { … }` of `web_client_split_path_query`
(lines 1017-1029): the query string is tokenized and, when that yields no
parameter, all that follows the `?` becomes the one parameter. -/
def web_client_split_path_query_params (env : Env) (w : web_client) (moveme : Nat) :
    web_client :=
  if w.query_string.body.isSome then
    let enddir := strchr w.decoded_url moveme EQUALS
    let r := web_client_parse_request env w enddir
    if r.2 = 0 then
      let w := r.1
      let moveme := moveme + 1
      let length := strlen w.decoded_url moveme
      { w with param_name := Function.update w.param_name 0 { body := some moveme, length := length },
               param_values := Function.update w.param_values 0 { body := some moveme, length := length },
               total_params := 1 }
    else r.1
  else w

/-- The function `web_client_split_path_query(w)` (lines 1004-1056). -/
def web_client_split_path_query (env : Env) (w : web_client) : web_client :=
  let w := { w with path := { w.path with body := some 0 } }
  let w := { w with decoded_length := strlen w.decoded_url 0 }
  match strchr w.decoded_url 0 QUESTION with
  | some moveme =>
    let w := { w with path := { w.path with length := size_t_sub moveme 0 } }
    let w := { w with query_string :=
      { body := some moveme, length := size_t_sub w.decoded_length w.path.length } }
    let enddir := strchr w.decoded_url 1 SLASH
    let begin := 1
    let w := web_client_set_directory w begin enddir moveme
    web_client_split_path_query_params env w moveme
  | none =>
    let w := { w with path := { w.path with length := w.decoded_length } }
    let enddir := strchr w.decoded_url 1 SLASH
    let w := { w with directory := { w.directory with body := some 1 } }
    let w :=
      match enddir with
      | some enddir =>
        let w := { w with directory := { w.directory with length := size_t_sub enddir 1 } }
        let enddir := enddir + 1
        let w := { w with version := { w.version with body := some enddir } }
        match strchr w.decoded_url (enddir + 1) SLASH with
        | some enddir2 =>
          let w := { w with version := { w.version with length := size_t_sub enddir2 enddir } }
          let enddir2 := enddir2 + 1
          -- `moveme` is NULL in this branch
          { w with command :=
            { body := some enddir2,
              length := size_t_sub (address w.decoded_url_addr none)
                          (address w.decoded_url_addr (some enddir2)) } }
        | none => { w with version := { w.version with length := strlen w.decoded_url enddir } }
      | none => { w with directory := { w.directory with length := size_t_sub w.decoded_length 1 } }
    web_client_set_without_query_string w

/-! ## Header lines -/

/-- The function `web_client_enable_deflate(w, gzip)` (lines 459-502). -/
def web_client_enable_deflate (env : Env) (w : web_client) (gzip : Bool) : web_client :=
  if w.response.zinitialized then w
  else if w.response.sent ≠ 0 then w
  else
    let w := { w with response := { w.response with
      zstream_avail_in := 0, zstream_total_in := 0,
      zstream_avail_out := 0, zstream_total_out := 0 } }
    if env.deflateInit2_ok (15 + (if gzip then 16 else 0)) then
      { w with response := { w.response with zsent := 0, zoutput := true, zinitialized := true } }
    else w

/-- The dispatch on the header name of `http_header_parse` (lines 787-819), for
the name and the value found on the line; `v0` is the first byte of the value
and `vlen` its length `ve - v`. -/
def http_header_apply (env : Env) (w : web_client) (name value : List Nat) (v0 vlen : Nat)
    (parse_useragent : Bool) : web_client :=
  let hash := env.simple_uhash name
  if hash = env.simple_uhash (str "Origin") ∧ strcasecmp_eq name (str "Origin") then
    { w with origin := value.take env.NETDATA_WEB_REQUEST_ORIGIN_HEADER_SIZE }
  else if hash = env.simple_uhash (str "Connection") ∧ strcasecmp_eq name (str "Connection") then
    if strcasestr_found value (str "keep-alive") then { w with flag_keepalive := true } else w
  else if env.respect_web_browser_do_not_track_policy ∧ hash = env.simple_uhash (str "DNT") ∧
      strcasecmp_eq name (str "DNT") then
    if v0 = 48 then { w with flag_donottrack := false }
    else if v0 = 49 then { w with flag_donottrack := true }
    else w
  else if parse_useragent ∧ hash = env.simple_uhash (str "User-Agent") ∧
      strcasecmp_eq name (str "User-Agent") then
    { w with user_agent := some value }
  else if hash = env.simple_uhash (str "X-Auth-Token") ∧ strcasecmp_eq name (str "X-Auth-Token") then
    { w with auth_bearer_token := some value }
  else if hash = env.simple_uhash (str "Host") ∧ strcasecmp_eq name (str "Host") then
    { w with host := value.take vlen }
  else if env.NETDATA_WITH_ZLIB ∧ hash = env.simple_uhash (str "Accept-Encoding") ∧
      strcasecmp_eq name (str "Accept-Encoding") then
    if env.web_enable_gzip then
      if strcasestr_found value (str "gzip") then web_client_enable_deflate env w true else w
    else w
  else w

/-- The function `http_header_parse(w, s, parse_useragent)` (lines 742-824) on
the request buffer `buf`: the state and the buffer afterwards and the pointer
returned. -/
def http_header_parse (env : Env) (w : web_client) (buf : List Nat) (s : Nat)
    (parse_useragent : Bool) : web_client × List Nat × Nat :=
  let e := scan_while (fun c => c != 0 && c != COLON) buf s
  if peek buf e = 0 then (w, buf, e)
  else
    let buf := buf.set e 0
    let v := scan_while (fun c => c == SPACE) buf (e + 1)
    let ve := scan_while (fun c => c != 0 && c != CR) buf v
    if peek buf ve = 0 ∨ peek buf (ve + 1) ≠ LF then
      (w, buf.set e COLON, ve)
    else
      let buf := buf.set ve 0
      let w := http_header_apply env w (cstr buf s) (cstr buf v) (peek buf v) (size_t_sub ve v)
        parse_useragent
      (w, (buf.set e COLON).set ve CR, ve)

/-- The loop of `web_client_parse_headers`, bounded by fuel. -/
def web_client_parse_headers_loop (env : Env) :
    Nat → web_client → List Nat → Nat → Option (web_client × List Nat)
  | 0, _, _, _ => none
  | fuel + 1, w, buf, s =>
    if peek buf s = 0 then some (w, buf)
    else
      -- `while(*s && *s++ != '\r');`
      let s1 := scan_while (fun c => c != 0 && c != CR) buf s
      let s2 := if peek buf s1 = CR then s1 + 1 else s1
      if peek buf s2 = 0 then some (w, buf)
      else
        let s3 := if peek buf s2 = LF then s2 + 1 else s2
        let r := http_header_parse env w buf s3 (w.mode = WEB_CLIENT_MODE_STREAM)
        web_client_parse_headers_loop env fuel r.1 r.2.1 r.2.2

/-- The function `web_client_parse_headers(w, s)` (lines 921-938); every pass
of its loop moves `s` forward, so one pass per byte of the buffer and one more
is all the fuel it can use. -/
def web_client_parse_headers (env : Env) (w : web_client) (buf : List Nat) (s : Nat) :
    Option (web_client × List Nat) :=
  web_client_parse_headers_loop env (buf.length + 1) w buf s

/-! ## `http_request_validate` -/

/-- The function `http_request_validate(w)` from the end of the encoded URL on
(lines 1101-1129), on the request buffer `buf`: `encoded_url` is where the URL
starts and `ue` where it ends. -/
def http_request_validate_finish (env : Env) (w : web_client) (buf : List Nat)
    (encoded_url ue : Nat) : Option (HTTP_VALIDATION × web_client) :=
  let s := ue
  let buf := buf.set ue 0
  let w :=
    { w with
      decoded_url := env.url_decode_r w.decoded_url (cstr buf encoded_url)
                       (env.NETDATA_WEB_REQUEST_URL_SIZE + 1) }
  let w := web_client_split_path_query env w
  let buf := buf.set ue SPACE
  match web_client_parse_headers env w buf s with
  | none => none
  | some (w, buf) =>
    let w := { w with response := { w.response with data := { w.response.data with buffer := buf } } }
    let w := { w with last_url := (cstr w.decoded_url 0).take env.NETDATA_WEB_REQUEST_URL_SIZE }
    if env.ENABLE_HTTPS ∧ ¬ w.flag_unix_socket ∧ env.netdata_srv_ctx ∧ w.ssl_conn ∧
        w.ssl_flags &&& env.NETDATA_SSL_NO_HANDSHAKE ≠ 0 ∧
        env.netdata_use_ssl_on_http &&& env.NETDATA_SSL_FORCE ≠ 0 ∧
        w.mode ≠ WEB_CLIENT_MODE_STREAM then
      some (HTTP_VALIDATION_REDIRECT,
        { w with header_parse_tries := 0, header_parse_last_size := 0,
                 flag_wait_receive := false })
    else
      some (HTTP_VALIDATION_OK,
        { w with header_parse_tries := 0, header_parse_last_size := 0,
                 flag_wait_receive := false })

/-- The function `http_request_validate(w)` from the method line on (lines
1083-1129), on the request buffer `buf`. -/
def http_request_validate_parse (env : Env) (w : web_client) (buf : List Nat) :
    Option (HTTP_VALIDATION × web_client) :=
  let s := 0
  match web_client_parse_method env w buf s with
  | (w, none) =>
    some (HTTP_VALIDATION_NOT_SUPPORTED,
      { w with header_parse_tries := 0, header_parse_last_size := 0, flag_wait_receive := false })
  | (w, some encoded_url) =>
    let r := web_client_find_protocol env w buf encoded_url
    let w := r.1
    let s := r.2
    if peek buf s = 0 then
      some (HTTP_VALIDATION_INCOMPLETE, { w with flag_wait_receive := true })
    else
      http_request_validate_finish env w buf encoded_url s

/-- The function `http_request_validate(w)` (lines 1058-1130): the verdict and
the state afterwards; `none` only if the header loop ran out of fuel. -/
def http_request_validate (env : Env) (w : web_client) : Option (HTTP_VALIDATION × web_client) :=
  let buf := w.response.data.buffer
  let s := 0
  let w := { w with header_parse_tries := (w.header_parse_tries + 1) % SIZE_T_MOD }
  let w := { w with header_parse_last_size := buffer_strlen w.response.data }
  let status := w.header_parse_last_size
  let status := env.url_is_request_complete buf s (s + status) status
  if 10 < w.header_parse_tries then
    if status = HTTP_VALIDATION_INCOMPLETE then
      some (HTTP_VALIDATION_NOT_SUPPORTED,
        { w with header_parse_tries := 0, header_parse_last_size := 0, flag_wait_receive := false })
    else http_request_validate_parse env w buf
  else
    if status = HTTP_VALIDATION_INCOMPLETE then
      some (HTTP_VALIDATION_INCOMPLETE, { w with flag_wait_receive := true })
    else http_request_validate_parse env w buf

/-! ## Delivery of a request in chunks -/

/-- The receive step between two calls of `http_request_validate`: the newly
read bytes are appended to the request buffer. -/
def receive_chunk (w : web_client) (chunk : List Nat) : web_client :=
  { w with response := { w.response with
      data := { w.response.data with buffer := w.response.data.buffer ++ chunk } } }

/-- Chunked delivery: each chunk is appended to the request buffer and
`http_request_validate` is called on the accumulated buffer; delivery goes on
while the verdict is INCOMPLETE and chunks remain. The result is the last
verdict, the state, and the number of chunks delivered. `verdict` is the
verdict of the previous call (INCOMPLETE before the first). -/
def validate_chunked (env : Env) :
    List (List Nat) → web_client → HTTP_VALIDATION → Nat → Option (HTTP_VALIDATION × web_client × Nat)
  | [], w, verdict, n => some (verdict, w, n)
  | chunk :: rest, w, _, n =>
    match http_request_validate env (receive_chunk w chunk) with
    | none => none
    | some (HTTP_VALIDATION_INCOMPLETE, w) =>
      validate_chunked env rest w HTTP_VALIDATION_INCOMPLETE (n + 1)
    | some (verdict, w) => some (verdict, w, n + 1)

/-- Delivery in one piece: one call of `http_request_validate` on the whole
byte sequence. -/
def validate_once (env : Env) (w : web_client) (bytes : List Nat) :
    Option (HTTP_VALIDATION × web_client) :=
  http_request_validate env (receive_chunk w bytes)

/-! ## Collaborators as the specification describes them -/

/-- Modelled from the spec: `url_is_request_complete` of url.c, which is not
part of the source at hand. The header-block completion check "runs once per
read event; rescans only the tail of the buffer (up to the last 4
previously-seen bytes plus newly received bytes) for a blank-line terminator
accepting CRLFCRLF, LFLF, or mixed CRLF/LF sequences". A blank-line terminator
is two line ends (LF or CR LF) in a row. The call of `http_request_validate`
(line 1068) hands over the whole buffer, from `begin` to `endp`, and not the
number of bytes seen before; as long as no terminator has been found, the
tails of the read events find one exactly when the bytes received so far hold
one, and that is what the model answers. -/
def spec_url_is_request_complete (buf : List Nat) (begin endp _length : Nat) :
    HTTP_VALIDATION :=
  if begin = endp then HTTP_VALIDATION_INCOMPLETE
  else
    let received := (buf.drop begin).take (endp - begin)
    if [LF, LF] <:+: received ∨ [LF, CR, LF] <:+: received then HTTP_VALIDATION_OK
    else HTTP_VALIDATION_INCOMPLETE

/-- Modelled from the spec: `url_find_protocol` of url.c, which is not part of
the source at hand. It "locates the `HTTP/` marker": the offset of the first
space followed by `HTTP/` in the string at `s`, the offset of the terminator
when there is none. -/
def spec_url_find_protocol (buf : List Nat) (s : Nat) : Nat :=
  let t := cstr buf s
  s + ((List.range t.length).find? (fun i => (t.drop i).take 6 == str " HTTP/")).getD t.length

/-- Value of a hexadecimal digit. -/
def hex_value (c : Nat) : Option Nat :=
  if 48 ≤ c ∧ c ≤ 57 then some (c - 48)
  else if 65 ≤ c ∧ c ≤ 70 then some (c - 55)
  else if 97 ≤ c ∧ c ≤ 102 then some (c - 87)
  else none

/-- Percent-decoding of a string, with the number of bytes still to be skipped
because they were the two digits of a `%XY` already decoded. -/
def percent_decode_skip : Nat → List Nat → List Nat
  | _, [] => []
  | skip + 1, _ :: rest => percent_decode_skip skip rest
  | 0, c :: rest =>
    if c = 37 then
      match (rest.get? 0).bind hex_value, (rest.get? 1).bind hex_value with
      | some x, some y => (16 * x + y) :: percent_decode_skip 2 rest
      | _, _ => c :: percent_decode_skip 0 rest
    else c :: percent_decode_skip 0 rest

/-- Percent-decoding of a string: `%XY` with two hexadecimal digits becomes the
byte they denote, every other byte is kept. -/
def percent_decode (url : List Nat) : List Nat := percent_decode_skip 0 url

/-- Modelled from the spec: `url_decode_r` of url.c, which is not part of the
source at hand: the URL is "percent-decoded by the excluded collaborator". At
most `size - 1` decoded bytes and a terminator are written over the start of
the array. -/
def spec_url_decode_r (dst : List Nat) (url : List Nat) (size : Nat) : List Nat :=
  let d := (percent_decode url).take (size - 1)
  d ++ 0 :: dst.drop (d.length + 1)

/-- The character `&`. -/
def AMPERSAND : Nat := 38

/-- Tokenizer loop of `spec_url_parse_query_string`: one `name=value` pair per
pass, pairs separated by `&`. -/
def spec_url_parse_query_string_loop (decoded_url : List Nat) :
    Nat → (Nat → web_fields) → (Nat → web_fields) → Nat → Nat → Nat →
    (Nat → web_fields) × (Nat → web_fields) × Nat
  | 0, names, values, _, _, i => (names, values, i)
  | fuel + 1, names, values, moveme, divisor, i =>
    let names := Function.update names i { body := some moveme, length := size_t_sub divisor moveme }
    let value := divisor + 1
    match strchr decoded_url value AMPERSAND with
    | none =>
      (names, Function.update values i { body := some value, length := strlen decoded_url value },
        i + 1)
    | some amp =>
      let values := Function.update values i { body := some value, length := size_t_sub amp value }
      match strchr decoded_url (amp + 1) EQUALS with
      | none => (names, values, i + 1)
      | some divisor => spec_url_parse_query_string_loop decoded_url fuel names values (amp + 1)
          divisor (i + 1)

/-- Modelled from the spec: `url_parse_query_string` of url.c, which is not
part of the source at hand: the query string "is tokenized into name/value
spans by an external primitive". `moveme` is the start of the first name and
`divisor` the `=` that ends it; the value returned is the number of pairs. -/
def spec_url_parse_query_string (names values : Nat → web_fields) (decoded_url : List Nat)
    (moveme : Option Nat) (divisor : Nat) : (Nat → web_fields) × (Nat → web_fields) × Nat :=
  spec_url_parse_query_string_loop decoded_url decoded_url.length names values (moveme.getD 0)
    divisor 0

/-- Modelled from the spec: `simple_uhash` of the common library, which is not
part of the source at hand: the "precomputed hash" of a header name, blind to
letter case (FNV-1a over the lower-cased bytes, 32 bits). -/
def spec_simple_uhash (name : List Nat) : Nat :=
  name.foldl (fun h c => ((h * 16777619) % 2 ^ 32) ^^^ tolower c) 2166136261

/-- An environment for concrete runs: no transport encryption, compression
available, and the collaborators as the specification describes them. -/
def spec_env : Env where
  ENABLE_HTTPS := false
  NETDATA_WITH_ZLIB := true
  NETDATA_SSL_FORCE := 1
  NETDATA_SSL_NO_HANDSHAKE := 4
  NETDATA_WEB_REQUEST_URL_SIZE := 8192
  NETDATA_WEB_REQUEST_ORIGIN_HEADER_SIZE := 256
  netdata_use_ssl_on_stream := 0
  netdata_use_ssl_on_http := 0
  netdata_srv_ctx := false
  respect_web_browser_do_not_track_policy := false
  web_enable_gzip := true
  url_is_request_complete := spec_url_is_request_complete
  url_find_protocol := spec_url_find_protocol
  url_decode_r := spec_url_decode_r
  url_parse_query_string := spec_url_parse_query_string
  simple_uhash := spec_simple_uhash
  deflateInit2_ok := fun _ => true

/-- A connection as allocated: every field zero. -/
def web_client_zero : web_client where
  flag_wait_receive := false
  flag_wait_send := false
  flag_keepalive := false
  flag_donottrack := false
  flag_tracking_required := false
  flag_unix_socket := false
  mode := WEB_CLIENT_MODE_NORMAL
  header_parse_tries := 0
  header_parse_last_size := 0
  decoded_url := []
  decoded_url_addr := 4096
  decoded_length := 0
  last_url := []
  path := { body := none, length := 0 }
  query_string := { body := none, length := 0 }
  directory := { body := none, length := 0 }
  version := { body := none, length := 0 }
  command := { body := none, length := 0 }
  protocol := { body := none, length := 0 }
  param_name := fun _ => { body := none, length := 0 }
  param_values := fun _ => { body := none, length := 0 }
  total_params := 0
  origin := []
  host := []
  user_agent := none
  auth_bearer_token := none
  ssl_flags := 0
  ssl_conn := false
  response :=
    { data := { buffer := [] }, sent := 0, zoutput := false, zinitialized := false, zsent := 0,
      zstream_avail_in := 0, zstream_total_in := 0, zstream_avail_out := 0, zstream_total_out := 0 }

/-- The state in which `http_request_validate` finds the connection when the
request buffer holds `buf`. -/
def set_buffer (w : web_client) (buf : List Nat) : web_client :=
  { w with response := { w.response with data := { w.response.data with buffer := buf } } }

/-- A sequence of `http_request_validate` calls, the request buffer holding the
next element of `bufs` at each call: the verdict and the state after each. -/
def call_sequence (env : Env) :
    List (List Nat) → web_client → List (Option (HTTP_VALIDATION × web_client))
  | [], _ => []
  | buf :: rest, w =>
    match http_request_validate env (set_buffer w buf) with
    | none => [none]
    | some r => some r :: call_sequence env rest r.2

/-- The state an INCOMPLETE verdict below the attempt cap leaves, the request
buffer holding `buf`. -/
def incomplete_state (w : web_client) (buf : List Nat) : web_client :=
  { set_buffer w buf with header_parse_tries := w.header_parse_tries + 1,
                          header_parse_last_size := buf.length,
                          flag_wait_receive := true }

/-- The state the call that exceeds the attempt cap leaves, the request buffer
holding `buf`. -/
def capped_state (w : web_client) (buf : List Nat) : web_client :=
  { set_buffer w buf with header_parse_tries := 0,
                          header_parse_last_size := 0,
                          flag_wait_receive := false }

/-- The character array `buf` holds the C string `u`: the bytes of `u`, none of
them the terminator, and a terminator right after them. -/
def holds_string (buf u : List Nat) : Prop :=
  u <+: buf ∧ (∀ x ∈ u, x ≠ 0) ∧ peek buf u.length = 0

/-- The bytes a span covers in the buffer it points into, `none` for a span
with a NULL body. -/
def span_bytes (buf : List Nat) (f : web_fields) : Option (List Nat) :=
  f.body.map (fun b => (buf.drop b).take f.length)

instance (buf u : List Nat) : Decidable (holds_string buf u) := by
  unfold holds_string
  infer_instance

/-- The state in which `web_client_split_path_query` calls
`web_client_set_directory`, for a URL whose first `?` is at offset `moveme`. -/
def split_query_state (w : web_client) (moveme : Nat) : web_client :=
  { w with
    path := { body := some 0, length := size_t_sub moveme 0 }
    decoded_length := strlen w.decoded_url 0
    query_string :=
      { body := some moveme
        length := size_t_sub (strlen w.decoded_url 0) (size_t_sub moveme 0) } }

/-- The fields of the connection that enter the verdict after the method
line: two states agree on them. -/
def same_connection (w w' : web_client) : Prop :=
  w'.mode = w.mode ∧ w'.ssl_flags = w.ssl_flags ∧ w'.ssl_conn = w.ssl_conn ∧
  w'.flag_unix_socket = w.flag_unix_socket

/-- The method `web_client_parse_method` recognises at the start of the
buffer, with the offset that follows it; `none` when it returns NULL. -/
def method_of (env : Env) (ssl_flags : Nat) (buf : List Nat) : Option (WEB_CLIENT_MODE × Nat) :=
  if strncmp_eq buf 0 (str "GET ") 4 then some (WEB_CLIENT_MODE_NORMAL, 4)
  else if strncmp_eq buf 0 (str "OPTIONS ") 8 then some (WEB_CLIENT_MODE_OPTIONS, 8)
  else if strncmp_eq buf 0 (str "STREAM ") 7 then
    if env.ENABLE_HTTPS ∧ ssl_flags ≠ 0 ∧
        env.netdata_use_ssl_on_stream &&& env.NETDATA_SSL_FORCE ≠ 0 then none
    else some (WEB_CLIENT_MODE_STREAM, 7)
  else none

/-- The verdict of `http_request_validate` from the method line on, as a
function of the request buffer and of the transport fields of the
connection. -/
def parse_verdict (env : Env) (ssl_flags : Nat) (ssl_conn unix_socket : Bool)
    (buf : List Nat) : HTTP_VALIDATION :=
  match method_of env ssl_flags buf with
  | none => HTTP_VALIDATION_NOT_SUPPORTED
  | some (mode, encoded_url) =>
    if peek buf (env.url_find_protocol buf encoded_url) = 0 then HTTP_VALIDATION_INCOMPLETE
    else if env.ENABLE_HTTPS ∧ ¬ unix_socket ∧ env.netdata_srv_ctx ∧ ssl_conn ∧
        ssl_flags &&& env.NETDATA_SSL_NO_HANDSHAKE ≠ 0 ∧
        env.netdata_use_ssl_on_http &&& env.NETDATA_SSL_FORCE ≠ 0 ∧
        mode ≠ WEB_CLIENT_MODE_STREAM then HTTP_VALIDATION_REDIRECT
    else HTTP_VALIDATION_OK

/-- The verdict of `http_request_validate` while the attempt cap is not
exceeded, as a function of the request buffer and of the transport fields of
the connection. -/
def request_verdict (env : Env) (ssl_flags : Nat) (ssl_conn unix_socket : Bool)
    (buf : List Nat) : HTTP_VALIDATION :=
  if env.url_is_request_complete buf 0 buf.length buf.length = HTTP_VALIDATION_INCOMPLETE then
    HTTP_VALIDATION_INCOMPLETE
  else parse_verdict env ssl_flags ssl_conn unix_socket buf

/-! ## Buffers, files and hosts: what the router takes from outside -/

/-- The record `struct stat` as far as `mysendfile` reads it. -/
structure stat where
  st_mode : Nat
  st_uid : Nat
  st_gid : Nat
  st_size : Nat
  st_mtime : Int
  deriving DecidableEq, Repr

/-- The mask `S_IFMT` of sys/stat.h. -/
def S_IFMT : Nat := 0o170000

/-- The file type `S_IFDIR` of sys/stat.h. -/
def S_IFDIR : Nat := 0o040000

/-- The file type `S_IFREG` of sys/stat.h. -/
def S_IFREG : Nat := 0o100000

/-- The file type `S_IFLNK` of sys/stat.h. -/
def S_IFLNK : Nat := 0o120000

/-- The error number `EAGAIN` of errno.h. -/
def EAGAIN : Nat := 11

/-- The error number `EBUSY` of errno.h. -/
def EBUSY : Nat := 16

/-- A host of the database, `RRDHOST *`, by its number. -/
abbrev RRDHOST := Nat

/-- What a call of `deflate` of zlib leaves: the value returned, the two
counters `avail_in` and `avail_out` of the stream afterwards and the bytes
written at `next_out`. -/
structure deflate_result where
  status : Int
  avail_in : Nat
  avail_out : Nat
  written : List Nat

/-- What the router, the file server, the header builder and the sender take
from outside this file: the filesystem, the user database, the configuration,
the host database, the handlers, the clock, the socket and the compressor, and
the routines of the common library. -/
structure World where
  /-- Setting `netdata_configured_web_dir`. -/
  netdata_configured_web_dir : List Nat
  /-- Constant `FILENAME_MAX` of stdio.h. -/
  FILENAME_MAX : Nat
  /-- Constant `NETDATA_WEB_REQUEST_MAX_SIZE`. -/
  NETDATA_WEB_REQUEST_MAX_SIZE : Nat
  /-- Constant `VERSION`, the version text. -/
  VERSION : List Nat
  /-- The call `lstat(path, &statbuf)`: the record read, `none` when it fails. -/
  lstat : List Nat → Option stat
  /-- The call `open(path, O_NONBLOCK, O_RDONLY)`: the descriptor returned and
  `errno`. -/
  open_file : List Nat → Int × Nat
  /-- The effective user `geteuid()`. -/
  geteuid : Nat
  /-- The effective group `getegid()`. -/
  getegid : Nat
  /-- The setting `web files owner` as `config_get` returns it. -/
  web_files_owner : Option (List Nat)
  /-- The setting `web files group` as `config_get` returns it. -/
  web_files_group : Option (List Nat)
  /-- The user id `getpwnam(name)->pw_uid`, `none` for an unknown user. -/
  getpwnam : List Nat → Option Nat
  /-- The group id `getgrnam(name)->gr_gid`, `none` for an unknown group. -/
  getgrnam : List Nat → Option Nat
  /-- The text `buffer_strcat_htmlescape` appends for a string. -/
  htmlescape : List Nat → List Nat
  /-- The marking `buffer_cacheable(wb)`. -/
  buffer_cacheable : BUFFER → BUFFER
  /-- The marking `buffer_no_cacheable(wb)`. -/
  buffer_no_cacheable : BUFFER → BUFFER
  /-- Option bit `WB_CONTENT_NO_CACHEABLE`. -/
  WB_CONTENT_NO_CACHEABLE : Nat
  /-- The hash `simple_hash(name)`. -/
  simple_hash : List Nat → Nat
  /-- The hash `simple_nhash(name, len)` of the first `len` bytes, given as a
  list. -/
  simple_nhash : List Nat → Nat
  /-- The call `mystrsep(&ptr, delims)` on the memory `buf`: the memory
  afterwards, the new value of `ptr` and the token returned, as a string. -/
  mystrsep : (buf : List Nat) → (ptr : Option Nat) → (delims : List Nat) →
    List Nat × Option Nat × List Nat
  /-- The default host `localhost`. -/
  localhost : RRDHOST
  /-- The update interval `localhost->rrd_update_every`. -/
  rrd_update_every : Int
  /-- The lookup `rrdhost_find_by_hostname(name, hash)`. -/
  rrdhost_find_by_hostname : (name : List Nat) → (hash : Nat) → Option RRDHOST
  /-- The lookup `rrdhost_find_by_guid(guid, hash)`. -/
  rrdhost_find_by_guid : (guid : List Nat) → (hash : Nat) → Option RRDHOST
  /-- The handler `web_client_api_request_v1(host, w, url)`: the code returned
  and the connection afterwards. -/
  web_client_api_request_v1 : RRDHOST → web_client → Option Nat → Int × web_client
  /-- The dump `config_generate(wb, 0)`: the buffer afterwards. -/
  config_generate : BUFFER → BUFFER
  /-- The call `rrdpush_receiver_thread_spawn(localhost, w, url)`: the code
  returned and the connection afterwards. -/
  rrdpush_receiver_thread_spawn : RRDHOST → web_client → List Nat → Int × web_client
  /-- The clock `now_realtime_timeval`, in seconds, at its n-th reading within
  one request. -/
  now_realtime_sec : Nat → Int
  /-- The text `strftime` prints for a timestamp. -/
  strftime : Int → List Nat
  /-- Setting `web_x_frame_options`, `none` for NULL. -/
  web_x_frame_options : Option (List Nat)
  /-- Build option `TCP_CORK`. -/
  TCP_CORK : Bool
  /-- Whether `setsockopt(…, TCP_CORK, …)` returns 0. -/
  setsockopt_ok : Bool
  /-- The call `send(w->ofd, buf, len, 0)` at the n-th attempt: the value
  returned and `errno`. -/
  send : (attempt : Nat) → (bytes : List Nat) → Int × Nat
  /-- The call `SSL_write(w->ssl.conn, buf, len)` at the n-th attempt: the value
  returned and `errno`. -/
  ssl_write : (attempt : Nat) → (bytes : List Nat) → Int × Nat
  /-- Constant `NETDATA_WEB_RESPONSE_ZLIB_CHUNK_SIZE`, the capacity of the
  side buffer `w->response.zbuffer`. -/
  NETDATA_WEB_RESPONSE_ZLIB_CHUNK_SIZE : Nat
  /-- The call `deflate(&w->response.zstream, flush)` of zlib, made as the
  n-th call out of the process, on the `avail_in` bytes at `next_in` and with
  `avail_out` bytes of room at the start of the side buffer. -/
  deflate : (call : Nat) → (input : List Nat) → (avail_out : Nat) → (flush : Nat) →
    deflate_result
  /-- The call `read(fd, buf, count)`, made as the n-th call out of the
  process: the value returned and the bytes read. -/
  read : (call : Nat) → (fd : Int) → (count : Nat) → Int × List Nat
  /-- Whether `web_server_mode` is `WEB_SERVER_MODE_STATIC_THREADED`. -/
  web_server_static_threaded : Bool
  /-- The routine `buffer_reset(wb)` of the buffer library: the buffer
  afterwards. -/
  buffer_reset : BUFFER → BUFFER

/-- Modelled from the spec: `buffer_flush` of the buffer library, which is not
in this file: the output buffer is emptied, its length becomes 0. -/
def buffer_flush (wb : BUFFER) : BUFFER := { wb with buffer := [] }

/-- Modelled from the spec: `buffer_strcat` of the buffer library, which is not
in this file: the text is appended to the growable buffer. -/
def buffer_strcat (wb : BUFFER) (txt : List Nat) : BUFFER :=
  { wb with buffer := wb.buffer ++ txt }

/-- Modelled from the spec: `buffer_sprintf` of the buffer library, which is
not in this file: the printed text is appended to the growable buffer. -/
def buffer_sprintf (wb : BUFFER) (printed : List Nat) : BUFFER :=
  { wb with buffer := wb.buffer ++ printed }

/-- Modelled from the spec: `buffer_strcat_htmlescape` of the buffer library,
which is not in this file: the escaped text is appended to the growable
buffer. -/
def buffer_strcat_htmlescape (world : World) (wb : BUFFER) (txt : List Nat) : BUFFER :=
  { wb with buffer := wb.buffer ++ world.htmlescape txt }

/-- Modelled from the spec: `snprintfz` of the common library, which is not in
this file: the printed text, cut to the capacity given. -/
def snprintfz (n : Nat) (printed : List Nat) : List Nat := printed.take n

/-- The data buffer of the connection replaced. -/
def set_data (w : web_client) (wb : BUFFER) : web_client :=
  { w with response := { w.response with data := wb } }

/-- A call recorded in the trace of the connection. -/
def record (w : web_client) (e : io_event) : web_client :=
  { w with trace := w.trace ++ [e] }

/-- The function `web_client_permission_denied(w)` (lines 15-21). -/
def web_client_permission_denied (w : web_client) : Int × web_client :=
  let w := set_data w { w.response.data with contenttype := CT_TEXT_PLAIN }
  let w := set_data w (buffer_flush w.response.data)
  let w := set_data w (buffer_strcat w.response.data
    (str "You are not allowed to access this resource."))
  let w := { w with response := { w.response with code := 403 } }
  (403, w)

/-- The function `web_files_uid()` (lines 206-235): the owner expected of the
files served. -/
def web_files_uid (world : World) : Nat :=
  match world.web_files_owner with
  | none => world.geteuid
  | some web_owner =>
    if web_owner = [] then world.geteuid
    else
      match world.getpwnam web_owner with
      | none => world.geteuid
      | some uid => uid

/-- The function `web_files_gid()` (lines 237-266): the group expected of the
files served. -/
def web_files_gid (world : World) : Nat :=
  match world.web_files_group with
  | none => world.getegid
  | some web_group =>
    if web_group = [] then world.getegid
    else
      match world.getgrnam web_group with
      | none => world.getegid
      | some gid => gid

/-! ## Serving a file -/

/-- The character `.`. -/
def DOT : Nat := 46

/-- The table `mime_types` (lines 268-293), without its closing entry. -/
def mime_types : List (List Nat × CONTENT_TYPE) :=
  [ (str "html", CT_TEXT_HTML), (str "js", CT_APPLICATION_X_JAVASCRIPT),
    (str "css", CT_TEXT_CSS), (str "xml", CT_TEXT_XML), (str "xsl", CT_TEXT_XSL),
    (str "txt", CT_TEXT_PLAIN), (str "svg", CT_IMAGE_SVG_XML),
    (str "ttf", CT_APPLICATION_X_FONT_TRUETYPE), (str "otf", CT_APPLICATION_X_FONT_OPENTYPE),
    (str "woff2", CT_APPLICATION_FONT_WOFF2), (str "woff", CT_APPLICATION_FONT_WOFF),
    (str "eot", CT_APPLICATION_VND_MS_FONTOBJ), (str "png", CT_IMAGE_PNG),
    (str "jpg", CT_IMAGE_JPG), (str "jpeg", CT_IMAGE_JPG), (str "gif", CT_IMAGE_GIF),
    (str "bmp", CT_IMAGE_BMP), (str "ico", CT_IMAGE_XICON), (str "icns", CT_IMAGE_ICNS) ]

/-- The function `contenttype_for_filename(filename)` (lines 295-334), for the
name as a string. -/
def contenttype_for_filename (world : World) (filename : List Nat) : CONTENT_TYPE :=
  if DOT ∉ filename then CT_APPLICATION_OCTET_STREAM
  else
    -- what follows the last dot
    let last_dot := (filename.reverse.takeWhile (fun c => c != DOT)).reverse
    if last_dot = [] then CT_APPLICATION_OCTET_STREAM
    else
      let hash := world.simple_hash last_dot
      match mime_types.find? (fun m => hash == world.simple_hash m.1 && last_dot == m.1) with
      | some m => m.2
      | none => CT_APPLICATION_OCTET_STREAM

/-- The function `access_to_file_is_not_permitted(w, filename)` (lines
336-341). -/
def access_to_file_is_not_permitted (world : World) (w : web_client) (filename : List Nat) :
    Int × web_client :=
  let w := set_data w { w.response.data with contenttype := CT_TEXT_HTML }
  let w := set_data w (buffer_strcat w.response.data (str "Access to file is not permitted: "))
  let w := set_data w (buffer_strcat_htmlescape world w.response.data filename)
  (403, w)

/-- The library function `isalnum` on a byte, in the C locale. -/
def isalnum (c : Nat) : Bool :=
  (48 ≤ c && c ≤ 57) || (65 ≤ c && c ≤ 90) || (97 ≤ c && c ≤ 122)

/-- The test of the loop at lines 354-362: a character `mysendfile` lets
through. -/
def filename_char_ok (c : Nat) : Bool :=
  isalnum c || c == SLASH || c == DOT || c == 45 || c == 95

/-- How the resolution loop of `mysendfile` is left: with a response already
decided, or with the file to open. -/
inductive resolved where
  | answer (code : Int) (w : web_client)
  | file (w : web_client) (webfilename : List Nat) (statbuf : stat)

/-- The loop `while(!done)` of `mysendfile` (lines 379-412), bounded by fuel:
`none` when the fuel runs out before the loop is left. -/
def mysendfile_resolve (world : World) (filename : List Nat) :
    Nat → web_client → List Nat → Option resolved
  | 0, _, _ => none
  | fuel + 1, w, webfilename =>
    let w := record w (io_event.lstat webfilename)
    match world.lstat webfilename with
    | none =>
      let w := set_data w { w.response.data with contenttype := CT_TEXT_HTML }
      let w := set_data w (buffer_strcat w.response.data
        (str "File does not exist, or is not accessible: "))
      let w := set_data w (buffer_strcat_htmlescape world w.response.data webfilename)
      some (resolved.answer 404 w)
    | some statbuf =>
      if statbuf.st_mode &&& S_IFMT = S_IFDIR then
        mysendfile_resolve world filename fuel w
          (snprintfz world.FILENAME_MAX
            (world.netdata_configured_web_dir ++ str "/" ++ filename ++ str "/index.html"))
      else if statbuf.st_mode &&& S_IFMT ≠ S_IFREG then
        let r := access_to_file_is_not_permitted world w webfilename
        some (resolved.answer r.1 r.2)
      else if statbuf.st_uid ≠ web_files_uid world then
        let r := access_to_file_is_not_permitted world w webfilename
        some (resolved.answer r.1 r.2)
      else if statbuf.st_gid ≠ web_files_gid world then
        let r := access_to_file_is_not_permitted world w webfilename
        some (resolved.answer r.1 r.2)
      else some (resolved.file w webfilename statbuf)

/-- The function `mysendfile(w, filename)` from the opening of the file on
(lines 414-455). -/
def mysendfile_open (world : World) (w : web_client) (filename webfilename : List Nat)
    (statbuf : stat) : Int × web_client :=
  let w := record w (io_event.open_file webfilename)
  let r := world.open_file webfilename
  let w := { w with ifd := r.1 }
  if w.ifd = -1 then
    let w := { w with ifd := w.ofd }
    if r.2 = EBUSY ∨ r.2 = EAGAIN then
      let w := set_data w { w.response.data with contenttype := CT_TEXT_HTML }
      let w := { w with response := { w.response with
        header := buffer_sprintf w.response.header (str "Location: /" ++ filename ++ str "\r\n") } }
      let w := set_data w (buffer_strcat w.response.data
        (str "File is currently busy, please try again later: "))
      let w := set_data w (buffer_strcat_htmlescape world w.response.data webfilename)
      (307, w)
    else
      let w := set_data w { w.response.data with contenttype := CT_TEXT_HTML }
      let w := set_data w (buffer_strcat w.response.data (str "Cannot open file: "))
      let w := set_data w (buffer_strcat_htmlescape world w.response.data webfilename)
      (404, w)
  else
    let w := set_data w { w.response.data with
      contenttype := contenttype_for_filename world webfilename }
    let w := { w with mode := WEB_CLIENT_MODE_FILECOPY }
    let w := { w with flag_wait_receive := true }
    let w := { w with flag_wait_send := false }
    let w := set_data w (buffer_flush w.response.data)
    let w := { w with response := { w.response with rlen := statbuf.st_size } }
    let w := set_data w { w.response.data with date := statbuf.st_mtime }
    let w := set_data w (world.buffer_cacheable w.response.data)
    (200, w)

/-- The function `mysendfile(w, filename)` (lines 343-455), `filename` being
the memory the pointer points into: the code returned and the connection
afterwards; `none` when the resolution loop runs out of fuel. -/
def mysendfile (world : World) (fuel : Nat) (w : web_client) (filename : List Nat) :
    Option (Int × web_client) :=
  if ¬ w.acl_dashboard then some (web_client_permission_denied w)
  else
    -- skip leading slashes
    let filename := cstr filename (scan_while (fun c => c == SLASH) filename 0)
    if ¬ filename.all filename_char_ok then
      let w := set_data w { w.response.data with contenttype := CT_TEXT_HTML }
      let w := set_data w (buffer_sprintf w.response.data
        (str "Filename contains invalid characters: "))
      let w := set_data w (buffer_strcat_htmlescape world w.response.data filename)
      some (400, w)
    else if [DOT, DOT] <:+: filename then
      let w := set_data w { w.response.data with contenttype := CT_TEXT_HTML }
      let w := set_data w (buffer_strcat w.response.data
        (str "Relative filenames are not supported: "))
      let w := set_data w (buffer_strcat_htmlescape world w.response.data filename)
      some (400, w)
    else
      let webfilename := snprintfz world.FILENAME_MAX
        (world.netdata_configured_web_dir ++ str "/" ++ filename)
      match mysendfile_resolve world filename fuel w webfilename with
      | none => none
      | some (resolved.answer code w) => some (code, w)
      | some (resolved.file w webfilename statbuf) =>
        some (mysendfile_open world w filename webfilename statbuf)

/-! ## The router -/

/-- The `len` bytes read from offset `start` on. -/
def bytes_at (buf : List Nat) (start len : Nat) : List Nat :=
  (List.range len).map (fun i => peek buf (start + i))

/-- The function `check_host_and_call(host, w, url, func)` (lines 569-577). -/
def check_host_and_call {α : Type} (host : RRDHOST) (w : web_client) (url : Option Nat)
    (func : RRDHOST → web_client → Option Nat → α) : α :=
  func host w url

/-- The function `web_client_api_request(host, w, url)` (lines 593-625): the
code returned and the connection afterwards; `url` is an offset into
`w->decoded_url`. -/
def web_client_api_request (world : World) (host : RRDHOST) (w : web_client)
    (url : Option Nat) : Int × web_client :=
  let r := world.mystrsep w.decoded_url url (str "/")
  let w := { w with decoded_url := r.1 }
  let url := r.2.1
  match w.version.body with
  | some body =>
    let length := w.version.length
    if strncmp_eq w.decoded_url body (str "v1") length then
      world.web_client_api_request_v1 host (record w (io_event.api_request_v1 host)) url
    else
      let response := (cstr w.decoded_url body).take length
      let w := set_data w (buffer_flush w.response.data)
      let w := set_data w { w.response.data with contenttype := CT_TEXT_HTML }
      let w := set_data w (buffer_strcat w.response.data (str "Unsupported API version: "))
      let w := set_data w (buffer_strcat_htmlescape world w.response.data response)
      (404, w)
  | none =>
    let w := set_data w (buffer_flush w.response.data)
    let w := set_data w (buffer_sprintf w.response.data (str "Which API version?"))
    (400, w)

/-- The function `web_client_switch_host(host, w, url)` where it copies the URL
and sets the directory (lines 1371-1406); `tok` is the offset of the `/` found
in `w->decoded_url`. -/
def web_client_switch_host_copy_url (env : Env) (w : web_client) (tok : Nat) : web_client :=
  let w := { w with switch_host := 1 }
  if peek w.decoded_url (tok + 1) ≠ SPACE then
    let w := { w with
      last_url := SLASH :: (cstr w.decoded_url (tok + 1)).take (env.NETDATA_WEB_REQUEST_URL_SIZE - 1) }
    if w.total_params ≠ 0 then
      match strchr w.decoded_url (tok + 1) SLASH with
      | some enddir =>
        match strchr w.decoded_url enddir QUESTION with
        | some moveme => web_client_set_directory w (tok + 1) (some enddir) moveme
        | none => w
      | none =>
        { w with directory := { body := some tok, length := strlen w.decoded_url tok } }
    else
      match strchr w.decoded_url (tok + 1) SLASH with
      | some enddir =>
        { w with directory := { body := some (tok + 1), length := size_t_sub enddir (tok + 1) } }
      | none =>
        if strlen w.decoded_url (tok + 1) = 0 then
          { w with directory := { body := some tok, length := 1 } }
        else w
  else
    { w with last_url := [SLASH] }

/-- The function `web_client_switch_host(host, w, url)` at its end (lines
1417-1421): the answer that the host is not known; `tok` is `none` for NULL. -/
def web_client_switch_host_unknown (world : World) (w : web_client) (tok : Option Nat) :
    Int × web_client :=
  let w := set_data w (buffer_flush w.response.data)
  let w := set_data w { w.response.data with contenttype := CT_TEXT_HTML }
  let w := set_data w (buffer_strcat w.response.data
    (str "This netdata does not maintain a database for host: "))
  let w := set_data w (buffer_strcat_htmlescape world w.response.data
    (match tok with
     | some tok => cstr w.decoded_url tok
     | none => []))
  (404, w)

/-- The function `web_client_switch_host(host, w, url)` (lines 1356-1422), with
`web_client_process_url` as the parameter `process_url`; `url` is an offset
into `w->decoded_url`. -/
def web_client_switch_host (env : Env) (world : World)
    (process_url : RRDHOST → web_client → Option Nat → Option (Int × web_client))
    (host : RRDHOST) (w : web_client) (url : Nat) : Option (Int × web_client) :=
  if host ≠ world.localhost then
    let w := set_data w (buffer_flush w.response.data)
    let w := set_data w (buffer_strcat w.response.data (str "Nesting of hosts is not allowed."))
    some (400, w)
  else
    match strchr w.decoded_url url SLASH with
    | some tok =>
      let w := web_client_switch_host_copy_url env w tok
      let w := { w with decoded_url := w.decoded_url.set tok 0 }
      let name := cstr w.decoded_url url
      let hash := world.simple_hash name
      let w := record w (io_event.find_by_hostname name)
      match world.rrdhost_find_by_hostname name hash with
      | some host =>
        let w := { w with decoded_url := w.decoded_url.set tok SLASH }
        process_url host w (some tok)
      | none =>
        let w := record w (io_event.find_by_guid name)
        match world.rrdhost_find_by_guid name hash with
        | some host =>
          let w := { w with decoded_url := w.decoded_url.set tok SLASH }
          process_url host w (some tok)
        | none =>
          let w := { w with decoded_url := w.decoded_url.set tok SLASH }
          some (web_client_switch_host_unknown world w (some tok))
    | none => some (web_client_switch_host_unknown world w none)

/-- The function `web_client_process_url(host, w, url)` where it serves a file
(lines 1546-1556); `fuel` bounds the resolution loop of `mysendfile`. -/
def web_client_process_url_file (world : World) (fuel : Nat) (w : web_client)
    (url : Option Nat) : Option (Int × web_client) :=
  let w := { w with switch_host := 0 }
  let r := world.mystrsep w.decoded_url url (str "/?")
  let w := { w with decoded_url := r.1 }
  let filename := w.last_url.take world.FILENAME_MAX
  let r := world.mystrsep filename (some 0) (str "?")
  let tok := r.2.2
  let w := set_data w (buffer_flush w.response.data)
  mysendfile world fuel w (if 1 < w.path.length then tok else str "/")

/-- The function `web_client_process_url(host, w, url)` (lines 1424-1557), built
without `NETDATA_INTERNAL_CHECKS`; `url` is an offset into `w->decoded_url`.
The fuel bounds the depth of the calls between this function and
`web_client_switch_host` and the resolution loop of `mysendfile`; `none` when
it runs out, or when the directory span that is read has a NULL body. -/
def web_client_process_url (env : Env) (world : World) :
    Nat → RRDHOST → web_client → Option Nat → Option (Int × web_client)
  | 0, _, _, _ => none
  | fuel + 1, host, w, url =>
    if 1 < w.path.length then
      match w.directory.body with
      | none => none
      | some cmp =>
        let len := w.directory.length
        let hash := world.simple_nhash (bytes_at w.decoded_url cmp len)
        if hash = world.simple_hash (str "api") ∧
            strncmp_eq w.decoded_url cmp (str "api") len then
          some (check_host_and_call host w url (web_client_api_request world))
        else if hash = world.simple_hash (str "host") ∧
            strncmp_eq w.decoded_url cmp (str "host") len then
          web_client_switch_host env world (web_client_process_url env world fuel) host w
            (cmp + 5)
        else if hash = world.simple_hash (str "netdata.conf") ∧
            strncmp_eq w.decoded_url cmp (str "netdata.conf") len then
          if ¬ w.acl_netdataconf then some (web_client_permission_denied w)
          else
            let w := set_data w { w.response.data with contenttype := CT_TEXT_PLAIN }
            let w := set_data w (buffer_flush w.response.data)
            let w := record w io_event.config_generate
            let w := set_data w (world.config_generate w.response.data)
            some (200, w)
        else web_client_process_url_file world fuel w url
    else web_client_process_url_file world fuel w url

/-! ## The response header -/

/-- The function `web_content_type_to_string(contenttype)` (lines 627-696). -/
def web_content_type_to_string (contenttype : CONTENT_TYPE) : List Nat :=
  match contenttype with
  | CT_TEXT_HTML => str "text/html; charset=utf-8"
  | CT_APPLICATION_XML => str "application/xml; charset=utf-8"
  | CT_APPLICATION_JSON => str "application/json; charset=utf-8"
  | CT_APPLICATION_X_JAVASCRIPT => str "application/x-javascript; charset=utf-8"
  | CT_TEXT_CSS => str "text/css; charset=utf-8"
  | CT_TEXT_XML => str "text/xml; charset=utf-8"
  | CT_TEXT_XSL => str "text/xsl; charset=utf-8"
  | CT_APPLICATION_OCTET_STREAM => str "application/octet-stream"
  | CT_IMAGE_SVG_XML => str "image/svg+xml"
  | CT_APPLICATION_X_FONT_TRUETYPE => str "application/x-font-truetype"
  | CT_APPLICATION_X_FONT_OPENTYPE => str "application/x-font-opentype"
  | CT_APPLICATION_FONT_WOFF => str "application/font-woff"
  | CT_APPLICATION_FONT_WOFF2 => str "application/font-woff2"
  | CT_APPLICATION_VND_MS_FONTOBJ => str "application/vnd.ms-fontobject"
  | CT_IMAGE_PNG => str "image/png"
  | CT_IMAGE_JPG => str "image/jpeg"
  | CT_IMAGE_GIF => str "image/gif"
  | CT_IMAGE_XICON => str "image/x-icon"
  | CT_IMAGE_BMP => str "image/bmp"
  | CT_IMAGE_ICNS => str "image/icns"
  | CT_PROMETHEUS => str "text/plain; version=0.0.4"
  | CT_TEXT_PLAIN => str "text/plain; charset=utf-8"

/-- The function `web_response_code_to_string(code)` (lines 699-740). -/
def web_response_code_to_string (code : Int) : List Nat :=
  if code = 200 then str "OK"
  else if code = 301 then str "Moved Permanently"
  else if code = 307 then str "Temporary Redirect"
  else if code = 400 then str "Bad Request"
  else if code = 403 then str "Forbidden"
  else if code = 404 then str "Not Found"
  else if code = 412 then str "Preconditions Failed"
  else if 100 ≤ code ∧ code < 200 then str "Informational"
  else if 200 ≤ code ∧ code < 300 then str "Successful"
  else if 300 ≤ code ∧ code < 400 then str "Redirection"
  else if 400 ≤ code ∧ code < 500 then str "Bad Request"
  else if 500 ≤ code ∧ code < 600 then str "Server Error"
  else str "Undefined Error"

/-- The digits of a number, most significant first, put before `acc`; the fuel
bounds the number of digits. -/
def decimal_loop : Nat → Nat → List Nat → List Nat
  | 0, _, acc => acc
  | fuel + 1, n, acc =>
    if n < 10 then (48 + n) :: acc
    else decimal_loop fuel (n / 10) ((48 + n % 10) :: acc)

/-- What the conversion `%zu` of the C library prints for a number. -/
def decimal (n : Nat) : List Nat := decimal_loop (n + 1) n []

/-- What the conversion `%d` of the C library prints for a number. -/
def decimal_int (n : Int) : List Nat :=
  if n < 0 then 45 :: decimal n.natAbs else decimal n.toNat

/-- The error number `EWOULDBLOCK` of errno.h (on Linux the same as
`EAGAIN`). -/
def EWOULDBLOCK : Nat := 11

/-- The function `web_client_crock_socket(w)` (lines 23-39): the value
returned and the connection afterwards. -/
def web_client_crock_socket (world : World) (w : web_client) : Int × web_client :=
  if world.TCP_CORK then
    if w.flag_corkable ∧ w.tcp_cork = 0 ∧ w.ofd ≠ -1 then
      let w := { w with tcp_cork := 1 }
      let w := record w (io_event.setsockopt_cork 1)
      if ¬ world.setsockopt_ok then
        let w := { w with tcp_cork := 0 }
        (-1, w)
      else (0, w)
    else (0, w)
  else (0, w)

/-- The header output buffer of the connection replaced. -/
def set_header_output (w : web_client) (wb : BUFFER) : web_client :=
  { w with response := { w.response with header_output := wb } }

/-- The function `web_client_send_http_header(w)` where it settles the caching
and the expiration date (lines 1153-1162). -/
def web_client_send_http_header_expires (world : World) (w : web_client) : web_client :=
  let w := if w.response.code ≠ 200 then set_data w (world.buffer_no_cacheable w.response.data)
    else w
  if w.response.data.expires = 0 then
    if w.response.data.options &&& world.WB_CONTENT_NO_CACHEABLE ≠ 0 then
      set_data w { w.response.data with expires := w.tv_ready + world.rrd_update_every }
    else set_data w { w.response.data with expires := w.tv_ready + 86400 }
  else w

/-- Capacity of the array `headerbegin` (line 1182). -/
def HEADERBEGIN_SIZE : Nat := 8328

/-- The assembly of `headerbegin` in `web_client_send_http_header` (lines
1182-1197), `w->host` and `w->last_url` being the strings they hold: the text
put together and the number of bytes of the array that are written, the
terminator included. The copies are made whatever that number is; the text is
what the array holds when it is at most `HEADERBEGIN_SIZE`. -/
def web_client_send_http_header_headerbegin (w : web_client) : List Nat × Nat :=
  if w.response.code = 301 then
    let headerbegin := str "\r\nLocation: https://"
    let headerlength := w.host.length
    let headerbegin := headerbegin ++ w.host
    let headerlength := headerlength + 20
    let tmp := w.last_url.length
    let headerbegin := headerbegin ++ w.last_url
    let headerlength := headerlength + tmp
    let headerbegin := headerbegin ++ str "\r\n"
    let headerlength := headerlength + 2
    (headerbegin, headerlength + 1)
  else (str "\r\n", 3)

/-- The text of the call of `buffer_sprintf` at lines 1199-1214 of
`web_client_send_http_header`: the status line and the fixed headers. -/
def web_client_send_http_header_status (world : World) (w : web_client) : List Nat :=
  let content_type_string := web_content_type_to_string w.response.data.contenttype
  let code_msg := web_response_code_to_string w.response.code
  let date := world.strftime w.response.data.date
  let headerbegin := (web_client_send_http_header_headerbegin w).1
  str "HTTP/1.1 " ++ decimal_int w.response.code ++ str " " ++ code_msg ++ str "\r\n" ++
  str "Connection: " ++ (if w.flag_keepalive then str "keep-alive" else str "close") ++
    str "\r\n" ++
  str "Server: NetData Embedded HTTP Server " ++ world.VERSION ++ str "\r\n" ++
  str "Access-Control-Allow-Origin: " ++ w.origin ++ str "\r\n" ++
  str "Access-Control-Allow-Credentials: true\r\n" ++
  str "Content-Type: " ++ content_type_string ++ str "\r\n" ++
  str "Date: " ++ date ++ headerbegin

/-- The text appended at lines 1216-1217 of `web_client_send_http_header`:
the header `X-Frame-Options`. -/
def web_client_send_http_header_frame_options (world : World) : List Nat :=
  match world.web_x_frame_options with
  | some options => str "X-Frame-Options: " ++ options ++ str "\r\n"
  | none => []

/-- The text appended at lines 1219-1245 of `web_client_send_http_header`:
the cookies and the tracking status. -/
def web_client_send_http_header_cookies (env : Env) (w : web_client) : List Nat :=
  if w.cookie1 ≠ [] ∨ w.cookie2 ≠ [] then
    (if w.cookie1 ≠ [] then str "Set-Cookie: " ++ w.cookie1 ++ str "\r\n" else []) ++
    (if w.cookie2 ≠ [] then str "Set-Cookie: " ++ w.cookie2 ++ str "\r\n" else []) ++
    (if env.respect_web_browser_do_not_track_policy then str "Tk: T;cookies\r\n" else [])
  else
    if env.respect_web_browser_do_not_track_policy then
      if w.flag_tracking_required then str "Tk: T;cookies\r\n" else str "Tk: N\r\n"
    else []

/-- The text appended at lines 1247-1260 of `web_client_send_http_header`:
the lines of the CORS preflight for an OPTIONS request, the caching headers
else. -/
def web_client_send_http_header_caching (world : World) (w : web_client) : List Nat :=
  let edate := world.strftime w.response.data.expires
  if w.mode = WEB_CLIENT_MODE_OPTIONS then
    str "Access-Control-Allow-Methods: GET, OPTIONS\r\n" ++
    str ("Access-Control-Allow-Headers: accept, x-requested-with, origin, content-type, " ++
      "cookie, pragma, cache-control\r\n") ++
    str "Access-Control-Max-Age: 1209600\r\n"
  else
    str "Cache-Control: " ++
    (if w.response.data.options &&& world.WB_CONTENT_NO_CACHEABLE ≠ 0 then str "no-cache"
     else str "public") ++ str "\r\n" ++
    str "Expires: " ++ edate ++ str "\r\n"

/-- The text appended at lines 1262-1264 of `web_client_send_http_header`:
the custom header. -/
def web_client_send_http_header_custom (w : web_client) : List Nat :=
  if buffer_strlen w.response.header ≠ 0 then cstr w.response.header.buffer 0 else []

/-- The text the calls of `buffer_sprintf` and `buffer_strcat` at lines
1164-1264 of `web_client_send_http_header` append to the header output, one
after the other: the status line and the fixed headers, `X-Frame-Options`, the
cookies and the tracking status, the caching headers, the custom header. -/
def web_client_send_http_header_lines (env : Env) (world : World) (w : web_client) : List Nat :=
  web_client_send_http_header_status world w ++
  web_client_send_http_header_frame_options world ++
  web_client_send_http_header_cookies env w ++
  web_client_send_http_header_caching world w ++
  web_client_send_http_header_custom w

/-- The function `web_client_send_http_header(w)` up to the copy of the custom
header (lines 1153-1264). -/
def web_client_send_http_header_begin (env : Env) (world : World) (w : web_client) :
    web_client :=
  let w := web_client_send_http_header_expires world w
  set_header_output w (buffer_sprintf w.response.header_output
    (web_client_send_http_header_lines env world w))

/-- The function `web_client_send_http_header(w)` where it writes the headers
of the transfer method and ends the header block (lines 1266-1285). -/
def web_client_send_http_header_transfer (w : web_client) : web_client :=
  let w :=
    if w.response.zoutput then
      set_header_output w (buffer_strcat w.response.header_output
        (str "Content-Encoding: gzip\r\n" ++ str "Transfer-Encoding: chunked\r\n"))
    else
      if w.response.data.buffer.length ≠ 0 ∨ w.response.rlen ≠ 0 then
        set_header_output w (buffer_sprintf w.response.header_output
          (str "Content-Length: " ++
           decimal (if w.response.data.buffer.length ≠ 0 then w.response.data.buffer.length
                    else w.response.rlen) ++ str "\r\n"))
      else { w with flag_keepalive := false }
  set_header_output w (buffer_strcat w.response.header_output (str "\r\n"))

/-- One of the `while` loops of `web_client_send_http_header` (lines
1298-1337): `out` is sent until a call succeeds, or has failed with an error
other than `EAGAIN` and `EWOULDBLOCK`, or has failed 101 times; `ssl` says
whether `SSL_write` is the call. The value of `bytes` and the connection
afterwards; what the socket accepts goes to `wire`. -/
def web_client_send_http_header_loop (world : World) (ssl : Bool) (out : List Nat) :
    Nat → Nat → web_client → Int × web_client
  | remaining, count, w =>
    let r := if ssl then world.ssl_write count out else world.send count out
    let w := record w (if ssl then io_event.ssl_write out else io_event.send out)
    let w := { w with wire := w.wire ++ out.take r.1.toNat }
    if (if ssl then decide (r.1 < 0) else decide (r.1 = -1)) then
      let count := count + 1
      if count > 100 ∨ (r.2 ≠ EAGAIN ∧ r.2 ≠ EWOULDBLOCK) then (r.1, w)
      else
        match remaining with
        | 0 => (r.1, w)
        | remaining + 1 => web_client_send_http_header_loop world ssl out remaining count w
    else (r.1, w)

/-- The function `web_client_send_http_header(w)` from the corking of the
socket on (lines 1294-1351). -/
def web_client_send_http_header_send (env : Env) (world : World) (w : web_client) :
    web_client :=
  let w := (web_client_crock_socket world w).2
  let out := w.response.header_output.buffer
  let ssl := env.ENABLE_HTTPS ∧ ¬ w.flag_unix_socket ∧ env.netdata_srv_ctx ∧ w.ssl_conn ∧
    w.ssl_flags = 0
  let r := web_client_send_http_header_loop world (decide ssl) out 100 0 w
  let bytes := r.1
  let w := r.2
  if bytes ≠ (buffer_strlen w.response.header_output : Int) then
    let w := if bytes > 0 then { w with stats_sent_bytes := w.stats_sent_bytes + bytes.toNat }
      else w
    { w with flag_dead := true }
  else { w with stats_sent_bytes := w.stats_sent_bytes + bytes.toNat }

/-- The function `web_client_send_http_header(w)` (lines 1152-1352). -/
def web_client_send_http_header (env : Env) (world : World) (w : web_client) : web_client :=
  let w := web_client_send_http_header_begin env world w
  let w := web_client_send_http_header_transfer w
  web_client_send_http_header_send env world w

/-! ## A request, from the bytes received to the header sent -/

/-- How the `switch` of `web_client_process_request` is left: by a `return`, or
on to the sending of the header. -/
inductive dispatched where
  | returned (w : web_client)
  | answered (w : web_client)

/-- The test of lines 1577-1583 and 1596-1602: the client may use none of the
dashboard, the registry, the badges, the management API and netdata.conf. -/
def no_access (w : web_client) : Bool :=
  !w.acl_dashboard && !w.acl_registry && !w.acl_badges && !w.acl_mgmt && !w.acl_netdataconf

/-- The function `web_client_process_request(w)` in its `switch` over the
verdict of `http_request_validate` (lines 1564-1644); `none` when
`web_client_process_url` runs out of fuel. -/
def web_client_process_request_switch (env : Env) (world : World) (fuel : Nat)
    (verdict : HTTP_VALIDATION) (w : web_client) : Option dispatched :=
  match verdict with
  | HTTP_VALIDATION_OK =>
    match w.mode with
    | WEB_CLIENT_MODE_STREAM =>
      if ¬ w.acl_stream then some (dispatched.returned (web_client_permission_denied w).2)
      else
        let r := world.rrdpush_receiver_thread_spawn world.localhost
          (record w io_event.receiver_spawn) (cstr w.decoded_url 0)
        some (dispatched.returned { r.2 with response := { r.2.response with code := r.1 } })
    | WEB_CLIENT_MODE_OPTIONS =>
      if no_access w then some (dispatched.answered (web_client_permission_denied w).2)
      else
        let w := set_data w { w.response.data with contenttype := CT_TEXT_PLAIN }
        let w := set_data w (buffer_flush w.response.data)
        let w := set_data w (buffer_strcat w.response.data (str "OK"))
        some (dispatched.answered { w with response := { w.response with code := 200 } })
    | _ =>
      if no_access w then some (dispatched.answered (web_client_permission_denied w).2)
      else
        match web_client_process_url env world fuel world.localhost w (some 0) with
        | none => none
        | some r =>
          some (dispatched.answered { r.2 with response := { r.2.response with code := r.1 } })
  | HTTP_VALIDATION_INCOMPLETE =>
    if w.response.data.buffer.length > world.NETDATA_WEB_REQUEST_MAX_SIZE then
      let w := { w with last_url := str "too big request" }
      let w := set_data w (buffer_flush w.response.data)
      let w := set_data w (buffer_sprintf w.response.data
        (str "Received request is too big  (" ++ decimal w.response.data.buffer.length ++
         str " bytes).\r\n"))
      some (dispatched.answered { w with response := { w.response with code := 400 } })
    else some (dispatched.returned w)
  | HTTP_VALIDATION_REDIRECT =>
    if env.ENABLE_HTTPS then
      let w := set_data w (buffer_flush w.response.data)
      let w := set_data w { w.response.data with contenttype := CT_TEXT_HTML }
      let w := set_data w (buffer_strcat w.response.data
        (str ("<!DOCTYPE html><!-- SPDX-License-Identifier: GPL-3.0-or-later --><html>" ++
          "<body onload=\"window.location.href ='https://'+ window.location.hostname + " ++
          "':' + window.location.port +  window.location.pathname\">Redirecting to safety " ++
          "connection, case your browser does not support redirection, please click " ++
          "<a onclick=\"window.location.href ='https://'+ window.location.hostname + ':' + " ++
          "window.location.port +  window.location.pathname\">here</a>.</body></html>")))
      some (dispatched.answered { w with response := { w.response with code := 301 } })
    else some (dispatched.answered w)
  | HTTP_VALIDATION_NOT_SUPPORTED =>
    let w := set_data w (buffer_flush w.response.data)
    let w := set_data w (buffer_strcat w.response.data (str "I don't understand you...\r\n"))
    some (dispatched.answered { w with response := { w.response with code := 400 } })

/-- The function `web_client_process_request(w)` after its `switch` (lines
1646-1700). -/
def web_client_process_request_finish (env : Env) (world : World) (w : web_client) :
    web_client :=
  let w := { w with tv_ready := world.now_realtime_sec 1 }
  let w := { w with response := { w.response with sent := 0 } }
  let w := if w.response.data.date = 0 then set_data w { w.response.data with date := w.tv_ready }
    else w
  let w := web_client_send_http_header env world w
  let w := if w.response.data.buffer.length ≠ 0 then { w with flag_wait_send := true }
    else { w with flag_wait_send := false }
  match w.mode with
  | WEB_CLIENT_MODE_FILECOPY =>
    if w.response.rlen ≠ 0 then { w with flag_wait_receive := true } else w
  | _ => w

/-- The function `web_client_process_request(w)` (lines 1559-1700): the
connection afterwards; `none` when the header loop of the parser or
`web_client_process_url` runs out of fuel. -/
def web_client_process_request (env : Env) (world : World) (fuel : Nat) (w : web_client) :
    Option web_client :=
  let w := { w with tv_in := world.now_realtime_sec 0 }
  match http_request_validate env w with
  | none => none
  | some (verdict, w) =>
    match web_client_process_request_switch env world fuel verdict w with
    | none => none
    | some (dispatched.returned w) => some w
    | some (dispatched.answered w) => some (web_client_process_request_finish env world w)

/-! ## The end of a request -/

/-- The library function `iscntrl` on a byte, in the C locale. -/
def iscntrl (c : Nat) : Bool := c < 32 || c == 127

/-- The function `strip_control_characters(url)` (lines 58-68) on a string
that is not empty: every control character becomes a space. -/
def strip_control_characters (url : List Nat) : List Nat :=
  url.map (fun c => if iscntrl c then SPACE else c)

/-- The function `web_client_uncrock_socket(w)` (lines 41-56): the value
returned and the connection afterwards. -/
def web_client_uncrock_socket (world : World) (w : web_client) : Int × web_client :=
  if world.TCP_CORK then
    if w.tcp_cork ≠ 0 ∧ w.ofd ≠ -1 then
      let w := { w with tcp_cork := 0 }
      let w := record w (io_event.setsockopt_cork 0)
      if ¬ world.setsockopt_ok then
        let w := { w with tcp_cork := 1 }
        (-1, w)
      else (0, w)
    else (0, w)
  else (0, w)

/-- The function `web_client_request_done(w)` where it reports the request
(lines 75-139). The statistics and the access log are calls out of the
process, recorded with the size, the bytes sent, the response code and the URL
they are given. -/
def web_client_request_done_log (env : Env) (w : web_client) : web_client :=
  if w.last_url ≠ [] then
    let size :=
      if w.mode = WEB_CLIENT_MODE_FILECOPY then w.response.rlen
      else w.response.data.buffer.length
    let sent :=
      if env.NETDATA_WITH_ZLIB ∧ w.response.zoutput then w.response.zstream_total_out
      else size
    let w := record w (io_event.finished_web_request_statistics size sent)
    let w := { w with stats_received_bytes := 0 }
    let w := { w with stats_sent_bytes := 0 }
    record w (io_event.log_access w.response.code (strip_control_characters w.last_url))
  else w

/-- The function `web_client_request_done(w)` where it closes the file that
was copied (lines 141-153). -/
def web_client_request_done_close (world : World) (w : web_client) : web_client :=
  if w.mode = WEB_CLIENT_MODE_FILECOPY then
    if w.ifd ≠ w.ofd then
      let w :=
        if ¬ world.web_server_static_threaded then
          if w.ifd ≠ -1 then record w (io_event.close w.ifd) else w
        else w
      { w with ifd := w.ofd }
    else w
  else w

/-- The function `web_client_request_done(w)` where it resets the fields of
the request (lines 155-188). -/
def web_client_request_done_reset (world : World) (w : web_client) : web_client :=
  { w with
    last_url := []
    cookie1 := []
    cookie2 := []
    origin := str "*"
    user_agent := none
    auth_bearer_token := none
    mode := WEB_CLIENT_MODE_NORMAL
    tcp_cork := 0
    flag_donottrack := false
    flag_tracking_required := false
    flag_keepalive := false
    decoded_url := w.decoded_url.set 0 0
    response :=
      { w.response with
        header_output := world.buffer_reset w.response.header_output
        header := world.buffer_reset w.response.header
        data := world.buffer_reset w.response.data
        rlen := 0
        sent := 0
        code := 0
        zoutput := false }
    header_parse_tries := 0
    header_parse_last_size := 0
    flag_wait_receive := true
    flag_wait_send := false }

/-- The function `web_client_request_done(w)` where it releases the compressor
(lines 190-203). -/
def web_client_request_done_zlib (env : Env) (w : web_client) : web_client :=
  if env.NETDATA_WITH_ZLIB ∧ w.response.zinitialized then
    let w := record w io_event.deflateEnd
    { w with
      response :=
        { w.response with
          zsent := 0
          zhave := 0
          zstream_avail_in := 0
          zstream_avail_out := 0
          zstream_total_in := 0
          zstream_total_out := 0
          zinitialized := false } }
  else w

/-- The function `web_client_request_done(w)` (lines 70-204). -/
def web_client_request_done (env : Env) (world : World) (w : web_client) : web_client :=
  let w := (web_client_uncrock_socket world w).2
  let w := web_client_request_done_log env w
  let w := web_client_request_done_close world w
  let w := web_client_request_done_reset world w
  web_client_request_done_zlib env w

/-! ## The sender -/

/-- The function `web_client_send_data(w, buf, len, flags)` (lines 1132-1150),
`buf` being the `len` bytes offered: the value returned and the connection
afterwards. The socket answers by the number of calls made so far and by the
bytes offered; what it accepts goes to `wire`. -/
def web_client_send_data (env : Env) (world : World) (w : web_client) (buf : List Nat) :
    Int × web_client :=
  let ssl := decide (env.ENABLE_HTTPS ∧ ¬ w.flag_unix_socket ∧ env.netdata_srv_ctx ∧
    w.ssl_conn ∧ w.ssl_flags = 0)
  let r := if ssl then world.ssl_write w.trace.length buf else world.send w.trace.length buf
  let w := record w (if ssl then io_event.ssl_write buf else io_event.send buf)
  let w := { w with wire := w.wire ++ buf.take r.1.toNat }
  (r.1, w)

/-- The character of a hexadecimal digit, in upper case. -/
def hex_digit (d : Nat) : Nat := if d < 10 then 48 + d else 55 + d

/-- The hexadecimal digits of a number, most significant first, put before
`acc`; the fuel bounds the number of digits. -/
def hexadecimal_loop : Nat → Nat → List Nat → List Nat
  | 0, _, acc => acc
  | fuel + 1, n, acc =>
    if n < 16 then hex_digit n :: acc
    else hexadecimal_loop fuel (n / 16) (hex_digit (n % 16) :: acc)

/-- What the conversion `%zX` of the C library prints for a number. -/
def hexadecimal (n : Nat) : List Nat := hexadecimal_loop (n + 1) n []

/-- The number a string of hexadecimal digits stands for, `none` when a
character of it is no such digit. -/
def hex_number (digits : List Nat) : Option Nat :=
  digits.foldl (fun a c => a.bind (fun a => (hex_value c).map (fun v => 16 * a + v))) (some 0)

/-- What the three chunk functions do with the value `web_client_send_data`
returned (lines 1711-1725, 1734-1748, 1757-1771): the bytes are counted, or
the connection is marked dead. -/
def web_client_send_chunk_result (r : Int × web_client) : Int × web_client :=
  let bytes := r.1
  let w := r.2
  if bytes > 0 then (bytes, { w with stats_sent_bytes := w.stats_sent_bytes + bytes.toNat })
  else if bytes = 0 then (bytes, { w with flag_dead := true })
  else (bytes, { w with flag_dead := true })

/-- The function `web_client_send_chunk_header(w, len)` (lines 1702-1726). -/
def web_client_send_chunk_header (env : Env) (world : World) (w : web_client) (len : Nat) :
    Int × web_client :=
  let buf := hexadecimal len ++ str "\r\n"
  web_client_send_chunk_result (web_client_send_data env world w buf)

/-- The function `web_client_send_chunk_close(w)` (lines 1728-1749). -/
def web_client_send_chunk_close (env : Env) (world : World) (w : web_client) :
    Int × web_client :=
  web_client_send_chunk_result (web_client_send_data env world w (str "\r\n"))

/-- The function `web_client_send_chunk_finalize(w)` (lines 1751-1772). -/
def web_client_send_chunk_finalize (env : Env) (world : World) (w : web_client) :
    Int × web_client :=
  web_client_send_chunk_result (web_client_send_data env world w (str "\r\n0\r\n\r\n"))

/-- Flush mode `Z_SYNC_FLUSH` of zlib.h. -/
def Z_SYNC_FLUSH : Nat := 2

/-- Flush mode `Z_FINISH` of zlib.h. -/
def Z_FINISH : Nat := 4

/-- Return code `Z_STREAM_ERROR` of zlib.h. -/
def Z_STREAM_ERROR : Int := -2

/-- Number of values of a `uInt`. -/
def UINT_MOD : Nat := 2 ^ 32

/-- The function `web_client_send_deflate(w)` where there is nothing to send
(lines 1786-1812). -/
def web_client_send_deflate_done (env : Env) (world : World) (w : web_client) :
    Int × web_client :=
  let r := if w.response.sent ≠ 0 then web_client_send_chunk_finalize env world w else (0, w)
  if r.1 < 0 then (r.1, r.2)
  else
    let t := r.1
    let w := r.2
    if w.mode = WEB_CLIENT_MODE_FILECOPY ∧ w.flag_wait_receive ∧ w.response.rlen ≠ 0 ∧
        w.response.rlen > w.response.data.buffer.length then
      (t, { w with flag_wait_send := false })
    else if ¬ w.flag_keepalive then (t, { w with flag_dead := true })
    else (t, web_client_request_done env world w)

/-- How the compress step of `web_client_send_deflate` is left: by a `return`
with a value, or on to the writing of the side buffer with the count `t`. -/
inductive compressed where
  | returned (value : Int) (w : web_client)
  | goes_on (t : Int) (w : web_client)

/-- The flush mode `web_client_send_deflate` asks for (lines 1837-1845). -/
def web_client_send_deflate_flush (w : web_client) : Nat :=
  if w.mode = WEB_CLIENT_MODE_NORMAL ∨
      (w.mode = WEB_CLIENT_MODE_FILECOPY ∧ ¬ w.flag_wait_receive ∧
        w.response.data.buffer.length = w.response.rlen) then Z_FINISH
  else Z_SYNC_FLUSH

/-- The function `web_client_send_deflate(w)` where it hands the compressor
its input and its room (lines 1826-1834): the bytes of the data buffer not
passed through the compressor yet join those it left behind, and the whole
side buffer is free for the output. -/
def web_client_send_deflate_feed (world : World) (w : web_client) : web_client :=
  let w :=
    if w.response.data.buffer.length > w.response.sent then
      { w with response := { w.response with
        zstream_next_in := size_t_sub w.response.sent w.response.zstream_avail_in
        zstream_avail_in := (w.response.zstream_avail_in +
          size_t_sub w.response.data.buffer.length w.response.sent % UINT_MOD) % UINT_MOD } }
    else w
  { w with response := { w.response with
    zstream_avail_out := world.NETDATA_WEB_RESPONSE_ZLIB_CHUNK_SIZE } }

/-- The call `deflate(&w->response.zstream, flush)` of `web_client_send_deflate`
(line 1848): the value returned and the connection afterwards. The call reads
the `avail_in` bytes at `next_in`, an offset into the data buffer, and leaves
the two counters and the bytes written as the compressor gives them;
`next_in`, `total_in` and `total_out` advance by what was taken and what was
produced. -/
def web_client_send_deflate_call (world : World) (w : web_client) : Int × web_client :=
  let flush := web_client_send_deflate_flush w
  let input := bytes_at w.response.data.buffer w.response.zstream_next_in
    w.response.zstream_avail_in
  let d := world.deflate w.trace.length input w.response.zstream_avail_out flush
  let w := record w (io_event.deflate flush input)
  (d.status, { w with response := { w.response with
    zstream_next_in := w.response.zstream_next_in + (w.response.zstream_avail_in - d.avail_in)
    zstream_total_in := w.response.zstream_total_in + (w.response.zstream_avail_in - d.avail_in)
    zstream_total_out :=
      w.response.zstream_total_out + (w.response.zstream_avail_out - d.avail_out)
    zstream_avail_in := d.avail_in
    zstream_avail_out := d.avail_out
    zbuffer := d.written ++ w.response.zbuffer.drop d.written.length } })

/-- The function `web_client_send_deflate(w)` where it takes over what the
compressor produced (lines 1854-1858). -/
def web_client_send_deflate_refill (world : World) (w : web_client) : web_client :=
  let w := { w with response := { w.response with
    zhave := size_t_sub world.NETDATA_WEB_RESPONSE_ZLIB_CHUNK_SIZE
      w.response.zstream_avail_out } }
  let w := { w with response := { w.response with zsent := 0 } }
  { w with response := { w.response with sent := w.response.data.buffer.length } }

/-- The function `web_client_send_deflate(w)` where it compresses more input
(lines 1816-1865). -/
def web_client_send_deflate_compress (env : Env) (world : World) (w : web_client) :
    compressed :=
  let r := if w.response.sent ≠ 0 then web_client_send_chunk_close env world w else (0, w)
  if r.1 < 0 then compressed.returned r.1 r.2
  else
    let t := r.1
    let w := web_client_send_deflate_feed world r.2
    let c := web_client_send_deflate_call world w
    if c.1 = Z_STREAM_ERROR then
      compressed.returned (-1) (web_client_request_done env world c.2)
    else
      let w := web_client_send_deflate_refill world c.2
      let r2 := web_client_send_chunk_header env world w w.response.zhave
      if r2.1 < 0 then compressed.returned r2.1 r2.2
      else compressed.goes_on (t + r2.1) r2.2

/-- The function `web_client_send_deflate(w)` where it writes the side buffer
(lines 1868-1888); `t` is the count of the framing bytes sent before. -/
def web_client_send_deflate_write (env : Env) (world : World) (t : Int) (w : web_client) :
    Int × web_client :=
  let r := web_client_send_data env world w
    (bytes_at w.response.zbuffer w.response.zsent
      (size_t_sub w.response.zhave w.response.zsent))
  let len := r.1
  let w := r.2
  if len > 0 then
    let w := { w with stats_sent_bytes := w.stats_sent_bytes + len.toNat }
    let w := { w with response := { w.response with
      zsent := (w.response.zsent + len.toNat) % SIZE_T_MOD } }
    (len + t, w)
  else if len = 0 then (len, { w with flag_dead := true })
  else (len, { w with flag_dead := true })

/-- The function `web_client_send_deflate(w)` (lines 1775-1889): the value
returned and the connection afterwards. -/
def web_client_send_deflate (env : Env) (world : World) (w : web_client) : Int × web_client :=
  if size_t_sub w.response.data.buffer.length w.response.sent = 0 ∧
      w.response.zstream_avail_in = 0 ∧ w.response.zhave = w.response.zsent ∧
      w.response.zstream_avail_out ≠ 0 then
    web_client_send_deflate_done env world w
  else if w.response.zhave = w.response.zsent then
    match web_client_send_deflate_compress env world w with
    | compressed.returned value w => (value, w)
    | compressed.goes_on t w => web_client_send_deflate_write env world t w
  else web_client_send_deflate_write env world 0 w

/-- The function `web_client_send(w)` (lines 1892-1942): the value returned and
the connection afterwards. -/
def web_client_send (env : Env) (world : World) (w : web_client) : Int × web_client :=
  if env.NETDATA_WITH_ZLIB ∧ w.response.zoutput then web_client_send_deflate env world w
  else if size_t_sub w.response.data.buffer.length w.response.sent = 0 then
    if w.mode = WEB_CLIENT_MODE_FILECOPY ∧ w.flag_wait_receive ∧ w.response.rlen ≠ 0 ∧
        w.response.rlen > w.response.data.buffer.length then
      (0, { w with flag_wait_send := false })
    else if ¬ w.flag_keepalive then (0, { w with flag_dead := true })
    else (0, web_client_request_done env world w)
  else
    let r := web_client_send_data env world w
      ((w.response.data.buffer.drop w.response.sent).take
        (size_t_sub w.response.data.buffer.length w.response.sent))
    let bytes := r.1
    let w := r.2
    if bytes > 0 then
      let w := { w with stats_sent_bytes := w.stats_sent_bytes + bytes.toNat }
      let w := { w with response := { w.response with
        sent := (w.response.sent + bytes.toNat) % SIZE_T_MOD } }
      (bytes, w)
    else if bytes = 0 then (bytes, { w with flag_dead := true })
    else (bytes, { w with flag_dead := true })

/-- The function `web_client_read_file(w)` (lines 1944-1994): the value
returned and the connection afterwards; the room of the buffer, which
`buffer_need_bytes` sees to, is not modelled. -/
def web_client_read_file (world : World) (w : web_client) : Int × web_client :=
  if w.response.rlen ≤ w.response.data.buffer.length then (0, w)
  else
    let left := w.response.rlen - w.response.data.buffer.length
    let r := world.read w.trace.length w.ifd left
    let w := record w (io_event.read w.ifd left)
    let bytes := r.1
    if bytes > 0 then
      let w := set_data w { w.response.data with
        buffer := w.response.data.buffer ++ bytes_at r.2 0 bytes.toNat }
      let w := { w with flag_wait_send := true }
      let w :=
        if w.response.rlen ≠ 0 ∧ w.response.data.buffer.length ≥ w.response.rlen then
          { w with flag_wait_receive := false }
        else w
      (bytes, w)
    else if bytes = 0 then
      let w := { w with flag_wait_receive := false }
      let w :=
        if ¬ world.web_server_static_threaded then
          if w.ifd ≠ w.ofd then record w (io_event.close w.ifd) else w
        else w
      (bytes, { w with ifd := w.ofd })
    else (bytes, { w with flag_dead := true })

/-! ## A world for concrete runs -/

/-- The library function `strsep(&ptr, delims)` on the memory `buf`: the memory
afterwards, the new value of `ptr` and the offset of the token, `none` for
NULL. -/
def strsep (buf : List Nat) (ptr : Option Nat) (delims : List Nat) :
    List Nat × Option Nat × Option Nat :=
  match ptr with
  | none => (buf, none, none)
  | some p =>
    let n := ((cstr buf p).takeWhile (fun c => !delims.contains c)).length
    if n < (cstr buf p).length then (buf.set (p + n) 0, some (p + n + 1), some p)
    else (buf, none, some p)

/-- The loop of `spec_mystrsep`: tokens are taken while the last one is empty
and the string is not used up. -/
def spec_mystrsep_loop (delims : List Nat) :
    Nat → List Nat → Option Nat → List Nat → List Nat × Option Nat × List Nat
  | 0, buf, ptr, tok => (buf, ptr, tok)
  | fuel + 1, buf, ptr, tok =>
    if tok = [] ∧ ptr.isSome then
      let r := strsep buf ptr delims
      spec_mystrsep_loop delims fuel r.1 r.2.1 (cstr r.1 (r.2.2.getD 0))
    else (buf, ptr, tok)

/-- Modelled from the spec: `mystrsep` of the common library, which is not in
this file: the next segment of the path, empty segments skipped, cut out of the
string by a terminator written over the separator that ends it. -/
def spec_mystrsep (buf : List Nat) (ptr : Option Nat) (delims : List Nat) :
    List Nat × Option Nat × List Nat :=
  spec_mystrsep_loop delims (buf.length + 1) buf ptr []

/-- Modelled from the spec: `simple_hash` of the common library, which is not
in this file: the hash of a name (FNV-1a, 32 bits). -/
def spec_simple_hash (name : List Nat) : Nat :=
  name.foldl (fun h c => ((h * 16777619) % 2 ^ 32) ^^^ c) 2166136261

/-- Text escaped for HTML: `&`, `<`, `>` and the two quotes are replaced. -/
def spec_htmlescape (txt : List Nat) : List Nat :=
  (txt.map (fun c =>
    if c = 38 then str "&amp;" else if c = 60 then str "&lt;"
    else if c = 62 then str "&gt;" else if c = 34 then str "&quot;"
    else if c = 39 then str "&#x27;" else [c])).flatten

/-- A regular file of the service user (uid 201, gid 201). -/
def spec_regular_file : stat :=
  { st_mode := S_IFREG + 0o644, st_uid := 201, st_gid := 201, st_size := 10, st_mtime := 1000 }

/-- A small document root: `/web/index.html` and `/web/docs/index.html` are
regular files of the service user, `/web/root.txt` is a regular file of
user 0, `/web/link` is a symbolic link, and `/web/dir` is a directory whose
entry `index.html` is a directory too. -/
def spec_lstat (path : List Nat) : Option stat :=
  if path = str "/web/" then some { spec_regular_file with st_mode := S_IFDIR + 0o755 }
  else if path = str "/web/index.html" ∨ path = str "/web//index.html" then
    some spec_regular_file
  else if path = str "/web/docs" then some { spec_regular_file with st_mode := S_IFDIR + 0o755 }
  else if path = str "/web/docs/index.html" then some spec_regular_file
  else if path = str "/web/root.txt" then some { spec_regular_file with st_uid := 0 }
  else if path = str "/web/link" then some { spec_regular_file with st_mode := S_IFLNK + 0o777 }
  else if path = str "/web/dir" then some { spec_regular_file with st_mode := S_IFDIR + 0o755 }
  else if path = str "/web/dir/index.html" then
    some { spec_regular_file with st_mode := S_IFDIR + 0o755 }
  else none

/-- A compressor for concrete runs, which stores: it takes all the input and
writes it out as it is, followed by the byte `!` when asked to finish; it
answers `Z_STREAM_END` (1) then and `Z_OK` (0) else. -/
def spec_deflate (_ : Nat) (input : List Nat) (avail_out : Nat) (flush : Nat) : deflate_result :=
  { status := if flush = 4 then 1 else 0
    avail_in := 0
    avail_out := avail_out - (input ++ (if flush = 4 then [33] else [])).length
    written := input ++ (if flush = 4 then [33] else []) }

/-- A world for concrete runs: the document root `/web` of `spec_lstat`, one
host `myhost` (number 1) beside the default host (number 0), handlers that
answer 200, a clock that stands at 5000 and a socket that takes all it is
offered. -/
def spec_world : World where
  netdata_configured_web_dir := str "/web"
  FILENAME_MAX := 4096
  NETDATA_WEB_REQUEST_MAX_SIZE := 16384
  VERSION := str "v1.16.0"
  lstat := spec_lstat
  open_file := fun _ => (7, 0)
  geteuid := 201
  getegid := 201
  web_files_owner := some (str "netdata")
  web_files_group := some (str "netdata")
  getpwnam := fun name => if name = str "netdata" then some 201 else none
  getgrnam := fun name => if name = str "netdata" then some 201 else none
  htmlescape := spec_htmlescape
  buffer_cacheable := fun wb => { wb with options := 1 }
  buffer_no_cacheable := fun wb => { wb with options := 2 }
  WB_CONTENT_NO_CACHEABLE := 2
  simple_hash := spec_simple_hash
  simple_nhash := spec_simple_hash
  mystrsep := spec_mystrsep
  localhost := 0
  rrd_update_every := 1
  rrdhost_find_by_hostname := fun name _ => if name = str "myhost" then some 1 else none
  rrdhost_find_by_guid := fun _ _ => none
  web_client_api_request_v1 := fun _ w _ => (200, w)
  config_generate := fun wb => wb
  rrdpush_receiver_thread_spawn := fun _ w _ => (200, w)
  now_realtime_sec := fun _ => 5000
  strftime := fun _ => str "Thu, 01 Jan 1970 01:23:20 GMT"
  web_x_frame_options := none
  TCP_CORK := true
  setsockopt_ok := true
  send := fun _ bytes => (bytes.length, 0)
  ssl_write := fun _ bytes => (bytes.length, 0)
  NETDATA_WEB_RESPONSE_ZLIB_CHUNK_SIZE := 16384
  deflate := spec_deflate
  read := fun _ _ _ => (0, [])
  web_server_static_threaded := true
  buffer_reset := fun _ => { buffer := [], contenttype := CT_TEXT_PLAIN }

/-- A connection allowed to use the dashboard, otherwise as allocated. -/
def dashboard_client : web_client := { web_client_zero with acl_dashboard := true }

/-- The path `mysendfile` looks up first for a file name (leading slashes
already skipped). -/
def first_path (world : World) (name : List Nat) : List Nat :=
  snprintfz world.FILENAME_MAX (world.netdata_configured_web_dir ++ str "/" ++ name)

/-- The path `mysendfile` looks up when the first one is a directory. -/
def index_path (world : World) (name : List Nat) : List Nat :=
  snprintfz world.FILENAME_MAX
    (world.netdata_configured_web_dir ++ str "/" ++ name ++ str "/index.html")

/-- Whether a looked-up entry is a directory: the test of line 389 on what
`lstat` gave, a missing entry being none. -/
def is_directory (entry : Option stat) : Bool :=
  match entry with
  | none => false
  | some statbuf => statbuf.st_mode &&& S_IFMT == S_IFDIR

/-- The path the resolution loop of `mysendfile` goes on to after its first
look-up: the index file when the first path is a directory, else the first
path itself. -/
def resolved_entry (world : World) (name : List Nat) : List Nat :=
  if is_directory (world.lstat (first_path world name)) then index_path world name
  else first_path world name

/-- The look-ups the resolution loop of `mysendfile` makes until it has looked
up `resolved_entry`. -/
def lookups (world : World) (name : List Nat) : List io_event :=
  if is_directory (world.lstat (first_path world name)) then
    [io_event.lstat (first_path world name), io_event.lstat (index_path world name)]
  else [io_event.lstat (first_path world name)]

/-- The connection after `http_request_validate` has run on the request
`bytes`, delivered in one piece to the connection `w`. -/
def parsed_request (env : Env) (w : web_client) (bytes : List Nat) : web_client :=
  match validate_once env w bytes with
  | some r => r.2
  | none => w

/-- What is observed of an answer of the router: the code, the response body
and the calls made. -/
def observed (r : Option (Int × web_client)) : Option (Int × List Nat × List io_event) :=
  r.map (fun r => (r.1, r.2.response.data.buffer, r.2.trace))

/-- The connection of a dashboard client after the request for `/host/myhost/`
has been parsed. -/
def host_request : web_client :=
  parsed_request spec_env dashboard_client (str "GET /host/myhost/ HTTP/1.1\r\n\r\n")

/-- The connection of a dashboard client after the request for `/host/myhost`,
with no `/` after the host identifier, has been parsed. -/
def host_request_bare : web_client :=
  parsed_request spec_env dashboard_client (str "GET /host/myhost HTTP/1.1\r\n\r\n")

/-- A response of five bytes ready to be sent, compression not active. -/
def ready_response : web_client :=
  { set_buffer dashboard_client (str "hello") with
    response := { (set_buffer dashboard_client (str "hello")).response with code := 200 } }

/-- The verdict `http_request_validate` gives when `web_client_process_request`
calls it on the connection `w`; `none` when the header loop runs out of
fuel. -/
def verdict_of (env : Env) (world : World) (w : web_client) : Option HTTP_VALIDATION :=
  (http_request_validate env { w with tv_in := world.now_realtime_sec 0 }).map Prod.fst

/-- The world `spec_world` with a cap of 16 bytes on the size of a request. -/
def small_world : World := { spec_world with NETDATA_WEB_REQUEST_MAX_SIZE := 16 }

/-- A connection allowed to fetch badges and nothing else: it may use neither
the dashboard nor the management API. -/
def badges_client : web_client := { web_client_zero with acl_badges := true }

/-- The connection of a badges-only client after the request for `/api/v1/info`
has been parsed. -/
def api_request : web_client :=
  parsed_request spec_env badges_client (str "GET /api/v1/info HTTP/1.1\r\n\r\n")

/-! ## Drives of the sender, observed -/

/-- The bytes a call offers to the socket, `none` for a call that is no write
to the socket. -/
def offered (e : io_event) : Option (List Nat) :=
  match e with
  | io_event.send bytes => some bytes
  | io_event.ssl_write bytes => some bytes
  | _ => none

/-- The writes to the socket among the calls of a trace, in order, each with
the bytes it offered. -/
def writes (trace : List io_event) : List (List Nat) := trace.filterMap offered

/-- The flush modes of the calls of the compressor among the calls of a
trace, in order. -/
def flushes (trace : List io_event) : List Nat :=
  trace.filterMap (fun e =>
    match e with
    | io_event.deflate flush _ => some flush
    | _ => none)

/-- The connection a compress step leaves. -/
def compressed.state (c : compressed) : web_client :=
  match c with
  | compressed.returned _ w => w
  | compressed.goes_on _ w => w

/-- Repeated drives of `web_client_send` while bytes of the data buffer are
unsent, at most `drives` of them. -/
def web_client_send_all (env : Env) (world : World) : Nat → web_client → web_client
  | 0, w => w
  | drives + 1, w =>
    if w.response.sent < w.response.data.buffer.length then
      web_client_send_all env world drives (web_client_send env world w).2
    else w

/-- What the readiness loop may do next with a connection: let it read from
its input, or let it send. -/
inductive drive_step where
  | receive
  | send
  deriving DecidableEq, Repr

/-- A schedule of drives: `web_client_read_file` for every `receive` and
`web_client_send` for every `send`, in order. -/
def web_client_drive (env : Env) (world : World) : List drive_step → web_client → web_client
  | [], w => w
  | drive_step.receive :: rest, w =>
    web_client_drive env world rest (web_client_read_file world w).2
  | drive_step.send :: rest, w =>
    web_client_drive env world rest (web_client_send env world w).2

/-- The world `spec_world` with a socket that accepts at most two bytes at a
call. -/
def slow_world : World := { spec_world with send := fun _ bytes => (min 2 bytes.length, 0) }

/-- The world `spec_world` with a socket that accepts no byte. -/
def stalled_world : World := { spec_world with send := fun _ _ => (0, 0) }

/-- The world `spec_world` with a socket on which every write would block. -/
def blocked_world : World := { spec_world with send := fun _ _ => (-1, EAGAIN) }

/-- The world `spec_world` with a compressor that reports a stream error. -/
def broken_world : World :=
  { spec_world with
    deflate := fun _ _ avail_out _ =>
      { status := Z_STREAM_ERROR, avail_in := 0, avail_out := avail_out, written := [] } }

/-- The world `spec_world` with a file that is read three bytes at a time. -/
def file_world : World :=
  { spec_world with read := fun _ _ count => (min 3 count, str "abc") }

/-- A response with the code 301 on a connection whose host string is 8306
bytes long and whose last URL is `/`. -/
def redirect_response : web_client :=
  { web_client_zero with
    host := List.replicate 8306 97
    last_url := str "/"
    response := { web_client_zero.response with code := 301 } }

/-- A compressed response of the three bytes `abc` on a kept-alive connection
in NORMAL mode, nothing of it sent yet. -/
def compressed_response : web_client :=
  { set_buffer dashboard_client (str "abc") with
    flag_keepalive := true
    flag_wait_send := true
    last_url := str "/api/v1/info"
    response :=
      { (set_buffer dashboard_client (str "abc")).response with
        code := 200
        zoutput := true
        zinitialized := true } }

/-- A compressed response with an empty body on a kept-alive connection in
NORMAL mode. -/
def empty_response : web_client :=
  { dashboard_client with
    flag_keepalive := true
    flag_wait_send := true
    last_url := str "/api/v1/info"
    response :=
      { dashboard_client.response with
        code := 200
        zoutput := true
        zinitialized := true } }

/-- A compressed response that copies a file of six bytes, none of them read
yet, on a kept-alive connection: the state `mysendfile` and the header
builder leave. -/
def file_response : web_client :=
  { dashboard_client with
    mode := WEB_CLIENT_MODE_FILECOPY
    flag_keepalive := true
    flag_wait_receive := true
    last_url := str "/index.html"
    ifd := 7
    ofd := 5
    response :=
      { dashboard_client.response with
        code := 200
        rlen := 6
        zoutput := true
        zinitialized := true } }

/-- A response with the code 301 on a connection whose host string is 150
bytes long and whose last URL is 8192 bytes long, the most
`http_request_validate` copies into it. -/
def redirect_long_url : web_client :=
  { web_client_zero with
    host := List.replicate 150 97
    last_url := SLASH :: List.replicate 8191 97
    response := { web_client_zero.response with code := 301 } }

/-- No write to the socket lies between two states of a connection: the
writes of the trace and the wire are the same, and so is the dead mark. -/
def no_write (w w' : web_client) : Prop :=
  writes w'.trace = writes w.trace ∧ w'.wire = w.wire ∧ w'.flag_dead = w.flag_dead

/-- The response `ready_response` with its five bytes sent, keep-alive being
off. -/
def sent_response : web_client :=
  { ready_response with response := { ready_response.response with sent := 5 } }

/-- The compressed response `compressed_response` after its three bytes have
gone through the compressor, with the first of the four bytes of the side
buffer sent. -/
def half_sent_response : web_client :=
  { compressed_response with
    response :=
      { compressed_response.response with
        sent := 3
        zbuffer := str "abc!"
        zhave := 4
        zsent := 1
        zstream_avail_out := 16380
        zstream_total_in := 3
        zstream_total_out := 4 } }

/-! ## Connections and worlds for the later runs -/

/-- The world `file_world` with a server that is not static-threaded. -/
def threaded_world : World := { file_world with web_server_static_threaded := false }

/-- The world `threaded_world` with a file that is at its end. -/
def ended_world : World := { threaded_world with read := fun _ _ _ => (0, []) }

/-- The world `threaded_world` with a file the reading of which fails. -/
def unreadable_world : World := { threaded_world with read := fun _ _ _ => (-1, []) }

/-- The next request of a connection, as far as its spans go:
`web_client_request_done` ends the request before, then `http_request_validate`
decodes the URL `u` into `decoded_url` and calls `web_client_split_path_query`
(lines 1105-1107). -/
def next_request (env : Env) (world : World) (w : web_client) (u : List Nat) : web_client :=
  let w := web_client_request_done env world w
  web_client_split_path_query env
    { w with
      decoded_url := env.url_decode_r w.decoded_url u (env.NETDATA_WEB_REQUEST_URL_SIZE + 1) }

/-- A new connection of a dashboard client but for its version and command
spans, which are those a request for `/api/v1/info` leaves. -/
def used_connection : web_client :=
  { dashboard_client with
    version := { body := some 5, length := 2 }
    command := { body := some 8, length := 4 } }

/-- The connection of a dashboard client after a kept-alive request for
`/api/v1/info` has been parsed, routed and ended. -/
def kept_alive_connection : web_client :=
  match web_client_process_url spec_env spec_world 1 spec_world.localhost
      (parsed_request spec_env dashboard_client
        (str "GET /api/v1/info HTTP/1.1\r\nConnection: keep-alive\r\n\r\n")) (some 0) with
  | some r => web_client_request_done spec_env spec_world r.2
  | none => dashboard_client

/-- A connection whose character array `decoded_url` holds the string `u`, its
terminator and, after it, the bytes `behind` (what an earlier, longer URL left
there). -/
def url_array (u behind : List Nat) : web_client :=
  { dashboard_client with decoded_url := u ++ 0 :: behind }

/-- A response with the code 200 and an empty body on a kept-alive connection,
compression not active and no length declared. -/
def bodyless_response : web_client :=
  { dashboard_client with
    flag_keepalive := true
    response := { dashboard_client.response with code := 200 } }

/-! ## The scan loop of `web_client_is_complete` -/

/-- A pass of the scan loop that goes round again with the position and the
counter it started with repeats for ever: no amount of fuel leaves the loop. -/
theorem web_client_is_complete_loop_stuck (buf : List Nat) (endp begin counter : Nat)
    (h : web_client_is_complete_body buf endp begin counter = ScanStep.again begin counter) :
    ∀ fuel, web_client_is_complete_loop buf endp fuel begin counter = none := by
  intro fuel
  induction fuel with
  | zero => rfl
  | succ n ih => simp only [web_client_is_complete_loop, h, ih]

/-- The text of `web_client_is_complete`, a function without caller, on the
buffer `ab\n\n`, which ends in LF LF: it does not return OK; the scan stays on
the byte `a`, which is neither CR nor LF, and the loop is never left, whatever
the fuel. -/
theorem web_client_is_complete_lflf_never_returns :
    ∀ fuel, web_client_is_complete fuel (str "ab\n\n") 0 4 4 = none := by
  intro fuel
  have h := web_client_is_complete_loop_stuck (str "ab\n\n") 4 0 0 (by decide) fuel
  simp only [web_client_is_complete]
  simp [h]

/-- The text of `web_client_is_complete`, a function without caller, on two
buffers without a blank-line terminator: it does not return INCOMPLETE. On
`GET /`, which ends in the middle of a line, the scan stays on the byte `E` and
never returns; on the single line end CR LF it returns OK, the LF being counted
a second time. -/
theorem web_client_is_complete_no_terminator :
    (∀ fuel, web_client_is_complete fuel (str "GET /") 0 5 5 = none) ∧
    (∀ fuel, web_client_is_complete (fuel + 2) (str "\r\n") 0 2 2
      = some HTTP_VALIDATION_OK) := by
  constructor
  · intro fuel
    have h := web_client_is_complete_loop_stuck (str "GET /") 5 1 0 (by decide) fuel
    simp only [web_client_is_complete]
    simp [h]
  · intro fuel
    rfl

/-! ## C strings -/

theorem cstr_zero_append (lit rest : List Nat) (h : ∀ x ∈ lit, x ≠ 0) :
    cstr (lit ++ rest) 0 = lit ++ cstr rest 0 := by
  simp only [cstr, List.drop_zero]
  apply List.takeWhile_append_of_pos
  intro a ha
  simpa using h a ha

theorem cstr_zero_isPrefix (buf : List Nat) : cstr buf 0 <+: buf := by
  simp only [cstr, List.drop_zero]
  exact List.takeWhile_prefix _

/-- For a literal without terminator, `!strncmp(buf, lit, strlen(lit))` holds
exactly when the buffer starts with the literal. -/
theorem strncmp_eq_iff_isPrefix (buf lit : List Nat) (h : ∀ x ∈ lit, x ≠ 0) :
    strncmp_eq buf 0 lit lit.length = true ↔ lit <+: buf := by
  have hl : cstr lit 0 = lit := by
    have := cstr_zero_append lit [] h
    simpa [cstr] using this
  simp only [strncmp_eq, hl, List.take_length, beq_iff_eq]
  constructor
  · intro hp
    have h1 : (cstr buf 0).take lit.length <+: cstr buf 0 := List.take_prefix _ _
    rw [hp] at h1
    exact h1.trans (cstr_zero_isPrefix buf)
  · rintro ⟨rest, rfl⟩
    rw [cstr_zero_append lit rest h]
    simp

/-! ## The method line and the attempt cap -/

/-- One call of `http_request_validate` on an incomplete buffer, below and at
the cap of ten attempts. -/
theorem http_request_validate_incomplete (env : Env) (w : web_client) (buf : List Nat)
    (hinc : env.url_is_request_complete buf 0 buf.length buf.length = HTTP_VALIDATION_INCOMPLETE)
    (ht : w.header_parse_tries ≤ 10) :
    (w.header_parse_tries < 10 →
      http_request_validate env (set_buffer w buf)
        = some (HTTP_VALIDATION_INCOMPLETE, incomplete_state w buf)) ∧
    (w.header_parse_tries = 10 →
      http_request_validate env (set_buffer w buf)
        = some (HTTP_VALIDATION_NOT_SUPPORTED, capped_state w buf)) := by
  have hmod : (w.header_parse_tries + 1) % SIZE_T_MOD = w.header_parse_tries + 1 := by
    apply Nat.mod_eq_of_lt
    simp only [SIZE_T_MOD]
    omega
  constructor
  · intro hlt
    have h10 : ¬ 10 < w.header_parse_tries + 1 := by omega
    simp [http_request_validate, set_buffer, incomplete_state, buffer_strlen, hmod, hinc, h10]
  · intro heq
    have h10 : 10 < w.header_parse_tries + 1 := by omega
    simp [http_request_validate, set_buffer, capped_state, buffer_strlen, hmod, hinc, h10]

/-- The attempt cap over a sequence of calls that starts with any number of
attempts already made. -/
theorem call_sequence_incomplete (env : Env) :
    ∀ (bufs : List (List Nat)) (w : web_client) (k : Nat),
      (∀ b ∈ bufs, env.url_is_request_complete b 0 b.length b.length
        = HTTP_VALIDATION_INCOMPLETE) →
      k < bufs.length → w.header_parse_tries + k ≤ 10 →
      ∃ v w', (call_sequence env bufs w).get? k = some (some (v, w')) ∧
        (w.header_parse_tries + k < 10 →
          v = HTTP_VALIDATION_INCOMPLETE ∧ w'.flag_wait_receive = true ∧
          w'.header_parse_tries = w.header_parse_tries + k + 1 ∧
          w'.header_parse_last_size = (bufs.getD k []).length) ∧
        (w.header_parse_tries + k = 10 →
          v = HTTP_VALIDATION_NOT_SUPPORTED ∧ w'.flag_wait_receive = false ∧
          w'.header_parse_tries = 0 ∧ w'.header_parse_last_size = 0) := by
  intro bufs
  induction bufs with
  | nil => intro w k _ hk; simp at hk
  | cons b rest ih =>
    intro w k hinc hk ht
    have hb := hinc b (List.mem_cons_self b rest)
    have hstep := http_request_validate_incomplete env w b hb (by omega)
    cases k with
    | zero =>
      rcases Nat.lt_or_ge w.header_parse_tries 10 with hlt | hge
      · refine ⟨HTTP_VALIDATION_INCOMPLETE, incomplete_state w b, ?_, ?_, ?_⟩
        · simp only [call_sequence, hstep.1 hlt]
          rfl
        · intro _
          simp [incomplete_state]
        · intro h
          omega
      · have heq : w.header_parse_tries = 10 := by omega
        refine ⟨HTTP_VALIDATION_NOT_SUPPORTED, capped_state w b, ?_, ?_, ?_⟩
        · simp only [call_sequence, hstep.2 heq]
          rfl
        · intro h
          omega
        · intro _
          simp [capped_state]
    | succ n =>
      have hlt : w.header_parse_tries < 10 := by omega
      have hrest : ∀ b ∈ rest, env.url_is_request_complete b 0 b.length b.length
          = HTTP_VALIDATION_INCOMPLETE := fun b' hb' => hinc b' (List.mem_cons_of_mem b hb')
      have hn : n < rest.length := by simpa using hk
      have htries : (incomplete_state w b).header_parse_tries = w.header_parse_tries + 1 := rfl
      obtain ⟨v, w', hget, h1, h2⟩ := ih (incomplete_state w b) n hrest hn (by rw [htries]; omega)
      refine ⟨v, w', ?_, ?_, ?_⟩
      · simp only [call_sequence, hstep.1 hlt]
        simpa using hget
      · intro h
        have h3 := h1 (by rw [htries]; omega)
        rw [htries] at h3
        refine ⟨h3.1, h3.2.1, ?_, ?_⟩
        · rw [h3.2.2.1]; omega
        · simpa using h3.2.2.2
      · intro h
        exact h2 (by rw [htries]; omega)

/-- C5: starting from `header_parse_tries = 0`, over any sequence of calls of
`http_request_validate` on buffers whose header block is incomplete, each of
the first ten calls returns INCOMPLETE with receive-interest enabled and the
attempt counter one higher than before (and the buffer size recorded), and the
eleventh call returns NOT_SUPPORTED with receive-interest disabled and
`header_parse_tries` and `header_parse_last_size` reset to 0. -/
theorem http_request_validate_attempt_cap (env : Env) (w : web_client)
    (bufs : List (List Nat)) (k : Nat)
    (h0 : w.header_parse_tries = 0)
    (hinc : ∀ b ∈ bufs, env.url_is_request_complete b 0 b.length b.length
      = HTTP_VALIDATION_INCOMPLETE)
    (hk : k < bufs.length) (hk10 : k ≤ 10) :
    ∃ v w', (call_sequence env bufs w).get? k = some (some (v, w')) ∧
      (k < 10 →
        v = HTTP_VALIDATION_INCOMPLETE ∧ w'.flag_wait_receive = true ∧
        w'.header_parse_tries = k + 1 ∧
        w'.header_parse_last_size = (bufs.getD k []).length) ∧
      (k = 10 →
        v = HTTP_VALIDATION_NOT_SUPPORTED ∧ w'.flag_wait_receive = false ∧
        w'.header_parse_tries = 0 ∧ w'.header_parse_last_size = 0) := by
  obtain ⟨v, w', hget, h1, h2⟩ := call_sequence_incomplete env bufs w k hinc hk (by omega)
  refine ⟨v, w', hget, ?_, ?_⟩
  · intro h
    have := h1 (by omega)
    rw [h0] at this
    simpa using this
  · intro h
    exact h2 (by omega)

/-- C4: with transport-encryption forcing off, `web_client_parse_method` returns
a position exactly when the buffer starts with `GET `, `OPTIONS ` or `STREAM `
(as written, the space included); it then sets the mode to NORMAL, OPTIONS or
STREAM and returns offset 4, 8 or 7. For any other start it returns NULL and
leaves the state, the mode with it, as it was, and `http_request_validate` on
a complete request returns NOT_SUPPORTED with receive-interest disabled. -/
theorem web_client_parse_method_verbs (env : Env) (w : web_client) (buf : List Nat)
    (hforce : ¬ (env.ENABLE_HTTPS = true ∧ w.ssl_flags ≠ 0 ∧
      env.netdata_use_ssl_on_stream &&& env.NETDATA_SSL_FORCE ≠ 0)) :
    ((web_client_parse_method env w buf 0).2 ≠ none ↔
      (str "GET " <+: buf ∨ str "OPTIONS " <+: buf ∨ str "STREAM " <+: buf)) ∧
    (str "GET " <+: buf → web_client_parse_method env w buf 0
      = ({ w with mode := WEB_CLIENT_MODE_NORMAL }, some 4)) ∧
    (str "OPTIONS " <+: buf → web_client_parse_method env w buf 0
      = ({ w with mode := WEB_CLIENT_MODE_OPTIONS }, some 8)) ∧
    (str "STREAM " <+: buf → web_client_parse_method env w buf 0
      = ({ w with mode := WEB_CLIENT_MODE_STREAM }, some 7)) ∧
    (¬ (str "GET " <+: buf ∨ str "OPTIONS " <+: buf ∨ str "STREAM " <+: buf) →
      web_client_parse_method env w buf 0 = (w, none) ∧
      (w.response.data.buffer = buf →
        env.url_is_request_complete buf 0 buf.length buf.length ≠ HTTP_VALIDATION_INCOMPLETE →
        ∃ w', http_request_validate env w = some (HTTP_VALIDATION_NOT_SUPPORTED, w') ∧
          w'.flag_wait_receive = false ∧ w'.mode = w.mode)) := by
  have hG := strncmp_eq_iff_isPrefix buf (str "GET ") (by decide)
  have hO := strncmp_eq_iff_isPrefix buf (str "OPTIONS ") (by decide)
  have hS := strncmp_eq_iff_isPrefix buf (str "STREAM ") (by decide)
  have lG : (str "GET ").length = 4 := by decide
  have lO : (str "OPTIONS ").length = 8 := by decide
  have lS : (str "STREAM ").length = 7 := by decide
  rw [lG] at hG
  rw [lO] at hO
  rw [lS] at hS
  have hGO : str "GET " <+: buf → ¬ str "OPTIONS " <+: buf := by
    rintro ⟨r1, rfl⟩ ⟨r2, h2⟩
    simp [str] at h2
  have hGS : str "GET " <+: buf → ¬ str "STREAM " <+: buf := by
    rintro ⟨r1, rfl⟩ ⟨r2, h2⟩
    simp [str] at h2
  have hOS : str "OPTIONS " <+: buf → ¬ str "STREAM " <+: buf := by
    rintro ⟨r1, rfl⟩ ⟨r2, h2⟩
    simp [str] at h2
  by_cases pG : str "GET " <+: buf
  · have sG := hG.2 pG
    have sO : ¬ str "OPTIONS " <+: buf := hGO pG
    have sS : ¬ str "STREAM " <+: buf := hGS pG
    simp [web_client_parse_method, sG, pG, sO, sS]
  · have sG : strncmp_eq buf 0 (str "GET ") 4 = false := by
      rw [Bool.eq_false_iff]; intro h; exact pG (hG.1 h)
    by_cases pO : str "OPTIONS " <+: buf
    · have sO := hO.2 pO
      have sS : ¬ str "STREAM " <+: buf := hOS pO
      simp [web_client_parse_method, sG, pG, sO, pO, sS]
    · have sO : strncmp_eq buf 0 (str "OPTIONS ") 8 = false := by
        rw [Bool.eq_false_iff]; intro h; exact pO (hO.1 h)
      by_cases pS : str "STREAM " <+: buf
      · have sS := hS.2 pS
        have hf : ¬ (env.ENABLE_HTTPS = true ∧ ¬ w.ssl_flags = 0 ∧
            ¬ env.netdata_use_ssl_on_stream &&& env.NETDATA_SSL_FORCE = 0) := hforce
        simp [web_client_parse_method, sG, pG, sO, pO, sS, pS, hf]
      · have sS : strncmp_eq buf 0 (str "STREAM ") 7 = false := by
          rw [Bool.eq_false_iff]; intro h; exact pS (hS.1 h)
        simp only [web_client_parse_method, sG, sO, sS, pG, pO, pS]
        simp only [Bool.false_eq_true, if_false, or_self, not_false_eq_true, ne_eq,
          not_true_eq_false, iff_self, true_and, false_implies, true_implies]
        intro hbuf hcomp
        refine ⟨{ w with header_parse_tries := 0, header_parse_last_size := 0,
                         flag_wait_receive := false }, ?_, rfl, rfl⟩
        by_cases h10 : 10 < (w.header_parse_tries + 1) % SIZE_T_MOD
        · simp [http_request_validate, http_request_validate_parse, web_client_parse_method,
            buffer_strlen, hbuf, hcomp, h10, sG, sO, sS]
        · simp [http_request_validate, http_request_validate_parse, web_client_parse_method,
            buffer_strlen, hbuf, hcomp, h10, sG, sO, sS]

/-- Witness of C5: eleven calls on the incomplete buffer `GET /`, with the
collaborators as the specification describes them; the eleventh call is the one
cut off. -/
theorem http_request_validate_attempt_cap_witness :
    (web_client_zero.header_parse_tries = 0 ∧
      (∀ b ∈ List.replicate 11 (str "GET /"),
        spec_env.url_is_request_complete b 0 b.length b.length = HTTP_VALIDATION_INCOMPLETE) ∧
      10 < (List.replicate 11 (str "GET /")).length ∧ 10 ≤ 10) ∧
    ∃ v w', (call_sequence spec_env (List.replicate 11 (str "GET /")) web_client_zero).get? 10
        = some (some (v, w')) ∧
      (10 < 10 →
        v = HTTP_VALIDATION_INCOMPLETE ∧ w'.flag_wait_receive = true ∧
        w'.header_parse_tries = 10 + 1 ∧
        w'.header_parse_last_size = ((List.replicate 11 (str "GET /")).getD 10 []).length) ∧
      (10 = 10 →
        v = HTTP_VALIDATION_NOT_SUPPORTED ∧ w'.flag_wait_receive = false ∧
        w'.header_parse_tries = 0 ∧ w'.header_parse_last_size = 0) :=
  ⟨⟨rfl, by decide, by decide, by decide⟩,
    http_request_validate_attempt_cap spec_env web_client_zero (List.replicate 11 (str "GET /")) 10
      rfl (by decide) (by decide) (by decide)⟩

/-- Witness of C4: the lower-case verb of `get / HTTP/1.1` is not recognised and
the complete request is answered NOT_SUPPORTED; `GET / HTTP/1.1` is recognised
at offset 4. -/
theorem web_client_parse_method_verbs_witness :
    ¬ (spec_env.ENABLE_HTTPS = true ∧ web_client_zero.ssl_flags ≠ 0 ∧
      spec_env.netdata_use_ssl_on_stream &&& spec_env.NETDATA_SSL_FORCE ≠ 0) ∧
    web_client_parse_method spec_env web_client_zero (str "GET / HTTP/1.1\r\n\r\n") 0
      = ({ web_client_zero with mode := WEB_CLIENT_MODE_NORMAL }, some 4) ∧
    web_client_parse_method spec_env (set_buffer web_client_zero (str "get / HTTP/1.1\r\n\r\n"))
        (str "get / HTTP/1.1\r\n\r\n") 0
      = (set_buffer web_client_zero (str "get / HTTP/1.1\r\n\r\n"), none) ∧
    ∃ w', http_request_validate spec_env (set_buffer web_client_zero (str "get / HTTP/1.1\r\n\r\n"))
        = some (HTTP_VALIDATION_NOT_SUPPORTED, w') ∧
      w'.flag_wait_receive = false ∧
      w'.mode = (set_buffer web_client_zero (str "get / HTTP/1.1\r\n\r\n")).mode :=
  ⟨by decide,
    (web_client_parse_method_verbs spec_env web_client_zero (str "GET / HTTP/1.1\r\n\r\n")
      (by decide)).2.1 (by decide),
    ((web_client_parse_method_verbs spec_env
      (set_buffer web_client_zero (str "get / HTTP/1.1\r\n\r\n")) (str "get / HTTP/1.1\r\n\r\n")
      (by decide)).2.2.2.2 (by decide)).1,
    ((web_client_parse_method_verbs spec_env
      (set_buffer web_client_zero (str "get / HTTP/1.1\r\n\r\n")) (str "get / HTTP/1.1\r\n\r\n")
      (by decide)).2.2.2.2 (by decide)).2 rfl (by decide)⟩

/-! ## Strings held in the decoded-URL array -/

theorem cstr_of_holds (buf u : List Nat) (i : Nat) (h : holds_string buf u)
    (hi : i ≤ u.length) : cstr buf i = u.drop i := by
  obtain ⟨⟨rest, rfl⟩, hnz, hterm⟩ := h
  have hrest : rest.takeWhile (fun c => c != 0) = [] := by
    cases rest with
    | nil => rfl
    | cons r rs =>
      have : r = 0 := by
        have h1 : peek (u ++ r :: rs) u.length = (r :: rs).getD (u.length - u.length) 0 :=
          List.getD_append_right u (r :: rs) 0 u.length (Nat.le_refl _)
        rw [hterm] at h1
        simpa using h1.symm
      simp [this]
  simp only [cstr]
  rw [List.drop_append_of_le_length hi]
  rw [List.takeWhile_append_of_pos, hrest, List.append_nil]
  intro a ha
  simpa using hnz a (List.mem_of_mem_drop ha)

theorem strlen_of_holds (buf u : List Nat) (h : holds_string buf u) :
    strlen buf 0 = u.length := by
  simp [strlen, cstr_of_holds buf u 0 h (Nat.zero_le _)]

/-- The first `c` at or after offset `i` of a held string. -/
theorem strchr_of_holds_mem (buf u a b : List Nat) (c i j : Nat) (h : holds_string buf u)
    (hu : u = a ++ c :: b) (hj : j = a.length) (hi : i ≤ a.length) (hc : c ∉ a.drop i) :
    strchr buf i c = some j := by
  have hlen : i ≤ u.length := by rw [hu]; simp; omega
  have hd : u.drop i = a.drop i ++ c :: b := by
    rw [hu, List.drop_append_of_le_length hi]
  simp only [strchr, cstr_of_holds buf u i h hlen, hd]
  rw [if_pos (by simp), List.indexOf_append_of_not_mem hc, List.indexOf_cons_self]
  simp
  omega

/-- No `c` at or after offset `i` of a held string. -/
theorem strchr_of_holds_not_mem (buf u : List Nat) (c i : Nat) (h : holds_string buf u)
    (hi : i ≤ u.length) (hc : c ∉ u.drop i) : strchr buf i c = none := by
  simp only [strchr, cstr_of_holds buf u i h hi]
  rw [if_neg hc]

theorem strncmp_eq_of_holds (buf u lit : List Nat) (i n : Nat) (h : holds_string buf u)
    (hi : i ≤ u.length) :
    strncmp_eq buf i lit n = ((u.drop i).take n == (cstr lit 0).take n) := by
  simp only [strncmp_eq, cstr_of_holds buf u i h hi]

/-- The test `!strncmp(buf + i, lit, strlen(lit))` succeeds where the held
string continues with `lit`. -/
theorem strncmp_eq_of_holds_at (buf u a lit b : List Nat) (i n : Nat) (h : holds_string buf u)
    (hu : u = a ++ (lit ++ b)) (hi : i = a.length) (hn : n = lit.length)
    (hlit : ∀ x ∈ lit, x ≠ 0) : strncmp_eq buf i lit n = true := by
  have hl : cstr lit 0 = lit := by
    have := cstr_zero_append lit [] hlit
    simpa [cstr] using this
  have hi' : i ≤ u.length := by rw [hu, hi]; simp
  rw [strncmp_eq_of_holds buf u lit i n h hi', hl, hu, hi, hn]
  simp

theorem size_t_sub_of_le (a b : Nat) (hb : b ≤ a) (ha : a < SIZE_T_MOD) :
    size_t_sub a b = a - b := by
  simp only [size_t_sub]
  have : a + SIZE_T_MOD - b = (a - b) + SIZE_T_MOD := by omega
  rw [this, Nat.add_mod_right]
  exact Nat.mod_eq_of_lt (by omega)

/-- The bytes of a span that covers the part `m` of the string `u`. -/
theorem span_bytes_of_split (u a m b : List Nat) (i n : Nat) (hu : u = a ++ (m ++ b))
    (hi : i = a.length) (hn : n = m.length) :
    span_bytes u { body := some i, length := n } = some m := by
  simp [span_bytes, hu, hi, hn]

/-! ## The split of a URL without query string -/

/-- C6: for every decoded URL without `?` that starts with `/api/v1/info`
(respectively `/api/v1/charts`), `web_client_split_path_query` leaves the
directory span on `api`, the version span on `v1` and the command span on
`info` (respectively `charts`), with an empty query span and no parameters;
and the request `GET /api/v1/info HTTP/1.1` with a `Host` line is validated OK
with directory `api`, version `v1` and command `info`. -/
theorem web_client_split_path_query_info_charts (env : Env) (w : web_client) (u : List Nat)
    (hu : holds_string w.decoded_url u) (hq : QUESTION ∉ u) :
    (str "/api/v1/info" <+: u →
      (web_client_split_path_query env w).directory = { body := some 1, length := 3 } ∧
      (web_client_split_path_query env w).version = { body := some 5, length := 2 } ∧
      (web_client_split_path_query env w).command = { body := some 8, length := 4 } ∧
      (web_client_split_path_query env w).query_string = { body := none, length := 0 } ∧
      (web_client_split_path_query env w).total_params = 0 ∧
      span_bytes u (web_client_split_path_query env w).directory = some (str "api") ∧
      span_bytes u (web_client_split_path_query env w).version = some (str "v1") ∧
      span_bytes u (web_client_split_path_query env w).command = some (str "info")) ∧
    (str "/api/v1/charts" <+: u →
      (web_client_split_path_query env w).directory = { body := some 1, length := 3 } ∧
      (web_client_split_path_query env w).version = { body := some 5, length := 2 } ∧
      (web_client_split_path_query env w).command = { body := some 8, length := 6 } ∧
      (web_client_split_path_query env w).query_string = { body := none, length := 0 } ∧
      (web_client_split_path_query env w).total_params = 0 ∧
      span_bytes u (web_client_split_path_query env w).directory = some (str "api") ∧
      span_bytes u (web_client_split_path_query env w).version = some (str "v1") ∧
      span_bytes u (web_client_split_path_query env w).command = some (str "charts")) ∧
    (validate_once spec_env web_client_zero
        (str "GET /api/v1/info HTTP/1.1\r\nHost: x\r\n\r\n")).map
      (fun r => (r.1, span_bytes r.2.decoded_url r.2.directory,
        span_bytes r.2.decoded_url r.2.version, span_bytes r.2.decoded_url r.2.command))
      = some (HTTP_VALIDATION_OK, some (str "api"), some (str "v1"), some (str "info")) := by
  have hQ : strchr w.decoded_url 0 QUESTION = none :=
    strchr_of_holds_not_mem _ _ QUESTION 0 hu (Nat.zero_le _) (by simpa using hq)
  have hs41 : size_t_sub 4 1 = 3 := by decide
  have hs75 : size_t_sub 7 5 = 2 := by decide
  refine ⟨?_, ?_, ?_⟩
  · rintro ⟨rest, rfl⟩
    have e1 : str "/api/v1/info" ++ rest = str "/api" ++ SLASH :: (str "v1/info" ++ rest) := by
      have : str "/api/v1/info" = str "/api" ++ SLASH :: str "v1/info" := by decide
      rw [this]; simp
    have e2 : str "/api/v1/info" ++ rest = str "/api/v1" ++ SLASH :: (str "info" ++ rest) := by
      have : str "/api/v1/info" = str "/api/v1" ++ SLASH :: str "info" := by decide
      rw [this]; simp
    have e3 : str "/api/v1/info" ++ rest = str "/" ++ (str "api/v1/" ++ (str "info" ++ rest)) := by
      have : str "/api/v1/info" = str "/" ++ (str "api/v1/" ++ str "info") := by decide
      rw [this]; simp
    have e4 : str "/api/v1/info" ++ rest = str "/api/v1/" ++ (str "info" ++ rest) := by
      have : str "/api/v1/info" = str "/api/v1/" ++ str "info" := by decide
      rw [this]; simp
    have e5 : str "/api/v1/info" ++ rest = str "/" ++ (str "api" ++ (str "/v1/info" ++ rest)) := by
      have : str "/api/v1/info" = str "/" ++ (str "api" ++ str "/v1/info") := by decide
      rw [this]; simp
    have e6 : str "/api/v1/info" ++ rest = str "/api/" ++ (str "v1" ++ (str "/info" ++ rest)) := by
      have : str "/api/v1/info" = str "/api/" ++ (str "v1" ++ str "/info") := by decide
      rw [this]; simp
    have hS1 := strchr_of_holds_mem _ _ _ _ SLASH 1 4 hu e1 (by decide) (by decide) (by decide)
    have hS2 := strchr_of_holds_mem _ _ _ _ SLASH 6 7 hu e2 (by decide) (by decide) (by decide)
    have hc1 := strncmp_eq_of_holds_at _ _ _ _ _ 1 7 hu e3 (by decide) (by decide) (by decide)
    have hc2 := strncmp_eq_of_holds_at _ _ _ _ _ 8 4 hu e4 (by decide) (by decide) (by decide)
    have hd : (web_client_split_path_query env w).directory = { body := some 1, length := 3 } := by
      simp [web_client_split_path_query, web_client_set_without_query_string, hQ, hS1, hS2, hc1,
        hc2, hs41]
    have hv : (web_client_split_path_query env w).version = { body := some 5, length := 2 } := by
      simp [web_client_split_path_query, web_client_set_without_query_string, hQ, hS1, hS2, hc1,
        hc2, hs75]
    have hcmd : (web_client_split_path_query env w).command = { body := some 8, length := 4 } := by
      simp [web_client_split_path_query, web_client_set_without_query_string, hQ, hS1, hS2, hc1,
        hc2]
    refine ⟨hd, hv, hcmd, ?_, ?_, ?_, ?_, ?_⟩
    · simp [web_client_split_path_query, web_client_set_without_query_string, hQ, hS1, hS2, hc1,
        hc2]
    · simp [web_client_split_path_query, web_client_set_without_query_string, hQ, hS1, hS2, hc1,
        hc2]
    · rw [hd]
      exact span_bytes_of_split _ _ _ _ 1 3 e5 (by decide) (by decide)
    · rw [hv]
      exact span_bytes_of_split _ _ _ _ 5 2 e6 (by decide) (by decide)
    · rw [hcmd]
      exact span_bytes_of_split _ _ _ _ 8 4 e4 (by decide) (by decide)
  · rintro ⟨rest, rfl⟩
    have e1 : str "/api/v1/charts" ++ rest = str "/api" ++ SLASH :: (str "v1/charts" ++ rest) := by
      have : str "/api/v1/charts" = str "/api" ++ SLASH :: str "v1/charts" := by decide
      rw [this]; simp
    have e2 : str "/api/v1/charts" ++ rest = str "/api/v1" ++ SLASH :: (str "charts" ++ rest) := by
      have : str "/api/v1/charts" = str "/api/v1" ++ SLASH :: str "charts" := by decide
      rw [this]; simp
    have e3 : str "/api/v1/charts" ++ rest
        = str "/" ++ (str "api/v1/" ++ (str "charts" ++ rest)) := by
      have : str "/api/v1/charts" = str "/" ++ (str "api/v1/" ++ str "charts") := by decide
      rw [this]; simp
    have e4 : str "/api/v1/charts" ++ rest = str "/api/v1/" ++ (str "charts" ++ rest) := by
      have : str "/api/v1/charts" = str "/api/v1/" ++ str "charts" := by decide
      rw [this]; simp
    have e5 : str "/api/v1/charts" ++ rest
        = str "/" ++ (str "api" ++ (str "/v1/charts" ++ rest)) := by
      have : str "/api/v1/charts" = str "/" ++ (str "api" ++ str "/v1/charts") := by decide
      rw [this]; simp
    have e6 : str "/api/v1/charts" ++ rest
        = str "/api/" ++ (str "v1" ++ (str "/charts" ++ rest)) := by
      have : str "/api/v1/charts" = str "/api/" ++ (str "v1" ++ str "/charts") := by decide
      rw [this]; simp
    have hS1 := strchr_of_holds_mem _ _ _ _ SLASH 1 4 hu e1 (by decide) (by decide) (by decide)
    have hS2 := strchr_of_holds_mem _ _ _ _ SLASH 6 7 hu e2 (by decide) (by decide) (by decide)
    have hc1 := strncmp_eq_of_holds_at _ _ _ _ _ 1 7 hu e3 (by decide) (by decide) (by decide)
    have hc3 := strncmp_eq_of_holds_at _ _ _ _ _ 8 6 hu e4 (by decide) (by decide) (by decide)
    have hc2 : strncmp_eq w.decoded_url 8 (str "info") 4 = false := by
      rw [strncmp_eq_of_holds _ _ _ 8 4 hu (by simp [str])]
      have : str "/api/v1/charts" = str "/api/v1/" ++ str "charts" := by decide
      rw [this]
      simp [str, cstr]
    have hd : (web_client_split_path_query env w).directory = { body := some 1, length := 3 } := by
      simp [web_client_split_path_query, web_client_set_without_query_string, hQ, hS1, hS2, hc1,
        hc2, hc3, hs41]
    have hv : (web_client_split_path_query env w).version = { body := some 5, length := 2 } := by
      simp [web_client_split_path_query, web_client_set_without_query_string, hQ, hS1, hS2, hc1,
        hc2, hc3, hs75]
    have hcmd : (web_client_split_path_query env w).command = { body := some 8, length := 6 } := by
      simp [web_client_split_path_query, web_client_set_without_query_string, hQ, hS1, hS2, hc1,
        hc2, hc3]
    refine ⟨hd, hv, hcmd, ?_, ?_, ?_, ?_, ?_⟩
    · simp [web_client_split_path_query, web_client_set_without_query_string, hQ, hS1, hS2, hc1,
        hc2, hc3]
    · simp [web_client_split_path_query, web_client_set_without_query_string, hQ, hS1, hS2, hc1,
        hc2, hc3]
    · rw [hd]
      exact span_bytes_of_split _ _ _ _ 1 3 e5 (by decide) (by decide)
    · rw [hv]
      exact span_bytes_of_split _ _ _ _ 5 2 e6 (by decide) (by decide)
    · rw [hcmd]
      exact span_bytes_of_split _ _ _ _ 8 6 e4 (by decide) (by decide)
  · decide

/-- Witness of C6: the decoded URL `/api/v1/info`. -/
theorem web_client_split_path_query_info_charts_witness :
    (holds_string ({ web_client_zero with decoded_url := str "/api/v1/info" }).decoded_url
        (str "/api/v1/info") ∧ QUESTION ∉ str "/api/v1/info" ∧
      str "/api/v1/info" <+: str "/api/v1/info") ∧
    (web_client_split_path_query spec_env
      { web_client_zero with decoded_url := str "/api/v1/info" }).command
      = { body := some 8, length := 4 } :=
  ⟨by decide,
    ((web_client_split_path_query_info_charts spec_env
      { web_client_zero with decoded_url := str "/api/v1/info" } (str "/api/v1/info")
      (by decide) (by decide)).1 (by decide)).2.2.1⟩

/-! ## The split of a URL with a query string -/

/-- The parameter block writes the parameter fields only. -/
theorem web_client_split_path_query_params_frame (env : Env) (w : web_client) (moveme : Nat) :
    ∃ pn pv tp, web_client_split_path_query_params env w moveme
      = { w with param_name := pn, param_values := pv, total_params := tp } := by
  unfold web_client_split_path_query_params
  by_cases hb : w.query_string.body.isSome = true
  · rw [if_pos hb]
    cases hd : strchr w.decoded_url moveme EQUALS with
    | none =>
      exact ⟨_, _, _, by simp [web_client_parse_request]; exact ⟨rfl, rfl, rfl⟩⟩
    | some d =>
      by_cases hr : (web_client_parse_request env w (some d)).2 = 0
      · exact ⟨_, _, _, by
          simp only [hr, if_true]; simp [web_client_parse_request]; exact ⟨rfl, rfl, rfl⟩⟩
      · exact ⟨_, _, _, by
          simp only [hr, if_false]; simp [web_client_parse_request]; exact ⟨rfl, rfl, rfl⟩⟩
  · rw [if_neg hb]
    exact ⟨w.param_name, w.param_values, w.total_params, rfl⟩

/-- The split of a URL that holds a `?` at offset `moveme`: the
directory, version and command spans are those `web_client_set_directory`
leaves. -/
theorem web_client_split_path_query_spans (env : Env) (w : web_client) (moveme : Nat)
    (hQ : strchr w.decoded_url 0 QUESTION = some moveme) :
    (web_client_split_path_query env w).directory
      = (web_client_set_directory (split_query_state w moveme) 1
          (strchr w.decoded_url 1 SLASH) moveme).directory ∧
    (web_client_split_path_query env w).version
      = (web_client_set_directory (split_query_state w moveme) 1
          (strchr w.decoded_url 1 SLASH) moveme).version ∧
    (web_client_split_path_query env w).command
      = (web_client_set_directory (split_query_state w moveme) 1
          (strchr w.decoded_url 1 SLASH) moveme).command := by
  obtain ⟨pn, pv, tp, h⟩ := web_client_split_path_query_params_frame env
    (web_client_set_directory (split_query_state w moveme) 1
      (strchr w.decoded_url 1 SLASH) moveme) moveme
  have e : web_client_split_path_query env w = web_client_split_path_query_params env
      (web_client_set_directory (split_query_state w moveme) 1
        (strchr w.decoded_url 1 SLASH) moveme) moveme := by
    simp only [web_client_split_path_query, hQ]
    rfl
  rw [e, h]
  exact ⟨rfl, rfl, rfl⟩

/-- C7: for every decoded URL `/api/` ++ ver ++ `/` ++ cmd ++ `?` ++ q, where
ver holds neither `/` nor `?` and cmd no `?`, `web_client_split_path_query`
leaves the directory span on `api`, the version span on ver and the command
span on cmd, all that lies between the slash after the version and the `?`. -/
theorem web_client_split_path_query_api_query (env : Env) (w : web_client)
    (ver cmd q : List Nat)
    (hu : holds_string w.decoded_url (str "/api/" ++ (ver ++ SLASH :: (cmd ++ QUESTION :: q))))
    (hver : SLASH ∉ ver ∧ QUESTION ∉ ver) (hcmd : QUESTION ∉ cmd)
    (hlen : (str "/api/" ++ (ver ++ SLASH :: (cmd ++ QUESTION :: q))).length < SIZE_T_MOD) :
    (web_client_split_path_query env w).directory = { body := some 1, length := 3 } ∧
    (web_client_split_path_query env w).version = { body := some 5, length := ver.length } ∧
    (web_client_split_path_query env w).command
      = { body := some (6 + ver.length), length := cmd.length } ∧
    span_bytes (str "/api/" ++ (ver ++ SLASH :: (cmd ++ QUESTION :: q)))
      (web_client_split_path_query env w).directory = some (str "api") ∧
    span_bytes (str "/api/" ++ (ver ++ SLASH :: (cmd ++ QUESTION :: q)))
      (web_client_split_path_query env w).version = some ver ∧
    span_bytes (str "/api/" ++ (ver ++ SLASH :: (cmd ++ QUESTION :: q)))
      (web_client_split_path_query env w).command = some cmd := by
  have l5 : (str "/api/").length = 5 := by decide
  have hlen' : 5 + (ver.length + (cmd.length + (q.length + 1) + 1)) < SIZE_T_MOD := by
    simpa [l5] using hlen
  have eQ : str "/api/" ++ (ver ++ SLASH :: (cmd ++ QUESTION :: q))
      = (str "/api/" ++ (ver ++ SLASH :: cmd)) ++ QUESTION :: q := by simp
  have hQ := strchr_of_holds_mem _ _ _ _ QUESTION 0 (6 + ver.length + cmd.length) hu eQ
    (by simp [l5]; omega) (Nat.zero_le _)
    (by
      have : QUESTION ∉ str "/api/" := by decide
      have : ¬ QUESTION = SLASH := by decide
      simp [*])
  have e1 : str "/api/" ++ (ver ++ SLASH :: (cmd ++ QUESTION :: q))
      = str "/api" ++ SLASH :: (ver ++ SLASH :: (cmd ++ QUESTION :: q)) := by
    have : str "/api/" = str "/api" ++ [SLASH] := by decide
    rw [this]; simp
  have hS1 := strchr_of_holds_mem _ _ _ _ SLASH 1 4 hu e1 (by decide) (by decide) (by decide)
  have e2 : str "/api/" ++ (ver ++ SLASH :: (cmd ++ QUESTION :: q))
      = (str "/api/" ++ ver) ++ SLASH :: (cmd ++ QUESTION :: q) := by simp
  have hS2 := strchr_of_holds_mem _ _ _ _ SLASH 5 (5 + ver.length) hu e2 (by simp [l5])
    (by simp [l5]) (by
      rw [← l5, List.drop_left]
      exact hver.1)
  have e3 : str "/api/" ++ (ver ++ SLASH :: (cmd ++ QUESTION :: q))
      = str "/" ++ (str "api" ++ (SLASH :: (ver ++ SLASH :: (cmd ++ QUESTION :: q)))) := by
    have : str "/api/" = str "/" ++ (str "api" ++ [SLASH]) := by decide
    rw [this]; simp
  have e4 : str "/api/" ++ (ver ++ SLASH :: (cmd ++ QUESTION :: q))
      = str "/api/" ++ (ver ++ (SLASH :: (cmd ++ QUESTION :: q))) := rfl
  have e5 : str "/api/" ++ (ver ++ SLASH :: (cmd ++ QUESTION :: q))
      = (str "/api/" ++ (ver ++ [SLASH])) ++ (cmd ++ (QUESTION :: q)) := by simp
  have hc1 := strncmp_eq_of_holds_at _ _ _ _ _ 1 3 hu e3 (by decide) (by decide) (by decide)
  have hs41 : size_t_sub 4 1 = 3 := by decide
  have hsv : size_t_sub (5 + ver.length) 5 = ver.length := by
    rw [size_t_sub_of_le _ _ (by omega) (by omega)]; omega
  have hsc : size_t_sub (6 + ver.length + cmd.length) (6 + ver.length) = cmd.length := by
    rw [size_t_sub_of_le _ _ (by omega) (by omega)]; omega
  have h561 : 5 + ver.length + 1 = 6 + ver.length := by omega
  obtain ⟨hd0, hv0, hcmd0⟩ := web_client_split_path_query_spans env w _ hQ
  have hd : (web_client_split_path_query env w).directory = { body := some 1, length := 3 } := by
    rw [hd0]
    simp [web_client_set_directory, split_query_state, hS1, hS2, hc1, hs41]
  have hv : (web_client_split_path_query env w).version
      = { body := some 5, length := ver.length } := by
    rw [hv0]
    simp [web_client_set_directory, split_query_state, hS1, hS2, hc1, hs41, hsv]
  have hcmd' : (web_client_split_path_query env w).command
      = { body := some (6 + ver.length), length := cmd.length } := by
    rw [hcmd0]
    simp [web_client_set_directory, split_query_state, hS1, hS2, hc1, hs41, hsc, h561]
  refine ⟨hd, hv, hcmd', ?_, ?_, ?_⟩
  · rw [hd]
    exact span_bytes_of_split _ _ _ _ 1 3 e3 (by decide) (by decide)
  · rw [hv]
    exact span_bytes_of_split _ _ _ _ 5 _ e4 (by decide) rfl
  · rw [hcmd']
    exact span_bytes_of_split _ _ _ _ _ _ e5 (by simp [l5]; omega) rfl

/-- Witness of C7: the decoded URL `/api/v1/info?x=1`. -/
theorem web_client_split_path_query_api_query_witness :
    (holds_string ({ web_client_zero with decoded_url := str "/api/v1/info?x=1" }).decoded_url
        (str "/api/" ++ (str "v1" ++ SLASH :: (str "info" ++ QUESTION :: str "x=1"))) ∧
      (SLASH ∉ str "v1" ∧ QUESTION ∉ str "v1") ∧ QUESTION ∉ str "info" ∧
      (str "/api/" ++ (str "v1" ++ SLASH :: (str "info" ++ QUESTION :: str "x=1"))).length
        < SIZE_T_MOD) ∧
    span_bytes (str "/api/" ++ (str "v1" ++ SLASH :: (str "info" ++ QUESTION :: str "x=1")))
      (web_client_split_path_query spec_env
        { web_client_zero with decoded_url := str "/api/v1/info?x=1" }).command
      = some (str "info") :=
  ⟨by decide,
    (web_client_split_path_query_api_query spec_env
      { web_client_zero with decoded_url := str "/api/v1/info?x=1" }
      (str "v1") (str "info") (str "x=1") (by decide) (by decide) (by decide)
      (by decide)).2.2.2.2.2⟩

/-! ## The fast path of a URL without query string -/

/-- On a held string, `!strncmp(buf + i, lit, strlen(lit))` holds exactly when
the string continues with `lit` at offset `i`. -/
theorem strncmp_eq_iff_of_holds (buf u lit : List Nat) (i : Nat) (h : holds_string buf u)
    (hi : i ≤ u.length) (hlit : ∀ x ∈ lit, x ≠ 0) :
    strncmp_eq buf i lit lit.length = true ↔ lit <+: u.drop i := by
  have hl : cstr lit 0 = lit := by
    have := cstr_zero_append lit [] hlit
    simpa [cstr] using this
  rw [strncmp_eq_of_holds buf u lit i lit.length h hi, hl, List.take_length, beq_iff_eq,
    List.prefix_iff_eq_take]
  exact eq_comm

/-- Without a `?`, `web_client_split_path_query` ends in
`web_client_set_without_query_string`, called on a state with the same decoded
URL and the path span covering all of it. -/
theorem web_client_split_path_query_no_query (env : Env) (w : web_client)
    (hQ : strchr w.decoded_url 0 QUESTION = none) :
    ∃ w2 : web_client, web_client_split_path_query env w = web_client_set_without_query_string w2 ∧
      w2.decoded_url = w.decoded_url ∧
      w2.path = { body := some 0, length := strlen w.decoded_url 0 } := by
  simp only [web_client_split_path_query, hQ]
  refine ⟨_, rfl, ?_, ?_⟩
  all_goals
    cases strchr w.decoded_url 1 SLASH with
    | none => rfl
    | some e =>
      simp only []
      cases strchr w.decoded_url (e + 1 + 1) SLASH <;> rfl

/-- C8 (as amended): for every non-empty decoded URL without `?`: if, after its
first character, it starts with `api/v1/` but goes on with neither `info` nor
`charts` (as `/api/v1/data` does), no command is recognised, the command span
is NULL with length 0 and there are no parameters; if it does not start with
`api/v1/` after its first character (as `/index.html`), the command span is
not empty, its body is at index 1, and there are no parameters. -/
theorem web_client_split_path_query_other_paths (env : Env) (w : web_client) (c : Nat)
    (t : List Nat) (hu : holds_string w.decoded_url (c :: t)) (hq : QUESTION ∉ c :: t) :
    (str "api/v1/" <+: t → ¬ str "api/v1/info" <+: t → ¬ str "api/v1/charts" <+: t →
      (web_client_split_path_query env w).command = { body := none, length := 0 } ∧
      (web_client_split_path_query env w).total_params = 0) ∧
    (¬ str "api/v1/" <+: t →
      (web_client_split_path_query env w).command.body = some 1 ∧
      (web_client_split_path_query env w).total_params = 0) := by
  have hQ : strchr w.decoded_url 0 QUESTION = none :=
    strchr_of_holds_not_mem _ _ QUESTION 0 hu (Nat.zero_le _) (by simpa using hq)
  obtain ⟨w2, hw2, hurl, hpath⟩ := web_client_split_path_query_no_query env w hQ
  have hu2 : holds_string w2.decoded_url (c :: t) := by rw [hurl]; exact hu
  have h1 := strncmp_eq_iff_of_holds _ _ (str "api/v1/") 1 hu2 (by simp) (by decide)
  have l7 : (str "api/v1/").length = 7 := by decide
  rw [l7] at h1
  simp only [List.drop_succ_cons, List.drop_zero] at h1
  rw [hw2]
  constructor
  · rintro ⟨r, rfl⟩ hinfo hcharts
    have h8 : 8 ≤ (c :: (str "api/v1/" ++ r)).length := by simp [l7]
    have hdrop : (c :: (str "api/v1/" ++ r)).drop 8 = r := by
      have : (c :: (str "api/v1/" ++ r)) = (c :: str "api/v1/") ++ r := rfl
      rw [this]
      exact List.drop_left' (by simp [l7])
    have h2 := strncmp_eq_iff_of_holds _ _ (str "info") 8 hu2 h8 (by decide)
    have h3 := strncmp_eq_iff_of_holds _ _ (str "charts") 8 hu2 h8 (by decide)
    have l4 : (str "info").length = 4 := by decide
    have l6 : (str "charts").length = 6 := by decide
    rw [l4, hdrop] at h2
    rw [l6, hdrop] at h3
    have e1 : strncmp_eq w2.decoded_url 1 (str "api/v1/") 7 = true := h1.2 ⟨r, rfl⟩
    have e2 : strncmp_eq w2.decoded_url 8 (str "info") 4 = false := by
      rw [Bool.eq_false_iff]
      intro h
      obtain ⟨r2, rfl⟩ := h2.1 h
      apply hinfo
      refine ⟨r2, ?_⟩
      have : str "api/v1/info" = str "api/v1/" ++ str "info" := by decide
      rw [this]; simp
    have e3 : strncmp_eq w2.decoded_url 8 (str "charts") 6 = false := by
      rw [Bool.eq_false_iff]
      intro h
      obtain ⟨r2, rfl⟩ := h3.1 h
      apply hcharts
      refine ⟨r2, ?_⟩
      have : str "api/v1/charts" = str "api/v1/" ++ str "charts" := by decide
      rw [this]; simp
    simp [web_client_set_without_query_string, hpath, e1, e2, e3]
  · intro hno
    have e1 : strncmp_eq w2.decoded_url 1 (str "api/v1/") 7 = false := by
      rw [Bool.eq_false_iff]
      intro h
      exact hno (h1.1 h)
    simp [web_client_set_without_query_string, hpath, e1]

/-- Witness of C8 (as amended): the decoded URLs `/api/v1/data` and
`/index.html`. -/
theorem web_client_split_path_query_other_paths_witness :
    (holds_string ({ web_client_zero with decoded_url := str "/api/v1/data" }).decoded_url
        (SLASH :: str "api/v1/data") ∧ QUESTION ∉ SLASH :: str "api/v1/data") ∧
    ((web_client_split_path_query spec_env
        { web_client_zero with decoded_url := str "/api/v1/data" }).command
        = { body := none, length := 0 } ∧
      (web_client_split_path_query spec_env
        { web_client_zero with decoded_url := str "/api/v1/data" }).total_params = 0) ∧
    (holds_string ({ web_client_zero with decoded_url := str "/index.html" }).decoded_url
        (SLASH :: str "index.html") ∧ QUESTION ∉ SLASH :: str "index.html") ∧
    ((web_client_split_path_query spec_env
        { web_client_zero with decoded_url := str "/index.html" }).command.body = some 1 ∧
      (web_client_split_path_query spec_env
        { web_client_zero with decoded_url := str "/index.html" }).total_params = 0) :=
  ⟨by decide,
    (web_client_split_path_query_other_paths spec_env
      { web_client_zero with decoded_url := str "/api/v1/data" } SLASH (str "api/v1/data")
      (by decide) (by decide)).1 (by decide) (by decide) (by decide),
    by decide,
    (web_client_split_path_query_other_paths spec_env
      { web_client_zero with decoded_url := str "/index.html" } SLASH (str "index.html")
      (by decide) (by decide)).2 (by decide)⟩

/-- C8, counterexample: the decoded URL `/index.html` has no `?` and starts with
neither `/api/v1/info` nor `/api/v1/charts`, yet the command span it is left
with is not empty: its body is at index 1 and its length is 11. -/
theorem web_client_split_path_query_index_html :
    QUESTION ∉ str "/index.html" ∧
    ¬ str "/api/v1/info" <+: str "/index.html" ∧
    ¬ str "/api/v1/charts" <+: str "/index.html" ∧
    (web_client_split_path_query spec_env
      { web_client_zero with decoded_url := str "/index.html" }).command
      = { body := some 1, length := 11 } ∧
    (web_client_split_path_query spec_env
      { web_client_zero with decoded_url := str "/index.html" }).command
      ≠ { body := none, length := 0 } := by
  decide

/-! ## The directory of a URL with a query string -/

/-- Whatever `web_client_set_directory` does about the API rule, a non-NULL
`enddir` fixes the directory span. -/
theorem web_client_set_directory_directory (w : web_client) (begin enddir endcmd : Nat) :
    (web_client_set_directory w begin (some enddir) endcmd).directory
      = { body := some begin, length := size_t_sub enddir begin } := by
  simp only [web_client_set_directory]
  split
  · split <;> rfl
  · rfl

/-- C9 (as amended): for every decoded URL with a `?` after index 0: if it holds
no `/` after index 0, the directory span is the whole path without its first
character (index 1 up to the first `?`) and there is neither version nor
command (both spans NULL with length 0); if its path holds a `/` after
index 0 (as `/foo/bar?x=1` does), the directory span is the first segment
only, from index 1 up to the first such `/`. -/
theorem web_client_split_path_query_directory (env : Env) (w : web_client) (c : Nat)
    (p q : List Nat) (hu : holds_string w.decoded_url (c :: (p ++ QUESTION :: q)))
    (hp : QUESTION ∉ c :: p) (hlen : (c :: (p ++ QUESTION :: q)).length < SIZE_T_MOD) :
    (SLASH ∉ p ++ QUESTION :: q →
      (web_client_split_path_query env w).directory = { body := some 1, length := p.length } ∧
      (web_client_split_path_query env w).version = { body := none, length := 0 } ∧
      (web_client_split_path_query env w).command = { body := none, length := 0 } ∧
      span_bytes (c :: (p ++ QUESTION :: q)) (web_client_split_path_query env w).directory
        = some p) ∧
    (∀ a b : List Nat, p = a ++ SLASH :: b → SLASH ∉ a →
      (web_client_split_path_query env w).directory = { body := some 1, length := a.length } ∧
      span_bytes (c :: (p ++ QUESTION :: q)) (web_client_split_path_query env w).directory
        = some a) := by
  have hlen' : p.length + (q.length + 1) + 1 < SIZE_T_MOD := by simpa using hlen
  have eQ : c :: (p ++ QUESTION :: q) = (c :: p) ++ QUESTION :: q := rfl
  have hQ := strchr_of_holds_mem _ _ _ _ QUESTION 0 (1 + p.length) hu eQ
    (by simp; omega) (Nat.zero_le _) (by simpa using hp)
  obtain ⟨hd0, hv0, hcmd0⟩ := web_client_split_path_query_spans env w _ hQ
  constructor
  · intro hns
    have hS : strchr w.decoded_url 1 SLASH = none :=
      strchr_of_holds_not_mem _ _ SLASH 1 hu (by simp) (by simpa using hns)
    have h1 : size_t_sub (size_t_sub (1 + p.length) 0) 1 = p.length := by
      rw [size_t_sub_of_le _ 0 (by omega) (by omega), size_t_sub_of_le _ _ (by omega) (by omega)]
      omega
    have hd : (web_client_split_path_query env w).directory
        = { body := some 1, length := p.length } := by
      rw [hd0, hS]
      simp [web_client_set_directory, split_query_state, h1]
    refine ⟨hd, ?_, ?_, ?_⟩
    · rw [hv0, hS]
      rfl
    · rw [hcmd0, hS]
      rfl
    · rw [hd]
      exact span_bytes_of_split _ [c] p (QUESTION :: q) 1 _ rfl rfl rfl
  · intro a b hab hna
    have eS : c :: (p ++ QUESTION :: q) = (c :: a) ++ SLASH :: (b ++ QUESTION :: q) := by
      rw [hab]; simp
    have hS := strchr_of_holds_mem _ _ _ _ SLASH 1 (1 + a.length) hu eS
      (by simp; omega) (by simp) (by simpa using hna)
    have hal : a.length + (b.length + 1) + 1 < SIZE_T_MOD := by
      have := congrArg List.length hab
      simp at this
      omega
    have h1 : size_t_sub (1 + a.length) 1 = a.length := by
      rw [size_t_sub_of_le _ _ (by omega) (by omega)]
      omega
    have hd : (web_client_split_path_query env w).directory
        = { body := some 1, length := a.length } := by
      rw [hd0, hS, web_client_set_directory_directory, h1]
    refine ⟨hd, ?_⟩
    rw [hd, eS]
    exact span_bytes_of_split _ [c] a (SLASH :: (b ++ QUESTION :: q)) 1 _ rfl rfl rfl

/-- Witness of C9 (as amended): the decoded URLs `/foo?x=1` and `/foo/bar?x=1`. -/
theorem web_client_split_path_query_directory_witness :
    (holds_string ({ web_client_zero with decoded_url := str "/foo?x=1" }).decoded_url
        (SLASH :: (str "foo" ++ QUESTION :: str "x=1")) ∧
      QUESTION ∉ SLASH :: str "foo" ∧
      (SLASH :: (str "foo" ++ QUESTION :: str "x=1")).length < SIZE_T_MOD ∧
      SLASH ∉ str "foo" ++ QUESTION :: str "x=1") ∧
    ((web_client_split_path_query spec_env
        { web_client_zero with decoded_url := str "/foo?x=1" }).directory
        = { body := some 1, length := (str "foo").length } ∧
      (web_client_split_path_query spec_env
        { web_client_zero with decoded_url := str "/foo?x=1" }).version
        = { body := none, length := 0 } ∧
      (web_client_split_path_query spec_env
        { web_client_zero with decoded_url := str "/foo?x=1" }).command
        = { body := none, length := 0 } ∧
      span_bytes (SLASH :: (str "foo" ++ QUESTION :: str "x=1"))
        (web_client_split_path_query spec_env
          { web_client_zero with decoded_url := str "/foo?x=1" }).directory
        = some (str "foo")) ∧
    (holds_string ({ web_client_zero with decoded_url := str "/foo/bar?x=1" }).decoded_url
        (SLASH :: (str "foo/bar" ++ QUESTION :: str "x=1")) ∧
      QUESTION ∉ SLASH :: str "foo/bar" ∧
      (SLASH :: (str "foo/bar" ++ QUESTION :: str "x=1")).length < SIZE_T_MOD ∧
      str "foo/bar" = str "foo" ++ SLASH :: str "bar" ∧
      SLASH ∉ str "foo") ∧
    ((web_client_split_path_query spec_env
        { web_client_zero with decoded_url := str "/foo/bar?x=1" }).directory
        = { body := some 1, length := (str "foo").length } ∧
      span_bytes (SLASH :: (str "foo/bar" ++ QUESTION :: str "x=1"))
        (web_client_split_path_query spec_env
          { web_client_zero with decoded_url := str "/foo/bar?x=1" }).directory
        = some (str "foo")) :=
  ⟨by decide,
    (web_client_split_path_query_directory spec_env
      { web_client_zero with decoded_url := str "/foo?x=1" } SLASH (str "foo") (str "x=1")
      (by decide) (by decide) (by decide)).1 (by decide),
    by decide,
    (web_client_split_path_query_directory spec_env
      { web_client_zero with decoded_url := str "/foo/bar?x=1" } SLASH (str "foo/bar") (str "x=1")
      (by decide) (by decide) (by decide)).2 (str "foo") (str "bar") (by decide)
      (by decide)⟩

/-- C9, counterexample: on the decoded URL `/foo/bar?x=1`, whose first path
segment is not `api`, the directory span covers `foo` only (length 3), not the
whole path `foo/bar` without its leading slash (length 7); and a command span
left by an earlier request is still there afterwards. On `?x=1`, whose path
is empty, the directory length wraps around to `SIZE_T_MOD - 1`. -/
theorem web_client_split_path_query_foo_bar :
    (web_client_split_path_query spec_env
      { web_client_zero with decoded_url := str "/foo/bar?x=1" }).directory
      = { body := some 1, length := 3 } ∧
    span_bytes (str "/foo/bar?x=1") (web_client_split_path_query spec_env
      { web_client_zero with decoded_url := str "/foo/bar?x=1" }).directory
      = some (str "foo") ∧
    span_bytes (str "/foo/bar?x=1") (web_client_split_path_query spec_env
      { web_client_zero with decoded_url := str "/foo/bar?x=1" }).directory
      ≠ some (str "foo/bar") ∧
    (web_client_split_path_query spec_env
      { web_client_zero with decoded_url := str "/foo/bar?x=1",
                             command := { body := some 8, length := 4 } }).command
      = { body := some 8, length := 4 } ∧
    (web_client_split_path_query spec_env
      { web_client_zero with decoded_url := str "?x=1" }).directory
      = { body := some 1, length := SIZE_T_MOD - 1 } := by
  decide

/-- C10: on the decoded URL `/a/v1/info?x=1`, whose directory segment is `a`, a
proper beginning of `api`, and on `//v1/info?x=1`, whose directory segment is
empty, `web_client_set_directory` applies the API rule all the same: the
version span is left on `v1` and the command span on `info`. -/
theorem web_client_set_directory_api_beginning :
    ((web_client_split_path_query spec_env
        { web_client_zero with decoded_url := str "/a/v1/info?x=1" }).directory
        = { body := some 1, length := 1 } ∧
      span_bytes (str "/a/v1/info?x=1") (web_client_split_path_query spec_env
        { web_client_zero with decoded_url := str "/a/v1/info?x=1" }).directory
        = some (str "a") ∧
      span_bytes (str "/a/v1/info?x=1") (web_client_split_path_query spec_env
        { web_client_zero with decoded_url := str "/a/v1/info?x=1" }).version
        = some (str "v1") ∧
      span_bytes (str "/a/v1/info?x=1") (web_client_split_path_query spec_env
        { web_client_zero with decoded_url := str "/a/v1/info?x=1" }).command
        = some (str "info")) ∧
    ((web_client_split_path_query spec_env
        { web_client_zero with decoded_url := str "//v1/info?x=1" }).directory
        = { body := some 1, length := 0 } ∧
      span_bytes (str "//v1/info?x=1") (web_client_split_path_query spec_env
        { web_client_zero with decoded_url := str "//v1/info?x=1" }).version
        = some (str "v1") ∧
      span_bytes (str "//v1/info?x=1") (web_client_split_path_query spec_env
        { web_client_zero with decoded_url := str "//v1/info?x=1" }).command
        = some (str "info")) := by
  decide

/-! ## The header loop returns -/

theorem same_connection_refl (w : web_client) : same_connection w w := ⟨rfl, rfl, rfl, rfl⟩

theorem same_connection_trans {w1 w2 w3 : web_client} (h12 : same_connection w1 w2)
    (h23 : same_connection w2 w3) : same_connection w1 w3 :=
  ⟨h23.1.trans h12.1, h23.2.1.trans h12.2.1, h23.2.2.1.trans h12.2.2.1,
    h23.2.2.2.trans h12.2.2.2⟩

theorem peek_lt_of_ne_zero (buf : List Nat) (i : Nat) (h : peek buf i ≠ 0) : i < buf.length := by
  by_contra hge
  exact h (List.getD_eq_default _ _ (by omega))

theorem scan_while_ge (p : Nat → Bool) (buf : List Nat) (i : Nat) : i ≤ scan_while p buf i := by
  simp [scan_while]

theorem scan_while_le (p : Nat → Bool) (buf : List Nat) (i : Nat) (hi : i ≤ buf.length) :
    scan_while p buf i ≤ buf.length := by
  have h1 : ((buf.drop i).takeWhile p).length ≤ (buf.drop i).length :=
    (List.takeWhile_prefix p).length_le
  simp only [List.length_drop] at h1
  simp only [scan_while]
  omega

theorem getD_takeWhile_length (p : Nat → Bool) (hp : p 0 = false) :
    ∀ l : List Nat, p (l.getD (l.takeWhile p).length 0) = false := by
  intro l
  induction l with
  | nil => simpa using hp
  | cons x xs ih =>
    by_cases hx : p x = true
    · simpa [List.takeWhile_cons_of_pos hx] using ih
    · simp [List.takeWhile_cons_of_neg hx] at *
      exact hx

/-- A scan stops on a byte that fails the test. -/
theorem scan_while_stop (p : Nat → Bool) (hp : p 0 = false) (buf : List Nat) (i : Nat) :
    p (peek buf (scan_while p buf i)) = false := by
  have h := getD_takeWhile_length p hp (buf.drop i)
  have e : peek buf (scan_while p buf i) = (buf.drop i).getD ((buf.drop i).takeWhile p).length 0 := by
    simp [peek, scan_while, List.getD_eq_getElem?_getD, List.getElem?_drop]
  rw [e]
  exact h

theorem same_connection_ite (w a b : web_client) (c : Prop) [Decidable c]
    (ha : same_connection w a) (hb : same_connection w b) :
    same_connection w (if c then a else b) := by
  split_ifs <;> assumption

theorem web_client_enable_deflate_same (env : Env) (w : web_client) (gzip : Bool) :
    same_connection w (web_client_enable_deflate env w gzip) := by
  unfold web_client_enable_deflate
  repeat' apply same_connection_ite
  all_goals exact ⟨rfl, rfl, rfl, rfl⟩

theorem http_header_apply_same (env : Env) (w : web_client) (name value : List Nat)
    (v0 vlen : Nat) (ua : Bool) :
    same_connection w (http_header_apply env w name value v0 vlen ua) := by
  unfold http_header_apply
  repeat' apply same_connection_ite
  all_goals exact ⟨rfl, rfl, rfl, rfl⟩

/-- What `http_header_parse` returns: a position not before `s` and inside the
buffer, a buffer of the same length, and a state of the same connection. -/
theorem http_header_parse_progress (env : Env) (w : web_client) (buf : List Nat) (s : Nat)
    (ua : Bool) (hs : s ≤ buf.length) :
    s ≤ (http_header_parse env w buf s ua).2.2 ∧
    (http_header_parse env w buf s ua).2.2 ≤ buf.length ∧
    (http_header_parse env w buf s ua).2.1.length = buf.length ∧
    same_connection w (http_header_parse env w buf s ua).1 := by
  have he1 := scan_while_ge (fun c => c != 0 && c != COLON) buf s
  have he2 := scan_while_le (fun c => c != 0 && c != COLON) buf s hs
  unfold http_header_parse
  simp only []
  split_ifs with h1 h2
  · exact ⟨he1, he2, rfl, same_connection_refl w⟩
  · have hlt := peek_lt_of_ne_zero _ _ h1
    have hv1 := scan_while_ge (fun c => c == SPACE)
      (buf.set (scan_while (fun c => c != 0 && c != COLON) buf s) 0)
      (scan_while (fun c => c != 0 && c != COLON) buf s + 1)
    have hv2 := scan_while_le (fun c => c == SPACE)
      (buf.set (scan_while (fun c => c != 0 && c != COLON) buf s) 0)
      (scan_while (fun c => c != 0 && c != COLON) buf s + 1) (by simp; omega)
    have hve1 := scan_while_ge (fun c => c != 0 && c != CR)
      (buf.set (scan_while (fun c => c != 0 && c != COLON) buf s) 0)
      (scan_while (fun c => c == SPACE)
        (buf.set (scan_while (fun c => c != 0 && c != COLON) buf s) 0)
        (scan_while (fun c => c != 0 && c != COLON) buf s + 1))
    have hve2 := scan_while_le (fun c => c != 0 && c != CR)
      (buf.set (scan_while (fun c => c != 0 && c != COLON) buf s) 0)
      (scan_while (fun c => c == SPACE)
        (buf.set (scan_while (fun c => c != 0 && c != COLON) buf s) 0)
        (scan_while (fun c => c != 0 && c != COLON) buf s + 1)) hv2
    simp only [List.length_set] at hv2 hve2
    refine ⟨?_, hve2, by simp, same_connection_refl w⟩
    dsimp only
    omega
  · have hlt := peek_lt_of_ne_zero _ _ h1
    have hv1 := scan_while_ge (fun c => c == SPACE)
      (buf.set (scan_while (fun c => c != 0 && c != COLON) buf s) 0)
      (scan_while (fun c => c != 0 && c != COLON) buf s + 1)
    have hv2 := scan_while_le (fun c => c == SPACE)
      (buf.set (scan_while (fun c => c != 0 && c != COLON) buf s) 0)
      (scan_while (fun c => c != 0 && c != COLON) buf s + 1) (by simp; omega)
    have hve1 := scan_while_ge (fun c => c != 0 && c != CR)
      (buf.set (scan_while (fun c => c != 0 && c != COLON) buf s) 0)
      (scan_while (fun c => c == SPACE)
        (buf.set (scan_while (fun c => c != 0 && c != COLON) buf s) 0)
        (scan_while (fun c => c != 0 && c != COLON) buf s + 1))
    have hve2 := scan_while_le (fun c => c != 0 && c != CR)
      (buf.set (scan_while (fun c => c != 0 && c != COLON) buf s) 0)
      (scan_while (fun c => c == SPACE)
        (buf.set (scan_while (fun c => c != 0 && c != COLON) buf s) 0)
        (scan_while (fun c => c != 0 && c != COLON) buf s + 1)) hv2
    simp only [List.length_set] at hv2 hve2
    refine ⟨?_, hve2, by simp, http_header_apply_same _ _ _ _ _ _ _⟩
    dsimp only
    omega

/-- The header loop leaves with a result when it has one pass of fuel more
than there are bytes from `s` to the end of the buffer; the result is a state
of the same connection. -/
theorem web_client_parse_headers_loop_returns (env : Env) :
    ∀ (fuel : Nat) (w : web_client) (buf : List Nat) (s : Nat),
      s ≤ buf.length → buf.length < fuel + s →
      ∃ r, web_client_parse_headers_loop env fuel w buf s = some r ∧ same_connection w r.1 := by
  intro fuel
  induction fuel with
  | zero => intro w buf s h1 h2; omega
  | succ n ih =>
    intro w buf s hs hfuel
    have hs1 := scan_while_ge (fun c => c != 0 && c != CR) buf s
    have hstop := scan_while_stop (fun c => c != 0 && c != CR) (by decide) buf s
    simp only [web_client_parse_headers_loop]
    generalize scan_while (fun c => c != 0 && c != CR) buf s = s1 at hs1 hstop ⊢
    by_cases h0 : peek buf s = 0
    · rw [if_pos h0]
      exact ⟨_, rfl, same_connection_refl w⟩
    · rw [if_neg h0]
      by_cases hcr : peek buf s1 = CR
      · simp only [if_pos hcr]
        by_cases h2 : peek buf (s1 + 1) = 0
        · rw [if_pos h2]
          exact ⟨_, rfl, same_connection_refl w⟩
        · rw [if_neg h2]
          have hlt2 := peek_lt_of_ne_zero _ _ h2
          have hs3 : s1 + 1 ≤ (if peek buf (s1 + 1) = LF then s1 + 1 + 1 else s1 + 1) ∧
              (if peek buf (s1 + 1) = LF then s1 + 1 + 1 else s1 + 1) ≤ buf.length := by
            split_ifs <;> omega
          generalize (if peek buf (s1 + 1) = LF then s1 + 1 + 1 else s1 + 1) = s3 at hs3 ⊢
          obtain ⟨hp1, hp2, hp3, hp4⟩ := http_header_parse_progress env w buf s3
            (decide (w.mode = WEB_CLIENT_MODE_STREAM)) hs3.2
          obtain ⟨r, hr, hsame⟩ := ih
            (http_header_parse env w buf s3 (decide (w.mode = WEB_CLIENT_MODE_STREAM))).1
            (http_header_parse env w buf s3 (decide (w.mode = WEB_CLIENT_MODE_STREAM))).2.1
            (http_header_parse env w buf s3 (decide (w.mode = WEB_CLIENT_MODE_STREAM))).2.2
            (by rw [hp3]; exact hp2) (by rw [hp3]; omega)
          exact ⟨r, hr, same_connection_trans hp4 hsame⟩
      · simp only [if_neg hcr]
        have hz : peek buf s1 = 0 := by
          by_contra hne
          simp [hne, hcr] at hstop
        rw [if_pos hz]
        exact ⟨_, rfl, same_connection_refl w⟩

/-- The function `web_client_parse_headers` returns, whatever the buffer and
the position it starts from, and leaves a state of the same connection. -/
theorem web_client_parse_headers_returns (env : Env) (w : web_client) (buf : List Nat)
    (s : Nat) :
    ∃ r, web_client_parse_headers env w buf s = some r ∧ same_connection w r.1 := by
  unfold web_client_parse_headers
  by_cases hs : s ≤ buf.length
  · exact web_client_parse_headers_loop_returns env _ w buf s hs (by omega)
  · have h0 : peek buf s = 0 := List.getD_eq_default _ _ (by omega)
    exact ⟨(w, buf), by simp [web_client_parse_headers_loop, h0], same_connection_refl w⟩

/-! ## The verdict as a function of the request buffer -/

theorem web_client_set_directory_same (w : web_client) (begin : Nat) (enddir : Option Nat)
    (endcmd : Nat) : same_connection w (web_client_set_directory w begin enddir endcmd) := by
  unfold web_client_set_directory
  cases enddir with
  | none => exact ⟨rfl, rfl, rfl, rfl⟩
  | some e =>
    simp only []
    apply same_connection_ite
    · split <;> exact ⟨rfl, rfl, rfl, rfl⟩
    · exact ⟨rfl, rfl, rfl, rfl⟩

theorem web_client_set_without_query_string_same (w : web_client) :
    same_connection w (web_client_set_without_query_string w) := by
  unfold web_client_set_without_query_string
  repeat' apply same_connection_ite
  all_goals exact ⟨rfl, rfl, rfl, rfl⟩

theorem web_client_split_path_query_same (env : Env) (w : web_client) :
    same_connection w (web_client_split_path_query env w) := by
  cases hQ : strchr w.decoded_url 0 QUESTION with
  | some moveme =>
    obtain ⟨pn, pv, tp, h⟩ := web_client_split_path_query_params_frame env
      (web_client_set_directory (split_query_state w moveme) 1
        (strchr w.decoded_url 1 SLASH) moveme) moveme
    have e : web_client_split_path_query env w = web_client_split_path_query_params env
        (web_client_set_directory (split_query_state w moveme) 1
          (strchr w.decoded_url 1 SLASH) moveme) moveme := by
      simp only [web_client_split_path_query, hQ]
      rfl
    rw [e, h]
    have h1 := web_client_set_directory_same (split_query_state w moveme) 1
      (strchr w.decoded_url 1 SLASH) moveme
    exact ⟨h1.1, h1.2.1, h1.2.2.1, h1.2.2.2⟩
  | none =>
    simp only [web_client_split_path_query, hQ]
    refine same_connection_trans ?_ (web_client_set_without_query_string_same _)
    cases strchr w.decoded_url 1 SLASH with
    | none => exact ⟨rfl, rfl, rfl, rfl⟩
    | some e =>
      simp only []
      cases strchr w.decoded_url (e + 1 + 1) SLASH <;> exact ⟨rfl, rfl, rfl, rfl⟩

/-- What `web_client_parse_method` returns, by the method found. -/
theorem web_client_parse_method_method_of (env : Env) (w : web_client) (buf : List Nat) :
    (method_of env w.ssl_flags buf = none ∧ (web_client_parse_method env w buf 0).2 = none) ∨
    (∃ mode e, method_of env w.ssl_flags buf = some (mode, e) ∧
      web_client_parse_method env w buf 0 = ({ w with mode := mode }, some e)) := by
  unfold method_of web_client_parse_method
  by_cases hG : strncmp_eq buf 0 (str "GET ") 4 = true
  · right
    exact ⟨WEB_CLIENT_MODE_NORMAL, 4, by simp [hG], by simp [hG]⟩
  · by_cases hO : strncmp_eq buf 0 (str "OPTIONS ") 8 = true
    · right
      exact ⟨WEB_CLIENT_MODE_OPTIONS, 8, by simp [hG, hO], by simp [hG, hO]⟩
    · by_cases hS : strncmp_eq buf 0 (str "STREAM ") 7 = true
      · by_cases hf : env.ENABLE_HTTPS = true ∧ w.ssl_flags ≠ 0 ∧
            env.netdata_use_ssl_on_stream &&& env.NETDATA_SSL_FORCE ≠ 0
        · left
          simp only [hG, hO, hS, if_true, Bool.false_eq_true, if_false]
          rw [if_pos hf, if_pos hf]
          exact ⟨rfl, rfl⟩
        · right
          refine ⟨WEB_CLIENT_MODE_STREAM, 7, ?_, ?_⟩
          · simp only [hG, hO, hS, if_true, Bool.false_eq_true, if_false]
            rw [if_neg hf]
          · simp only [hG, hO, hS, if_true, Bool.false_eq_true, if_false]
            rw [if_neg hf]
      · left
        simp [hG, hO, hS]

/-- What `web_client_find_protocol` returns: the position `url_find_protocol`
found, and the state with a new protocol span. -/
theorem web_client_find_protocol_eq (env : Env) (w : web_client) (buf : List Nat) (s : Nat) :
    (web_client_find_protocol env w buf s).2 = env.url_find_protocol buf s ∧
    ∃ pr, (web_client_find_protocol env w buf s).1 = { w with protocol := pr } := by
  unfold web_client_find_protocol
  simp only []
  cases strchr buf (env.url_find_protocol buf s + 6) LF with
  | none => exact ⟨rfl, _, rfl⟩
  | some e => exact ⟨rfl, _, rfl⟩

/-- From the end of the encoded URL on, `http_request_validate` returns, with
REDIRECT or OK by the transport fields of the connection and the mode. -/
theorem http_request_validate_finish_verdict (env : Env) (w : web_client) (buf : List Nat)
    (encoded_url ue : Nat) :
    ∃ w', http_request_validate_finish env w buf encoded_url ue
      = some ((if env.ENABLE_HTTPS ∧ ¬ w.flag_unix_socket ∧ env.netdata_srv_ctx ∧ w.ssl_conn ∧
          w.ssl_flags &&& env.NETDATA_SSL_NO_HANDSHAKE ≠ 0 ∧
          env.netdata_use_ssl_on_http &&& env.NETDATA_SSL_FORCE ≠ 0 ∧
          w.mode ≠ WEB_CLIENT_MODE_STREAM then HTTP_VALIDATION_REDIRECT
        else HTTP_VALIDATION_OK), w') := by
  obtain ⟨⟨w4, buf4⟩, hr, hsame⟩ := web_client_parse_headers_returns env
    (web_client_split_path_query env
      { w with
        decoded_url := env.url_decode_r w.decoded_url (cstr (buf.set ue 0) encoded_url)
                         (env.NETDATA_WEB_REQUEST_URL_SIZE + 1) })
    ((buf.set ue 0).set ue SPACE) ue
  have hsplit := web_client_split_path_query_same env
    { w with
      decoded_url := env.url_decode_r w.decoded_url (cstr (buf.set ue 0) encoded_url)
                       (env.NETDATA_WEB_REQUEST_URL_SIZE + 1) }
  obtain ⟨hm, hf, hc, hx⟩ := same_connection_trans hsplit hsame
  simp only [] at hm hf hc hx
  unfold http_request_validate_finish
  simp only [hr, hm, hf, hc, hx]
  split_ifs
  · exact ⟨_, rfl⟩
  · exact ⟨_, rfl⟩

/-- From the method line on, `http_request_validate` returns, with the verdict
`parse_verdict` computes from the buffer; an INCOMPLETE verdict leaves the
attempt counter, the response and the transport fields as they were. -/
theorem http_request_validate_parse_verdict (env : Env) (w : web_client) (buf : List Nat) :
    ∃ w', http_request_validate_parse env w buf
        = some (parse_verdict env w.ssl_flags w.ssl_conn w.flag_unix_socket buf, w') ∧
      (parse_verdict env w.ssl_flags w.ssl_conn w.flag_unix_socket buf
          = HTTP_VALIDATION_INCOMPLETE →
        w'.header_parse_tries = w.header_parse_tries ∧ w'.response = w.response ∧
        w'.ssl_flags = w.ssl_flags ∧ w'.ssl_conn = w.ssl_conn ∧
        w'.flag_unix_socket = w.flag_unix_socket) := by
  rcases web_client_parse_method_method_of env w buf with ⟨hm, hp⟩ | ⟨mode, e, hm, hp⟩
  · have hv : parse_verdict env w.ssl_flags w.ssl_conn w.flag_unix_socket buf
        = HTTP_VALIDATION_NOT_SUPPORTED := by
      simp only [parse_verdict, hm]
    rw [hv]
    unfold http_request_validate_parse
    simp only []
    cases hpm : web_client_parse_method env w buf 0 with
    | mk w1 o =>
      rw [hpm] at hp
      simp only [] at hp
      subst hp
      exact ⟨_, rfl, by intro h; cases h⟩
  · obtain ⟨hs, pr, hw⟩ := web_client_find_protocol_eq env { w with mode := mode } buf e
    unfold http_request_validate_parse
    simp only [hp, hs]
    by_cases hz : peek buf (env.url_find_protocol buf e) = 0
    · have hv : parse_verdict env w.ssl_flags w.ssl_conn w.flag_unix_socket buf
          = HTTP_VALIDATION_INCOMPLETE := by
        simp only [parse_verdict, hm, hz, if_true]
      rw [hv, if_pos hz, hw]
      exact ⟨_, rfl, fun _ => ⟨rfl, rfl, rfl, rfl, rfl⟩⟩
    · rw [if_neg hz]
      obtain ⟨w', hw'⟩ := http_request_validate_finish_verdict env
        (web_client_find_protocol env { w with mode := mode } buf e).1 buf e
        (env.url_find_protocol buf e)
      rw [hw] at hw' ⊢
      simp only [] at hw'
      refine ⟨w', ?_, ?_⟩
      · rw [hw']
        simp only [parse_verdict, hm, hz, if_false]
      · intro h
        exfalso
        simp only [parse_verdict, hm, hz, if_false] at h
        split_ifs at h

/-- While the attempt cap is not exceeded, `http_request_validate` returns, with
the verdict `request_verdict` computes from the buffer; an INCOMPLETE verdict
counts one attempt and leaves the response and the transport fields as they
were. -/
theorem http_request_validate_verdict (env : Env) (w : web_client)
    (ht : w.header_parse_tries + 1 ≤ 10) :
    ∃ w', http_request_validate env w
        = some (request_verdict env w.ssl_flags w.ssl_conn w.flag_unix_socket
            w.response.data.buffer, w') ∧
      (request_verdict env w.ssl_flags w.ssl_conn w.flag_unix_socket w.response.data.buffer
          = HTTP_VALIDATION_INCOMPLETE →
        w'.header_parse_tries = w.header_parse_tries + 1 ∧ w'.response = w.response ∧
        w'.ssl_flags = w.ssl_flags ∧ w'.ssl_conn = w.ssl_conn ∧
        w'.flag_unix_socket = w.flag_unix_socket) := by
  have hmod : (w.header_parse_tries + 1) % SIZE_T_MOD = w.header_parse_tries + 1 := by
    apply Nat.mod_eq_of_lt
    simp only [SIZE_T_MOD]
    omega
  have h10 : ¬ 10 < w.header_parse_tries + 1 := by omega
  unfold http_request_validate
  simp only [buffer_strlen, hmod, Nat.zero_add, if_neg h10]
  by_cases hinc : env.url_is_request_complete w.response.data.buffer 0
      w.response.data.buffer.length w.response.data.buffer.length = HTTP_VALIDATION_INCOMPLETE
  · have hv : request_verdict env w.ssl_flags w.ssl_conn w.flag_unix_socket
        w.response.data.buffer = HTTP_VALIDATION_INCOMPLETE := by
      simp only [request_verdict, hinc, if_true]
    rw [hv, if_pos hinc]
    exact ⟨_, rfl, fun _ => ⟨rfl, rfl, rfl, rfl, rfl⟩⟩
  · have hv : request_verdict env w.ssl_flags w.ssl_conn w.flag_unix_socket
        w.response.data.buffer
        = parse_verdict env w.ssl_flags w.ssl_conn w.flag_unix_socket
            w.response.data.buffer := by
      simp only [request_verdict, hinc, if_false]
    rw [hv, if_neg hinc]
    obtain ⟨w', hw', hkeep⟩ := http_request_validate_parse_verdict env
      { w with header_parse_tries := w.header_parse_tries + 1,
               header_parse_last_size := w.response.data.buffer.length }
      w.response.data.buffer
    exact ⟨w', hw', hkeep⟩

/-- Chunked delivery within the attempt cap, from any state: it returns, it
stops before the last chunk only on a verdict other than INCOMPLETE, and its
verdict is the one `request_verdict` computes from the bytes delivered. -/
theorem validate_chunked_request_verdict (env : Env) :
    ∀ (chunks : List (List Nat)) (w : web_client) (v0 : HTTP_VALIDATION) (n0 : Nat),
      chunks ≠ [] → w.header_parse_tries + chunks.length ≤ 10 →
      ∃ v w' n, validate_chunked env chunks w v0 n0 = some (v, w', n0 + n) ∧
        1 ≤ n ∧ n ≤ chunks.length ∧ (n < chunks.length → v ≠ HTTP_VALIDATION_INCOMPLETE) ∧
        v = request_verdict env w.ssl_flags w.ssl_conn w.flag_unix_socket
          (w.response.data.buffer ++ (chunks.take n).flatten) := by
  intro chunks
  induction chunks with
  | nil => intro w v0 n0 h; exact absurd rfl h
  | cons chunk rest ih =>
    intro w v0 n0 _ ht
    simp only [List.length_cons] at ht
    obtain ⟨w1, hw1, hkeep⟩ := http_request_validate_verdict env (receive_chunk w chunk)
      (by simp only [receive_chunk]; omega)
    have hbuf : (receive_chunk w chunk).response.data.buffer = w.response.data.buffer ++ chunk :=
      rfl
    have hf1 : (receive_chunk w chunk).ssl_flags = w.ssl_flags := rfl
    have hf2 : (receive_chunk w chunk).ssl_conn = w.ssl_conn := rfl
    have hf3 : (receive_chunk w chunk).flag_unix_socket = w.flag_unix_socket := rfl
    have hf4 : (receive_chunk w chunk).header_parse_tries = w.header_parse_tries := rfl
    rw [hbuf, hf1, hf2, hf3] at hw1 hkeep
    rw [hf4] at hkeep
    by_cases hinc : request_verdict env w.ssl_flags w.ssl_conn w.flag_unix_socket
        (w.response.data.buffer ++ chunk) = HTTP_VALIDATION_INCOMPLETE
    · obtain ⟨hk1, hk2, hk3, hk4, hk5⟩ := hkeep hinc
      rw [hinc] at hw1
      cases rest with
      | nil =>
        refine ⟨HTTP_VALIDATION_INCOMPLETE, w1, 1, ?_, le_refl 1, by simp, by simp, ?_⟩
        · simp only [validate_chunked, hw1]
        · simp [hinc]
      | cons c2 rest2 =>
        obtain ⟨v, w', n, hrun, hn1, hn2, hstop, hv⟩ := ih w1 HTTP_VALIDATION_INCOMPLETE (n0 + 1)
          (by simp) (by rw [hk1]; simp only [List.length_cons] at ht ⊢; omega)
        refine ⟨v, w', n + 1, ?_, by omega, by simp only [List.length_cons] at hn2 ⊢; omega,
          ?_, ?_⟩
        · rw [validate_chunked, hw1]
          simp only []
          rw [hrun]
          have : n0 + 1 + n = n0 + (n + 1) := by omega
          rw [this]
        · intro hlt
          exact hstop (by simp only [List.length_cons] at hlt ⊢; omega)
        · rw [hv, hk3, hk4, hk5, hk2]
          simp [receive_chunk, List.append_assoc]
    · refine ⟨_, w1, 1, ?_, le_refl 1, by simp, fun _ => hinc, by simp⟩
      rw [validate_chunked, hw1]
      revert hinc
      generalize request_verdict env w.ssl_flags w.ssl_conn w.flag_unix_socket
        (w.response.data.buffer ++ chunk) = v1
      intro hinc
      cases v1 with
      | HTTP_VALIDATION_INCOMPLETE => exact absurd rfl hinc
      | HTTP_VALIDATION_OK => rfl
      | HTTP_VALIDATION_NOT_SUPPORTED => rfl
      | HTTP_VALIDATION_REDIRECT => rfl

/-- Starting from `header_parse_tries = 0`, for every byte sequence cut into
at most ten chunks and every environment, chunked delivery returns a verdict;
it stops before the last chunk only on a verdict other than INCOMPLETE; and
its verdict is the verdict of one call on the bytes delivered up to that
point. -/
theorem validate_chunked_verdict (env : Env) (w : web_client) (chunks : List (List Nat))
    (h0 : w.header_parse_tries = 0) (hne : chunks ≠ []) (hlen : chunks.length ≤ 10) :
    ∃ v w1 w2 n, validate_chunked env chunks w HTTP_VALIDATION_INCOMPLETE 0 = some (v, w1, n) ∧
      1 ≤ n ∧ n ≤ chunks.length ∧ (n < chunks.length → v ≠ HTTP_VALIDATION_INCOMPLETE) ∧
      validate_once env w (chunks.take n).flatten = some (v, w2) := by
  obtain ⟨v, w1, n, hrun, hn1, hn2, hstop, hv⟩ := validate_chunked_request_verdict env chunks w
    HTTP_VALIDATION_INCOMPLETE 0 hne (by omega)
  obtain ⟨w2, hw2, _⟩ := http_request_validate_verdict env
    (receive_chunk w (chunks.take n).flatten) (by simp only [receive_chunk]; omega)
  refine ⟨v, w1, w2, n, by simpa using hrun, hn1, hn2, hstop, ?_⟩
  rw [validate_once, hw2, hv]
  rfl

/-- The request `GET / HTTP/1.1` and its blank line delivered in two chunks,
the cut after `GET /`. -/
theorem validate_chunked_verdict_witness :
    (web_client_zero.header_parse_tries = 0 ∧
      [str "GET /", str " HTTP/1.1\r\n\r\n"] ≠ [] ∧
      [str "GET /", str " HTTP/1.1\r\n\r\n"].length ≤ 10) ∧
    ∃ v w1 w2 n,
      validate_chunked spec_env [str "GET /", str " HTTP/1.1\r\n\r\n"] web_client_zero
        HTTP_VALIDATION_INCOMPLETE 0 = some (v, w1, n) ∧
      1 ≤ n ∧ n ≤ [str "GET /", str " HTTP/1.1\r\n\r\n"].length ∧
      (n < [str "GET /", str " HTTP/1.1\r\n\r\n"].length → v ≠ HTTP_VALIDATION_INCOMPLETE) ∧
      validate_once spec_env web_client_zero
        ([str "GET /", str " HTTP/1.1\r\n\r\n"].take n).flatten = some (v, w2) :=
  ⟨⟨rfl, by decide, by decide⟩,
    validate_chunked_verdict spec_env web_client_zero [str "GET /", str " HTTP/1.1\r\n\r\n"]
      rfl (by decide) (by decide)⟩

/-- C1, counterexample: the request `GET / HTTP/1.1` with its blank line, 18
bytes, delivered one byte at a time from `header_parse_tries = 0`, is answered
NOT_SUPPORTED at the eleventh byte, while one call on the whole request
answers OK. -/
theorem validate_chunked_differs :
    web_client_zero.header_parse_tries = 0 ∧
    ((str "GET / HTTP/1.1\r\n\r\n").map (fun c => [c])).flatten = str "GET / HTTP/1.1\r\n\r\n" ∧
    (∀ c ∈ (str "GET / HTTP/1.1\r\n\r\n").map (fun c => [c]), c ≠ []) ∧
    ((str "GET / HTTP/1.1\r\n\r\n").map (fun c => [c])).length = 18 ∧
    (validate_chunked spec_env ((str "GET / HTTP/1.1\r\n\r\n").map (fun c => [c]))
        web_client_zero HTTP_VALIDATION_INCOMPLETE 0).map (fun r => (r.1, r.2.2))
      = some (HTTP_VALIDATION_NOT_SUPPORTED, 11) ∧
    (validate_once spec_env web_client_zero (str "GET / HTTP/1.1\r\n\r\n")).map Prod.fst
      = some HTTP_VALIDATION_OK := by
  decide

/-! ## Path, query and parameters -/

/-- C11: on the decoded URL `/foo?x=/y` the path span is `/foo` and the query
span `?x=/y`, but the directory span does not end at the end of the path: the
search for the `/` that ends the directory runs on into the query, and the
span covers `foo?x=` (length 6) instead of `foo` (length 3). -/
theorem web_client_split_path_query_slash_in_query :
    (web_client_split_path_query spec_env
      { web_client_zero with decoded_url := str "/foo?x=/y" }).path
      = { body := some 0, length := 4 } ∧
    (web_client_split_path_query spec_env
      { web_client_zero with decoded_url := str "/foo?x=/y" }).query_string
      = { body := some 4, length := 5 } ∧
    (web_client_split_path_query spec_env
      { web_client_zero with decoded_url := str "/foo?x=/y" }).directory
      = { body := some 1, length := 6 } ∧
    span_bytes (str "/foo?x=/y") (web_client_split_path_query spec_env
      { web_client_zero with decoded_url := str "/foo?x=/y" }).directory
      = some (str "foo?x=") ∧
    span_bytes (str "/foo?x=/y") (web_client_split_path_query spec_env
      { web_client_zero with decoded_url := str "/foo?x=/y" }).directory
      ≠ some (str "foo") := by
  decide

/-- The function `web_client_set_directory` writes the directory, version and
command spans only. -/
theorem web_client_set_directory_frame (w : web_client) (begin : Nat) (enddir : Option Nat)
    (endcmd : Nat) :
    ∃ d v c, web_client_set_directory w begin enddir endcmd
      = { w with directory := d, version := v, command := c } := by
  unfold web_client_set_directory
  cases enddir with
  | none => exact ⟨_, _, _, rfl⟩
  | some e =>
    simp only []
    split
    · split
      · exact ⟨_, _, _, rfl⟩
      · exact ⟨_, w.version, w.command, rfl⟩
    · exact ⟨_, w.version, w.command, rfl⟩

/-- The state `web_client_parse_request` returns holds the same decoded URL. -/
theorem web_client_parse_request_decoded_url (env : Env) (w : web_client)
    (divisor : Option Nat) :
    (web_client_parse_request env w divisor).1.decoded_url = w.decoded_url := by
  unfold web_client_parse_request
  cases divisor <;> rfl

/-- The parameter block when the tokenization yields no parameter. -/
theorem web_client_split_path_query_params_zero (env : Env) (w : web_client) (moveme : Nat)
    (hb : w.query_string.body.isSome = true)
    (hret : (web_client_parse_request env w (strchr w.decoded_url moveme EQUALS)).2 = 0) :
    (web_client_split_path_query_params env w moveme).total_params = 1 ∧
    (web_client_split_path_query_params env w moveme).param_name 0
      = { body := some (moveme + 1), length := strlen w.decoded_url (moveme + 1) } ∧
    (web_client_split_path_query_params env w moveme).param_values 0
      = { body := some (moveme + 1), length := strlen w.decoded_url (moveme + 1) } := by
  unfold web_client_split_path_query_params
  rw [if_pos hb]
  simp [hret, web_client_parse_request_decoded_url]

/-- C12: for every decoded URL with a `?` for which the tokenization of the
query yields no parameter (no `=` follows the `?`, or `url_parse_query_string`
called on the first `=` returns 0), `web_client_split_path_query` sets
`total_params = 1` and both `param_name[0]` and `param_values[0]` to the span of
all that follows the `?`: offset one past the `?`, length that of the
remainder. -/
theorem web_client_split_path_query_single_param (env : Env) (w : web_client)
    (p q : List Nat) (hu : holds_string w.decoded_url (p ++ QUESTION :: q))
    (hp : QUESTION ∉ p)
    (hzero : ∀ a b : List Nat, q = a ++ EQUALS :: b → EQUALS ∉ a →
      (env.url_parse_query_string w.param_name w.param_values w.decoded_url
        (some (p.length + 1)) (p.length + 1 + a.length)).2.2 = 0) :
    (web_client_split_path_query env w).total_params = 1 ∧
    (web_client_split_path_query env w).param_name 0
      = { body := some (p.length + 1), length := q.length } ∧
    (web_client_split_path_query env w).param_values 0
      = { body := some (p.length + 1), length := q.length } ∧
    span_bytes (p ++ QUESTION :: q) ((web_client_split_path_query env w).param_name 0)
      = some q := by
  have hQ := strchr_of_holds_mem _ _ p q QUESTION 0 p.length hu rfl rfl (Nat.zero_le _)
    (by simpa using hp)
  have hstrlen : strlen w.decoded_url (p.length + 1) = q.length := by
    have e : (p ++ QUESTION :: q).drop (p.length + 1) = q := by
      have : p ++ QUESTION :: q = (p ++ [QUESTION]) ++ q := by simp
      rw [this]
      exact List.drop_left' (by simp)
    rw [strlen, cstr_of_holds _ _ _ hu (by simp), e]
  obtain ⟨d, v, c, hsd⟩ := web_client_set_directory_frame (split_query_state w p.length) 1
    (strchr w.decoded_url 1 SLASH) p.length
  have e : web_client_split_path_query env w = web_client_split_path_query_params env
      (web_client_set_directory (split_query_state w p.length) 1
        (strchr w.decoded_url 1 SLASH) p.length) p.length := by
    simp only [web_client_split_path_query, hQ]
    rfl
  generalize web_client_set_directory (split_query_state w p.length) 1
    (strchr w.decoded_url 1 SLASH) p.length = w1 at hsd e
  have hdu : w1.decoded_url = w.decoded_url := by rw [hsd]; rfl
  have hqs : w1.query_string.body = some p.length := by rw [hsd]; rfl
  have hpn : w1.param_name = w.param_name := by rw [hsd]; rfl
  have hpv : w1.param_values = w.param_values := by rw [hsd]; rfl
  have hret : (web_client_parse_request env w1 (strchr w1.decoded_url p.length EQUALS)).2
      = 0 := by
    rw [hdu]
    by_cases hmem : EQUALS ∈ q
    · obtain ⟨a, b, hq, hna⟩ := List.eq_append_cons_of_mem hmem
      have eE : p ++ QUESTION :: q = (p ++ QUESTION :: a) ++ EQUALS :: b := by rw [hq]; simp
      have hE := strchr_of_holds_mem _ _ _ _ EQUALS p.length (p.length + 1 + a.length) hu eE
        (by simp; omega) (by simp) (by
          rw [List.drop_left]
          have : ¬ EQUALS = QUESTION := by decide
          simp [this, hna])
      rw [hE]
      simp only [web_client_parse_request, hpn, hpv, hdu, hqs, Option.map_some']
      exact hzero a b hq hna
    · have hE := strchr_of_holds_not_mem _ _ EQUALS p.length hu (by simp) (by
        rw [List.drop_left]
        have : ¬ EQUALS = QUESTION := by decide
        simp [this, hmem])
      rw [hE]
      rfl
  obtain ⟨h1, h2, h3⟩ := web_client_split_path_query_params_zero env w1 p.length
    (by rw [hqs]; rfl) hret
  rw [hdu, hstrlen] at h2 h3
  rw [e]
  refine ⟨h1, h2, h3, ?_⟩
  rw [h2]
  exact span_bytes_of_split _ (p ++ [QUESTION]) q [] _ _ (by simp) (by simp) rfl

/-- Witness of C12: the decoded URL `/api/v1/info?abc`, whose query holds no
`=`. -/
theorem web_client_split_path_query_single_param_witness :
    (holds_string ({ web_client_zero with decoded_url := str "/api/v1/info?abc" }).decoded_url
        (str "/api/v1/info" ++ QUESTION :: str "abc") ∧
      QUESTION ∉ str "/api/v1/info" ∧ EQUALS ∉ str "abc") ∧
    (web_client_split_path_query spec_env
        { web_client_zero with decoded_url := str "/api/v1/info?abc" }).total_params = 1 ∧
    (web_client_split_path_query spec_env
        { web_client_zero with decoded_url := str "/api/v1/info?abc" }).param_name 0
      = { body := some ((str "/api/v1/info").length + 1), length := (str "abc").length } ∧
    (web_client_split_path_query spec_env
        { web_client_zero with decoded_url := str "/api/v1/info?abc" }).param_values 0
      = { body := some ((str "/api/v1/info").length + 1), length := (str "abc").length } ∧
    span_bytes (str "/api/v1/info" ++ QUESTION :: str "abc")
      ((web_client_split_path_query spec_env
        { web_client_zero with decoded_url := str "/api/v1/info?abc" }).param_name 0)
      = some (str "abc") :=
  ⟨by decide,
    web_client_split_path_query_single_param spec_env
      { web_client_zero with decoded_url := str "/api/v1/info?abc" }
      (str "/api/v1/info") (str "abc") (by decide) (by decide)
      (fun a b hq hna => absurd (hq ▸ (by simp : EQUALS ∈ a ++ EQUALS :: b))
        (by decide : EQUALS ∉ str "abc"))⟩

/-! ## Header lines without a colon -/

/-- C13: in the request `GET / HTTP/1.1` with the header lines `Foo` (no colon)
and `Connection: keep-alive`, the search for the colon of the first line runs
on into the second, the name found is `Foo` CR LF `Connection`, and the
keep-alive flag stays disabled; without the line `Foo` the same request enables
it. -/
theorem web_client_parse_headers_line_without_colon :
    (validate_once spec_env web_client_zero
        (str "GET / HTTP/1.1\r\nFoo\r\nConnection: keep-alive\r\n\r\n")).map
      (fun r => (r.1, r.2.flag_keepalive)) = some (HTTP_VALIDATION_OK, false) ∧
    (validate_once spec_env web_client_zero
        (str "GET / HTTP/1.1\r\nConnection: keep-alive\r\n\r\n")).map
      (fun r => (r.1, r.2.flag_keepalive)) = some (HTTP_VALIDATION_OK, true) ∧
    ((web_client_parse_headers spec_env web_client_zero
        (str "GET / HTTP/1.1\r\nFoo\r\nConnection: keep-alive\r\n\r\n") 5).map
      (fun r => r.1.flag_keepalive)) = some false := by
  decide

/-! ## Serving a file: rejected names -/

/-- The resolution loop answers 404 or 403 when it answers at all. -/
theorem mysendfile_resolve_answer (world : World) (filename : List Nat) :
    ∀ (fuel : Nat) (w : web_client) (webfilename : List Nat) (code : Int) (w' : web_client),
      mysendfile_resolve world filename fuel w webfilename = some (resolved.answer code w') →
      code = 404 ∨ code = 403 := by
  intro fuel
  induction fuel with
  | zero => intro w wf code w' h; simp [mysendfile_resolve] at h
  | succ n ih =>
    intro w wf code w' h
    simp only [mysendfile_resolve] at h
    cases hl : world.lstat wf with
    | none =>
      rw [hl] at h
      simp only [Option.some.injEq, resolved.answer.injEq] at h
      exact Or.inl h.1.symm
    | some st =>
      rw [hl] at h
      simp only [] at h
      split_ifs at h with h1 h2 h3 h4
      · exact ih _ _ _ _ h
      · simp only [access_to_file_is_not_permitted, Option.some.injEq,
          resolved.answer.injEq] at h
        exact Or.inr h.1.symm
      · simp only [access_to_file_is_not_permitted, Option.some.injEq,
          resolved.answer.injEq] at h
        exact Or.inr h.1.symm
      · simp only [access_to_file_is_not_permitted, Option.some.injEq,
          resolved.answer.injEq] at h
        exact Or.inr h.1.symm
      · simp at h

/-- The opening of the file answers 307, 404 or 200. -/
theorem mysendfile_open_code (world : World) (w : web_client) (filename webfilename : List Nat)
    (statbuf : stat) :
    (mysendfile_open world w filename webfilename statbuf).1 = 307 ∨
    (mysendfile_open world w filename webfilename statbuf).1 = 404 ∨
    (mysendfile_open world w filename webfilename statbuf).1 = 200 := by
  unfold mysendfile_open
  simp only []
  split_ifs
  · exact Or.inl rfl
  · exact Or.inr (Or.inl rfl)
  · exact Or.inr (Or.inr rfl)

/-- C14: for a client permitted dashboard access and every file name: if the
name, after its leading slashes, holds a character outside `[A-Za-z0-9/._-]`
or holds `..`, `mysendfile` returns 400 with no call recorded (no `lstat`, no
`open`) and with mode and `ifd` as they were; and if the name lies inside that
alphabet and holds no `..`, `mysendfile` does not return 400. -/
theorem mysendfile_rejects (world : World) (fuel : Nat) (w : web_client)
    (filename : List Nat) (hacl : w.acl_dashboard = true) :
    ((¬ (cstr filename (scan_while (fun c => c == SLASH) filename 0)).all filename_char_ok
        = true ∨
      [DOT, DOT] <:+: cstr filename (scan_while (fun c => c == SLASH) filename 0)) →
      ∃ w', mysendfile world fuel w filename = some (400, w') ∧
        w'.trace = w.trace ∧ w'.mode = w.mode ∧ w'.ifd = w.ifd) ∧
    ((cstr filename (scan_while (fun c => c == SLASH) filename 0)).all filename_char_ok = true →
      ¬ [DOT, DOT] <:+: cstr filename (scan_while (fun c => c == SLASH) filename 0) →
      ∀ w', mysendfile world fuel w filename ≠ some (400, w')) := by
  generalize hn : cstr filename (scan_while (fun c => c == SLASH) filename 0) = name
  constructor
  · intro hbad
    by_cases hall : name.all filename_char_ok = true
    · have hdd : [DOT, DOT] <:+: name := by
        rcases hbad with h | h
        · exact absurd hall h
        · exact h
      simp only [mysendfile, hacl, hn, hall, hdd, not_true_eq_false, if_false, if_true]
      exact ⟨_, rfl, rfl, rfl, rfl⟩
    · simp only [mysendfile, hacl, hn, hall, not_true_eq_false, if_false, not_false_eq_true,
        if_true]
      exact ⟨_, rfl, rfl, rfl, rfl⟩
  · intro hall hdd w' h
    simp only [mysendfile, hacl, hn, hall, hdd, not_true_eq_false, if_false] at h
    cases hr : mysendfile_resolve world name fuel w
        (snprintfz world.FILENAME_MAX (world.netdata_configured_web_dir ++ str "/" ++ name)) with
    | none => rw [hr] at h; simp at h
    | some r =>
      rw [hr] at h
      cases r with
      | answer code w1 =>
        simp only [Option.some.injEq, Prod.mk.injEq] at h
        have := mysendfile_resolve_answer world name fuel w _ code w1 hr
        omega
      | file w1 wf st =>
        simp only [Option.some.injEq] at h
        have hc := mysendfile_open_code world w1 name wf st
        rw [h] at hc
        simp at hc

/-- Witness of C14: the names `/a/../b` and `/x y` are refused, the name
`//index.html` is served. -/
theorem mysendfile_rejects_witness :
    dashboard_client.acl_dashboard = true ∧
    (∃ w', mysendfile spec_world 3 dashboard_client (str "/a/../b") = some (400, w') ∧
      w'.trace = dashboard_client.trace ∧ w'.mode = dashboard_client.mode ∧
      w'.ifd = dashboard_client.ifd) ∧
    (∃ w', mysendfile spec_world 3 dashboard_client (str "/x y") = some (400, w') ∧
      w'.trace = dashboard_client.trace ∧ w'.mode = dashboard_client.mode ∧
      w'.ifd = dashboard_client.ifd) ∧
    (∀ w', mysendfile spec_world 3 dashboard_client (str "//index.html") ≠ some (400, w')) :=
  ⟨rfl,
    (mysendfile_rejects spec_world 3 dashboard_client (str "/a/../b") rfl).1
      (Or.inr (by decide)),
    (mysendfile_rejects spec_world 3 dashboard_client (str "/x y") rfl).1
      (Or.inl (by decide)),
    (mysendfile_rejects spec_world 3 dashboard_client (str "//index.html") rfl).2
      (by decide) (by decide)⟩

/-! ## Serving a file: the resolution loop -/

/-- Writing the response body leaves the trace as it is. -/
theorem set_data_trace (w : web_client) (wb : BUFFER) : (set_data w wb).trace = w.trace := rfl

/-- Writing the response body leaves the mode as it is. -/
theorem set_data_mode (w : web_client) (wb : BUFFER) : (set_data w wb).mode = w.mode := rfl

/-- Writing the response body leaves `ifd` as it is. -/
theorem set_data_ifd (w : web_client) (wb : BUFFER) : (set_data w wb).ifd = w.ifd := rfl

/-- Recording a call appends it to the trace. -/
theorem record_trace (w : web_client) (e : io_event) : (record w e).trace = w.trace ++ [e] := rfl

/-- Recording a call leaves the mode as it is. -/
theorem record_mode (w : web_client) (e : io_event) : (record w e).mode = w.mode := rfl

/-- Recording a call leaves `ifd` as it is. -/
theorem record_ifd (w : web_client) (e : io_event) : (record w e).ifd = w.ifd := rfl

/-- A pass of the resolution loop over a directory goes on with the index
path. -/
theorem mysendfile_resolve_directory (world : World) (name : List Nat) (fuel : Nat)
    (w : web_client) (path : List Nat) (hd : is_directory (world.lstat path) = true) :
    mysendfile_resolve world name (fuel + 1) w path =
      mysendfile_resolve world name fuel (record w (io_event.lstat path))
        (index_path world name) := by
  cases hl : world.lstat path with
  | none => rw [hl] at hd; simp [is_directory] at hd
  | some st =>
    rw [hl] at hd
    simp only [is_directory, beq_iff_eq] at hd
    simp only [mysendfile_resolve, hl, hd, if_true, index_path]

/-- A pass of the resolution loop over a missing entry answers 404. -/
theorem mysendfile_resolve_missing (world : World) (name : List Nat) (fuel : Nat)
    (w : web_client) (path : List Nat) (hl : world.lstat path = none) :
    ∃ w', mysendfile_resolve world name (fuel + 1) w path = some (resolved.answer 404 w') ∧
      w'.trace = w.trace ++ [io_event.lstat path] ∧ w'.mode = w.mode ∧ w'.ifd = w.ifd := by
  simp only [mysendfile_resolve, hl]
  exact ⟨_, rfl, by simp only [set_data_trace, record_trace],
    by simp only [set_data_mode, record_mode], by simp only [set_data_ifd, record_ifd]⟩

/-- A pass of the resolution loop over an entry that is no directory and is not
a regular file of the expected user and group answers 403. -/
theorem mysendfile_resolve_denied (world : World) (name : List Nat) (fuel : Nat)
    (w : web_client) (path : List Nat) (statbuf : stat)
    (hl : world.lstat path = some statbuf)
    (hd : statbuf.st_mode &&& S_IFMT ≠ S_IFDIR)
    (hbad : statbuf.st_mode &&& S_IFMT ≠ S_IFREG ∨ statbuf.st_uid ≠ web_files_uid world ∨
      statbuf.st_gid ≠ web_files_gid world) :
    ∃ w', mysendfile_resolve world name (fuel + 1) w path = some (resolved.answer 403 w') ∧
      w'.trace = w.trace ++ [io_event.lstat path] ∧ w'.mode = w.mode ∧ w'.ifd = w.ifd := by
  simp only [mysendfile_resolve, hl, hd, if_false]
  by_cases h1 : statbuf.st_mode &&& S_IFMT ≠ S_IFREG
  · rw [if_pos h1]
    exact ⟨_, rfl, by simp only [access_to_file_is_not_permitted, set_data_trace, record_trace],
      by simp only [access_to_file_is_not_permitted, set_data_mode, record_mode],
      by simp only [access_to_file_is_not_permitted, set_data_ifd, record_ifd]⟩
  · rw [if_neg h1]
    by_cases h2 : statbuf.st_uid ≠ web_files_uid world
    · rw [if_pos h2]
      exact ⟨_, rfl, by simp only [access_to_file_is_not_permitted, set_data_trace, record_trace],
        by simp only [access_to_file_is_not_permitted, set_data_mode, record_mode],
        by simp only [access_to_file_is_not_permitted, set_data_ifd, record_ifd]⟩
    · rw [if_neg h2]
      have h3 : statbuf.st_gid ≠ web_files_gid world := by
        rcases hbad with h | h | h
        · exact absurd h h1
        · exact absurd h h2
        · exact h
      rw [if_pos h3]
      exact ⟨_, rfl, by simp only [access_to_file_is_not_permitted, set_data_trace, record_trace],
        by simp only [access_to_file_is_not_permitted, set_data_mode, record_mode],
        by simp only [access_to_file_is_not_permitted, set_data_ifd, record_ifd]⟩

/-- When the index path is a directory, the resolution loop started on it is
never left: every pass looks the same path up again. -/
theorem mysendfile_resolve_index_stuck (world : World) (name : List Nat)
    (hd : is_directory (world.lstat (index_path world name)) = true) :
    ∀ (fuel : Nat) (w : web_client),
      mysendfile_resolve world name fuel w (index_path world name) = none := by
  intro fuel
  induction fuel with
  | zero => intro w; rfl
  | succ n ih =>
    intro w
    rw [mysendfile_resolve_directory world name n w _ hd]
    exact ih _

/-- C15: in the document root of `spec_world` the entry `/web/dir` is a
directory and its entry `index.html` is a directory too; on the valid file
name `dir`, `mysendfile` does not return, whatever the fuel: the resolution
loop is not left after two look-ups, it looks `/web/dir/index.html` up again
on every pass. -/
theorem mysendfile_index_directory_never_returns :
    (str "dir").all filename_char_ok = true ∧ ¬ [DOT, DOT] <:+: str "dir" ∧
    is_directory (spec_world.lstat (str "/web/dir")) = true ∧
    is_directory (spec_world.lstat (str "/web/dir/index.html")) = true ∧
    ∀ fuel, mysendfile spec_world fuel dashboard_client (str "dir") = none := by
  refine ⟨by decide, by decide, by decide, by decide, ?_⟩
  intro fuel
  have hname : cstr (str "dir") (scan_while (fun c => c == SLASH) (str "dir") 0) = str "dir" := by
    decide
  have hacl : dashboard_client.acl_dashboard = true := rfl
  have hall : (str "dir").all filename_char_ok = true := by decide
  have hdd : ¬ [DOT, DOT] <:+: str "dir" := by decide
  have hfirst : is_directory (spec_world.lstat (first_path spec_world (str "dir"))) = true := by
    decide
  have hindex : is_directory (spec_world.lstat (index_path spec_world (str "dir"))) = true := by
    decide
  simp only [mysendfile, hacl, hname, hall, hdd, not_true_eq_false, if_false]
  cases fuel with
  | zero => rfl
  | succ n =>
    have e := mysendfile_resolve_directory spec_world (str "dir") n dashboard_client
      (first_path spec_world (str "dir")) hfirst
    simp only [first_path] at e
    rw [e, mysendfile_resolve_index_stuck spec_world (str "dir") hindex]

/-- C16: for a client permitted dashboard access and every valid file name (all
characters in the alphabet, no `..`), with `resolved_entry` the path the loop
ends at: if that entry does not exist, `mysendfile` returns 404; if it is
neither a directory nor a regular file, or is a regular file whose uid differs
from `web_files_uid()` or whose gid differs from `web_files_gid()`,
`mysendfile` returns 403, the mode and `ifd` are as before, and the calls made
are the look-ups only: the file is not opened. -/
theorem mysendfile_denied_or_missing (world : World) (fuel : Nat) (w : web_client)
    (filename : List Nat) (hacl : w.acl_dashboard = true)
    (hall : (cstr filename (scan_while (fun c => c == SLASH) filename 0)).all filename_char_ok
      = true)
    (hdd : ¬ [DOT, DOT] <:+: cstr filename (scan_while (fun c => c == SLASH) filename 0)) :
    (world.lstat (resolved_entry world
        (cstr filename (scan_while (fun c => c == SLASH) filename 0))) = none →
      ∃ w', mysendfile world (fuel + 2) w filename = some (404, w') ∧
        w'.trace = w.trace ++
          lookups world (cstr filename (scan_while (fun c => c == SLASH) filename 0))) ∧
    (∀ statbuf : stat,
      world.lstat (resolved_entry world
        (cstr filename (scan_while (fun c => c == SLASH) filename 0))) = some statbuf →
      statbuf.st_mode &&& S_IFMT ≠ S_IFDIR →
      (statbuf.st_mode &&& S_IFMT ≠ S_IFREG ∨ statbuf.st_uid ≠ web_files_uid world ∨
        statbuf.st_gid ≠ web_files_gid world) →
      ∃ w', mysendfile world (fuel + 2) w filename = some (403, w') ∧
        w'.mode = w.mode ∧ w'.ifd = w.ifd ∧
        w'.trace = w.trace ++
          lookups world (cstr filename (scan_while (fun c => c == SLASH) filename 0))) := by
  generalize hn : cstr filename (scan_while (fun c => c == SLASH) filename 0) = name at *
  have hm : mysendfile world (fuel + 2) w filename =
      match mysendfile_resolve world name (fuel + 2) w (first_path world name) with
      | none => none
      | some (resolved.answer code w) => some (code, w)
      | some (resolved.file w webfilename statbuf) =>
        some (mysendfile_open world w name webfilename statbuf) := by
    simp only [mysendfile, hacl, hn, hall, hdd, not_true_eq_false, if_false, first_path]
  rw [hm]
  by_cases hfd : is_directory (world.lstat (first_path world name)) = true
  · rw [mysendfile_resolve_directory world name (fuel + 1) w _ hfd]
    simp only [resolved_entry, lookups, hfd, if_true]
    constructor
    · intro hl
      obtain ⟨w1, e, ht, _, _⟩ := mysendfile_resolve_missing world name fuel
        (record w (io_event.lstat (first_path world name))) _ hl
      rw [e]
      exact ⟨w1, rfl, by simp [ht, record]⟩
    · intro st hl hd hbad
      obtain ⟨w1, e, ht, hmode, hifd⟩ := mysendfile_resolve_denied world name fuel
        (record w (io_event.lstat (first_path world name))) _ st hl hd hbad
      rw [e]
      exact ⟨w1, rfl, by simp [hmode, record], by simp [hifd, record], by simp [ht, record]⟩
  · simp only [resolved_entry, lookups, hfd, if_false, Bool.false_eq_true]
    constructor
    · intro hl
      obtain ⟨w1, e, ht, _, _⟩ := mysendfile_resolve_missing world name (fuel + 1) w _ hl
      rw [e]
      exact ⟨w1, rfl, ht⟩
    · intro st hl hd hbad
      obtain ⟨w1, e, ht, hmode, hifd⟩ := mysendfile_resolve_denied world name (fuel + 1) w _ st
        hl hd hbad
      rw [e]
      exact ⟨w1, rfl, hmode, hifd, ht⟩

/-- Witness of C16: in the document root of `spec_world` the name `nothing` is
missing (404), `link` is a symbolic link (403) and `root.txt` belongs to
user 0 (403). -/
theorem mysendfile_denied_or_missing_witness :
    (∃ w', mysendfile spec_world 2 dashboard_client (str "/nothing") = some (404, w') ∧
      w'.trace = dashboard_client.trace ++ [io_event.lstat (str "/web/nothing")]) ∧
    (∃ w', mysendfile spec_world 2 dashboard_client (str "/link") = some (403, w') ∧
      w'.mode = dashboard_client.mode ∧ w'.ifd = dashboard_client.ifd ∧
      w'.trace = dashboard_client.trace ++ [io_event.lstat (str "/web/link")]) ∧
    (∃ w', mysendfile spec_world 2 dashboard_client (str "/root.txt") = some (403, w') ∧
      w'.mode = dashboard_client.mode ∧ w'.ifd = dashboard_client.ifd ∧
      w'.trace = dashboard_client.trace ++ [io_event.lstat (str "/web/root.txt")]) :=
  ⟨(mysendfile_denied_or_missing spec_world 0 dashboard_client (str "/nothing") rfl
      (by decide) (by decide)).1 (by decide),
    (mysendfile_denied_or_missing spec_world 0 dashboard_client (str "/link") rfl
      (by decide) (by decide)).2 { spec_regular_file with st_mode := S_IFLNK + 0o777 }
      (by decide) (by decide) (Or.inl (by decide)),
    (mysendfile_denied_or_missing spec_world 0 dashboard_client (str "/root.txt") rfl
      (by decide) (by decide)).2 { spec_regular_file with st_uid := 0 }
      (by decide) (by decide) (Or.inr (Or.inl (by decide)))⟩

/-! ## The router: the directory `api` -/

/-- The bytes read one by one over a span are the bytes of the span. -/
theorem bytes_at_of_span (buf : List Nat) (start n : Nat) (u : List Nat)
    (h : (buf.drop start).take n = u) (hn : u.length = n) : bytes_at buf start n = u := by
  subst h
  apply List.ext_getElem
  · simp [bytes_at, hn]
  · intro i h1 h2
    simp only [bytes_at, List.getElem_map, List.getElem_range, peek, List.getElem_take,
      List.getElem_drop]
    have hlt : start + i < buf.length := by
      simp only [List.length_take, List.length_drop] at h2
      omega
    simp [List.getD_eq_getElem?_getD, List.getElem?_eq_getElem hlt]

/-- A span without a terminator in it is the start of the string at its
offset. -/
theorem cstr_take_of_span (buf : List Nat) (start n : Nat) (u : List Nat)
    (h : (buf.drop start).take n = u) (hn : u.length = n) (h0 : ∀ x ∈ u, x ≠ 0) :
    (cstr buf start).take n = u := by
  have e : buf.drop start = u ++ (buf.drop start).drop n := by
    rw [← h]
    exact (List.take_append_drop n _).symm
  unfold cstr
  rw [e, List.takeWhile_append_of_pos]
  · rw [← hn, List.take_left]
  · intro x hx
    simpa using h0 x hx

/-- C17 (as amended): for every host, every connection and every URL pointer:
when the path is longer than one byte, the directory span covers the bytes
`api` and the two hashes of the library agree on `api`,
`web_client_process_url` returns what `web_client_api_request` returns,
whatever the access bits of the client are: no access check is made on the
way; and when the comparison of line 605 accepts the version span as `v1`,
that is what the handler `web_client_api_request_v1` returns, which has been
invoked. -/
theorem web_client_process_url_api (env : Env) (world : World) (fuel : Nat) (host : RRDHOST)
    (w : web_client) (url : Option Nat) (cmp : Nat)
    (hpath : 1 < w.path.length)
    (hdir : w.directory = { body := some cmp, length := 3 })
    (hspan : span_bytes w.decoded_url w.directory = some (str "api"))
    (hhash : world.simple_nhash (str "api") = world.simple_hash (str "api")) :
    web_client_process_url env world (fuel + 1) host w url =
      some (web_client_api_request world host w url) ∧
    (∀ body : Nat, w.version.body = some body →
      strncmp_eq (world.mystrsep w.decoded_url url (str "/")).1 body (str "v1")
        w.version.length = true →
      web_client_process_url env world (fuel + 1) host w url =
        some (world.web_client_api_request_v1 host
          (record { w with decoded_url := (world.mystrsep w.decoded_url url (str "/")).1 }
            (io_event.api_request_v1 host))
          (world.mystrsep w.decoded_url url (str "/")).2.1)) := by
  have hs : (w.decoded_url.drop cmp).take 3 = str "api" := by
    rw [hdir] at hspan
    simpa [span_bytes] using hspan
  have hb := bytes_at_of_span w.decoded_url cmp 3 (str "api") hs (by decide)
  have hc := cstr_take_of_span w.decoded_url cmp 3 (str "api") hs (by decide) (by decide)
  have hcmp : strncmp_eq w.decoded_url cmp (str "api") 3 = true := by
    simp only [strncmp_eq, hc]
    decide
  have hmain : web_client_process_url env world (fuel + 1) host w url =
      some (web_client_api_request world host w url) := by
    simp only [web_client_process_url, hpath, if_true, hdir, hb, hhash, hcmp, and_self,
      check_host_and_call]
  refine ⟨hmain, ?_⟩
  intro body hbody hv1
  rw [hmain]
  simp only [web_client_api_request, hbody, hv1, if_true]

/-- Witness of C17 (as amended): the request `GET /api/v1/info` of a client
that has no access bit at all reaches the handler. -/
theorem web_client_process_url_api_witness :
    web_client_process_url spec_env spec_world 1 0
      (parsed_request spec_env web_client_zero (str "GET /api/v1/info HTTP/1.1\r\n\r\n"))
      (some 0) =
    some (spec_world.web_client_api_request_v1 0
      (record
        { parsed_request spec_env web_client_zero (str "GET /api/v1/info HTTP/1.1\r\n\r\n") with
          decoded_url := (spec_world.mystrsep
            (parsed_request spec_env web_client_zero
              (str "GET /api/v1/info HTTP/1.1\r\n\r\n")).decoded_url (some 0) (str "/")).1 }
        (io_event.api_request_v1 0))
      (spec_world.mystrsep
        (parsed_request spec_env web_client_zero
          (str "GET /api/v1/info HTTP/1.1\r\n\r\n")).decoded_url (some 0) (str "/")).2.1) :=
  (web_client_process_url_api spec_env spec_world 0 0
    (parsed_request spec_env web_client_zero (str "GET /api/v1/info HTTP/1.1\r\n\r\n"))
    (some 0) 1 (by decide) (by decide) (by decide) (by decide)).2 5 (by decide) (by decide)

/-- C17, counterexample: a client that may fetch badges only (neither the
dashboard nor the management check passes; the test `web_client_process_request`
makes before it calls `web_client_process_url` does) asks for `/api/v1/info`,
whose directory is `api`. `web_client_process_url` does not answer 403, which
is what `web_client_permission_denied` returns: it returns the 200 of the
handler, which has been invoked. -/
theorem web_client_process_url_api_without_access :
    api_request.acl_dashboard = false ∧ api_request.acl_mgmt = false ∧
    no_access api_request = false ∧
    span_bytes api_request.decoded_url api_request.directory = some (str "api") ∧
    (web_client_process_url spec_env spec_world 1 spec_world.localhost api_request
      (some 0)).map (fun r => (r.1, r.2.trace)) = some (200, [io_event.api_request_v1 0]) ∧
    (web_client_permission_denied api_request).1 = 403 := by
  decide

/-! ## The router: the directory `host` -/

/-- Where `web_client_switch_host` copies the URL and sets the directory, it
writes the switch mark, the last URL and the directory, version and command
spans only. -/
theorem web_client_switch_host_copy_url_frame (env : Env) (w : web_client) (tok : Nat) :
    ∃ l d v c, web_client_switch_host_copy_url env w tok
      = { w with switch_host := 1, last_url := l, directory := d, version := v,
                 command := c } := by
  unfold web_client_switch_host_copy_url
  simp only []
  split
  · split
    · split
      · split
        · rename_i _ enddir _ _ moveme _
          obtain ⟨d, v, c, e⟩ := web_client_set_directory_frame
            { w with
              switch_host := 1
              last_url := SLASH ::
                (cstr w.decoded_url (tok + 1)).take (env.NETDATA_WEB_REQUEST_URL_SIZE - 1) }
            (tok + 1) (some enddir) moveme
          rw [e]
          exact ⟨_, _, _, _, rfl⟩
        · exact ⟨_, w.directory, w.version, w.command, rfl⟩
      · exact ⟨_, _, w.version, w.command, rfl⟩
    · split
      · exact ⟨_, _, w.version, w.command, rfl⟩
      · split
        · exact ⟨_, _, w.version, w.command, rfl⟩
        · exact ⟨_, w.directory, w.version, w.command, rfl⟩
  · exact ⟨_, w.directory, w.version, w.command, rfl⟩

/-- C18 (as amended): `web_client_switch_host` on a host, a connection and a URL pointer.
If the host is not the default host, it returns 400 with the body `Nesting of
hosts is not allowed.`, makes no call, and the answer does not depend on
`web_client_process_url`. If the host is the default host and no `/` follows
the host identifier, it returns 404 and makes no lookup, whether or not a host
of that name exists. If a `/` follows at `tok`, the identifier is looked up by
name and, when that fails, by unique id: when both fail it returns 404; when
one of them gives a host, the answer is that of `web_client_process_url` on
that host, with the URL pointer at `tok`, the connection marked as switched and
the lookups recorded. -/
theorem web_client_switch_host_cases (env : Env) (world : World) (fuel : Nat) (host : RRDHOST)
    (w : web_client) (url : Nat) :
    (host ≠ world.localhost →
      ∀ k, ∃ w', web_client_switch_host env world k host w url = some (400, w') ∧
        w'.response.data.buffer = str "Nesting of hosts is not allowed." ∧
        w'.trace = w.trace) ∧
    (host = world.localhost → strchr w.decoded_url url SLASH = none →
      ∀ k, ∃ w', web_client_switch_host env world k host w url = some (404, w') ∧
        w'.trace = w.trace) ∧
    (host = world.localhost → ∀ tok, strchr w.decoded_url url SLASH = some tok →
      (world.rrdhost_find_by_hostname (cstr (w.decoded_url.set tok 0) url)
          (world.simple_hash (cstr (w.decoded_url.set tok 0) url)) = none →
        world.rrdhost_find_by_guid (cstr (w.decoded_url.set tok 0) url)
          (world.simple_hash (cstr (w.decoded_url.set tok 0) url)) = none →
        ∀ k, ∃ w', web_client_switch_host env world k host w url = some (404, w') ∧
          w'.trace = w.trace ++
            [io_event.find_by_hostname (cstr (w.decoded_url.set tok 0) url),
             io_event.find_by_guid (cstr (w.decoded_url.set tok 0) url)]) ∧
      (∀ found,
        world.rrdhost_find_by_hostname (cstr (w.decoded_url.set tok 0) url)
          (world.simple_hash (cstr (w.decoded_url.set tok 0) url)) = some found →
        ∃ w', web_client_switch_host env world (web_client_process_url env world fuel) host w url
            = web_client_process_url env world fuel found w' (some tok) ∧
          w'.switch_host = 1 ∧
          w'.decoded_url = (w.decoded_url.set tok 0).set tok SLASH ∧
          w'.trace = w.trace ++
            [io_event.find_by_hostname (cstr (w.decoded_url.set tok 0) url)]) ∧
      (∀ found,
        world.rrdhost_find_by_hostname (cstr (w.decoded_url.set tok 0) url)
          (world.simple_hash (cstr (w.decoded_url.set tok 0) url)) = none →
        world.rrdhost_find_by_guid (cstr (w.decoded_url.set tok 0) url)
          (world.simple_hash (cstr (w.decoded_url.set tok 0) url)) = some found →
        ∃ w', web_client_switch_host env world (web_client_process_url env world fuel) host w url
            = web_client_process_url env world fuel found w' (some tok) ∧
          w'.switch_host = 1 ∧
          w'.decoded_url = (w.decoded_url.set tok 0).set tok SLASH ∧
          w'.trace = w.trace ++
            [io_event.find_by_hostname (cstr (w.decoded_url.set tok 0) url),
             io_event.find_by_guid (cstr (w.decoded_url.set tok 0) url)])) := by
  refine ⟨?_, ?_, ?_⟩
  · intro hh k
    simp only [web_client_switch_host, hh, ne_eq, not_false_eq_true, if_true]
    exact ⟨_, rfl, by simp [set_data, buffer_strcat, buffer_flush],
      by simp only [set_data_trace]⟩
  · intro hh hs k
    simp only [web_client_switch_host, hh, ne_eq, not_true_eq_false, if_false, hs]
    exact ⟨_, rfl, by simp only [web_client_switch_host_unknown, set_data_trace]⟩
  · intro hh tok hs
    obtain ⟨l, d, v, c, e⟩ := web_client_switch_host_copy_url_frame env w tok
    generalize hw1 : web_client_switch_host_copy_url env w tok = w1 at e
    have hdu : w1.decoded_url = w.decoded_url := by rw [e]
    have htr : w1.trace = w.trace := by rw [e]
    have hsw : w1.switch_host = 1 := by rw [e]
    refine ⟨?_, ?_, ?_⟩
    · intro hn hg k
      simp only [web_client_switch_host, hh, ne_eq, not_true_eq_false, if_false, hs, hw1, hdu,
        hn, hg]
      exact ⟨_, rfl, by
        simp only [web_client_switch_host_unknown, set_data_trace, record_trace, htr,
          List.append_assoc, List.singleton_append]⟩
    · intro found hn
      simp only [web_client_switch_host, hh, ne_eq, not_true_eq_false, if_false, hs, hw1, hdu,
        hn]
      exact ⟨_, rfl, hsw, rfl, by simp only [record_trace, htr]⟩
    · intro found hn hg
      simp only [web_client_switch_host, hh, ne_eq, not_true_eq_false, if_false, hs, hw1, hdu,
        hn, hg]
      exact ⟨_, rfl, hsw, rfl, by
        simp only [record_trace, htr, List.append_assoc, List.singleton_append]⟩

/-- Witness of C18 (as amended): on the request for `/host/myhost/` a host other than the
default host gets 400, and the default host is switched to the host `myhost`,
number 1, with the URL pointer at the `/` at offset 12. -/
theorem web_client_switch_host_cases_witness :
    (∃ w', web_client_switch_host spec_env spec_world
        (web_client_process_url spec_env spec_world 3) 1 host_request 6 = some (400, w') ∧
      w'.response.data.buffer = str "Nesting of hosts is not allowed." ∧
      w'.trace = host_request.trace) ∧
    (∃ w', web_client_switch_host spec_env spec_world
        (web_client_process_url spec_env spec_world 3) 0 host_request 6
          = web_client_process_url spec_env spec_world 3 1 w' (some 12) ∧
      w'.switch_host = 1 ∧
      w'.decoded_url = (host_request.decoded_url.set 12 0).set 12 SLASH ∧
      w'.trace = host_request.trace ++
        [io_event.find_by_hostname (cstr (host_request.decoded_url.set 12 0) 6)]) :=
  ⟨(web_client_switch_host_cases spec_env spec_world 3 1 host_request 6).1 (by decide) _,
    ((web_client_switch_host_cases spec_env spec_world 3 0 host_request 6).2.2 rfl 12
      (by decide)).2.1 1 (by decide)⟩

/-- C18, counterexample: the request for `/host/myhost` has the directory
`host` and its host identifier `myhost` matches a host by name, yet
`web_client_switch_host` answers 404 on the default host without any lookup:
the request is not passed on to `web_client_process_url` for that host. -/
theorem web_client_switch_host_without_slash :
    span_bytes host_request_bare.decoded_url host_request_bare.directory = some (str "host") ∧
    cstr host_request_bare.decoded_url 6 = str "myhost" ∧
    spec_world.rrdhost_find_by_hostname (str "myhost") (spec_world.simple_hash (str "myhost"))
      = some 1 ∧
    observed (web_client_switch_host spec_env spec_world
        (web_client_process_url spec_env spec_world 3) spec_world.localhost host_request_bare 6)
      = some (404, str "This netdata does not maintain a database for host: ", []) ∧
    observed (web_client_process_url spec_env spec_world 4 spec_world.localhost
        host_request_bare (some 0))
      = some (404, str "This netdata does not maintain a database for host: ", []) := by
  decide

/-! ## The response header: the transfer method -/

/-- What `decimal_loop` puts before `acc` are digits. -/
theorem decimal_loop_digits :
    ∀ (fuel n : Nat) (acc : List Nat) (c : Nat),
      c ∈ decimal_loop fuel n acc → c ∈ acc ∨ (48 ≤ c ∧ c ≤ 57) := by
  intro fuel
  induction fuel with
  | zero => intro n acc c h; exact Or.inl h
  | succ k ih =>
    intro n acc c h
    simp only [decimal_loop] at h
    split_ifs at h with hn
    · rcases List.mem_cons.mp h with h | h
      · right; omega
      · exact Or.inl h
    · rcases ih _ _ _ h with h | h
      · rcases List.mem_cons.mp h with h | h
        · right; omega
        · exact Or.inl h
      · exact Or.inr h

/-- A number is printed in digits. -/
theorem decimal_digits (n c : Nat) (h : c ∈ decimal n) : 48 ≤ c ∧ c ≤ 57 := by
  rcases decimal_loop_digits _ _ _ _ h with h | h
  · simp at h
  · exact h

/-- The sending loop of the header leaves the response and the keep-alive flag
as they are. -/
theorem web_client_send_http_header_loop_frame (world : World) (ssl : Bool) (out : List Nat) :
    ∀ (remaining count : Nat) (w : web_client),
      (web_client_send_http_header_loop world ssl out remaining count w).2.response = w.response ∧
      (web_client_send_http_header_loop world ssl out remaining count w).2.flag_keepalive
        = w.flag_keepalive := by
  intro remaining
  induction remaining with
  | zero =>
    intro count w
    unfold web_client_send_http_header_loop
    simp only []
    split_ifs <;> exact ⟨rfl, rfl⟩
  | succ k ih =>
    intro count w
    unfold web_client_send_http_header_loop
    simp only []
    split_ifs <;> first | exact ⟨rfl, rfl⟩ | exact ih _ _

/-- The corking of the socket leaves the response and the keep-alive flag as
they are. -/
theorem web_client_crock_socket_frame (world : World) (w : web_client) :
    (web_client_crock_socket world w).2.response = w.response ∧
    (web_client_crock_socket world w).2.flag_keepalive = w.flag_keepalive := by
  unfold web_client_crock_socket
  split_ifs <;> exact ⟨rfl, rfl⟩

/-- The sending of the header leaves the header output and the keep-alive flag
as they are. -/
theorem web_client_send_http_header_send_frame (env : Env) (world : World) (w : web_client) :
    (web_client_send_http_header_send env world w).response = w.response ∧
    (web_client_send_http_header_send env world w).flag_keepalive = w.flag_keepalive := by
  obtain ⟨hc1, hc2⟩ := web_client_crock_socket_frame world w
  unfold web_client_send_http_header_send
  simp only []
  generalize hd : decide (env.ENABLE_HTTPS = true ∧ ¬ (web_client_crock_socket world w).2.flag_unix_socket = true ∧
    env.netdata_srv_ctx = true ∧ (web_client_crock_socket world w).2.ssl_conn = true ∧
    (web_client_crock_socket world w).2.ssl_flags = 0) = ssl
  obtain ⟨hl1, hl2⟩ := web_client_send_http_header_loop_frame world ssl
    (web_client_crock_socket world w).2.response.header_output.buffer 100 0
    (web_client_crock_socket world w).2
  split_ifs <;> exact ⟨hl1.trans hc1, hl2.trans hc2⟩

/-- Where the header is begun, the compression state, the declared length and
the keep-alive flag stay as they are, and so do the bytes of the response body
when `buffer_no_cacheable` leaves them alone. -/
theorem web_client_send_http_header_begin_frame (env : Env) (world : World) (w : web_client)
    (hnc : ∀ wb, (world.buffer_no_cacheable wb).buffer = wb.buffer) :
    (web_client_send_http_header_begin env world w).response.zoutput = w.response.zoutput ∧
    (web_client_send_http_header_begin env world w).response.rlen = w.response.rlen ∧
    (web_client_send_http_header_begin env world w).flag_keepalive = w.flag_keepalive ∧
    (web_client_send_http_header_begin env world w).response.data.buffer
      = w.response.data.buffer := by
  unfold web_client_send_http_header_begin web_client_send_http_header_expires
  simp only []
  split_ifs <;> simp [set_header_output, set_data, hnc]

/-- C20: the header output after `web_client_send_http_header` is the header
output as it stands when the custom header has been copied, then the
transfer-method part, then the empty line. When compression is active the part
is the two lines `Content-Encoding: gzip` and `Transfer-Encoding: chunked`.
When it is not and the data length or the declared length is not zero, the part
is the one line `Content-Length: n`, n being the data length when that is not
zero and the declared length else, and the keep-alive flag is as before. When
it is not and both lengths are zero, the part is empty and the keep-alive flag
is off. The compression part holds no `Content-Length`, and no
`Content-Length` line holds `Transfer-Encoding: chunked`. (The data length is
that of the response body, which `buffer_no_cacheable` is taken to leave
alone.) -/
theorem web_client_send_http_header_transfer_part (env : Env) (world : World) (w : web_client)
    (hnc : ∀ wb, (world.buffer_no_cacheable wb).buffer = wb.buffer) :
    (w.response.zoutput = true →
      (web_client_send_http_header env world w).response.header_output.buffer =
        (web_client_send_http_header_begin env world w).response.header_output.buffer ++
          (str "Content-Encoding: gzip\r\n" ++ str "Transfer-Encoding: chunked\r\n") ++
          str "\r\n") ∧
    (w.response.zoutput = false →
      (w.response.data.buffer.length ≠ 0 ∨ w.response.rlen ≠ 0) →
      (web_client_send_http_header env world w).response.header_output.buffer =
        (web_client_send_http_header_begin env world w).response.header_output.buffer ++
          (str "Content-Length: " ++
            decimal (if w.response.data.buffer.length ≠ 0 then w.response.data.buffer.length
                     else w.response.rlen) ++ str "\r\n") ++
          str "\r\n" ∧
      (web_client_send_http_header env world w).flag_keepalive = w.flag_keepalive) ∧
    (w.response.zoutput = false → w.response.data.buffer.length = 0 → w.response.rlen = 0 →
      (web_client_send_http_header env world w).response.header_output.buffer =
        (web_client_send_http_header_begin env world w).response.header_output.buffer ++
          str "\r\n" ∧
      (web_client_send_http_header env world w).flag_keepalive = false) ∧
    ¬ str "Content-Length" <:+:
      (str "Content-Encoding: gzip\r\n" ++ str "Transfer-Encoding: chunked\r\n") ∧
    (∀ n : Nat, ¬ str "Transfer-Encoding: chunked" <:+:
      (str "Content-Length: " ++ decimal n ++ str "\r\n")) := by
  obtain ⟨hz, hr, hk, hb⟩ := web_client_send_http_header_begin_frame env world w hnc
  generalize hB : web_client_send_http_header_begin env world w = b at hz hr hk hb
  have hsend := web_client_send_http_header_send_frame env world
    (web_client_send_http_header_transfer b)
  have hH : (web_client_send_http_header env world w).response.header_output.buffer
      = (web_client_send_http_header_transfer b).response.header_output.buffer := by
    simp only [web_client_send_http_header, hB, hsend.1]
  have hK : (web_client_send_http_header env world w).flag_keepalive
      = (web_client_send_http_header_transfer b).flag_keepalive := by
    simp only [web_client_send_http_header, hB, hsend.2]
  rw [hH, hK]
  refine ⟨?_, ?_, ?_, by decide, ?_⟩
  · intro h
    rw [← hz] at h
    simp [web_client_send_http_header_transfer, h, set_header_output, buffer_strcat]
  · intro h hlen
    rw [← hz] at h
    rw [← hb, ← hr] at hlen ⊢
    rw [← hk]
    simp only [web_client_send_http_header_transfer, h, Bool.false_eq_true, if_false, hlen,
      if_true]
    constructor
    · simp [set_header_output, buffer_strcat, buffer_sprintf]
    · rfl
  · intro h h1 h2
    rw [← hz] at h
    rw [← hb] at h1
    rw [← hr] at h2
    simp [web_client_send_http_header_transfer, h, h1, h2, set_header_output, buffer_strcat]
  · intro n hin
    have hmem : 84 ∈ str "Content-Length: " ++ decimal n ++ str "\r\n" :=
      hin.subset (by decide)
    rcases List.mem_append.mp hmem with h | h
    · rcases List.mem_append.mp h with h | h
      · exact absurd h (by decide)
      · have := decimal_digits n 84 h
        omega
    · exact absurd h (by decide)

/-- Witness of C20: a response of five bytes with compression not active gets
the line `Content-Length: 5`, and the keep-alive flag stays as it is. -/
theorem web_client_send_http_header_transfer_part_witness :
    (web_client_send_http_header spec_env spec_world ready_response).response.header_output.buffer =
      (web_client_send_http_header_begin spec_env spec_world
          ready_response).response.header_output.buffer ++
        (str "Content-Length: " ++
          decimal (if ready_response.response.data.buffer.length ≠ 0
                   then ready_response.response.data.buffer.length
                   else ready_response.response.rlen) ++ str "\r\n") ++
        str "\r\n" ∧
    (web_client_send_http_header spec_env spec_world ready_response).flag_keepalive
      = ready_response.flag_keepalive :=
  (web_client_send_http_header_transfer_part spec_env spec_world ready_response
    (fun _ => rfl)).2.1 rfl (Or.inl (by decide))

/-! ## Protocol errors -/

/-- An INCOMPLETE verdict from the method line on leaves the response and the
trace of the connection as they are. -/
theorem http_request_validate_parse_incomplete (env : Env) (w : web_client) (buf : List Nat)
    (w1 : web_client)
    (h : http_request_validate_parse env w buf = some (HTTP_VALIDATION_INCOMPLETE, w1)) :
    w1.response = w.response ∧ w1.trace = w.trace := by
  unfold http_request_validate_parse at h
  simp only [] at h
  rcases web_client_parse_method_method_of env w buf with ⟨_, h2⟩ | ⟨mode, e, _, h2⟩
  · cases hpm : web_client_parse_method env w buf 0 with
    | mk w' o =>
      rw [hpm] at h2 h
      simp only [] at h2
      subst h2
      simp at h
  · rw [h2] at h
    simp only [] at h
    obtain ⟨_, pr, hpr⟩ := web_client_find_protocol_eq env { w with mode := mode } buf e
    by_cases hp : peek buf (web_client_find_protocol env { w with mode := mode } buf e).2 = 0
    · rw [if_pos hp] at h
      simp only [Option.some.injEq, Prod.mk.injEq, true_and] at h
      rw [← h, hpr]
      exact ⟨rfl, rfl⟩
    · rw [if_neg hp] at h
      obtain ⟨w', hfin⟩ := http_request_validate_finish_verdict env
        (web_client_find_protocol env { w with mode := mode } buf e).1 buf e
        (web_client_find_protocol env { w with mode := mode } buf e).2
      rw [hfin] at h
      split_ifs at h <;> simp at h

/-- An INCOMPLETE verdict of `http_request_validate` leaves the response and
the trace of the connection as they are. -/
theorem http_request_validate_incomplete_frame (env : Env) (w w1 : web_client)
    (h : http_request_validate env w = some (HTTP_VALIDATION_INCOMPLETE, w1)) :
    w1.response = w.response ∧ w1.trace = w.trace := by
  unfold http_request_validate at h
  simp only [] at h
  split_ifs at h with h10 hst hst
  · simp at h
  · have hp := http_request_validate_parse_incomplete env _ _ w1 h
    exact hp
  · simp only [Option.some.injEq, Prod.mk.injEq, true_and] at h
    rw [← h]
    exact ⟨rfl, rfl⟩
  · have hp := http_request_validate_parse_incomplete env _ _ w1 h
    exact hp

/-- The header is built and sent without a change to the response code or to
the bytes of the response body (which `buffer_no_cacheable` is taken to leave
alone). -/
theorem web_client_send_http_header_code_body (env : Env) (world : World) (w : web_client)
    (hnc : ∀ wb, (world.buffer_no_cacheable wb).buffer = wb.buffer) :
    (web_client_send_http_header env world w).response.code = w.response.code ∧
    (web_client_send_http_header env world w).response.data.buffer
      = w.response.data.buffer := by
  have hb : (web_client_send_http_header_begin env world w).response.code = w.response.code ∧
      (web_client_send_http_header_begin env world w).response.data.buffer
        = w.response.data.buffer := by
    unfold web_client_send_http_header_begin web_client_send_http_header_expires
    simp only []
    split_ifs <;> simp [set_header_output, set_data, hnc]
  simp only [web_client_send_http_header]
  generalize web_client_send_http_header_begin env world w = b at hb ⊢
  have ht : (web_client_send_http_header_transfer b).response.code = b.response.code ∧
      (web_client_send_http_header_transfer b).response.data.buffer
        = b.response.data.buffer := by
    unfold web_client_send_http_header_transfer
    simp only []
    split_ifs <;> simp [set_header_output]
  have hs := (web_client_send_http_header_send_frame env world
    (web_client_send_http_header_transfer b)).1
  rw [← hb.1, ← hb.2, ← ht.1, ← ht.2, hs]
  exact ⟨rfl, rfl⟩

/-- After its `switch`, `web_client_process_request` changes neither the
response code nor the bytes of the response body. -/
theorem web_client_process_request_finish_code_body (env : Env) (world : World)
    (w : web_client) (hnc : ∀ wb, (world.buffer_no_cacheable wb).buffer = wb.buffer) :
    (web_client_process_request_finish env world w).response.code = w.response.code ∧
    (web_client_process_request_finish env world w).response.data.buffer
      = w.response.data.buffer := by
  unfold web_client_process_request_finish
  simp only []
  generalize hw2 : (if ({ { w with tv_ready := world.now_realtime_sec 1 } with
      response := { ({ w with tv_ready := world.now_realtime_sec 1 } : web_client).response with
        sent := 0 } } : web_client).response.data.date = 0 then _ else _) = w2
  have h2 : w2.response.code = w.response.code ∧
      w2.response.data.buffer = w.response.data.buffer := by
    rw [← hw2]
    split_ifs <;> exact ⟨rfl, rfl⟩
  obtain ⟨h3, h4⟩ := web_client_send_http_header_code_body env world w2 hnc
  generalize web_client_send_http_header env world w2 = w3 at h3 h4
  rw [← h2.1, ← h2.2, ← h3, ← h4]
  split_ifs <;> (split <;> exact ⟨rfl, rfl⟩)

/-- C19: `web_client_process_request` on a connection, by the verdict
`http_request_validate` gives it. A NOT_SUPPORTED verdict ends with the
response code 400 and the body `I don't understand you...` followed by CR LF.
An INCOMPLETE verdict with more than `NETDATA_WEB_REQUEST_MAX_SIZE` bytes in
the buffer ends with the response code 400. An INCOMPLETE verdict with at most
that many bytes returns with the whole response part of the connection as it
was (the code, the header output and the buffered request bytes) and with no
call made. In all three cases the function returns. (The body is compared
taking `buffer_no_cacheable` to leave its bytes alone.) -/
theorem web_client_process_request_protocol_errors (env : Env) (world : World) (fuel : Nat)
    (w : web_client) (hnc : ∀ wb, (world.buffer_no_cacheable wb).buffer = wb.buffer) :
    (verdict_of env world w = some HTTP_VALIDATION_NOT_SUPPORTED →
      ∃ w', web_client_process_request env world fuel w = some w' ∧
        w'.response.code = 400 ∧
        w'.response.data.buffer = str "I don't understand you..." ++ [CR, LF]) ∧
    (verdict_of env world w = some HTTP_VALIDATION_INCOMPLETE →
      world.NETDATA_WEB_REQUEST_MAX_SIZE < w.response.data.buffer.length →
      ∃ w', web_client_process_request env world fuel w = some w' ∧
        w'.response.code = 400) ∧
    (verdict_of env world w = some HTTP_VALIDATION_INCOMPLETE →
      w.response.data.buffer.length ≤ world.NETDATA_WEB_REQUEST_MAX_SIZE →
      ∃ w', web_client_process_request env world fuel w = some w' ∧
        w'.response = w.response ∧ w'.trace = w.trace) := by
  have hget : ∀ v, verdict_of env world w = some v →
      ∃ w1, http_request_validate env { w with tv_in := world.now_realtime_sec 0 }
        = some (v, w1) := by
    intro v hv
    unfold verdict_of at hv
    cases hr : http_request_validate env { w with tv_in := world.now_realtime_sec 0 } with
    | none => rw [hr] at hv; simp at hv
    | some r =>
      rw [hr] at hv
      simp only [Option.map_some', Option.some.injEq] at hv
      exact ⟨r.2, by rw [← hv]⟩
  refine ⟨?_, ?_, ?_⟩
  · intro hv
    obtain ⟨w1, h1⟩ := hget _ hv
    obtain ⟨hc, hb⟩ := web_client_process_request_finish_code_body env world
      { set_data (set_data w1 (buffer_flush w1.response.data))
          (buffer_strcat (set_data w1 (buffer_flush w1.response.data)).response.data
            (str "I don't understand you...\r\n")) with
        response :=
          { (set_data (set_data w1 (buffer_flush w1.response.data))
              (buffer_strcat (set_data w1 (buffer_flush w1.response.data)).response.data
                (str "I don't understand you...\r\n"))).response with code := 400 } } hnc
    refine ⟨_, ?_, hc, ?_⟩
    · simp only [web_client_process_request, h1, web_client_process_request_switch]
    · rw [hb]
      simp only [set_data, buffer_strcat, buffer_flush, List.nil_append]
      decide
  · intro hv hlen
    obtain ⟨w1, h1⟩ := hget _ hv
    obtain ⟨hr, _⟩ := http_request_validate_incomplete_frame env _ w1 h1
    have hlen1 : world.NETDATA_WEB_REQUEST_MAX_SIZE < w1.response.data.buffer.length := by
      rw [hr]
      exact hlen
    simp only [web_client_process_request, h1, web_client_process_request_switch, gt_iff_lt,
      hlen1, if_true]
    exact ⟨_, rfl, (web_client_process_request_finish_code_body env world _ hnc).1⟩
  · intro hv hlen
    obtain ⟨w1, h1⟩ := hget _ hv
    obtain ⟨hr, ht⟩ := http_request_validate_incomplete_frame env _ w1 h1
    have hlen1 : ¬ world.NETDATA_WEB_REQUEST_MAX_SIZE < w1.response.data.buffer.length := by
      rw [hr]
      exact Nat.not_lt.mpr hlen
    simp only [web_client_process_request, h1, web_client_process_request_switch, gt_iff_lt,
      hlen1, if_false]
    exact ⟨w1, rfl, hr, ht⟩

/-- Witness of C19: the method `FOO` is not understood (400), a request of 24
bytes without its end is too big for a cap of 16 bytes (400), and a request of
16 bytes without its end is waited for. -/
theorem web_client_process_request_protocol_errors_witness :
    (∃ w', web_client_process_request spec_env spec_world 3
        (set_buffer dashboard_client (str "FOO / HTTP/1.1\r\n\r\n")) = some w' ∧
      w'.response.code = 400 ∧
      w'.response.data.buffer = str "I don't understand you..." ++ [CR, LF]) ∧
    (∃ w', web_client_process_request spec_env small_world 3
        (set_buffer dashboard_client (str "GET /aaaaaaaaaaaaaaaaaaa")) = some w' ∧
      w'.response.code = 400) ∧
    (∃ w', web_client_process_request spec_env spec_world 3
        (set_buffer dashboard_client (str "GET / HTTP/1.1\r\n")) = some w' ∧
      w'.response = (set_buffer dashboard_client (str "GET / HTTP/1.1\r\n")).response ∧
      w'.trace = (set_buffer dashboard_client (str "GET / HTTP/1.1\r\n")).trace) :=
  ⟨(web_client_process_request_protocol_errors spec_env spec_world 3
      (set_buffer dashboard_client (str "FOO / HTTP/1.1\r\n\r\n")) (fun _ => rfl)).1
      (by decide),
    (web_client_process_request_protocol_errors spec_env small_world 3
      (set_buffer dashboard_client (str "GET /aaaaaaaaaaaaaaaaaaa")) (fun _ => rfl)).2.1
      (by decide) (by decide),
    (web_client_process_request_protocol_errors spec_env spec_world 3
      (set_buffer dashboard_client (str "GET / HTTP/1.1\r\n")) (fun _ => rfl)).2.2
      (by decide) (by decide)⟩

/-! ## The response header: caching -/

/-- Where the caching is settled, only the data buffer of the response
changes. -/
theorem web_client_send_http_header_expires_frame (world : World) (w : web_client) :
    ∃ d, web_client_send_http_header_expires world w = set_data w d := by
  unfold web_client_send_http_header_expires
  simp only []
  split_ifs <;> exact ⟨_, rfl⟩

/-- The header output after the header is begun is a beginning of the header
output after `web_client_send_http_header`. -/
theorem web_client_send_http_header_begin_prefix (env : Env) (world : World) (w : web_client) :
    (web_client_send_http_header_begin env world w).response.header_output.buffer <+:
      (web_client_send_http_header env world w).response.header_output.buffer := by
  simp only [web_client_send_http_header]
  generalize web_client_send_http_header_begin env world w = b
  rw [(web_client_send_http_header_send_frame env world
    (web_client_send_http_header_transfer b)).1]
  unfold web_client_send_http_header_transfer
  simp only []
  split_ifs <;> simp [set_header_output, buffer_strcat, buffer_sprintf]

/-- For the code 301 the host and the last URL are copied into `headerbegin`
whole, whatever their lengths: the bytes written are 23 more than the two
strings hold. -/
theorem web_client_send_http_header_headerbegin_extent (w : web_client)
    (h : w.response.code = 301) :
    web_client_send_http_header_headerbegin w =
      (str "\r\nLocation: https://" ++ w.host ++ w.last_url ++ str "\r\n",
        w.host.length + 20 + w.last_url.length + 2 + 1) := by
  simp only [web_client_send_http_header_headerbegin, h, if_true]

/-- C22: two connections with the response code 301, one whose host string
holds 8306 bytes and whose last URL is `/`, one whose host string holds 150
bytes and whose last URL holds 8192 bytes: the assembly of the `Location`
header writes 8330 bytes, and 8365 bytes, into the array `headerbegin` of 8328
bytes; nothing is cut (the text put together is as long as that, less the
terminator) and nothing is refused. The host string is the value of the `Host`
header as it came, whatever its length. -/
theorem web_client_send_http_header_location_overflow :
    redirect_response.response.code = 301 ∧
    redirect_response.host.length = 8306 ∧
    redirect_response.last_url.length = 1 ∧
    (web_client_send_http_header_headerbegin redirect_response).2 = 8330 ∧
    (web_client_send_http_header_headerbegin redirect_response).1.length = 8329 ∧
    redirect_long_url.response.code = 301 ∧
    redirect_long_url.host.length = 150 ∧
    redirect_long_url.last_url.length = 8192 ∧
    (web_client_send_http_header_headerbegin redirect_long_url).2 = 8365 ∧
    (web_client_send_http_header_headerbegin redirect_long_url).1.length = 8364 ∧
    HEADERBEGIN_SIZE < 8330 ∧
    (∀ value : List Nat,
      (http_header_apply spec_env web_client_zero (str "Host") value 0 value.length false).host
        = value) := by
  have hc : redirect_response.response.code = 301 := rfl
  have hh : redirect_response.host.length = 8306 := by
    show (List.replicate 8306 97).length = 8306
    exact List.length_replicate 8306 97
  have hl : redirect_response.last_url.length = 1 := by decide
  have he := web_client_send_http_header_headerbegin_extent redirect_response hc
  have hc2 : redirect_long_url.response.code = 301 := rfl
  have hh2 : redirect_long_url.host.length = 150 := by
    show (List.replicate 150 97).length = 150
    exact List.length_replicate 150 97
  have hl2 : redirect_long_url.last_url.length = 8192 := by
    show (SLASH :: List.replicate 8191 97).length = 8192
    rw [List.length_cons, List.length_replicate]
  have he2 := web_client_send_http_header_headerbegin_extent redirect_long_url hc2
  refine ⟨hc, hh, hl, ?_, ?_, hc2, hh2, hl2, ?_, ?_, by decide, ?_⟩
  · rw [he, hh, hl]
  · rw [he]
    simp only [List.length_append, hh, hl]
    decide
  · rw [he2, hh2, hl2]
  · rw [he2]
    simp only [List.length_append, hh2, hl2]
    decide
  · intro value
    have h1 : strcasecmp_eq (str "Host") (str "Origin") = false := by decide
    have h2 : strcasecmp_eq (str "Host") (str "Connection") = false := by decide
    have h3 : strcasecmp_eq (str "Host") (str "X-Auth-Token") = false := by decide
    have h4 : strcasecmp_eq (str "Host") (str "Host") = true := by decide
    have h5 : spec_env.respect_web_browser_do_not_track_policy = false := rfl
    simp [http_header_apply, h1, h2, h3, h4, h5]

/-! ## The sender: direct mode -/

/-- A `size_t` difference is 0 exactly when the two values are the same. -/
theorem size_t_sub_self (a : Nat) : size_t_sub a a = 0 := by
  simp [size_t_sub]

/-- The call of the socket changes the trace and the wire only: the call is
recorded with the bytes offered, and what the socket accepts goes to the
wire. -/
theorem web_client_send_data_frame (env : Env) (world : World) (w : web_client)
    (buf : List Nat) :
    ∃ e, offered e = some buf ∧
      (web_client_send_data env world w buf).2 =
        { w with
          trace := w.trace ++ [e]
          wire := w.wire ++ buf.take (web_client_send_data env world w buf).1.toNat } := by
  unfold web_client_send_data
  simp only []
  split_ifs
  · exact ⟨io_event.ssl_write buf, rfl, rfl⟩
  · exact ⟨io_event.send buf, rfl, rfl⟩

/-- The writes of a trace with one more call. -/
theorem writes_append_offered (trace : List io_event) (e : io_event) (buf : List Nat)
    (h : offered e = some buf) : writes (trace ++ [e]) = writes trace ++ [buf] := by
  simp [writes, List.filterMap_append, h]

/-- The bytes `web_client_send` offers in direct mode are the unsent rest of
the data buffer. -/
theorem unsent_rest (buf : List Nat) (sent : Nat) (hs : sent ≤ buf.length)
    (hl : buf.length < SIZE_T_MOD) :
    (buf.drop sent).take (size_t_sub buf.length sent) = buf.drop sent := by
  rw [size_t_sub_of_le _ _ hs hl]
  apply List.take_of_length_le
  simp

/-- One drive of `web_client_send` in direct mode with bytes unsent, of which
the socket accepts `k`, at least one. -/
theorem web_client_send_direct_step (env : Env) (world : World) (w : web_client) (k : Nat)
    (hdirect : ¬ (env.NETDATA_WITH_ZLIB = true ∧ w.response.zoutput = true))
    (hlen : w.response.data.buffer.length < SIZE_T_MOD)
    (hs : w.response.sent < w.response.data.buffer.length)
    (hk : (web_client_send_data env world w (w.response.data.buffer.drop w.response.sent)).1 = k)
    (hk0 : 0 < k) (hkle : k ≤ w.response.data.buffer.length - w.response.sent) :
    (web_client_send env world w).1 = k ∧
    writes (web_client_send env world w).2.trace
      = writes w.trace ++ [w.response.data.buffer.drop w.response.sent] ∧
    (web_client_send env world w).2.response.sent = w.response.sent + k ∧
    (web_client_send env world w).2.wire
      = w.wire ++ (w.response.data.buffer.drop w.response.sent).take k ∧
    (web_client_send env world w).2.response.data = w.response.data ∧
    (web_client_send env world w).2.response.zoutput = w.response.zoutput ∧
    (web_client_send env world w).2.flag_dead = w.flag_dead := by
  have hne : size_t_sub w.response.data.buffer.length w.response.sent ≠ 0 := by
    rw [size_t_sub_of_le _ _ (le_of_lt hs) hlen]
    omega
  have hoff := unsent_rest w.response.data.buffer w.response.sent (le_of_lt hs) hlen
  obtain ⟨e, he, hframe⟩ := web_client_send_data_frame env world w
    (w.response.data.buffer.drop w.response.sent)
  have hpos : (web_client_send_data env world w
      (w.response.data.buffer.drop w.response.sent)).1 > 0 := by
    rw [hk]
    exact_mod_cast hk0
  have hmod : (w.response.sent + k) % SIZE_T_MOD = w.response.sent + k := by
    apply Nat.mod_eq_of_lt
    omega
  simp only [web_client_send, hdirect, if_false, hne, hoff, hpos, if_true]
  rw [hframe, hk]
  simp only [Int.toNat_ofNat]
  refine ⟨trivial, writes_append_offered _ _ _ he, hmod, trivial, trivial, trivial, trivial⟩

/-- A slice of a buffer, cut in two. -/
theorem slice_split (buf : List Nat) (a b c : Nat) (hab : a ≤ b) (hbc : b ≤ c)
    (hc : c ≤ buf.length) :
    (buf.take c).drop a = (buf.drop a).take (b - a) ++ (buf.take c).drop b := by
  have h1 : buf.take c = (buf.take c).take b ++ (buf.take c).drop b :=
    (List.take_append_drop b _).symm
  have h2 : (buf.take c).take b = buf.take b := by
    rw [List.take_take, min_eq_left hbc]
  have h3 : (buf.take b).length = b := by
    rw [List.length_take]
    omega
  conv_lhs => rw [h1, h2]
  rw [List.drop_append_of_le_length (by omega), List.drop_take]

/-- Drives of `web_client_send` in direct mode while bytes are unsent, over a
socket that accepts at least one and at most all of the bytes it is offered:
the data buffer stays, the sent offset grows and stays within the buffer, and
the wire gets the bytes between the two offsets. -/
theorem web_client_send_all_invariant (env : Env) (world : World)
    (hsock : ∀ (x : web_client) (b : List Nat), b ≠ [] →
      0 < (web_client_send_data env world x b).1 ∧
      (web_client_send_data env world x b).1 ≤ b.length) :
    ∀ (drives : Nat) (w : web_client),
      ¬ (env.NETDATA_WITH_ZLIB = true ∧ w.response.zoutput = true) →
      w.response.data.buffer.length < SIZE_T_MOD →
      w.response.sent ≤ w.response.data.buffer.length →
      (web_client_send_all env world drives w).response.data = w.response.data ∧
      w.response.sent ≤ (web_client_send_all env world drives w).response.sent ∧
      (web_client_send_all env world drives w).response.sent ≤ w.response.data.buffer.length ∧
      (web_client_send_all env world drives w).wire = w.wire ++
        (w.response.data.buffer.take
          (web_client_send_all env world drives w).response.sent).drop w.response.sent ∧
      (w.response.data.buffer.length - w.response.sent ≤ drives →
        (web_client_send_all env world drives w).response.sent
          = w.response.data.buffer.length) ∧
      (web_client_send_all env world drives w).flag_dead = w.flag_dead := by
  intro drives
  induction drives with
  | zero =>
    intro w _ _ hs
    simp only [web_client_send_all]
    refine ⟨trivial, le_refl _, hs, ?_, ?_, trivial⟩
    · rw [List.drop_take, Nat.sub_self, List.take_zero, List.append_nil]
    · intro h
      omega
  | succ n ih =>
    intro w hdirect hlen hs
    by_cases hlt : w.response.sent < w.response.data.buffer.length
    · have hb : w.response.data.buffer.drop w.response.sent ≠ [] := by
        intro h
        have := congrArg List.length h
        simp at this
        omega
      obtain ⟨hpos, hle⟩ := hsock w _ hb
      generalize hr : (web_client_send_data env world w
        (w.response.data.buffer.drop w.response.sent)).1 = r at hpos hle
      have hrk : r = ((r.toNat : Nat) : Int) := (Int.toNat_of_nonneg (le_of_lt hpos)).symm
      have hk0 : 0 < r.toNat := by omega
      have hkle : r.toNat ≤ w.response.data.buffer.length - w.response.sent := by
        simp only [List.length_drop] at hle
        omega
      obtain ⟨_, _, h3, h4, h5, h6, h7⟩ := web_client_send_direct_step env world w r.toNat
        hdirect hlen hlt (hr.trans hrk) hk0 hkle
      simp only [web_client_send_all, hlt, if_true]
      generalize (web_client_send env world w).2 = w1 at h3 h4 h5 h6 h7
      have hd1 : ¬ (env.NETDATA_WITH_ZLIB = true ∧ w1.response.zoutput = true) := by
        rw [h6]
        exact hdirect
      obtain ⟨i1, i2, i3, i4, i5, i6⟩ := ih w1 hd1 (by rw [h5]; exact hlen)
        (by rw [h5, h3]; omega)
      rw [h5] at i1 i3 i4 i5
      rw [h3] at i2 i4 i5
      refine ⟨i1, by omega, i3, ?_, ?_, i6.trans h7⟩
      · rw [i4, h4, List.append_assoc]
        congr 1
        have := slice_split w.response.data.buffer w.response.sent
          (w.response.sent + r.toNat) (web_client_send_all env world n w1).response.sent
          (by omega) i2 i3
        rw [this]
        congr 2
        omega
      · intro h
        apply i5
        omega
    · have he : w.response.sent = w.response.data.buffer.length := by omega
      simp only [web_client_send_all, hlt, if_false]
      refine ⟨trivial, le_refl _, hs, ?_, fun _ => he, trivial⟩
      rw [List.drop_take, Nat.sub_self, List.take_zero, List.append_nil]

/-- C23: `web_client_send` in direct mode on a connection whose sent offset is
within the data buffer (shorter than 2^64 bytes). One drive in which the
socket accepts `k` bytes, at least one and at most those unsent: the one write
made offers the bytes from the sent offset to the end of the buffer, `k` is
returned, the sent offset becomes the old one plus `k`, which is within the
buffer, and the wire gets the first `k` of the bytes offered. Any number of
drives, made while bytes are unsent, over a socket that accepts at least one
and at most all of the bytes it is offered: the sent offset stays within the
buffer, the wire has got the bytes between the old and the new offset, no
more and no less, and once the drives are as many as the bytes that were
unsent, the offset is the length of the buffer and the wire has got the whole
unsent rest. -/
theorem web_client_send_partial_writes (env : Env) (world : World) (w : web_client)
    (hdirect : ¬ (env.NETDATA_WITH_ZLIB = true ∧ w.response.zoutput = true))
    (hlen : w.response.data.buffer.length < SIZE_T_MOD)
    (hs : w.response.sent ≤ w.response.data.buffer.length) :
    (∀ k : Nat,
      (web_client_send_data env world w (w.response.data.buffer.drop w.response.sent)).1 = k →
      0 < k → k ≤ w.response.data.buffer.length - w.response.sent →
      (web_client_send env world w).1 = k ∧
      writes (web_client_send env world w).2.trace
        = writes w.trace ++ [w.response.data.buffer.drop w.response.sent] ∧
      (web_client_send env world w).2.response.sent = w.response.sent + k ∧
      w.response.sent + k ≤ w.response.data.buffer.length ∧
      (web_client_send env world w).2.wire
        = w.wire ++ (w.response.data.buffer.drop w.response.sent).take k ∧
      (web_client_send env world w).2.response.data = w.response.data) ∧
    ((∀ (x : web_client) (b : List Nat), b ≠ [] →
        0 < (web_client_send_data env world x b).1 ∧
        (web_client_send_data env world x b).1 ≤ b.length) →
      ∀ drives : Nat,
        (web_client_send_all env world drives w).response.data = w.response.data ∧
        (web_client_send_all env world drives w).response.sent
          ≤ w.response.data.buffer.length ∧
        (web_client_send_all env world drives w).wire = w.wire ++
          (w.response.data.buffer.take
            (web_client_send_all env world drives w).response.sent).drop w.response.sent ∧
        (w.response.data.buffer.length - w.response.sent ≤ drives →
          (web_client_send_all env world drives w).response.sent
            = w.response.data.buffer.length ∧
          (web_client_send_all env world drives w).wire
            = w.wire ++ w.response.data.buffer.drop w.response.sent)) := by
  constructor
  · intro k hk hk0 hkle
    have hlt : w.response.sent < w.response.data.buffer.length := by omega
    obtain ⟨h1, h2, h3, h4, h5, _, _⟩ :=
      web_client_send_direct_step env world w k hdirect hlen hlt hk hk0 hkle
    exact ⟨h1, h2, h3, by omega, h4, h5⟩
  · intro hsock drives
    obtain ⟨i1, _, i3, i4, i5, _⟩ :=
      web_client_send_all_invariant env world hsock drives w hdirect hlen hs
    refine ⟨i1, i3, i4, ?_⟩
    intro h
    have h5 := i5 h
    refine ⟨h5, ?_⟩
    rw [i4, h5, List.take_length]

/-- Witness of C23: the five bytes `hello` over a socket that accepts two
bytes at a call: the first drive offers `hello` and moves the sent offset to
2, and five drives put `hello` on the wire. -/
theorem web_client_send_partial_writes_witness :
    ((web_client_send spec_env slow_world ready_response).1 = (2 : Nat) ∧
      writes (web_client_send spec_env slow_world ready_response).2.trace
        = writes ready_response.trace
          ++ [ready_response.response.data.buffer.drop ready_response.response.sent] ∧
      (web_client_send spec_env slow_world ready_response).2.response.sent
        = ready_response.response.sent + 2 ∧
      ready_response.response.sent + 2 ≤ ready_response.response.data.buffer.length ∧
      (web_client_send spec_env slow_world ready_response).2.wire
        = ready_response.wire ++
          (ready_response.response.data.buffer.drop ready_response.response.sent).take 2 ∧
      (web_client_send spec_env slow_world ready_response).2.response.data
        = ready_response.response.data) ∧
    ((web_client_send_all spec_env slow_world 5 ready_response).response.sent
        = ready_response.response.data.buffer.length ∧
      (web_client_send_all spec_env slow_world 5 ready_response).wire
        = ready_response.wire
          ++ ready_response.response.data.buffer.drop ready_response.response.sent) ∧
    (web_client_send_all spec_env slow_world 5 ready_response).wire = str "hello" :=
  ⟨(web_client_send_partial_writes spec_env slow_world ready_response (by decide) (by decide)
      (by decide)).1 2 (by decide) (by decide) (by decide),
    ((web_client_send_partial_writes spec_env slow_world ready_response (by decide) (by decide)
      (by decide)).2
      (fun x b hb => by
        have hl : 0 < b.length := List.length_pos.mpr hb
        have e : (web_client_send_data spec_env slow_world x b).1 = min 2 (b.length : Int) := by
          simp [web_client_send_data, spec_env, slow_world]
        rw [e]
        omega) 5).2.2.2 (by decide),
    by decide⟩

/-! ## The sender: out of data -/

theorem no_write_refl (w : web_client) : no_write w w := ⟨rfl, rfl, rfl⟩

theorem no_write_trans {w1 w2 w3 : web_client} (h12 : no_write w1 w2) (h23 : no_write w2 w3) :
    no_write w1 w3 :=
  ⟨h23.1.trans h12.1, h23.2.1.trans h12.2.1, h23.2.2.trans h12.2.2⟩

/-- A call that is no write to the socket leaves the writes as they are. -/
theorem writes_append_other (trace : List io_event) (e : io_event) (h : offered e = none) :
    writes (trace ++ [e]) = writes trace := by
  simp [writes, List.filterMap_append, h]

theorem web_client_uncrock_socket_no_write (world : World) (w : web_client) :
    no_write w (web_client_uncrock_socket world w).2 := by
  unfold web_client_uncrock_socket
  split_ifs <;>
    first
    | exact no_write_refl w
    | exact ⟨writes_append_other _ _ rfl, rfl, rfl⟩

theorem web_client_request_done_log_no_write (env : Env) (w : web_client) :
    no_write w (web_client_request_done_log env w) := by
  unfold web_client_request_done_log
  by_cases hl : w.last_url ≠ []
  · rw [if_pos hl]
    simp [no_write, writes, record, offered, List.filterMap_append]
  · rw [if_neg hl]
    exact no_write_refl w

theorem web_client_request_done_close_no_write (world : World) (w : web_client) :
    no_write w (web_client_request_done_close world w) := by
  unfold web_client_request_done_close
  split_ifs <;>
    first
    | exact no_write_refl w
    | exact ⟨writes_append_other _ _ rfl, rfl, rfl⟩

theorem web_client_request_done_zlib_no_write (env : Env) (w : web_client) :
    no_write w (web_client_request_done_zlib env w) := by
  unfold web_client_request_done_zlib
  split_ifs
  · exact ⟨writes_append_other _ _ rfl, rfl, rfl⟩
  · exact no_write_refl w

/-- The end of a request makes no write to the socket and does not mark the
connection dead. -/
theorem web_client_request_done_no_write (env : Env) (world : World) (w : web_client) :
    no_write w (web_client_request_done env world w) := by
  unfold web_client_request_done
  simp only []
  refine no_write_trans (web_client_uncrock_socket_no_write world w) ?_
  refine no_write_trans (web_client_request_done_log_no_write env _) ?_
  refine no_write_trans (web_client_request_done_close_no_write world _) ?_
  exact no_write_trans ⟨rfl, rfl, rfl⟩ (web_client_request_done_zlib_no_write env _)

/-- C24: `web_client_send` in direct mode on a connection whose sent offset is
the length of the data buffer: it returns 0 and makes no write to the socket.
If the mode is FILECOPY, the connection waits to receive, and the declared
length is not 0 and greater than the length of the buffer, the connection is
left as it was but for the wait to send, which is off. Else, if keep-alive is
off, the connection is left as it was but for the dead mark, which is on.
Else the connection is what `web_client_request_done` leaves. -/
theorem web_client_send_out_of_data (env : Env) (world : World) (w : web_client)
    (hdirect : ¬ (env.NETDATA_WITH_ZLIB = true ∧ w.response.zoutput = true))
    (hs : w.response.sent = w.response.data.buffer.length) :
    (web_client_send env world w).1 = 0 ∧
    writes (web_client_send env world w).2.trace = writes w.trace ∧
    (web_client_send env world w).2.wire = w.wire ∧
    ((w.mode = WEB_CLIENT_MODE_FILECOPY ∧ w.flag_wait_receive = true ∧ w.response.rlen ≠ 0 ∧
        w.response.rlen > w.response.data.buffer.length) →
      (web_client_send env world w).2 = { w with flag_wait_send := false }) ∧
    (¬ (w.mode = WEB_CLIENT_MODE_FILECOPY ∧ w.flag_wait_receive = true ∧ w.response.rlen ≠ 0 ∧
        w.response.rlen > w.response.data.buffer.length) →
      (w.flag_keepalive = false →
        (web_client_send env world w).2 = { w with flag_dead := true }) ∧
      (w.flag_keepalive = true →
        (web_client_send env world w).2 = web_client_request_done env world w)) := by
  have h0 : size_t_sub w.response.data.buffer.length w.response.sent = 0 := by
    rw [hs]
    exact size_t_sub_self _
  by_cases hf : w.mode = WEB_CLIENT_MODE_FILECOPY ∧ w.flag_wait_receive = true ∧
      w.response.rlen ≠ 0 ∧ w.response.rlen > w.response.data.buffer.length
  · have e : web_client_send env world w = (0, { w with flag_wait_send := false }) := by
      unfold web_client_send
      rw [if_neg hdirect, if_pos h0, if_pos hf]
    rw [e]
    exact ⟨rfl, rfl, rfl, fun _ => rfl, fun h => absurd hf h⟩
  · by_cases hk : w.flag_keepalive = true
    · have e : web_client_send env world w = (0, web_client_request_done env world w) := by
        unfold web_client_send
        rw [if_neg hdirect, if_pos h0, if_neg hf, if_neg (not_not.mpr hk)]
      rw [e]
      obtain ⟨q1, q2, _⟩ := web_client_request_done_no_write env world w
      exact ⟨rfl, q1, q2, fun h => absurd h hf,
        fun _ => ⟨fun h => absurd (hk.symm.trans h) (by decide), fun _ => rfl⟩⟩
    · have e : web_client_send env world w = (0, { w with flag_dead := true }) := by
        unfold web_client_send
        rw [if_neg hdirect, if_pos h0, if_neg hf, if_pos hk]
      rw [e]
      exact ⟨rfl, rfl, rfl, fun h => absurd h hf, fun _ => ⟨fun _ => rfl, fun h => absurd h hk⟩⟩

/-- Witness of C24: the five bytes of `hello` are sent and keep-alive is off:
the next drive returns 0, writes nothing and marks the connection dead. -/
theorem web_client_send_out_of_data_witness :
    (web_client_send spec_env spec_world sent_response).1 = 0 ∧
    writes (web_client_send spec_env spec_world sent_response).2.trace
      = writes sent_response.trace ∧
    (web_client_send spec_env spec_world sent_response).2
      = { sent_response with flag_dead := true } :=
  ⟨(web_client_send_out_of_data spec_env spec_world sent_response (by decide) (by decide)).1,
    (web_client_send_out_of_data spec_env spec_world sent_response (by decide) (by decide)).2.1,
    ((web_client_send_out_of_data spec_env spec_world sent_response (by decide)
      (by decide)).2.2.2.2 (by decide)).1 rfl⟩

/-! ## The sender: a write that fails or accepts nothing -/

/-- C25 (as amended): a drive in which the write of the body bytes fails or
accepts no byte. In direct mode with bytes unsent, and in compressed mode
with bytes of the side buffer unsent, `web_client_send` returns what the write
returned, the counters `sent` and `zsent` are as before and nothing has gone
to the wire, and the connection is marked dead. -/
theorem web_client_send_failed_write (env : Env) (world : World) (w : web_client) :
    (¬ (env.NETDATA_WITH_ZLIB = true ∧ w.response.zoutput = true) →
      size_t_sub w.response.data.buffer.length w.response.sent ≠ 0 →
      (web_client_send_data env world w
        ((w.response.data.buffer.drop w.response.sent).take
          (size_t_sub w.response.data.buffer.length w.response.sent))).1 ≤ 0 →
      (web_client_send env world w).1 =
        (web_client_send_data env world w
          ((w.response.data.buffer.drop w.response.sent).take
            (size_t_sub w.response.data.buffer.length w.response.sent))).1 ∧
      (web_client_send env world w).2.response.sent = w.response.sent ∧
      (web_client_send env world w).2.response.zsent = w.response.zsent ∧
      (web_client_send env world w).2.wire = w.wire ∧
      (web_client_send env world w).2.flag_dead = true) ∧
    ((env.NETDATA_WITH_ZLIB = true ∧ w.response.zoutput = true) →
      w.response.zhave ≠ w.response.zsent →
      (web_client_send_data env world w
        (bytes_at w.response.zbuffer w.response.zsent
          (size_t_sub w.response.zhave w.response.zsent))).1 ≤ 0 →
      (web_client_send env world w).1 =
        (web_client_send_data env world w
          (bytes_at w.response.zbuffer w.response.zsent
            (size_t_sub w.response.zhave w.response.zsent))).1 ∧
      (web_client_send env world w).2.response.sent = w.response.sent ∧
      (web_client_send env world w).2.response.zsent = w.response.zsent ∧
      (web_client_send env world w).2.wire = w.wire ∧
      (web_client_send env world w).2.flag_dead = true) := by
  constructor
  · intro hdirect hne hr
    obtain ⟨e, _, hframe⟩ := web_client_send_data_frame env world w
      ((w.response.data.buffer.drop w.response.sent).take
        (size_t_sub w.response.data.buffer.length w.response.sent))
    unfold web_client_send
    rw [if_neg hdirect, if_neg hne]
    simp only []
    generalize (web_client_send_data env world w
      ((w.response.data.buffer.drop w.response.sent).take
        (size_t_sub w.response.data.buffer.length w.response.sent))) = r at hr hframe ⊢
    have hn : ¬ r.1 > 0 := by omega
    have ht : r.1.toNat = 0 := by omega
    simp only [hn, if_false]
    rw [hframe, ht]
    split_ifs <;> simp
  · intro hz hne hr
    obtain ⟨e, _, hframe⟩ := web_client_send_data_frame env world w
      (bytes_at w.response.zbuffer w.response.zsent
        (size_t_sub w.response.zhave w.response.zsent))
    have h1 : ¬ (size_t_sub w.response.data.buffer.length w.response.sent = 0 ∧
        w.response.zstream_avail_in = 0 ∧ w.response.zhave = w.response.zsent ∧
        w.response.zstream_avail_out ≠ 0) := fun h => hne h.2.2.1
    unfold web_client_send
    rw [if_pos hz]
    unfold web_client_send_deflate
    rw [if_neg h1, if_neg hne]
    unfold web_client_send_deflate_write
    simp only []
    generalize (web_client_send_data env world w
      (bytes_at w.response.zbuffer w.response.zsent
        (size_t_sub w.response.zhave w.response.zsent))) = r at hr hframe ⊢
    have hn : ¬ r.1 > 0 := by omega
    have ht : r.1.toNat = 0 := by omega
    simp only [hn, if_false]
    rw [hframe, ht]
    split_ifs <;> simp

/-- Witness of C25 (as amended): over a socket that accepts no byte, the drive
of the five unsent bytes `hello` returns 0, leaves the counters and the wire,
and marks the connection dead. -/
theorem web_client_send_failed_write_witness :
    (web_client_send spec_env stalled_world ready_response).1 =
      (web_client_send_data spec_env stalled_world ready_response
        ((ready_response.response.data.buffer.drop ready_response.response.sent).take
          (size_t_sub ready_response.response.data.buffer.length
            ready_response.response.sent))).1 ∧
    (web_client_send spec_env stalled_world ready_response).2.response.sent
      = ready_response.response.sent ∧
    (web_client_send spec_env stalled_world ready_response).2.response.zsent
      = ready_response.response.zsent ∧
    (web_client_send spec_env stalled_world ready_response).2.wire = ready_response.wire ∧
    (web_client_send spec_env stalled_world ready_response).2.flag_dead = true :=
  (web_client_send_failed_write spec_env stalled_world ready_response).1
    (by decide) (by decide) (by decide)

/-- C25, counterexample: bytes are unsent and the connection is not dead. Over
a socket that accepts no byte the drive returns 0, and over a socket on which
the write would block it returns -1; the counters are unchanged but the
connection is marked dead in both cases, in direct mode (the five bytes
`hello`) and in compressed mode (three bytes of the side buffer unsent). -/
theorem web_client_send_zero_bytes_dead :
    ready_response.flag_dead = false ∧ half_sent_response.flag_dead = false ∧
    (web_client_send spec_env stalled_world ready_response).1 = 0 ∧
    (web_client_send spec_env stalled_world ready_response).2.response.sent = 0 ∧
    (web_client_send spec_env stalled_world ready_response).2.flag_dead = true ∧
    (web_client_send spec_env blocked_world ready_response).1 = -1 ∧
    (web_client_send spec_env blocked_world ready_response).2.response.sent = 0 ∧
    (web_client_send spec_env blocked_world ready_response).2.flag_dead = true ∧
    (web_client_send spec_env stalled_world half_sent_response).1 = 0 ∧
    (web_client_send spec_env stalled_world half_sent_response).2.response.zsent = 1 ∧
    (web_client_send spec_env stalled_world half_sent_response).2.flag_dead = true ∧
    (web_client_send spec_env blocked_world half_sent_response).1 = -1 ∧
    (web_client_send spec_env blocked_world half_sent_response).2.response.zsent = 1 ∧
    (web_client_send spec_env blocked_world half_sent_response).2.flag_dead = true := by
  decide

/-! ## The sender: the last chunk -/

/-- C26: two compressed responses on a kept-alive connection, the compressor
being one that stores. A file of six bytes that is read three bytes at a
time, every drive made when the connection waits for it: the writes to the
socket are the chunk `abc`, the last-chunk trailer CR LF `0` CR LF CR LF, then
CR LF and the chunk `abc!`, then the trailer again: the trailer is written
twice, and a chunk is written after the first. A response with an empty body
in NORMAL mode: the writes are the chunk `!` and no trailer at all, and the
connection is reset for the next request. -/
theorem web_client_send_deflate_trailer_twice :
    (web_client_drive spec_env file_world [drive_step.receive] file_response).flag_wait_send
      = true ∧
    (web_client_drive spec_env file_world
      [drive_step.receive, drive_step.send, drive_step.send] file_response).flag_wait_receive
      = true ∧
    (web_client_drive spec_env file_world
      [drive_step.receive, drive_step.send, drive_step.send, drive_step.receive]
      file_response).flag_wait_send = true ∧
    writes (web_client_drive spec_env file_world
      [drive_step.receive, drive_step.send, drive_step.send] file_response).trace
      = [str "3\r\n", str "abc", str "\r\n0\r\n\r\n"] ∧
    writes (web_client_drive spec_env file_world
      [drive_step.receive, drive_step.send, drive_step.send, drive_step.receive,
       drive_step.send, drive_step.send] file_response).trace
      = [str "3\r\n", str "abc", str "\r\n0\r\n\r\n", str "\r\n", str "4\r\n", str "abc!",
         str "\r\n0\r\n\r\n"] ∧
    (writes (web_client_drive spec_env file_world
      [drive_step.receive, drive_step.send, drive_step.send, drive_step.receive,
       drive_step.send, drive_step.send] file_response).trace).count (str "\r\n0\r\n\r\n")
      = 2 ∧
    (web_client_drive spec_env file_world
      [drive_step.receive, drive_step.send, drive_step.send, drive_step.receive,
       drive_step.send, drive_step.send] file_response).response.zoutput = false ∧
    writes (web_client_drive spec_env spec_world [drive_step.send, drive_step.send]
      empty_response).trace = [str "1\r\n", str "!"] ∧
    (writes (web_client_drive spec_env spec_world [drive_step.send, drive_step.send]
      empty_response).trace).count (str "\r\n0\r\n\r\n") = 0 ∧
    (web_client_drive spec_env spec_world [drive_step.send, drive_step.send]
      empty_response).response.zoutput = false ∧
    (web_client_drive spec_env spec_world [drive_step.send, drive_step.send]
      empty_response).flag_wait_receive = true := by
  decide

/-! ## The sender: the side buffer -/

/-- C27: `web_client_send_deflate` on a connection with bytes of the side
buffer unsent (`zsent < zhave`, both below 2^64), the socket accepting `k` of
them, at least one: the compressor is not called and the one write made
offers the `zhave - zsent` bytes of the side buffer from `zsent` on, so no
chunk framing is written; `k` is returned, `zsent` becomes the old one plus
`k`, which is at most `zhave`, and `zhave`, the cursor `sent` and the side
buffer are as before. -/
theorem web_client_send_deflate_resume (env : Env) (world : World) (w : web_client) (k : Nat)
    (hlt : w.response.zsent < w.response.zhave)
    (hz : w.response.zhave < SIZE_T_MOD)
    (hk : (web_client_send_data env world w
      (bytes_at w.response.zbuffer w.response.zsent
        (w.response.zhave - w.response.zsent))).1 = k)
    (hk0 : 0 < k) (hkle : k ≤ w.response.zhave - w.response.zsent) :
    (web_client_send_deflate env world w).1 = k ∧
    writes (web_client_send_deflate env world w).2.trace = writes w.trace ++
      [bytes_at w.response.zbuffer w.response.zsent (w.response.zhave - w.response.zsent)] ∧
    flushes (web_client_send_deflate env world w).2.trace = flushes w.trace ∧
    (web_client_send_deflate env world w).2.response.zsent = w.response.zsent + k ∧
    w.response.zsent + k ≤ w.response.zhave ∧
    (web_client_send_deflate env world w).2.response.zhave = w.response.zhave ∧
    (web_client_send_deflate env world w).2.response.sent = w.response.sent ∧
    (web_client_send_deflate env world w).2.response.zbuffer = w.response.zbuffer ∧
    (web_client_send_deflate env world w).2.wire = w.wire ++
      (bytes_at w.response.zbuffer w.response.zsent
        (w.response.zhave - w.response.zsent)).take k := by
  have hne : w.response.zhave ≠ w.response.zsent := by omega
  have h1 : ¬ (size_t_sub w.response.data.buffer.length w.response.sent = 0 ∧
      w.response.zstream_avail_in = 0 ∧ w.response.zhave = w.response.zsent ∧
      w.response.zstream_avail_out ≠ 0) := fun h => hne h.2.2.1
  have hsub : size_t_sub w.response.zhave w.response.zsent
      = w.response.zhave - w.response.zsent := size_t_sub_of_le _ _ (le_of_lt hlt) hz
  obtain ⟨e, he, hframe⟩ := web_client_send_data_frame env world w
    (bytes_at w.response.zbuffer w.response.zsent (w.response.zhave - w.response.zsent))
  have hmod : (w.response.zsent + k) % SIZE_T_MOD = w.response.zsent + k := by
    apply Nat.mod_eq_of_lt
    omega
  have hfl : flushes (w.trace ++ [e]) = flushes w.trace := by
    cases e <;> simp [flushes, List.filterMap_append, offered] at he ⊢
  unfold web_client_send_deflate
  rw [if_neg h1, if_neg hne]
  unfold web_client_send_deflate_write
  simp only [hsub]
  generalize (web_client_send_data env world w
    (bytes_at w.response.zbuffer w.response.zsent
      (w.response.zhave - w.response.zsent))) = r at hk hframe ⊢
  have hpos : r.1 > 0 := by
    rw [hk]
    exact_mod_cast hk0
  simp only [hpos, if_true]
  rw [hframe, hk]
  simp only [Int.toNat_ofNat, add_zero]
  exact ⟨trivial, writes_append_offered _ _ _ he, hfl, hmod, by omega, trivial, trivial,
    trivial, trivial⟩

/-- Witness of C27: three bytes of the side buffer `abc!` are unsent and the
socket takes two of them. -/
theorem web_client_send_deflate_resume_witness :
    (web_client_send_deflate spec_env slow_world half_sent_response).1 = (2 : Nat) ∧
    writes (web_client_send_deflate spec_env slow_world half_sent_response).2.trace
      = writes half_sent_response.trace ++
        [bytes_at half_sent_response.response.zbuffer half_sent_response.response.zsent
          (half_sent_response.response.zhave - half_sent_response.response.zsent)] ∧
    flushes (web_client_send_deflate spec_env slow_world half_sent_response).2.trace
      = flushes half_sent_response.trace ∧
    (web_client_send_deflate spec_env slow_world half_sent_response).2.response.zsent
      = half_sent_response.response.zsent + 2 ∧
    half_sent_response.response.zsent + 2 ≤ half_sent_response.response.zhave ∧
    (web_client_send_deflate spec_env slow_world half_sent_response).2.response.zhave
      = half_sent_response.response.zhave ∧
    (web_client_send_deflate spec_env slow_world half_sent_response).2.response.sent
      = half_sent_response.response.sent ∧
    (web_client_send_deflate spec_env slow_world half_sent_response).2.response.zbuffer
      = half_sent_response.response.zbuffer ∧
    (web_client_send_deflate spec_env slow_world half_sent_response).2.wire
      = half_sent_response.wire ++
        (bytes_at half_sent_response.response.zbuffer half_sent_response.response.zsent
          (half_sent_response.response.zhave - half_sent_response.response.zsent)).take 2 :=
  web_client_send_deflate_resume spec_env slow_world half_sent_response 2
    (by decide) (by decide) (by decide) (by decide) (by decide)

/-! ## The sender: the compress step -/

/-- The writes of a trace with more calls after it. -/
theorem writes_append (a b : List io_event) : writes (a ++ b) = writes a ++ writes b := by
  simp [writes, List.filterMap_append]

/-- The flush modes of a trace with more calls after it. -/
theorem flushes_append (a b : List io_event) : flushes (a ++ b) = flushes a ++ flushes b := by
  simp [flushes, List.filterMap_append]

/-- A write to the socket is no call of the compressor. -/
theorem flushes_append_offered (trace : List io_event) (e : io_event) (buf : List Nat)
    (h : offered e = some buf) : flushes (trace ++ [e]) = flushes trace := by
  cases e <;> simp [flushes, List.filterMap_append, offered] at h ⊢

/-- What a chunk function does with the value the write returned leaves the
response, the trace and the wire. -/
theorem web_client_send_chunk_result_frame (r : Int × web_client) :
    (web_client_send_chunk_result r).1 = r.1 ∧
    (web_client_send_chunk_result r).2.response = r.2.response ∧
    (web_client_send_chunk_result r).2.trace = r.2.trace ∧
    (web_client_send_chunk_result r).2.wire = r.2.wire ∧
    (web_client_send_chunk_result r).2.mode = r.2.mode ∧
    (web_client_send_chunk_result r).2.flag_wait_receive = r.2.flag_wait_receive := by
  unfold web_client_send_chunk_result
  simp only []
  split_ifs <;> exact ⟨rfl, rfl, rfl, rfl, rfl, rfl⟩

/-- A chunk function writes its bytes once and leaves the response. -/
theorem web_client_send_chunk_frame (env : Env) (world : World) (w : web_client)
    (buf : List Nat) :
    (web_client_send_chunk_result (web_client_send_data env world w buf)).2.response
      = w.response ∧
    writes (web_client_send_chunk_result (web_client_send_data env world w buf)).2.trace
      = writes w.trace ++ [buf] ∧
    flushes (web_client_send_chunk_result (web_client_send_data env world w buf)).2.trace
      = flushes w.trace ∧
    (web_client_send_chunk_result (web_client_send_data env world w buf)).2.mode = w.mode ∧
    (web_client_send_chunk_result (web_client_send_data env world w buf)).2.flag_wait_receive
      = w.flag_wait_receive := by
  obtain ⟨h1, h2, h3, h4, h5, h6⟩ :=
    web_client_send_chunk_result_frame (web_client_send_data env world w buf)
  obtain ⟨e, he, hframe⟩ := web_client_send_data_frame env world w buf
  rw [h2, h3, h5, h6, hframe]
  exact ⟨rfl, writes_append_offered _ _ _ he, flushes_append_offered _ _ _ he, rfl, rfl⟩

/-! ## The sender: the size line of a chunk -/

/-- A hexadecimal digit stands for its value. -/
theorem hex_value_hex_digit (d : Nat) (h : d < 16) : hex_value (hex_digit d) = some d := by
  unfold hex_value hex_digit
  split_ifs <;> first | omega | (congr 1; omega)

/-- A hexadecimal digit is one of `0`-`9` and `A`-`F`. -/
theorem hex_digit_upper (d : Nat) (h : d < 16) :
    (48 ≤ hex_digit d ∧ hex_digit d ≤ 57) ∨ (65 ≤ hex_digit d ∧ hex_digit d ≤ 70) := by
  unfold hex_digit
  split_ifs <;> omega

/-- Reading the digits `hexadecimal_loop` puts before `acc` gives the number
printed. -/
theorem hex_number_loop :
    ∀ (fuel n : Nat) (acc : List Nat), n < fuel →
      (hexadecimal_loop fuel n acc).foldl
          (fun a c => a.bind (fun a => (hex_value c).map (fun v => 16 * a + v))) (some 0)
        = acc.foldl
          (fun a c => a.bind (fun a => (hex_value c).map (fun v => 16 * a + v))) (some n) := by
  intro fuel
  induction fuel with
  | zero => intro n acc h; omega
  | succ k ih =>
    intro n acc h
    simp only [hexadecimal_loop]
    split_ifs with hn
    · simp [hex_value_hex_digit n hn]
    · have hlt : n / 16 < k := by omega
      rw [ih (n / 16) _ hlt]
      have hd := hex_value_hex_digit (n % 16) (Nat.mod_lt _ (by decide))
      simp only [List.foldl_cons, Option.bind_some, hd, Option.map_some']
      have e : 16 * (n / 16) + n % 16 = n := by omega
      show List.foldl _ (some (16 * (n / 16) + n % 16)) acc = _
      rw [e]

/-- What `hexadecimal_loop` puts before `acc` are digits in upper case. -/
theorem hexadecimal_loop_upper :
    ∀ (fuel n : Nat) (acc : List Nat) (c : Nat),
      c ∈ hexadecimal_loop fuel n acc →
      c ∈ acc ∨ (48 ≤ c ∧ c ≤ 57) ∨ (65 ≤ c ∧ c ≤ 70) := by
  intro fuel
  induction fuel with
  | zero => intro n acc c h; exact Or.inl h
  | succ k ih =>
    intro n acc c h
    simp only [hexadecimal_loop] at h
    split_ifs at h with hn
    · rcases List.mem_cons.mp h with h | h
      · right
        rw [h]
        exact hex_digit_upper n hn
      · exact Or.inl h
    · rcases ih _ _ _ h with h | h
      · rcases List.mem_cons.mp h with h | h
        · right
          rw [h]
          exact hex_digit_upper _ (Nat.mod_lt _ (by decide))
        · exact Or.inl h
      · exact Or.inr h

/-- A number below `16 ^ k` is printed in at most `k` digits. -/
theorem hexadecimal_loop_length :
    ∀ (fuel n : Nat) (acc : List Nat) (k : Nat), 0 < k → n < 16 ^ k →
      (hexadecimal_loop fuel n acc).length ≤ k + acc.length := by
  intro fuel
  induction fuel with
  | zero =>
    intro n acc k _ _
    simp [hexadecimal_loop]
  | succ f ih =>
    intro n acc k hk hn
    simp only [hexadecimal_loop]
    split_ifs with h16
    · simp only [List.length_cons]
      omega
    · have hk2 : 2 ≤ k := by
        by_contra hlt
        have : k = 1 := by omega
        rw [this] at hn
        omega
      have hdiv : n / 16 < 16 ^ (k - 1) := by
        apply Nat.div_lt_of_lt_mul
        have e : 16 * 16 ^ (k - 1) = 16 ^ k := by
          rw [← pow_succ']
          congr 1
          omega
        rw [e]
        exact hn
      have := ih (n / 16) (hex_digit (n % 16) :: acc) (k - 1) (by omega) hdiv
      simp only [List.length_cons] at this
      omega

/-- A number other than 0 is printed without a leading `0`. -/
theorem hexadecimal_loop_head :
    ∀ (fuel n : Nat) (acc : List Nat), n < fuel → n ≠ 0 →
      ∃ c rest, hexadecimal_loop fuel n acc = c :: rest ∧ c ≠ 48 := by
  intro fuel
  induction fuel with
  | zero => intro n acc h; omega
  | succ f ih =>
    intro n acc h h0
    simp only [hexadecimal_loop]
    split_ifs with h16
    · refine ⟨_, _, rfl, ?_⟩
      unfold hex_digit
      split_ifs <;> omega
    · have hlt : n / 16 < f := by omega
      have hne : n / 16 ≠ 0 := by omega
      exact ih (n / 16) _ hlt hne

/-! ## The sender: the stages of the compress step -/

/-- The end of a request makes no call of the compressor. -/
theorem web_client_request_done_flushes (env : Env) (world : World) (w : web_client) :
    flushes (web_client_request_done env world w).trace = flushes w.trace := by
  have h1 : ∀ x : web_client, flushes (web_client_uncrock_socket world x).2.trace
      = flushes x.trace := by
    intro x
    unfold web_client_uncrock_socket
    split_ifs <;> simp [flushes, record, List.filterMap_append]
  have h2 : ∀ x : web_client, flushes (web_client_request_done_log env x).trace
      = flushes x.trace := by
    intro x
    unfold web_client_request_done_log
    by_cases hl : x.last_url ≠ []
    · rw [if_pos hl]
      simp [flushes, record, List.filterMap_append]
    · rw [if_neg hl]
  have h3 : ∀ x : web_client, flushes (web_client_request_done_close world x).trace
      = flushes x.trace := by
    intro x
    unfold web_client_request_done_close
    split_ifs <;> simp [flushes, record, List.filterMap_append]
  have h4 : ∀ x : web_client, flushes (web_client_request_done_zlib env x).trace
      = flushes x.trace := by
    intro x
    unfold web_client_request_done_zlib
    split_ifs <;> simp [flushes, record, List.filterMap_append]
  have h5 : ∀ x : web_client, (web_client_request_done_reset world x).trace = x.trace :=
    fun _ => rfl
  unfold web_client_request_done
  simp only []
  rw [h4, h5, h3, h2, h1]

/-- The closing of the previous chunk at the head of a compress step: the
two bytes CR LF are written if some input was consumed before, and nothing
else of the connection that the step looks at changes. -/
theorem web_client_send_deflate_closed (env : Env) (world : World) (w : web_client) :
    (if w.response.sent ≠ 0 then web_client_send_chunk_close env world w else (0, w)).2.response
      = w.response ∧
    writes (if w.response.sent ≠ 0 then web_client_send_chunk_close env world w
      else (0, w)).2.trace
      = writes w.trace ++ (if w.response.sent ≠ 0 then [str "\r\n"] else []) ∧
    flushes (if w.response.sent ≠ 0 then web_client_send_chunk_close env world w
      else (0, w)).2.trace = flushes w.trace ∧
    (if w.response.sent ≠ 0 then web_client_send_chunk_close env world w else (0, w)).2.mode
      = w.mode ∧
    (if w.response.sent ≠ 0 then web_client_send_chunk_close env world w
      else (0, w)).2.flag_wait_receive = w.flag_wait_receive := by
  by_cases hs : w.response.sent ≠ 0
  · rw [if_pos hs, if_pos hs]
    exact web_client_send_chunk_frame env world w (str "\r\n")
  · rw [if_neg hs, if_neg hs]
    simp

/-- The feeding of the compressor changes fields of the stream only. -/
theorem web_client_send_deflate_feed_frame (world : World) (w : web_client) :
    (web_client_send_deflate_feed world w).trace = w.trace ∧
    (web_client_send_deflate_feed world w).mode = w.mode ∧
    (web_client_send_deflate_feed world w).flag_wait_receive = w.flag_wait_receive ∧
    (web_client_send_deflate_feed world w).response.data = w.response.data ∧
    (web_client_send_deflate_feed world w).response.rlen = w.response.rlen := by
  unfold web_client_send_deflate_feed
  simp only []
  split_ifs <;> exact ⟨rfl, rfl, rfl, rfl, rfl⟩

/-- The flush mode depends on the mode, the wait to receive, the length of the
data buffer and the declared length only. -/
theorem web_client_send_deflate_flush_congr (w w' : web_client) (hm : w'.mode = w.mode)
    (hr : w'.flag_wait_receive = w.flag_wait_receive)
    (hd : w'.response.data = w.response.data) (hl : w'.response.rlen = w.response.rlen) :
    web_client_send_deflate_flush w' = web_client_send_deflate_flush w := by
  unfold web_client_send_deflate_flush
  rw [hm, hr, hd, hl]

/-- The call of the compressor is recorded with its flush mode and leaves the
data buffer. -/
theorem web_client_send_deflate_call_frame (world : World) (w : web_client) :
    flushes (web_client_send_deflate_call world w).2.trace
      = flushes w.trace ++ [web_client_send_deflate_flush w] ∧
    writes (web_client_send_deflate_call world w).2.trace = writes w.trace ∧
    (web_client_send_deflate_call world w).2.response.data = w.response.data := by
  unfold web_client_send_deflate_call
  simp only [record]
  refine ⟨?_, ?_, trivial⟩
  · simp [flushes, List.filterMap_append]
  · simp [writes, offered, List.filterMap_append]

/-- What the step takes over from the compressor. -/
theorem web_client_send_deflate_refill_frame (world : World) (w : web_client) :
    (web_client_send_deflate_refill world w).trace = w.trace ∧
    (web_client_send_deflate_refill world w).response.data = w.response.data ∧
    (web_client_send_deflate_refill world w).response.sent = w.response.data.buffer.length ∧
    (web_client_send_deflate_refill world w).response.zsent = 0 ∧
    (web_client_send_deflate_refill world w).response.zstream_avail_out
      = w.response.zstream_avail_out ∧
    (web_client_send_deflate_refill world w).response.zhave
      = size_t_sub world.NETDATA_WEB_RESPONSE_ZLIB_CHUNK_SIZE w.response.zstream_avail_out :=
  ⟨rfl, rfl, rfl, rfl, rfl, rfl⟩

/-- The flush mode is one of the two. -/
theorem web_client_send_deflate_flush_cases (w : web_client) :
    (web_client_send_deflate_flush w = Z_FINISH ↔
      (w.mode = WEB_CLIENT_MODE_NORMAL ∨
        (w.mode = WEB_CLIENT_MODE_FILECOPY ∧ w.flag_wait_receive = false ∧
          w.response.data.buffer.length = w.response.rlen))) ∧
    (¬ (w.mode = WEB_CLIENT_MODE_NORMAL ∨
        (w.mode = WEB_CLIENT_MODE_FILECOPY ∧ w.flag_wait_receive = false ∧
          w.response.data.buffer.length = w.response.rlen)) →
      web_client_send_deflate_flush w = Z_SYNC_FLUSH) := by
  unfold web_client_send_deflate_flush
  by_cases h : w.mode = WEB_CLIENT_MODE_NORMAL ∨
      (w.mode = WEB_CLIENT_MODE_FILECOPY ∧ ¬ w.flag_wait_receive = true ∧
        w.response.data.buffer.length = w.response.rlen)
  · rw [if_pos h]
    simp only [Bool.not_eq_true] at h
    exact ⟨⟨fun _ => h, fun _ => rfl⟩, fun hn => absurd h hn⟩
  · rw [if_neg h]
    simp only [Bool.not_eq_true] at h
    exact ⟨⟨fun e => absurd e (by decide), fun hp => absurd hp h⟩, fun _ => rfl⟩

/-- The compress step that reaches the compressor and gets no stream error
from it: the connection it leaves. -/
theorem web_client_send_deflate_compress_state (env : Env) (world : World) (w : web_client)
    (hclose : ¬ (if w.response.sent ≠ 0 then web_client_send_chunk_close env world w
      else (0, w)).1 < 0)
    (hok : (web_client_send_deflate_call world (web_client_send_deflate_feed world
      (if w.response.sent ≠ 0 then web_client_send_chunk_close env world w
        else (0, w)).2)).1 ≠ Z_STREAM_ERROR) :
    (web_client_send_deflate_compress env world w).state =
      (web_client_send_chunk_header env world
        (web_client_send_deflate_refill world
          (web_client_send_deflate_call world (web_client_send_deflate_feed world
            (if w.response.sent ≠ 0 then web_client_send_chunk_close env world w
              else (0, w)).2)).2)
        (web_client_send_deflate_refill world
          (web_client_send_deflate_call world (web_client_send_deflate_feed world
            (if w.response.sent ≠ 0 then web_client_send_chunk_close env world w
              else (0, w)).2)).2).response.zhave).2 := by
  unfold web_client_send_deflate_compress
  simp only []
  rw [if_neg hclose, if_neg hok]
  split_ifs <;> rfl

/-! ## The sender: the flush mode -/

/-- C28: a compress step of `web_client_send_deflate` that reaches the
compressor (the closing of the previous chunk, if there is one to close, did
not fail) makes one call of the compressor, and the flush mode of that call is
`Z_FINISH` if and only if the mode is NORMAL, or the mode is FILECOPY with the
wait to receive off and the length of the data buffer equal to the declared
length; in every other case it is `Z_SYNC_FLUSH`. When the compressor reports
no stream error, the step leaves the sent offset at the length of the data
buffer, which is unchanged, `zsent` at 0 and `zhave` at the chunk size minus
the output space the compressor left. -/
theorem web_client_send_deflate_compress_flush (env : Env) (world : World) (w : web_client)
    (hclose : ¬ (if w.response.sent ≠ 0 then web_client_send_chunk_close env world w
      else (0, w)).1 < 0) :
    (∃ f, flushes (web_client_send_deflate_compress env world w).state.trace
        = flushes w.trace ++ [f] ∧
      (f = Z_FINISH ↔
        (w.mode = WEB_CLIENT_MODE_NORMAL ∨
          (w.mode = WEB_CLIENT_MODE_FILECOPY ∧ w.flag_wait_receive = false ∧
            w.response.data.buffer.length = w.response.rlen))) ∧
      (¬ (w.mode = WEB_CLIENT_MODE_NORMAL ∨
          (w.mode = WEB_CLIENT_MODE_FILECOPY ∧ w.flag_wait_receive = false ∧
            w.response.data.buffer.length = w.response.rlen)) → f = Z_SYNC_FLUSH)) ∧
    ((web_client_send_deflate_call world (web_client_send_deflate_feed world
        (if w.response.sent ≠ 0 then web_client_send_chunk_close env world w
          else (0, w)).2)).1 ≠ Z_STREAM_ERROR →
      (web_client_send_deflate_compress env world w).state.response.data = w.response.data ∧
      (web_client_send_deflate_compress env world w).state.response.sent
        = w.response.data.buffer.length ∧
      (web_client_send_deflate_compress env world w).state.response.zsent = 0 ∧
      (web_client_send_deflate_compress env world w).state.response.zhave
        = size_t_sub world.NETDATA_WEB_RESPONSE_ZLIB_CHUNK_SIZE
          (web_client_send_deflate_compress env world w).state.response.zstream_avail_out) := by
  obtain ⟨hc1, _, hc3, hc4, hc5⟩ := web_client_send_deflate_closed env world w
  obtain ⟨hf1, hf2, hf3, hf4, hf5⟩ := web_client_send_deflate_feed_frame world
    (if w.response.sent ≠ 0 then web_client_send_chunk_close env world w else (0, w)).2
  obtain ⟨hk1, _, hk3⟩ := web_client_send_deflate_call_frame world
    (web_client_send_deflate_feed world
      (if w.response.sent ≠ 0 then web_client_send_chunk_close env world w else (0, w)).2)
  have hflush : web_client_send_deflate_flush (web_client_send_deflate_feed world
      (if w.response.sent ≠ 0 then web_client_send_chunk_close env world w else (0, w)).2)
      = web_client_send_deflate_flush w :=
    web_client_send_deflate_flush_congr w _ (hf2.trans hc4) (hf3.trans hc5)
      (hf4.trans (congrArg (fun r => r.data) hc1)) (hf5.trans (congrArg (fun r => r.rlen) hc1))
  rw [hflush, hf1, hc3] at hk1
  have hdata : (web_client_send_deflate_call world (web_client_send_deflate_feed world
      (if w.response.sent ≠ 0 then web_client_send_chunk_close env world w
        else (0, w)).2)).2.response.data = w.response.data :=
    hk3.trans (hf4.trans (congrArg (fun r => r.data) hc1))
  by_cases hok : (web_client_send_deflate_call world (web_client_send_deflate_feed world
      (if w.response.sent ≠ 0 then web_client_send_chunk_close env world w
        else (0, w)).2)).1 = Z_STREAM_ERROR
  · refine ⟨⟨web_client_send_deflate_flush w, ?_, web_client_send_deflate_flush_cases w⟩,
      fun h => absurd hok h⟩
    have e : (web_client_send_deflate_compress env world w).state =
        web_client_request_done env world
          (web_client_send_deflate_call world (web_client_send_deflate_feed world
            (if w.response.sent ≠ 0 then web_client_send_chunk_close env world w
              else (0, w)).2)).2 := by
      unfold web_client_send_deflate_compress
      simp only []
      rw [if_neg hclose, if_pos hok]
      rfl
    rw [e, web_client_request_done_flushes, hk1]
  · have e := web_client_send_deflate_compress_state env world w hclose hok
    obtain ⟨hr1, hr2, hr3, hr4, hr5, hr6⟩ := web_client_send_deflate_refill_frame world
      (web_client_send_deflate_call world (web_client_send_deflate_feed world
        (if w.response.sent ≠ 0 then web_client_send_chunk_close env world w
          else (0, w)).2)).2
    have hh := web_client_send_chunk_frame env world
      (web_client_send_deflate_refill world
        (web_client_send_deflate_call world (web_client_send_deflate_feed world
          (if w.response.sent ≠ 0 then web_client_send_chunk_close env world w
            else (0, w)).2)).2)
      (hexadecimal (web_client_send_deflate_refill world
        (web_client_send_deflate_call world (web_client_send_deflate_feed world
          (if w.response.sent ≠ 0 then web_client_send_chunk_close env world w
            else (0, w)).2)).2).response.zhave ++ str "\r\n")
    have hresp : (web_client_send_deflate_compress env world w).state.response
        = (web_client_send_deflate_refill world
          (web_client_send_deflate_call world (web_client_send_deflate_feed world
            (if w.response.sent ≠ 0 then web_client_send_chunk_close env world w
              else (0, w)).2)).2).response := by
      rw [e]
      exact hh.1
    refine ⟨⟨web_client_send_deflate_flush w, ?_, web_client_send_deflate_flush_cases w⟩,
      fun _ => ?_⟩
    · rw [e]
      unfold web_client_send_chunk_header
      simp only []
      rw [hh.2.2.1, hr1, hk1]
    · rw [hresp, hr2, hr3, hr4, hr5, hr6, hdata]
      exact ⟨rfl, rfl, rfl, rfl⟩

theorem web_client_send_deflate_compress_flush_witness :
    (¬ (if compressed_response.response.sent ≠ 0
        then web_client_send_chunk_close spec_env spec_world compressed_response
        else (0, compressed_response)).1 < 0) ∧
    ((∃ f, flushes (web_client_send_deflate_compress spec_env spec_world
          compressed_response).state.trace = flushes compressed_response.trace ++ [f] ∧
        (f = Z_FINISH ↔
          (compressed_response.mode = WEB_CLIENT_MODE_NORMAL ∨
            (compressed_response.mode = WEB_CLIENT_MODE_FILECOPY ∧
              compressed_response.flag_wait_receive = false ∧
              compressed_response.response.data.buffer.length
                = compressed_response.response.rlen))) ∧
        (¬ (compressed_response.mode = WEB_CLIENT_MODE_NORMAL ∨
            (compressed_response.mode = WEB_CLIENT_MODE_FILECOPY ∧
              compressed_response.flag_wait_receive = false ∧
              compressed_response.response.data.buffer.length
                = compressed_response.response.rlen)) → f = Z_SYNC_FLUSH)) ∧
      ((web_client_send_deflate_call spec_world (web_client_send_deflate_feed spec_world
          (if compressed_response.response.sent ≠ 0
            then web_client_send_chunk_close spec_env spec_world compressed_response
            else (0, compressed_response)).2)).1 ≠ Z_STREAM_ERROR →
        (web_client_send_deflate_compress spec_env spec_world
          compressed_response).state.response.data = compressed_response.response.data ∧
        (web_client_send_deflate_compress spec_env spec_world
          compressed_response).state.response.sent
          = compressed_response.response.data.buffer.length ∧
        (web_client_send_deflate_compress spec_env spec_world
          compressed_response).state.response.zsent = 0 ∧
        (web_client_send_deflate_compress spec_env spec_world
          compressed_response).state.response.zhave
          = size_t_sub spec_world.NETDATA_WEB_RESPONSE_ZLIB_CHUNK_SIZE
            (web_client_send_deflate_compress spec_env spec_world
              compressed_response).state.response.zstream_avail_out)) ∧
    flushes (web_client_send_deflate_compress spec_env spec_world
      compressed_response).state.trace = [Z_FINISH] ∧
    (web_client_send_deflate_compress spec_env spec_world
      compressed_response).state.response.zhave = 4 ∧
    flushes (web_client_drive spec_env file_world
        [drive_step.receive, drive_step.send, drive_step.receive, drive_step.send]
        file_response).trace = [Z_SYNC_FLUSH, Z_FINISH] ∧
    flushes (web_client_send_deflate_compress spec_env spec_world
      { compressed_response with mode := WEB_CLIENT_MODE_OPTIONS }).state.trace
      = [Z_SYNC_FLUSH] :=
  ⟨by decide,
    web_client_send_deflate_compress_flush spec_env spec_world compressed_response (by decide),
    by decide, by decide, by decide, by decide⟩

/-! ## The sender: the order of the writes of a compress step -/

/-- A difference of two `size_t` less 0 is itself. -/
theorem size_t_sub_zero (a b : Nat) : size_t_sub (size_t_sub a b) 0 = size_t_sub a b := by
  unfold size_t_sub
  simp only [Nat.sub_zero, Nat.add_mod_right]
  exact Nat.mod_mod _ _

/-- A compress step that goes on to the writing of the side buffer reached
the compressor and got no stream error from it. -/
theorem web_client_send_deflate_compress_goes_on (env : Env) (world : World) (w : web_client)
    (t : Int) (w' : web_client)
    (hgo : web_client_send_deflate_compress env world w = compressed.goes_on t w') :
    (¬ (if w.response.sent ≠ 0 then web_client_send_chunk_close env world w
      else (0, w)).1 < 0) ∧
    (web_client_send_deflate_call world (web_client_send_deflate_feed world
      (if w.response.sent ≠ 0 then web_client_send_chunk_close env world w
        else (0, w)).2)).1 ≠ Z_STREAM_ERROR := by
  unfold web_client_send_deflate_compress at hgo
  simp only [] at hgo
  by_cases hclose : (if w.response.sent ≠ 0 then web_client_send_chunk_close env world w
      else (0, w)).1 < 0
  · rw [if_pos hclose] at hgo
    cases hgo
  · rw [if_neg hclose] at hgo
    by_cases hok : (web_client_send_deflate_call world (web_client_send_deflate_feed world
        (if w.response.sent ≠ 0 then web_client_send_chunk_close env world w
          else (0, w)).2)).1 = Z_STREAM_ERROR
    · rw [if_pos hok] at hgo
      cases hgo
    · exact ⟨hclose, hok⟩

/-- The writes of a compress step that reaches the compressor and gets no
stream error from it: the CR LF that closes the previous chunk, if some input
was consumed before, then the size line of what the compressor produced. -/
theorem web_client_send_deflate_compress_writes (env : Env) (world : World) (w : web_client)
    (hclose : ¬ (if w.response.sent ≠ 0 then web_client_send_chunk_close env world w
      else (0, w)).1 < 0)
    (hok : (web_client_send_deflate_call world (web_client_send_deflate_feed world
      (if w.response.sent ≠ 0 then web_client_send_chunk_close env world w
        else (0, w)).2)).1 ≠ Z_STREAM_ERROR) :
    writes (web_client_send_deflate_compress env world w).state.trace
      = writes w.trace ++ (if w.response.sent ≠ 0 then [str "\r\n"] else [])
        ++ [hexadecimal (web_client_send_deflate_compress env world w).state.response.zhave
          ++ str "\r\n"] ∧
    (web_client_send_deflate_compress env world w).state.response.zsent = 0 ∧
    (web_client_send_deflate_compress env world w).state.response.zhave
      = size_t_sub world.NETDATA_WEB_RESPONSE_ZLIB_CHUNK_SIZE
        (web_client_send_deflate_compress env world w).state.response.zstream_avail_out := by
  obtain ⟨_, hc2, _, _, _⟩ := web_client_send_deflate_closed env world w
  obtain ⟨hf1, _, _, _, _⟩ := web_client_send_deflate_feed_frame world
    (if w.response.sent ≠ 0 then web_client_send_chunk_close env world w else (0, w)).2
  obtain ⟨_, hk2, _⟩ := web_client_send_deflate_call_frame world
    (web_client_send_deflate_feed world
      (if w.response.sent ≠ 0 then web_client_send_chunk_close env world w else (0, w)).2)
  rw [hf1, hc2] at hk2
  have e := web_client_send_deflate_compress_state env world w hclose hok
  obtain ⟨hr1, _, _, hr4, hr5, hr6⟩ := web_client_send_deflate_refill_frame world
    (web_client_send_deflate_call world (web_client_send_deflate_feed world
      (if w.response.sent ≠ 0 then web_client_send_chunk_close env world w
        else (0, w)).2)).2
  have hh := web_client_send_chunk_frame env world
    (web_client_send_deflate_refill world
      (web_client_send_deflate_call world (web_client_send_deflate_feed world
        (if w.response.sent ≠ 0 then web_client_send_chunk_close env world w
          else (0, w)).2)).2)
    (hexadecimal (web_client_send_deflate_refill world
      (web_client_send_deflate_call world (web_client_send_deflate_feed world
        (if w.response.sent ≠ 0 then web_client_send_chunk_close env world w
          else (0, w)).2)).2).response.zhave ++ str "\r\n")
  have hresp : (web_client_send_deflate_compress env world w).state.response
      = (web_client_send_deflate_refill world
        (web_client_send_deflate_call world (web_client_send_deflate_feed world
          (if w.response.sent ≠ 0 then web_client_send_chunk_close env world w
            else (0, w)).2)).2).response := by
    rw [e]
    exact hh.1
  refine ⟨?_, ?_, ?_⟩
  · rw [hresp, e]
    unfold web_client_send_chunk_header
    simp only []
    rw [hh.2.1, hr1, hk2]
  · rw [hresp, hr4]
  · rw [hresp, hr5, hr6]

/-- The writing of the side buffer offers the socket the bytes of the side
buffer not sent yet, once. -/
theorem web_client_send_deflate_write_writes (env : Env) (world : World) (t : Int)
    (w : web_client) :
    writes (web_client_send_deflate_write env world t w).2.trace
      = writes w.trace ++ [bytes_at w.response.zbuffer w.response.zsent
          (size_t_sub w.response.zhave w.response.zsent)] := by
  obtain ⟨e, he, hframe⟩ := web_client_send_data_frame env world w
    (bytes_at w.response.zbuffer w.response.zsent
      (size_t_sub w.response.zhave w.response.zsent))
  have ht : (web_client_send_deflate_write env world t w).2.trace
      = (web_client_send_data env world w
        (bytes_at w.response.zbuffer w.response.zsent
          (size_t_sub w.response.zhave w.response.zsent))).2.trace := by
    unfold web_client_send_deflate_write
    simp only []
    split_ifs <;> rfl
  rw [ht, hframe]
  exact writes_append_offered _ _ _ he

/-- C29: `web_client_send_chunk_header(w, n)`, `n` a `size_t`, makes one write
to the socket, of the hexadecimal digits of `n` followed by CR LF. The digits
are `0`-`9` and `A`-`F`, read in base 16 they give `n`, they do not start with
`0` unless `n` is 0, for which they are `0`, and with the CR LF they are at
most 18 bytes. A call of `web_client_send_deflate` that compresses and goes on
to write the side buffer writes, in this order: the CR LF that closes the
previous chunk if and only if the sent offset was not 0, the size line of
what the compressor produced, and the bytes of the side buffer. -/
theorem web_client_send_chunk_header_size_line (env : Env) (world : World) (w : web_client)
    (n : Nat) (hn : n < SIZE_T_MOD) :
    writes (web_client_send_chunk_header env world w n).2.trace
      = writes w.trace ++ [hexadecimal n ++ str "\r\n"] ∧
    hex_number (hexadecimal n) = some n ∧
    (∀ c ∈ hexadecimal n, (48 ≤ c ∧ c ≤ 57) ∨ (65 ≤ c ∧ c ≤ 70)) ∧
    (n ≠ 0 → (hexadecimal n).head? ≠ some 48) ∧
    (n = 0 → hexadecimal n = str "0") ∧
    (hexadecimal n ++ str "\r\n").length ≤ 18 ∧
    (∀ t w', w.response.zhave = w.response.zsent →
      ¬ (size_t_sub w.response.data.buffer.length w.response.sent = 0 ∧
        w.response.zstream_avail_in = 0 ∧ w.response.zhave = w.response.zsent ∧
        w.response.zstream_avail_out ≠ 0) →
      web_client_send_deflate_compress env world w = compressed.goes_on t w' →
      writes (web_client_send_deflate env world w).2.trace
        = writes w.trace ++ (if w.response.sent ≠ 0 then [str "\r\n"] else [])
          ++ [hexadecimal w'.response.zhave ++ str "\r\n",
              bytes_at w'.response.zbuffer 0 w'.response.zhave]) := by
  refine ⟨?_, ?_, ?_, ?_, ?_, ?_, ?_⟩
  · unfold web_client_send_chunk_header
    simp only []
    exact (web_client_send_chunk_frame env world w _).2.1
  · exact hex_number_loop (n + 1) n [] (Nat.lt_succ_self n)
  · intro c hc
    rcases hexadecimal_loop_upper (n + 1) n [] c hc with h | h
    · cases h
    · exact h
  · intro h0
    obtain ⟨c, rest, e, hc⟩ := hexadecimal_loop_head (n + 1) n [] (Nat.lt_succ_self n) h0
    unfold hexadecimal
    rw [e]
    simpa using hc
  · intro h0
    rw [h0]
    decide
  · have hl := hexadecimal_loop_length (n + 1) n [] 16 (by decide)
      (by simpa [SIZE_T_MOD] using hn)
    rw [List.length_append]
    have e2 : (str "\r\n").length = 2 := by decide
    rw [e2]
    unfold hexadecimal
    simp only [List.length_nil] at hl
    omega
  · intro t w' hz hnd hgo
    obtain ⟨hclose, hok⟩ := web_client_send_deflate_compress_goes_on env world w t w' hgo
    obtain ⟨h1, h2, h3⟩ := web_client_send_deflate_compress_writes env world w hclose hok
    rw [hgo] at h1 h2 h3
    simp only [compressed.state] at h1 h2 h3
    have e : web_client_send_deflate env world w
        = web_client_send_deflate_write env world t w' := by
      unfold web_client_send_deflate
      rw [if_neg hnd, if_pos hz, hgo]
    rw [e, web_client_send_deflate_write_writes, h1, h2]
    have e0 : size_t_sub w'.response.zhave 0 = w'.response.zhave := by
      rw [h3]
      exact size_t_sub_zero _ _
    rw [e0]
    simp

theorem web_client_send_chunk_header_size_line_witness :
    (255 < SIZE_T_MOD) ∧
    (writes (web_client_send_chunk_header spec_env spec_world compressed_response 255).2.trace
        = writes compressed_response.trace ++ [hexadecimal 255 ++ str "\r\n"] ∧
      hex_number (hexadecimal 255) = some 255 ∧
      (∀ c ∈ hexadecimal 255, (48 ≤ c ∧ c ≤ 57) ∨ (65 ≤ c ∧ c ≤ 70)) ∧
      (255 ≠ 0 → (hexadecimal 255).head? ≠ some 48) ∧
      (255 = 0 → hexadecimal 255 = str "0") ∧
      (hexadecimal 255 ++ str "\r\n").length ≤ 18 ∧
      (∀ t w', compressed_response.response.zhave = compressed_response.response.zsent →
        ¬ (size_t_sub compressed_response.response.data.buffer.length
            compressed_response.response.sent = 0 ∧
          compressed_response.response.zstream_avail_in = 0 ∧
          compressed_response.response.zhave = compressed_response.response.zsent ∧
          compressed_response.response.zstream_avail_out ≠ 0) →
        web_client_send_deflate_compress spec_env spec_world compressed_response
          = compressed.goes_on t w' →
        writes (web_client_send_deflate spec_env spec_world compressed_response).2.trace
          = writes compressed_response.trace
            ++ (if compressed_response.response.sent ≠ 0 then [str "\r\n"] else [])
            ++ [hexadecimal w'.response.zhave ++ str "\r\n",
                bytes_at w'.response.zbuffer 0 w'.response.zhave])) ∧
    hexadecimal 255 ++ str "\r\n" = str "FF\r\n" ∧
    writes (web_client_send_deflate spec_env spec_world compressed_response).2.trace
      = [str "4\r\n", str "abc!"] ∧
    writes (web_client_drive spec_env file_world
        [drive_step.receive, drive_step.send, drive_step.receive, drive_step.send]
        file_response).trace
      = [str "3\r\n", str "abc", str "\r\n", str "4\r\n", str "abc!"] :=
  ⟨by decide,
    web_client_send_chunk_header_size_line spec_env spec_world compressed_response 255
      (by decide),
    by decide, by decide, by decide⟩

/-! ## The sender: a stream error of the compressor -/

/-- What the end of a request leaves of the fields a sender looks at: the
connection waits to receive in NORMAL mode, with compression off. -/
theorem web_client_request_done_ready (env : Env) (world : World) (w : web_client) :
    (web_client_request_done env world w).flag_wait_receive = true ∧
    (web_client_request_done env world w).flag_wait_send = false ∧
    (web_client_request_done env world w).mode = WEB_CLIENT_MODE_NORMAL ∧
    (web_client_request_done env world w).response.zoutput = false ∧
    (web_client_request_done env world w).response.sent = 0 := by
  unfold web_client_request_done web_client_request_done_zlib
  simp only []
  split_ifs <;> exact ⟨rfl, rfl, rfl, rfl, rfl⟩

/-- C30: a call of `web_client_send_deflate` that compresses (the side buffer
is sent and there is input or output pending), reaches the compressor and
gets `Z_STREAM_ERROR` from it returns -1 and writes no size line and no data:
its writes are those made before and the CR LF that closes the previous chunk
if the sent offset was not 0. The connection it leaves is what
`web_client_request_done` makes of it: the dead mark is not set (it is as the
closing of the previous chunk left it, as it was when the sent offset was 0),
the mode is NORMAL, compression is off, and the connection waits to receive
the next request. -/
theorem web_client_send_deflate_stream_error (env : Env) (world : World) (w : web_client)
    (hz : w.response.zhave = w.response.zsent)
    (hnd : ¬ (size_t_sub w.response.data.buffer.length w.response.sent = 0 ∧
      w.response.zstream_avail_in = 0 ∧ w.response.zhave = w.response.zsent ∧
      w.response.zstream_avail_out ≠ 0))
    (hclose : ¬ (if w.response.sent ≠ 0 then web_client_send_chunk_close env world w
      else (0, w)).1 < 0)
    (herr : (web_client_send_deflate_call world (web_client_send_deflate_feed world
      (if w.response.sent ≠ 0 then web_client_send_chunk_close env world w
        else (0, w)).2)).1 = Z_STREAM_ERROR) :
    (web_client_send_deflate env world w).1 = -1 ∧
    (web_client_send_deflate env world w).2
      = web_client_request_done env world
        (web_client_send_deflate_call world (web_client_send_deflate_feed world
          (if w.response.sent ≠ 0 then web_client_send_chunk_close env world w
            else (0, w)).2)).2 ∧
    writes (web_client_send_deflate env world w).2.trace
      = writes w.trace ++ (if w.response.sent ≠ 0 then [str "\r\n"] else []) ∧
    (web_client_send_deflate env world w).2.flag_dead
      = (if w.response.sent ≠ 0 then web_client_send_chunk_close env world w
        else (0, w)).2.flag_dead ∧
    (w.response.sent = 0 → (web_client_send_deflate env world w).2.flag_dead = w.flag_dead) ∧
    (web_client_send_deflate env world w).2.flag_wait_receive = true ∧
    (web_client_send_deflate env world w).2.flag_wait_send = false ∧
    (web_client_send_deflate env world w).2.mode = WEB_CLIENT_MODE_NORMAL ∧
    (web_client_send_deflate env world w).2.response.zoutput = false := by
  have e : web_client_send_deflate env world w
      = (-1, web_client_request_done env world
        (web_client_send_deflate_call world (web_client_send_deflate_feed world
          (if w.response.sent ≠ 0 then web_client_send_chunk_close env world w
            else (0, w)).2)).2) := by
    have ec : web_client_send_deflate_compress env world w
        = compressed.returned (-1) (web_client_request_done env world
          (web_client_send_deflate_call world (web_client_send_deflate_feed world
            (if w.response.sent ≠ 0 then web_client_send_chunk_close env world w
              else (0, w)).2)).2) := by
      unfold web_client_send_deflate_compress
      simp only []
      rw [if_neg hclose, if_pos herr]
    unfold web_client_send_deflate
    rw [if_neg hnd, if_pos hz, ec]
  obtain ⟨_, hc2, _, _, _⟩ := web_client_send_deflate_closed env world w
  obtain ⟨hf1, _, _, _, _⟩ := web_client_send_deflate_feed_frame world
    (if w.response.sent ≠ 0 then web_client_send_chunk_close env world w else (0, w)).2
  obtain ⟨_, hk2, _⟩ := web_client_send_deflate_call_frame world
    (web_client_send_deflate_feed world
      (if w.response.sent ≠ 0 then web_client_send_chunk_close env world w else (0, w)).2)
  rw [hf1, hc2] at hk2
  obtain ⟨hd1, _, hd3⟩ := web_client_request_done_no_write env world
    (web_client_send_deflate_call world (web_client_send_deflate_feed world
      (if w.response.sent ≠ 0 then web_client_send_chunk_close env world w
        else (0, w)).2)).2
  obtain ⟨hr1, hr2, hr3, hr4, _⟩ := web_client_request_done_ready env world
    (web_client_send_deflate_call world (web_client_send_deflate_feed world
      (if w.response.sent ≠ 0 then web_client_send_chunk_close env world w
        else (0, w)).2)).2
  have hdead : (web_client_send_deflate_call world (web_client_send_deflate_feed world
      (if w.response.sent ≠ 0 then web_client_send_chunk_close env world w
        else (0, w)).2)).2.flag_dead
      = (if w.response.sent ≠ 0 then web_client_send_chunk_close env world w
        else (0, w)).2.flag_dead := by
    unfold web_client_send_deflate_call web_client_send_deflate_feed
    simp only [record]
    split_ifs <;> rfl
  rw [e]
  refine ⟨rfl, rfl, hd1.trans hk2, hd3.trans hdead, ?_, hr1, hr2, hr3, hr4⟩
  intro h0
  have hs : ¬ w.response.sent ≠ 0 := fun h => h h0
  rw [if_neg hs]
  have := hd3.trans hdead
  rw [if_neg hs] at this
  exact this

theorem web_client_send_deflate_stream_error_witness :
    (compressed_response.response.zhave = compressed_response.response.zsent ∧
      ¬ (size_t_sub compressed_response.response.data.buffer.length
          compressed_response.response.sent = 0 ∧
        compressed_response.response.zstream_avail_in = 0 ∧
        compressed_response.response.zhave = compressed_response.response.zsent ∧
        compressed_response.response.zstream_avail_out ≠ 0) ∧
      compressed_response.response.sent = 0 ∧
      compressed_response.flag_dead = false) ∧
    (web_client_send spec_env broken_world compressed_response).1 = -1 ∧
    writes (web_client_send spec_env broken_world compressed_response).2.trace = [] ∧
    flushes (web_client_send spec_env broken_world compressed_response).2.trace = [Z_FINISH] ∧
    (web_client_send spec_env broken_world compressed_response).2.flag_dead = false ∧
    (web_client_send spec_env broken_world compressed_response).2.flag_wait_receive = true ∧
    (web_client_send_deflate spec_env broken_world compressed_response).1 = -1 ∧
    (web_client_send_deflate spec_env broken_world compressed_response).2.flag_dead
      = compressed_response.flag_dead ∧
    (web_client_send_deflate spec_env broken_world compressed_response).2.mode
      = WEB_CLIENT_MODE_NORMAL :=
  ⟨by decide, by decide, by decide, by decide, by decide, by decide,
    (web_client_send_deflate_stream_error spec_env broken_world compressed_response
      (by decide) (by decide) (by decide) (by decide)).1,
    (web_client_send_deflate_stream_error spec_env broken_world compressed_response
      (by decide) (by decide) (by decide) (by decide)).2.2.2.2.1 (by decide),
    (web_client_send_deflate_stream_error spec_env broken_world compressed_response
      (by decide) (by decide) (by decide) (by decide)).2.2.2.2.2.2.2.1⟩

/-! ## The compressor is set up once -/

/-- Between `web_client_enable_deflate` and the compression flags: the output
is compressed only on a connection whose compressor is set up. -/
theorem web_client_enable_deflate_keeps_flags (env : Env) (w : web_client) (gzip : Bool)
    (h : w.response.zoutput = true → w.response.zinitialized = true) :
    (web_client_enable_deflate env w gzip).response.zoutput = true →
      (web_client_enable_deflate env w gzip).response.zinitialized = true := by
  unfold web_client_enable_deflate
  simp only []
  by_cases hz : w.response.zinitialized = true
  · rw [if_pos hz]
    exact h
  · rw [if_neg hz]
    by_cases hs : w.response.sent ≠ 0
    · rw [if_pos hs]
      exact h
    · rw [if_neg hs]
      by_cases hok : env.deflateInit2_ok (15 + (if gzip then 16 else 0)) = true
      · rw [if_pos hok]
        exact fun _ => rfl
      · rw [if_neg hok]
        exact fun hzo => absurd (h hzo) hz

/-- C31: `web_client_enable_deflate(w, gzip)`. On a connection whose
compressor is set up already, or of whose response a byte has been sent, it
changes nothing. Else, when `deflateInit2` succeeds, it leaves `zinitialized`
and `zoutput` on and `zsent` at 0; when `deflateInit2` fails, it leaves
`zinitialized` off and `zoutput` as it was, which is off on every connection
that compresses its output only when its compressor is set up. After a call
that left the compressor set up, a further call changes nothing. -/
theorem web_client_enable_deflate_once (env : Env) (w : web_client) (gzip : Bool) :
    ((w.response.zinitialized = true ∨ w.response.sent ≠ 0) →
      web_client_enable_deflate env w gzip = w) ∧
    (w.response.zinitialized = false → w.response.sent = 0 →
      env.deflateInit2_ok (15 + (if gzip then 16 else 0)) = true →
      (web_client_enable_deflate env w gzip).response.zinitialized = true ∧
      (web_client_enable_deflate env w gzip).response.zoutput = true ∧
      (web_client_enable_deflate env w gzip).response.zsent = 0) ∧
    (w.response.zinitialized = false → w.response.sent = 0 →
      env.deflateInit2_ok (15 + (if gzip then 16 else 0)) = false →
      (web_client_enable_deflate env w gzip).response.zinitialized = false ∧
      (web_client_enable_deflate env w gzip).response.zoutput = w.response.zoutput ∧
      ((w.response.zoutput = true → w.response.zinitialized = true) →
        (web_client_enable_deflate env w gzip).response.zoutput = false)) ∧
    (∀ again : Bool, (web_client_enable_deflate env w gzip).response.zinitialized = true →
      web_client_enable_deflate env (web_client_enable_deflate env w gzip) again
        = web_client_enable_deflate env w gzip) := by
  refine ⟨?_, ?_, ?_, ?_⟩
  · intro h
    unfold web_client_enable_deflate
    rcases h with h | h
    · rw [if_pos h]
    · by_cases hz : w.response.zinitialized = true
      · rw [if_pos hz]
      · rw [if_neg hz, if_pos h]
  · intro hz hs hok
    unfold web_client_enable_deflate
    simp only []
    rw [if_neg (by simp [hz]), if_neg (by simp [hs]), if_pos hok]
    exact ⟨rfl, rfl, rfl⟩
  · intro hz hs hok
    unfold web_client_enable_deflate
    simp only []
    rw [if_neg (by simp [hz]), if_neg (by simp [hs]), if_neg (by simp [hok])]
    refine ⟨hz, rfl, fun h => ?_⟩
    cases hzo : w.response.zoutput with
    | false => rfl
    | true => rw [h hzo] at hz; cases hz
  · intro again h
    generalize web_client_enable_deflate env w gzip = x at h ⊢
    unfold web_client_enable_deflate
    rw [if_pos h]

theorem web_client_enable_deflate_once_witness :
    (web_client_enable_deflate spec_env dashboard_client true).response.zinitialized = true ∧
    (web_client_enable_deflate spec_env dashboard_client true).response.zoutput = true ∧
    (web_client_enable_deflate spec_env dashboard_client true).response.zsent = 0 ∧
    web_client_enable_deflate spec_env (web_client_enable_deflate spec_env dashboard_client true)
        false = web_client_enable_deflate spec_env dashboard_client true ∧
    web_client_enable_deflate spec_env sent_response true = sent_response :=
  ⟨((web_client_enable_deflate_once spec_env dashboard_client true).2.1 (by decide) (by decide)
      (by decide)).1,
    ((web_client_enable_deflate_once spec_env dashboard_client true).2.1 (by decide) (by decide)
      (by decide)).2.1,
    ((web_client_enable_deflate_once spec_env dashboard_client true).2.1 (by decide) (by decide)
      (by decide)).2.2,
    (web_client_enable_deflate_once spec_env dashboard_client true).2.2.2 false (by decide),
    (web_client_enable_deflate_once spec_env sent_response true).1 (Or.inr (by decide))⟩

/-! ## The copy of a file: reading -/

theorem bytes_at_length (buf : List Nat) (start len : Nat) :
    (bytes_at buf start len).length = len := by
  simp [bytes_at]

/-- C32 (as amended): `web_client_read_file` on a connection whose data buffer
is shorter than the declared length. It makes one call of `read`, on the input
descriptor, for the declared length less the length of the buffer, and
returns what `read` returned. When `read` gives `b` bytes, at least one and at
most those asked for: they are appended to the buffer, whose length stays
within the declared length, the wait to send is on, the wait to receive is off
if the declared length is reached and as before else, and the input descriptor
is neither closed nor changed. When `read` gives 0: the wait to receive is
off, the input descriptor is closed if it is not the output descriptor and the
server is not static-threaded, and `ifd` becomes `ofd`. When `read` fails, the
connection is marked dead. -/
theorem web_client_read_file_cases (world : World) (w : web_client)
    (hlt : w.response.data.buffer.length < w.response.rlen) :
    (web_client_read_file world w).1
      = (world.read w.trace.length w.ifd
          (w.response.rlen - w.response.data.buffer.length)).1 ∧
    (∀ b : Nat,
      (world.read w.trace.length w.ifd
        (w.response.rlen - w.response.data.buffer.length)).1 = b →
      0 < b → b ≤ w.response.rlen - w.response.data.buffer.length →
      (web_client_read_file world w).2.response.data.buffer
        = w.response.data.buffer ++
          bytes_at (world.read w.trace.length w.ifd
            (w.response.rlen - w.response.data.buffer.length)).2 0 b ∧
      (web_client_read_file world w).2.response.data.buffer.length
        = w.response.data.buffer.length + b ∧
      w.response.data.buffer.length + b ≤ w.response.rlen ∧
      (web_client_read_file world w).2.flag_wait_send = true ∧
      (web_client_read_file world w).2.flag_wait_receive
        = (if w.response.data.buffer.length + b = w.response.rlen then false
           else w.flag_wait_receive) ∧
      (web_client_read_file world w).2.ifd = w.ifd ∧
      (web_client_read_file world w).2.flag_dead = w.flag_dead ∧
      (web_client_read_file world w).2.trace
        = w.trace ++ [io_event.read w.ifd
            (w.response.rlen - w.response.data.buffer.length)]) ∧
    ((world.read w.trace.length w.ifd
        (w.response.rlen - w.response.data.buffer.length)).1 = 0 →
      (web_client_read_file world w).2.flag_wait_receive = false ∧
      (web_client_read_file world w).2.ifd = w.ofd ∧
      (web_client_read_file world w).2.response = w.response ∧
      (web_client_read_file world w).2.flag_dead = w.flag_dead ∧
      (web_client_read_file world w).2.trace
        = w.trace ++ [io_event.read w.ifd
            (w.response.rlen - w.response.data.buffer.length)]
          ++ (if world.web_server_static_threaded = false ∧ w.ifd ≠ w.ofd
              then [io_event.close w.ifd] else [])) ∧
    ((world.read w.trace.length w.ifd
        (w.response.rlen - w.response.data.buffer.length)).1 < 0 →
      (web_client_read_file world w).2.flag_dead = true ∧
      (web_client_read_file world w).2.response = w.response ∧
      (web_client_read_file world w).2.ifd = w.ifd ∧
      (web_client_read_file world w).2.trace
        = w.trace ++ [io_event.read w.ifd
            (w.response.rlen - w.response.data.buffer.length)]) := by
  have hnle : ¬ w.response.rlen ≤ w.response.data.buffer.length := by omega
  generalize hr : world.read w.trace.length w.ifd
    (w.response.rlen - w.response.data.buffer.length) = r
  refine ⟨?_, ?_, ?_, ?_⟩
  · unfold web_client_read_file
    rw [if_neg hnle]
    simp only [hr]
    split_ifs <;> rfl
  · intro b hb hb0 hble
    have hpos : r.1 > 0 := by rw [hb]; exact_mod_cast hb0
    have hnat : r.1.toNat = b := by rw [hb]; exact Int.toNat_natCast b
    have e : web_client_read_file world w =
        (r.1,
          (if w.response.rlen ≠ 0 ∧
              (w.response.data.buffer ++ bytes_at r.2 0 r.1.toNat).length ≥ w.response.rlen then
            { ({ set_data (record w (io_event.read w.ifd
                  (w.response.rlen - w.response.data.buffer.length)))
                { w.response.data with
                  buffer := w.response.data.buffer ++ bytes_at r.2 0 r.1.toNat } with
                flag_wait_send := true } : web_client) with flag_wait_receive := false }
          else
            { set_data (record w (io_event.read w.ifd
                  (w.response.rlen - w.response.data.buffer.length)))
                { w.response.data with
                  buffer := w.response.data.buffer ++ bytes_at r.2 0 r.1.toNat } with
                flag_wait_send := true })) := by
      unfold web_client_read_file
      rw [if_neg hnle]
      simp only [hr]
      rw [if_pos hpos]
      rfl
    rw [e, hnat]
    have hlen : (w.response.data.buffer ++ bytes_at r.2 0 b).length
        = w.response.data.buffer.length + b := by
      rw [List.length_append, bytes_at_length]
    rw [hlen]
    by_cases hfull : w.response.data.buffer.length + b = w.response.rlen
    · rw [if_pos ⟨by omega, by omega⟩, if_pos hfull]
      exact ⟨rfl, hlen, by omega, rfl, rfl, rfl, rfl, rfl⟩
    · rw [if_neg (fun h => hfull (by omega)), if_neg hfull]
      exact ⟨rfl, hlen, by omega, rfl, rfl, rfl, rfl, rfl⟩
  · intro h0
    have hnpos : ¬ r.1 > 0 := by omega
    unfold web_client_read_file
    rw [if_neg hnle]
    simp only [hr]
    rw [if_neg hnpos, if_pos h0]
    by_cases hst : world.web_server_static_threaded = true
    · simp [hst, record]
    · by_cases hfd : w.ifd = w.ofd
      · simp [hst, hfd, record]
      · simp [hst, hfd, record]
  · intro hneg
    have hnpos : ¬ r.1 > 0 := by omega
    have hn0 : ¬ r.1 = 0 := by omega
    unfold web_client_read_file
    rw [if_neg hnle]
    simp only [hr]
    rw [if_neg hnpos, if_neg hn0]
    exact ⟨rfl, rfl, rfl, rfl⟩

theorem web_client_read_file_cases_witness :
    file_response.response.data.buffer.length < file_response.response.rlen ∧
    (web_client_read_file threaded_world file_response).1 = 3 ∧
    (web_client_read_file threaded_world file_response).2.response.data.buffer = str "abc" ∧
    (web_client_read_file threaded_world file_response).2.flag_wait_send = true ∧
    (web_client_read_file ended_world file_response).2.flag_wait_receive = false ∧
    (web_client_read_file ended_world file_response).2.ifd = file_response.ofd ∧
    (web_client_read_file ended_world file_response).2.trace
      = [io_event.read 7 6, io_event.close 7] ∧
    (web_client_read_file unreadable_world file_response).2.flag_dead = true :=
  ⟨by decide,
    (web_client_read_file_cases threaded_world file_response (by decide)).1,
    ((web_client_read_file_cases threaded_world file_response (by decide)).2.1 3 (by decide)
      (by decide) (by decide)).1,
    ((web_client_read_file_cases threaded_world file_response (by decide)).2.1 3 (by decide)
      (by decide) (by decide)).2.2.2.1,
    ((web_client_read_file_cases ended_world file_response (by decide)).2.2.1 (by decide)).1,
    ((web_client_read_file_cases ended_world file_response (by decide)).2.2.1 (by decide)).2.1,
    ((web_client_read_file_cases ended_world file_response (by decide)).2.2.1 (by decide)).2.2.2.2,
    ((web_client_read_file_cases unreadable_world file_response (by decide)).2.2.2
      (by decide)).1⟩

/-- C32, counterexample: a file of six bytes copied on a server that is not
static-threaded, the input descriptor (7) not being the output descriptor
(5). The second read brings the buffer to the declared length: the wait to
receive is off, but the input descriptor is not closed (the calls made are the
two reads) and `ifd` is still 7. -/
theorem web_client_read_file_length_reached :
    threaded_world.web_server_static_threaded = false ∧
    file_response.ifd = 7 ∧ file_response.ofd = 5 ∧
    (web_client_drive spec_env threaded_world [drive_step.receive, drive_step.receive]
      file_response).response.data.buffer.length = file_response.response.rlen ∧
    (web_client_drive spec_env threaded_world [drive_step.receive, drive_step.receive]
      file_response).flag_wait_receive = false ∧
    (web_client_drive spec_env threaded_world [drive_step.receive, drive_step.receive]
      file_response).ifd = 7 ∧
    (web_client_drive spec_env threaded_world [drive_step.receive, drive_step.receive]
      file_response).trace = [io_event.read 7 6, io_event.read 7 3] := by
  decide

/-! ## The end of a request: what is reset -/

/-- A character array whose first byte is the terminator holds the empty
string. -/
theorem cstr_set_zero (buf : List Nat) : cstr (buf.set 0 0) 0 = [] := by
  cases buf with
  | nil => rfl
  | cons b rest => simp [cstr]

/-- The report of a request and the release of the cork leave the mode and
the two descriptors. -/
theorem web_client_request_done_log_frame (env : Env) (world : World) (w : web_client) :
    (web_client_request_done_log env (web_client_uncrock_socket world w).2).mode = w.mode ∧
    (web_client_request_done_log env (web_client_uncrock_socket world w).2).ifd = w.ifd ∧
    (web_client_request_done_log env (web_client_uncrock_socket world w).2).ofd = w.ofd := by
  have h1 : (web_client_uncrock_socket world w).2.mode = w.mode ∧
      (web_client_uncrock_socket world w).2.ifd = w.ifd ∧
      (web_client_uncrock_socket world w).2.ofd = w.ofd := by
    unfold web_client_uncrock_socket
    split_ifs <;> exact ⟨rfl, rfl, rfl⟩
  have h2 : ∀ x : web_client, (web_client_request_done_log env x).mode = x.mode ∧
      (web_client_request_done_log env x).ifd = x.ifd ∧
      (web_client_request_done_log env x).ofd = x.ofd := by
    intro x
    unfold web_client_request_done_log
    by_cases hl : x.last_url ≠ []
    · rw [if_pos hl]
      exact ⟨rfl, rfl, rfl⟩
    · rw [if_neg hl]
      exact ⟨rfl, rfl, rfl⟩
  obtain ⟨a, b, c⟩ := h2 (web_client_uncrock_socket world w).2
  exact ⟨a.trans h1.1, b.trans h1.2.1, c.trans h1.2.2⟩

/-- After the copy of a file the input descriptor is the output descriptor. -/
theorem web_client_request_done_close_ifd (world : World) (w : web_client)
    (h : w.mode = WEB_CLIENT_MODE_FILECOPY) :
    (web_client_request_done_close world w).ifd = (web_client_request_done_close world w).ofd := by
  unfold web_client_request_done_close
  rw [if_pos h]
  by_cases hfd : w.ifd ≠ w.ofd
  · rw [if_pos hfd]
  · rw [if_neg hfd]
    exact not_not.mp hfd

/-- C33: the connection `web_client_request_done` leaves, `buffer_reset` being
taken to empty a buffer and the compressor to be set up only in a build with
zlib. The mode is NORMAL; keep-alive, do-not-track and tracking-required are
off; `tcp_cork` is 0; the response code, the sent offset and the declared
length are 0; the header, the header output and the data buffer are empty;
the last URL and the decoded URL are empty strings; the origin is `*`; the
user agent and the bearer token are null; the count of parse attempts and the
last size are 0; the connection waits to receive and not to send; the output
is not compressed and the compressor is not set up; and if the mode was
FILECOPY the input descriptor is the output descriptor. -/
theorem web_client_request_done_resets (env : Env) (world : World) (w : web_client)
    (hreset : ∀ wb, (world.buffer_reset wb).buffer = [])
    (hz : w.response.zinitialized = true → env.NETDATA_WITH_ZLIB = true) :
    (web_client_request_done env world w).mode = WEB_CLIENT_MODE_NORMAL ∧
    (web_client_request_done env world w).flag_keepalive = false ∧
    (web_client_request_done env world w).flag_donottrack = false ∧
    (web_client_request_done env world w).flag_tracking_required = false ∧
    (web_client_request_done env world w).tcp_cork = 0 ∧
    (web_client_request_done env world w).response.code = 0 ∧
    (web_client_request_done env world w).response.sent = 0 ∧
    (web_client_request_done env world w).response.rlen = 0 ∧
    (web_client_request_done env world w).response.header.buffer = [] ∧
    (web_client_request_done env world w).response.header_output.buffer = [] ∧
    (web_client_request_done env world w).response.data.buffer = [] ∧
    (web_client_request_done env world w).last_url = [] ∧
    cstr (web_client_request_done env world w).decoded_url 0 = [] ∧
    (web_client_request_done env world w).origin = str "*" ∧
    (web_client_request_done env world w).user_agent = none ∧
    (web_client_request_done env world w).auth_bearer_token = none ∧
    (web_client_request_done env world w).header_parse_tries = 0 ∧
    (web_client_request_done env world w).header_parse_last_size = 0 ∧
    (web_client_request_done env world w).flag_wait_receive = true ∧
    (web_client_request_done env world w).flag_wait_send = false ∧
    (web_client_request_done env world w).response.zoutput = false ∧
    (web_client_request_done env world w).response.zinitialized = false ∧
    (w.mode = WEB_CLIENT_MODE_FILECOPY →
      (web_client_request_done env world w).ifd = (web_client_request_done env world w).ofd) := by
  obtain ⟨hm, _, _⟩ := web_client_request_done_log_frame env world w
  have hzi : (web_client_request_done_close world
      (web_client_request_done_log env (web_client_uncrock_socket world w).2)).response.zinitialized
      = w.response.zinitialized := by
    have h1 : (web_client_uncrock_socket world w).2.response = w.response := by
      unfold web_client_uncrock_socket
      split_ifs <;> rfl
    have h2 : ∀ x : web_client, (web_client_request_done_log env x).response = x.response := by
      intro x
      unfold web_client_request_done_log
      by_cases hl : x.last_url ≠ []
      · rw [if_pos hl]
        rfl
      · rw [if_neg hl]
    have h3 : ∀ x : web_client, (web_client_request_done_close world x).response = x.response := by
      intro x
      unfold web_client_request_done_close
      split_ifs <;> rfl
    rw [h3, h2, h1]
  have hfd := web_client_request_done_close_ifd world
    (web_client_request_done_log env (web_client_uncrock_socket world w).2)
  rw [hm] at hfd
  unfold web_client_request_done
  simp only []
  generalize web_client_request_done_close world
    (web_client_request_done_log env (web_client_uncrock_socket world w).2) = x at hzi hfd ⊢
  unfold web_client_request_done_zlib
  by_cases hc : env.NETDATA_WITH_ZLIB = true ∧
      (web_client_request_done_reset world x).response.zinitialized = true
  · rw [if_pos hc]
    exact ⟨rfl, rfl, rfl, rfl, rfl, rfl, rfl, rfl, hreset _, hreset _, hreset _, rfl,
      cstr_set_zero _, rfl, rfl, rfl, rfl, rfl, rfl, rfl, rfl, rfl, hfd⟩
  · rw [if_neg hc]
    have hoff : x.response.zinitialized = false := by
      cases hx : x.response.zinitialized with
      | false => rfl
      | true =>
        exfalso
        apply hc
        refine ⟨hz (hzi ▸ hx), ?_⟩
        exact hx
    exact ⟨rfl, rfl, rfl, rfl, rfl, rfl, rfl, rfl, hreset _, hreset _, hreset _, rfl,
      cstr_set_zero _, rfl, rfl, rfl, rfl, rfl, rfl, rfl, rfl, hoff, hfd⟩


theorem web_client_request_done_resets_witness :
    (web_client_request_done spec_env spec_world file_response).mode = WEB_CLIENT_MODE_NORMAL ∧
    (web_client_request_done spec_env spec_world file_response).response.zinitialized = false ∧
    (web_client_request_done spec_env spec_world file_response).ifd = 5 :=
  ⟨(web_client_request_done_resets spec_env spec_world file_response (fun _ => rfl)
      (fun _ => by decide)).1,
    (web_client_request_done_resets spec_env spec_world file_response (fun _ => rfl)
      (fun _ => by decide)).2.2.2.2.2.2.2.2.2.2.2.2.2.2.2.2.2.2.2.2.2.1,
    ((web_client_request_done_resets spec_env spec_world file_response (fun _ => rfl)
      (fun _ => by decide)).2.2.2.2.2.2.2.2.2.2.2.2.2.2.2.2.2.2.2.2.2.2 (by decide)).trans
      (by decide)⟩

/-! ## Spans from one request to the next -/

/-- C34: spans an earlier request left stay. Two connections that differ in
their version and command spans only, the URL `/index.html` and the URL
`/api`: after `web_client_request_done` and `web_client_split_path_query` the
version span is null on the one and the span at offset 5 of length 2 on the
other. On a kept-alive connection that has served `/api/v1/info`, the request
for `/api` is handed to the v1 handler, the version being read from the bytes
the earlier URL left behind the terminator of the new one; on a new
connection the same request is answered 400, `Which API version?`. -/
theorem web_client_split_path_query_stale_version :
    (next_request spec_env spec_world dashboard_client (str "/index.html")).version
      = { body := none, length := 0 } ∧
    (next_request spec_env spec_world used_connection (str "/index.html")).version
      = { body := some 5, length := 2 } ∧
    (next_request spec_env spec_world dashboard_client (str "/api")).version
      = { body := none, length := 0 } ∧
    (next_request spec_env spec_world used_connection (str "/api")).version
      = { body := some 5, length := 2 } ∧
    (next_request spec_env spec_world dashboard_client (str "/foo/bar?x=1")).command
      = { body := none, length := 0 } ∧
    (next_request spec_env spec_world used_connection (str "/foo/bar?x=1")).command
      = { body := some 8, length := 4 } ∧
    kept_alive_connection.version = { body := some 5, length := 2 } ∧
    (parsed_request spec_env kept_alive_connection (str "GET /api HTTP/1.1\r\n\r\n")).version
      = { body := some 5, length := 2 } ∧
    cstr (parsed_request spec_env kept_alive_connection
      (str "GET /api HTTP/1.1\r\n\r\n")).decoded_url 0 = str "/api" ∧
    (web_client_process_url spec_env spec_world 1 spec_world.localhost
      (parsed_request spec_env kept_alive_connection (str "GET /api HTTP/1.1\r\n\r\n"))
      (some 0)).map (fun r => (r.1, r.2.trace))
      = some (200, kept_alive_connection.trace ++ [io_event.api_request_v1 0]) ∧
    (web_client_process_url spec_env spec_world 1 spec_world.localhost
      (parsed_request spec_env dashboard_client (str "GET /api HTTP/1.1\r\n\r\n"))
      (some 0)).map (fun r => (r.1, r.2.response.data.buffer, r.2.trace))
      = some (400, str "Which API version?", []) := by
  decide

/-! ## The scan of `web_client_is_complete` over an ordinary byte -/

/-- The text of `web_client_is_complete`, a function without caller, on a
buffer that is not empty and whose scan
starts on a byte that is neither CR nor LF (the fourth byte from the end when
the length is above 3, the first byte else): the pass of the loop over that
byte goes round again with the position and the counter it started with, so
it neither moves the scan forward nor leaves the loop, and the function does
not return, whatever the fuel. -/
theorem web_client_is_complete_ordinary_byte (buf : List Nat) (begin endp length : Nat)
    (hne : begin ≠ endp)
    (hstart : (if length > 3 then endp - 4 else begin) ≠ endp)
    (hcr : peek buf (if length > 3 then endp - 4 else begin) ≠ CR)
    (hlf : peek buf (if length > 3 then endp - 4 else begin) ≠ LF) :
    web_client_is_complete_body buf endp (if length > 3 then endp - 4 else begin) 0
      = ScanStep.again (if length > 3 then endp - 4 else begin) 0 ∧
    ∀ fuel, web_client_is_complete fuel buf begin endp length = none := by
  have hbody : web_client_is_complete_body buf endp (if length > 3 then endp - 4 else begin) 0
      = ScanStep.again (if length > 3 then endp - 4 else begin) 0 := by
    unfold web_client_is_complete_body
    rw [if_neg hcr, if_neg hlf]
    unfold web_client_is_complete_tail
    rw [if_neg (by decide), if_pos hstart]
  refine ⟨hbody, fun fuel => ?_⟩
  have h := web_client_is_complete_loop_stuck buf endp _ 0 hbody fuel
  unfold web_client_is_complete
  rw [if_neg hne]
  simp only [h]

theorem web_client_is_complete_ordinary_byte_witness :
    web_client_is_complete 1000 (str "GET / HTTP/1.1\n\n") 0 16 16 = none ∧
    web_client_is_complete 1000 (str "abcd") 0 4 4 = none ∧
    web_client_is_complete 1000 (str "a") 0 1 1 = none :=
  ⟨(web_client_is_complete_ordinary_byte (str "GET / HTTP/1.1\n\n") 0 16 16 (by decide)
      (by decide) (by decide) (by decide)).2 1000,
    (web_client_is_complete_ordinary_byte (str "abcd") 0 4 4 (by decide) (by decide)
      (by decide) (by decide)).2 1000,
    (web_client_is_complete_ordinary_byte (str "a") 0 1 1 (by decide) (by decide)
      (by decide) (by decide)).2 1000⟩

/-! ## The splitter at the ends of the URL -/

/-- C36: `web_client_split_path_query` on five decoded URLs. The empty URL and
`/api/`: the spans depend on the bytes that lie behind the terminator, which
are therefore read (for the empty URL the search for `/` starts at offset 1,
for `/api/` at offset 6), and the version span found there ends behind the
URL. The empty URL and `?x=1`: the length of the directory span is
`0 - 1`, which wraps to 2^64 - 1. `/api/v1?a=/b`: the command span starts at
offset 11, behind the `?`, and its length `7 - 11` wraps to 2^64 - 4. `/` and
`/index.html`: the command span starts at offset 1 and has the length of the
whole URL, so it ends one byte behind it. -/
theorem web_client_split_path_query_out_of_bounds :
    cstr (url_array (str "") (str "pi/v1/info")).decoded_url 0 = str "" ∧
    (web_client_split_path_query spec_env (url_array (str "") [])).directory
      = { body := some 1, length := SIZE_T_MOD - 1 } ∧
    (web_client_split_path_query spec_env (url_array (str "") (str "pi/v1/info"))).directory
      = { body := some 1, length := 2 } ∧
    (web_client_split_path_query spec_env (url_array (str "") (str "pi/v1/info"))).version
      = { body := some 4, length := 2 } ∧
    cstr (url_array (str "/api/") (str "1/info")).decoded_url 0 = str "/api/" ∧
    (web_client_split_path_query spec_env (url_array (str "/api/") [])).version
      = { body := some 5, length := 0 } ∧
    (web_client_split_path_query spec_env (url_array (str "/api/") (str "1/info"))).version
      = { body := some 5, length := 2 } ∧
    (web_client_split_path_query spec_env (url_array (str "?x=1") [])).directory
      = { body := some 1, length := SIZE_T_MOD - 1 } ∧
    (web_client_split_path_query spec_env (url_array (str "/api/v1?a=/b") [])).command
      = { body := some 11, length := SIZE_T_MOD - 4 } ∧
    (str "/api/v1?a=/b").length = 12 ∧
    (web_client_split_path_query spec_env (url_array (str "/") [])).command
      = { body := some 1, length := 1 } ∧
    (web_client_split_path_query spec_env (url_array (str "/index.html") [])).command
      = { body := some 1, length := 11 } ∧
    (str "/index.html").length = 11 := by
  decide

/-! ## The response header: the `Connection` line and the keep-alive flag -/

/-- C37: `web_client_send_http_header`, `buffer_no_cacheable` being taken to
leave the bytes of the body. The header output gets, after the status line,
the line `Connection: keep-alive` when keep-alive is on at the call and
`Connection: close` else. Keep-alive is on after the call if and only if it
was on at the call and the output is compressed, or the body is not empty, or
a length is declared. So for a kept-alive response without compression, body
and declared length the line says `keep-alive` and the flag is off. -/
theorem web_client_send_http_header_connection_line (env : Env) (world : World)
    (w : web_client) (hnc : ∀ wb, (world.buffer_no_cacheable wb).buffer = wb.buffer) :
    (w.response.header_output.buffer ++
        (str "HTTP/1.1 " ++ decimal_int w.response.code ++ str " " ++
          web_response_code_to_string w.response.code ++ str "\r\n" ++
          str "Connection: " ++ (if w.flag_keepalive then str "keep-alive" else str "close") ++
          str "\r\n"))
      <+: (web_client_send_http_header env world w).response.header_output.buffer ∧
    ((web_client_send_http_header env world w).flag_keepalive = true ↔
      (w.flag_keepalive = true ∧
        (w.response.zoutput = true ∨ w.response.data.buffer.length ≠ 0 ∨
          w.response.rlen ≠ 0))) ∧
    (w.flag_keepalive = true → w.response.zoutput = false →
      w.response.data.buffer = [] → w.response.rlen = 0 →
      (w.response.header_output.buffer ++
          (str "HTTP/1.1 " ++ decimal_int w.response.code ++ str " " ++
            web_response_code_to_string w.response.code ++ str "\r\n" ++
            str "Connection: keep-alive\r\n"))
        <+: (web_client_send_http_header env world w).response.header_output.buffer ∧
      (web_client_send_http_header env world w).flag_keepalive = false) := by
  have hline : (w.response.header_output.buffer ++
        (str "HTTP/1.1 " ++ decimal_int w.response.code ++ str " " ++
          web_response_code_to_string w.response.code ++ str "\r\n" ++
          str "Connection: " ++ (if w.flag_keepalive then str "keep-alive" else str "close") ++
          str "\r\n"))
      <+: (web_client_send_http_header env world w).response.header_output.buffer := by
    have hbegin := web_client_send_http_header_begin_prefix env world w
    refine List.IsPrefix.trans ?_ hbegin
    obtain ⟨d, hd⟩ := web_client_send_http_header_expires_frame world w
    unfold web_client_send_http_header_begin
    simp only []
    rw [hd]
    simp only [set_header_output, set_data, buffer_sprintf, web_client_send_http_header_lines,
      web_client_send_http_header_status, List.append_assoc, List.prefix_append_right_inj]
    exact List.prefix_append _ _
  have hflag : (web_client_send_http_header env world w).flag_keepalive = true ↔
      (w.flag_keepalive = true ∧
        (w.response.zoutput = true ∨ w.response.data.buffer.length ≠ 0 ∨
          w.response.rlen ≠ 0)) := by
    obtain ⟨hb1, hb2, hb3, hb4⟩ := web_client_send_http_header_begin_frame env world w hnc
    simp only [web_client_send_http_header]
    rw [(web_client_send_http_header_send_frame env world _).2]
    generalize web_client_send_http_header_begin env world w = b at hb1 hb2 hb3 hb4 ⊢
    unfold web_client_send_http_header_transfer
    simp only []
    rw [← hb1, ← hb2, ← hb3, ← hb4]
    by_cases hz : b.response.zoutput = true
    · rw [if_pos hz]
      simp [set_header_output, hz]
    · rw [if_neg hz]
      by_cases hl : b.response.data.buffer.length ≠ 0 ∨ b.response.rlen ≠ 0
      · rw [if_pos hl]
        simp only [set_header_output]
        constructor
        · intro hk
          exact ⟨hk, Or.inr hl⟩
        · intro hk
          exact hk.1
      · rw [if_neg hl]
        simp only [set_header_output]
        constructor
        · intro hk
          cases hk
        · intro hk
          rcases hk.2 with h | h
          · exact absurd h hz
          · exact absurd h hl
  refine ⟨hline, hflag, ?_⟩
  intro hk hz hd hr
  constructor
  · have := hline
    rw [if_pos hk] at this
    simpa [str, List.append_assoc] using this
  · cases hf : (web_client_send_http_header env world w).flag_keepalive with
    | false => rfl
    | true =>
      exfalso
      obtain ⟨_, h⟩ := hflag.mp hf
      rcases h with h | h | h
      · rw [hz] at h
        cases h
      · rw [hd] at h
        exact h rfl
      · exact h hr

theorem web_client_send_http_header_connection_line_witness :
    bodyless_response.flag_keepalive = true ∧
    (str "HTTP/1.1 200 OK\r\nConnection: keep-alive\r\n")
      <+: (web_client_send_http_header spec_env spec_world
        bodyless_response).response.header_output.buffer ∧
    (web_client_send_http_header spec_env spec_world bodyless_response).flag_keepalive
      = false :=
  ⟨by decide,
    ((web_client_send_http_header_connection_line spec_env spec_world bodyless_response
      (fun _ => rfl)).2.2 (by decide) (by decide) (by decide) (by decide)).1,
    ((web_client_send_http_header_connection_line spec_env spec_world bodyless_response
      (fun _ => rfl)).2.2 (by decide) (by decide) (by decide) (by decide)).2⟩

/-! ## The API version -/

/-- C38: `web_client_api_request` on the connection of a dashboard client
after the request named has been parsed. For `/api/v/info` the version span is
`v`, for `/api//data?chart=system.cpu` it is empty: in both cases the v1
handler is invoked and its code 200 is returned. For `/api/v1/info` the v1
handler is invoked, for `/api/v2/info` and `/api/v1x/info` the answer is 404
without it, and for `/api`, where the version span is null, the answer is
400. -/
theorem web_client_api_request_version_beginning :
    span_bytes (parsed_request spec_env dashboard_client
        (str "GET /api/v/info HTTP/1.1\r\n\r\n")).decoded_url
      (parsed_request spec_env dashboard_client
        (str "GET /api/v/info HTTP/1.1\r\n\r\n")).version = some (str "v") ∧
    ((web_client_api_request spec_world spec_world.localhost
        (parsed_request spec_env dashboard_client (str "GET /api/v/info HTTP/1.1\r\n\r\n"))
        (some 0)).1,
      (web_client_api_request spec_world spec_world.localhost
        (parsed_request spec_env dashboard_client (str "GET /api/v/info HTTP/1.1\r\n\r\n"))
        (some 0)).2.trace) = (200, [io_event.api_request_v1 0]) ∧
    span_bytes (parsed_request spec_env dashboard_client
        (str "GET /api//data?chart=system.cpu HTTP/1.1\r\n\r\n")).decoded_url
      (parsed_request spec_env dashboard_client
        (str "GET /api//data?chart=system.cpu HTTP/1.1\r\n\r\n")).version = some [] ∧
    ((web_client_api_request spec_world spec_world.localhost
        (parsed_request spec_env dashboard_client
          (str "GET /api//data?chart=system.cpu HTTP/1.1\r\n\r\n")) (some 0)).1,
      (web_client_api_request spec_world spec_world.localhost
        (parsed_request spec_env dashboard_client
          (str "GET /api//data?chart=system.cpu HTTP/1.1\r\n\r\n")) (some 0)).2.trace)
      = (200, [io_event.api_request_v1 0]) ∧
    ((web_client_api_request spec_world spec_world.localhost
        (parsed_request spec_env dashboard_client (str "GET /api/v1/info HTTP/1.1\r\n\r\n"))
        (some 0)).1,
      (web_client_api_request spec_world spec_world.localhost
        (parsed_request spec_env dashboard_client (str "GET /api/v1/info HTTP/1.1\r\n\r\n"))
        (some 0)).2.trace) = (200, [io_event.api_request_v1 0]) ∧
    ((web_client_api_request spec_world spec_world.localhost
        (parsed_request spec_env dashboard_client (str "GET /api/v2/info HTTP/1.1\r\n\r\n"))
        (some 0)).1,
      (web_client_api_request spec_world spec_world.localhost
        (parsed_request spec_env dashboard_client (str "GET /api/v2/info HTTP/1.1\r\n\r\n"))
        (some 0)).2.response.data.buffer,
      (web_client_api_request spec_world spec_world.localhost
        (parsed_request spec_env dashboard_client (str "GET /api/v2/info HTTP/1.1\r\n\r\n"))
        (some 0)).2.trace) = (404, str "Unsupported API version: v2", []) ∧
    ((web_client_api_request spec_world spec_world.localhost
        (parsed_request spec_env dashboard_client (str "GET /api/v1x/info HTTP/1.1\r\n\r\n"))
        (some 0)).1,
      (web_client_api_request spec_world spec_world.localhost
        (parsed_request spec_env dashboard_client (str "GET /api/v1x/info HTTP/1.1\r\n\r\n"))
        (some 0)).2.trace) = (404, []) ∧
    ((web_client_api_request spec_world spec_world.localhost
        (parsed_request spec_env dashboard_client (str "GET /api HTTP/1.1\r\n\r\n"))
        (some 0)).1,
      (web_client_api_request spec_world spec_world.localhost
        (parsed_request spec_env dashboard_client (str "GET /api HTTP/1.1\r\n\r\n"))
        (some 0)).2.response.data.buffer,
      (web_client_api_request spec_world spec_world.localhost
        (parsed_request spec_env dashboard_client (str "GET /api HTTP/1.1\r\n\r\n"))
        (some 0)).2.trace) = (400, str "Which API version?", []) := by
  decide

/-! ## The header parser leaves the request buffer as it found it -/

/-- Writing to a byte the value it holds changes nothing. -/
theorem set_peek (buf : List Nat) (i : Nat) (h : peek buf i ≠ 0) : buf.set i (peek buf i) = buf := by
  have hlt := peek_lt_of_ne_zero buf i h
  apply List.ext_getElem
  · simp
  · intro n h1 h2
    by_cases hn : i = n
    · subst hn
      simp [peek, List.getD_eq_getElem?_getD, List.getElem?_eq_getElem hlt]
    · simp [List.getElem_set_ne hn]

/-- A byte other than the one written is as before. -/
theorem peek_set_ne (buf : List Nat) (i j a : Nat) (h : i ≠ j) :
    peek (buf.set i a) j = peek buf j := by
  simp [peek, List.getD_eq_getElem?_getD, List.getElem?_set_ne h]

/-- The byte written is read back. -/
theorem peek_set_self (buf : List Nat) (i a : Nat) (h : i < buf.length) :
    peek (buf.set i a) i = a := by
  simp [peek, List.getD_eq_getElem?_getD, List.getElem?_set_self h]

/-- The buffer `http_header_parse` leaves is the buffer it was given, and the
position it returns is not before `s`. -/
theorem http_header_parse_buffer (env : Env) (w : web_client) (buf : List Nat) (s : Nat)
    (ua : Bool) :
    (http_header_parse env w buf s ua).2.1 = buf ∧ s ≤ (http_header_parse env w buf s ua).2.2 := by
  have he1 := scan_while_ge (fun c => c != 0 && c != COLON) buf s
  have hestop := scan_while_stop (fun c => c != 0 && c != COLON) (by decide) buf s
  unfold http_header_parse
  simp only []
  generalize scan_while (fun c => c != 0 && c != COLON) buf s = e at he1 hestop ⊢
  by_cases h0 : peek buf e = 0
  · rw [if_pos h0]
    exact ⟨rfl, he1⟩
  · rw [if_neg h0]
    have hcolon : peek buf e = COLON := by
      simp only [Bool.and_eq_false_imp, bne_eq_false_iff_eq, bne_iff_ne, ne_eq] at hestop
      exact hestop h0
    have helt := peek_lt_of_ne_zero buf e h0
    have hrestore : (buf.set e 0).set e COLON = buf := by
      rw [List.set_set, ← hcolon]
      exact set_peek buf e h0
    have hv1 := scan_while_ge (fun c => c == SPACE) (buf.set e 0) (e + 1)
    generalize scan_while (fun c => c == SPACE) (buf.set e 0) (e + 1) = v at hv1 ⊢
    have hve1 := scan_while_ge (fun c => c != 0 && c != CR) (buf.set e 0) v
    have hvestop := scan_while_stop (fun c => c != 0 && c != CR) (by decide) (buf.set e 0) v
    generalize scan_while (fun c => c != 0 && c != CR) (buf.set e 0) v = ve at hve1 hvestop ⊢
    by_cases h2 : peek (buf.set e 0) ve = 0 ∨ peek (buf.set e 0) (ve + 1) ≠ LF
    · rw [if_pos h2]
      refine ⟨hrestore, ?_⟩
      show s ≤ ve
      omega
    · rw [if_neg h2]
      refine ⟨?_, ?_⟩
      · have hne0 : peek (buf.set e 0) ve ≠ 0 := fun h => h2 (Or.inl h)
        have hcr : peek (buf.set e 0) ve = CR := by
          simp only [Bool.and_eq_false_imp, bne_eq_false_iff_eq, bne_iff_ne, ne_eq] at hvestop
          exact hvestop hne0
        have hev : e ≠ ve := by omega
        have hcr2 : peek buf ve = CR := by
          rw [peek_set_ne buf e ve 0 hev] at hcr
          exact hcr
        have hne2 : peek buf ve ≠ 0 := by
          rw [hcr2]
          decide
        have e1 : ((buf.set e 0).set ve 0).set e COLON = ((buf.set e 0).set e COLON).set ve 0 :=
          List.set_comm _ _ _ (Ne.symm hev)
        show (((buf.set e 0).set ve 0).set e COLON).set ve CR = buf
        rw [e1, hrestore, List.set_set, ← hcr2]
        exact set_peek buf ve hne2
      · show s ≤ ve
        omega

/-- The loop of `web_client_parse_headers` leaves the buffer it was given. -/
theorem web_client_parse_headers_loop_buffer (env : Env) :
    ∀ (fuel : Nat) (w : web_client) (buf : List Nat) (s : Nat) (r : web_client × List Nat),
      web_client_parse_headers_loop env fuel w buf s = some r → r.2 = buf := by
  intro fuel
  induction fuel with
  | zero =>
    intro w buf s r h
    cases h
  | succ n ih =>
    intro w buf s r h
    simp only [web_client_parse_headers_loop] at h
    split_ifs at h
    all_goals
      first
      | (cases h; rfl)
      | (have hr := ih _ _ _ r h
         rw [hr]
         exact (http_header_parse_buffer env w buf _ _).1)

/-- C39: `http_header_parse(w, s, parse_useragent)` on the request buffer
`buf`, the bytes behind its end being terminators. The buffer it leaves is the
buffer it was given, byte for byte: the `:` and the CR over which it writes a
terminator are written back wherever it returns. The position it returns is
not before `s`. `web_client_parse_headers` returns, and the buffer it leaves is
the buffer it was given. -/
theorem http_header_parse_restores (env : Env) (w : web_client) (buf : List Nat) (s : Nat)
    (parse_useragent : Bool) :
    (http_header_parse env w buf s parse_useragent).2.1 = buf ∧
    s ≤ (http_header_parse env w buf s parse_useragent).2.2 ∧
    ∃ w', web_client_parse_headers env w buf s = some (w', buf) := by
  obtain ⟨h1, h2⟩ := http_header_parse_buffer env w buf s parse_useragent
  refine ⟨h1, h2, ?_⟩
  obtain ⟨r, hr, _⟩ := web_client_parse_headers_returns env w buf s
  have hb : r.2 = buf := by
    unfold web_client_parse_headers at hr
    exact web_client_parse_headers_loop_buffer env _ w buf s r hr
  refine ⟨r.1, ?_⟩
  rw [hr, ← hb]

/-! ## Bytes appended to a request buffer -/

/-- The string at the start of a buffer with bytes appended: the same string
when the buffer holds a terminator, the buffer followed by the string at the
start of what is appended when it holds none. -/
theorem cstr_zero_append_cases (P R : List Nat) :
    cstr (P ++ R) 0 = cstr P 0 ∨ (cstr P 0 = P ∧ cstr (P ++ R) 0 = P ++ cstr R 0) := by
  simp only [cstr, List.drop_zero]
  rw [List.takeWhile_append]
  by_cases h : (List.takeWhile (fun c => c != 0) P).length = P.length
  · right
    rw [if_pos h]
    have hp : List.takeWhile (fun c => c != 0) P = P :=
      (List.takeWhile_prefix _).eq_of_length h
    exact ⟨hp, rfl⟩
  · left
    rw [if_neg h]

/-- The test `!strncmp(buf, lit, n)` on a buffer that holds a line end, for a
literal without line end: bytes appended to the buffer do not change it. -/
theorem strncmp_eq_append (P R lit : List Nat) (n : Nat) (hP : LF ∈ P)
    (hL : LF ∉ (cstr lit 0).take n) :
    strncmp_eq (P ++ R) 0 lit n = strncmp_eq P 0 lit n := by
  unfold strncmp_eq
  rcases cstr_zero_append_cases P R with h | ⟨h1, h2⟩
  · rw [h]
  · rw [h1, h2]
    by_cases hn : n ≤ P.length
    · rw [List.take_append_of_le_length hn]
    · have hl : P.take n = P := List.take_of_length_le (by omega)
      have e1 : (P.take n == (cstr lit 0).take n) = false := by
        rw [hl]
        apply beq_false_of_ne
        intro he
        exact hL (he ▸ hP)
      have e2 : ((P ++ cstr R 0).take n == (cstr lit 0).take n) = false := by
        apply beq_false_of_ne
        intro he
        apply hL
        rw [← he, List.take_append_eq_append_take, hl]
        exact List.mem_append_left _ hP
      rw [e1, e2]

/-- The method found at the start of a buffer that holds a line end is the
method found when bytes are appended. -/
theorem method_of_append (env : Env) (ssl_flags : Nat) (P R : List Nat) (hP : LF ∈ P) :
    method_of env ssl_flags (P ++ R) = method_of env ssl_flags P := by
  unfold method_of
  rw [strncmp_eq_append P R (str "GET ") 4 hP (by decide),
    strncmp_eq_append P R (str "OPTIONS ") 8 hP (by decide),
    strncmp_eq_append P R (str "STREAM ") 7 hP (by decide)]

/-- A verdict other than INCOMPLETE stays when bytes are appended to the
buffer, for collaborators of url.c that behave as follows: the completion check
that has passed passes with bytes appended, it passes only on a buffer that
holds a line end, and the protocol search that has found the marker finds one
with bytes appended. -/
theorem request_verdict_append (env : Env) (ssl_flags : Nat) (ssl_conn unix_socket : Bool)
    (P R : List Nat)
    (hstays : ∀ buf rest : List Nat,
      env.url_is_request_complete buf 0 buf.length buf.length ≠ HTTP_VALIDATION_INCOMPLETE →
      env.url_is_request_complete (buf ++ rest) 0 (buf ++ rest).length (buf ++ rest).length
        ≠ HTTP_VALIDATION_INCOMPLETE)
    (hlf : ∀ buf : List Nat,
      env.url_is_request_complete buf 0 buf.length buf.length ≠ HTTP_VALIDATION_INCOMPLETE →
      LF ∈ buf)
    (hfound : ∀ (buf rest : List Nat) (s : Nat),
      peek buf (env.url_find_protocol buf s) ≠ 0 →
      peek (buf ++ rest) (env.url_find_protocol (buf ++ rest) s) ≠ 0)
    (hv : request_verdict env ssl_flags ssl_conn unix_socket P ≠ HTTP_VALIDATION_INCOMPLETE) :
    request_verdict env ssl_flags ssl_conn unix_socket (P ++ R)
      = request_verdict env ssl_flags ssl_conn unix_socket P := by
  unfold request_verdict at hv ⊢
  by_cases hc : env.url_is_request_complete P 0 P.length P.length = HTTP_VALIDATION_INCOMPLETE
  · rw [if_pos hc] at hv
    exact absurd rfl hv
  · rw [if_neg hc] at hv
    rw [if_neg hc, if_neg (hstays P R hc)]
    unfold parse_verdict at hv ⊢
    rw [method_of_append env ssl_flags P R (hlf P hc)]
    cases hm : method_of env ssl_flags P with
    | none => rfl
    | some me =>
      obtain ⟨mode, e⟩ := me
      rw [hm] at hv
      simp only [] at hv ⊢
      by_cases hp : peek P (env.url_find_protocol P e) = 0
      · rw [if_pos hp] at hv
        exact absurd rfl hv
      · rw [if_neg hp, if_neg (hfound P R e hp)]

/-! ## The collaborators of url.c as the specification describes them -/

/-- The completion check of the specification passes exactly on a buffer
that holds a blank-line terminator. -/
theorem spec_url_is_request_complete_iff (buf : List Nat) (n : Nat) :
    spec_url_is_request_complete buf 0 buf.length n ≠ HTTP_VALIDATION_INCOMPLETE ↔
      ([LF, LF] <:+: buf ∨ [LF, CR, LF] <:+: buf) := by
  unfold spec_url_is_request_complete
  simp only [List.drop_zero, Nat.sub_zero, List.take_length]
  by_cases he : 0 = buf.length
  · have hnil : buf = [] := List.length_eq_zero.mp he.symm
    rw [if_pos he]
    subst hnil
    constructor
    · intro h
      exact absurd rfl h
    · intro h
      rcases h with h | h
      · exact absurd h (by decide)
      · exact absurd h (by decide)
  · rw [if_neg he]
    by_cases hi : [LF, LF] <:+: buf ∨ [LF, CR, LF] <:+: buf
    · rw [if_pos hi]
      exact ⟨fun _ => hi, fun _ => by decide⟩
    · rw [if_neg hi]
      exact ⟨fun h => absurd rfl h, fun h => absurd h hi⟩

/-- The completion check of the specification, once passed, passes with bytes
appended. -/
theorem spec_url_is_request_complete_stays (buf rest : List Nat)
    (h : spec_url_is_request_complete buf 0 buf.length buf.length
      ≠ HTTP_VALIDATION_INCOMPLETE) :
    spec_url_is_request_complete (buf ++ rest) 0 (buf ++ rest).length (buf ++ rest).length
      ≠ HTTP_VALIDATION_INCOMPLETE := by
  rw [spec_url_is_request_complete_iff] at h ⊢
  have hpa : buf <+: buf ++ rest := List.prefix_append buf rest
  have hp : buf <:+: buf ++ rest := hpa.isInfix
  rcases h with h | h
  · exact Or.inl (h.trans hp)
  · exact Or.inr (h.trans hp)

/-- The completion check of the specification passes only on a buffer that
holds a line end. -/
theorem spec_url_is_request_complete_line_end (buf : List Nat)
    (h : spec_url_is_request_complete buf 0 buf.length buf.length
      ≠ HTTP_VALIDATION_INCOMPLETE) : LF ∈ buf := by
  rw [spec_url_is_request_complete_iff] at h
  rcases h with h | h
  · exact h.subset (by simp)
  · exact h.subset (by simp)

/-- The byte behind a string is its terminator. -/
theorem peek_cstr_end (buf : List Nat) (s : Nat) : peek buf (s + (cstr buf s).length) = 0 := by
  have h := scan_while_stop (fun c => c != 0) (by decide) buf s
  simpa [scan_while, cstr] using h

/-- The bytes of a string are no terminators. -/
theorem peek_cstr_ne_zero (buf : List Nat) (s i : Nat) (h : i < (cstr buf s).length) :
    peek buf (s + i) ≠ 0 := by
  have hpre : cstr buf s <+: buf.drop s := List.takeWhile_prefix _
  have hmem : (cstr buf s)[i] ∈ cstr buf s := List.getElem_mem h
  have hp := List.mem_takeWhile_imp hmem
  have hget : (cstr buf s)[i]? = (buf.drop s)[i]? := by
    obtain ⟨r, hr⟩ := hpre
    rw [← hr, List.getElem?_append_left h]
  have e : peek buf (s + i) = (cstr buf s)[i] := by
    simp only [peek, List.getD_eq_getElem?_getD]
    rw [← List.getElem?_drop, ← hget, List.getElem?_eq_getElem h]
    rfl
  rw [e]
  simpa using hp

/-- The string at an offset of a buffer begins the string at that offset of
the buffer with bytes appended. -/
theorem cstr_append_begins (P R : List Nat) (s : Nat) : cstr P s <+: cstr (P ++ R) s := by
  simp only [cstr, List.drop_append_eq_append_drop]
  rw [List.takeWhile_append]
  split_ifs with h
  · have hp : List.takeWhile (fun c => c != 0) (List.drop s P) = List.drop s P :=
      (List.takeWhile_prefix _).eq_of_length h
    rw [hp]
    exact List.prefix_append _ _
  · exact List.prefix_refl _

/-- The protocol search of the specification, once it has found the marker,
finds one with bytes appended. -/
theorem spec_url_find_protocol_found (buf rest : List Nat) (s : Nat)
    (h : peek buf (spec_url_find_protocol buf s) ≠ 0) :
    peek (buf ++ rest) (spec_url_find_protocol (buf ++ rest) s) ≠ 0 := by
  unfold spec_url_find_protocol at h ⊢
  simp only [] at h ⊢
  obtain ⟨x, hx⟩ := cstr_append_begins buf rest s
  cases hf : (List.range (cstr buf s).length).find?
      (fun i => ((cstr buf s).drop i).take 6 == str " HTTP/") with
  | none =>
    rw [hf] at h
    exact absurd (peek_cstr_end buf s) h
  | some i =>
    have hpi := List.find?_some hf
    have hmem := List.mem_of_find?_eq_some hf
    have hi : i < (cstr buf s).length := List.mem_range.mp hmem
    simp only [beq_iff_eq] at hpi
    have hlen : 6 ≤ ((cstr buf s).drop i).length := by
      have := congrArg List.length hpi
      simp only [List.length_take] at this
      have h6 : (str " HTTP/").length = 6 := by decide
      omega
    have hpi2 : ((cstr (buf ++ rest) s).drop i).take 6 = str " HTTP/" := by
      rw [← hx, List.drop_append_of_le_length (le_of_lt hi), List.take_append_of_le_length hlen]
      exact hpi
    have hi2 : i < (cstr (buf ++ rest) s).length := by
      rw [← hx, List.length_append]
      omega
    have hsome : ((List.range (cstr (buf ++ rest) s).length).find?
        (fun i => ((cstr (buf ++ rest) s).drop i).take 6 == str " HTTP/")).isSome := by
      rw [List.find?_isSome]
      exact ⟨i, List.mem_range.mpr hi2, by simpa using hpi2⟩
    cases hf2 : (List.range (cstr (buf ++ rest) s).length).find?
        (fun i => ((cstr (buf ++ rest) s).drop i).take 6 == str " HTTP/") with
    | none =>
      rw [hf2] at hsome
      cases hsome
    | some j =>
      have hj : j < (cstr (buf ++ rest) s).length :=
        List.mem_range.mp (List.mem_of_find?_eq_some hf2)
      exact peek_cstr_ne_zero (buf ++ rest) s j hj

/-! ## Delivery in chunks and delivery in one piece -/

/-- C1 (as amended): starting from `header_parse_tries = 0`, for every byte
sequence cut into at most ten chunks, chunked delivery returns a verdict, it
stops before the last chunk only on a verdict other than INCOMPLETE, and its
verdict is the verdict of one call of `http_request_validate` on the whole
sequence. The two collaborators of url.c are taken to behave under appended
bytes as the specification describes them: the completion check that has
passed passes with bytes appended, it passes only on a buffer that holds a
line end, and the protocol search that has found the marker finds one with
bytes appended. -/
theorem validate_chunked_same_verdict (env : Env) (w : web_client) (chunks : List (List Nat))
    (hstays : ∀ buf rest : List Nat,
      env.url_is_request_complete buf 0 buf.length buf.length ≠ HTTP_VALIDATION_INCOMPLETE →
      env.url_is_request_complete (buf ++ rest) 0 (buf ++ rest).length (buf ++ rest).length
        ≠ HTTP_VALIDATION_INCOMPLETE)
    (hlf : ∀ buf : List Nat,
      env.url_is_request_complete buf 0 buf.length buf.length ≠ HTTP_VALIDATION_INCOMPLETE →
      LF ∈ buf)
    (hfound : ∀ (buf rest : List Nat) (s : Nat),
      peek buf (env.url_find_protocol buf s) ≠ 0 →
      peek (buf ++ rest) (env.url_find_protocol (buf ++ rest) s) ≠ 0)
    (h0 : w.header_parse_tries = 0) (hne : chunks ≠ []) (hlen : chunks.length ≤ 10) :
    ∃ v w1 w2 n, validate_chunked env chunks w HTTP_VALIDATION_INCOMPLETE 0 = some (v, w1, n) ∧
      1 ≤ n ∧ n ≤ chunks.length ∧ (n < chunks.length → v ≠ HTTP_VALIDATION_INCOMPLETE) ∧
      validate_once env w chunks.flatten = some (v, w2) := by
  obtain ⟨v, w1, n, hrun, hn1, hn2, hstop, hv⟩ := validate_chunked_request_verdict env chunks w
    HTTP_VALIDATION_INCOMPLETE 0 hne (by omega)
  obtain ⟨w2, hw2, _⟩ := http_request_validate_verdict env
    (receive_chunk w chunks.flatten) (by simp only [receive_chunk]; omega)
  refine ⟨v, w1, w2, n, by simpa using hrun, hn1, hn2, hstop, ?_⟩
  have hwhole : request_verdict env w.ssl_flags w.ssl_conn w.flag_unix_socket
      (w.response.data.buffer ++ chunks.flatten) = v := by
    by_cases hlt : n < chunks.length
    · have hsplit : w.response.data.buffer ++ chunks.flatten
          = (w.response.data.buffer ++ (chunks.take n).flatten) ++ (chunks.drop n).flatten := by
        rw [List.append_assoc, ← List.flatten_append, List.take_append_drop]
      rw [hsplit, hv]
      apply request_verdict_append env _ _ _ _ _ hstays hlf hfound
      rw [← hv]
      exact hstop hlt
    · have hall : chunks.take n = chunks := List.take_of_length_le (by omega)
      rw [hv, hall]
  rw [validate_once, hw2]
  show some (request_verdict env w.ssl_flags w.ssl_conn w.flag_unix_socket
    (w.response.data.buffer ++ chunks.flatten), w2) = some (v, w2)
  rw [hwhole]

/-- Witness of C1 (as amended): the request `GET / HTTP/1.1` with its blank
line and four bytes behind it, delivered in three chunks: the verdict OK comes
with the second chunk, and one call on the whole sequence answers OK. -/
theorem validate_chunked_same_verdict_witness :
    (web_client_zero.header_parse_tries = 0 ∧
      [str "GET /", str " HTTP/1.1\r\n\r\n", str "BAGE"] ≠ [] ∧
      [str "GET /", str " HTTP/1.1\r\n\r\n", str "BAGE"].length ≤ 10) ∧
    (∃ v w1 w2 n,
      validate_chunked spec_env [str "GET /", str " HTTP/1.1\r\n\r\n", str "BAGE"]
        web_client_zero HTTP_VALIDATION_INCOMPLETE 0 = some (v, w1, n) ∧
      1 ≤ n ∧ n ≤ [str "GET /", str " HTTP/1.1\r\n\r\n", str "BAGE"].length ∧
      (n < [str "GET /", str " HTTP/1.1\r\n\r\n", str "BAGE"].length →
        v ≠ HTTP_VALIDATION_INCOMPLETE) ∧
      validate_once spec_env web_client_zero
        [str "GET /", str " HTTP/1.1\r\n\r\n", str "BAGE"].flatten = some (v, w2)) ∧
    (validate_chunked spec_env [str "GET /", str " HTTP/1.1\r\n\r\n", str "BAGE"]
        web_client_zero HTTP_VALIDATION_INCOMPLETE 0).map (fun r => (r.1, r.2.2))
      = some (HTTP_VALIDATION_OK, 2) ∧
    (validate_once spec_env web_client_zero
        [str "GET /", str " HTTP/1.1\r\n\r\n", str "BAGE"].flatten).map Prod.fst
      = some HTTP_VALIDATION_OK :=
  ⟨⟨rfl, by decide, by decide⟩,
    validate_chunked_same_verdict spec_env web_client_zero
      [str "GET /", str " HTTP/1.1\r\n\r\n", str "BAGE"]
      (fun buf rest h => spec_url_is_request_complete_stays buf rest h)
      (fun buf h => spec_url_is_request_complete_line_end buf h)
      (fun buf rest s h => spec_url_find_protocol_found buf rest s h)
      rfl (by decide) (by decide),
    by decide, by decide⟩

end Netdata
